import Mathlib

/-!
# A cycle-stepped RV32 simulator behind AXI4 master ports

Shallow embedding of `src/src/sc_axi4_sim_api.cpp` (class `SingleCycleAxi4Sim`
and its helpers), with the records of `src/include/sc_axi4_sim_api.h` and the
CPU state of `src/src/cpu/include/single_cycle_cpu.h`.

Conventions.
* Machine integers are natural numbers; a width is applied explicitly (`% 2^w`)
  where the source truncates or can wrap. `sim_time` is a `long long` and is an
  `Int`.
* `p_memory` is `Option Mem`: `none` is the null pointer, `some mem` an
  allocated array indexed by word.
* The CPU methods (`exec`, `va2pa`, `init`) and the interconnect class are not
  part of the translated sources; they are parameters, collected in `Env`.
  A CPU method reaches the simulator only through the three hook pointers, so
  it is a `CpuProg`: a tree of hook calls whose answers it may inspect.
-/

namespace ScAxi4Sim

/-! ## Constants and small helpers -/

/-- Physical memory as seen through `p_memory`: word index to 32-bit word. -/
abbrev Mem := Nat → Nat

def kImageBase : Nat := 0x80000000
def kFetchReqId : Nat := 0
def kDataReqId : Nat := 1
def kMmuReqId : Nat := 2

def RISCV_MODE_U : Nat := 0
def RISCV_MODE_S : Nat := 1
def RISCV_MODE_M : Nat := 3

/-- Position of `csr_satp` in `enum enum_csr` of `CSR.h`. -/
def csr_satp : Nat := 18

/-- Modelled from the spec: the read-master indices of the interconnect header
(`ICACHE=0, DCACHE_R=1, MMU=2`), which is not among the sources. -/
def MASTER_ICACHE : Nat := 0

/-- Modelled from the spec: see `MASTER_ICACHE`. -/
def MASTER_DCACHE_R : Nat := 1

/-- Modelled from the spec: see `MASTER_ICACHE`. -/
def MASTER_MMU : Nat := 2

/-- Modelled from the spec: the interconnect arbitrates three read masters. -/
def NUM_READ_MASTERS : Nat := 3

/-- Modelled from the spec: the encoded EBREAK word (`0x00100073`), a constant of
a header that is not among the sources. -/
def INST_EBREAK : Nat := 0x00100073

/-- The value of a `uint32_t` bit pattern read as `int32_t`. -/
def toInt32 (u : Nat) : Int :=
  if u % 2 ^ 32 < 2 ^ 31 then ((u % 2 ^ 32 : Nat) : Int) else ((u % 2 ^ 32 : Nat) : Int) - 2 ^ 32

/-- The `uint32_t` bit pattern of an integer (`static_cast<uint32_t>`). -/
def toUInt32 (i : Int) : Nat := (i % 2 ^ 32).toNat

/-- The `uint64_t` bit pattern of an integer (`static_cast<uint64_t>`). -/
def toUInt64 (i : Int) : Nat := (i % 2 ^ 64).toNat

/-- `sext(value, bits)`: `(value ^ sign_bit) - sign_bit` in `uint32_t`, read as `int32_t`. -/
def sext (value : Nat) (bits : Nat) : Int :=
  let sign_bit := (1 <<< (bits - 1)) % 2 ^ 32
  toInt32 (((value ^^^ sign_bit) + 2 ^ 32 - sign_bit) % 2 ^ 32)

/-- `calc_beats(total_size)` on `uint8_t`. -/
def calc_beats (total_size : Nat) : Nat :=
  let bytes := (total_size + 1) % 256
  ((bytes + 3) / 4) % 256

/-- The byte-lane mask built from the four low strobe bits in `apply_wstrb_write`. -/
def wstrb_mask (wstrb : Nat) : Nat :=
  let mask := 0
  let mask := if wstrb &&& 0x1 ≠ 0 then mask ||| 0x000000FF else mask
  let mask := if wstrb &&& 0x2 ≠ 0 then mask ||| 0x0000FF00 else mask
  let mask := if wstrb &&& 0x4 ≠ 0 then mask ||| 0x00FF0000 else mask
  let mask := if wstrb &&& 0x8 ≠ 0 then mask ||| 0xFF000000 else mask
  mask

/-- `apply_wstrb_write(addr, data, wstrb)` on the global `p_memory`. -/
def apply_wstrb_write (p_memory : Option Mem) (addr data wstrb : Nat) : Option Mem :=
  match p_memory with
  | none => none
  | some mem =>
    let word_addr := addr >>> 2
    let old_data := mem word_addr
    let mask := wstrb_mask wstrb
    some (Function.update mem word_addr
      ((data &&& mask) ||| (old_data &&& (0xFFFFFFFF ^^^ mask))))

/-- Byte lane `k` of a word. -/
def byte_lane (w k : Nat) : Nat := (w >>> (8 * k)) &&& 0xFF

/-! ## Records of the state machine -/

structure DecodedMemReq where
  valid : Bool := false
  is_read : Bool := true
  paddr : Nat := 0
  total_size : Nat := 0
  wdata : Nat := 0
  wstrb : Nat := 0
deriving DecidableEq

structure ReadReqState where
  active : Bool := false
  issued : Bool := false
  master : Nat := 0
  id : Nat := 0
  addr : Nat := 0
  total_size : Nat := 0
  beats_total : Nat := 0
  beats_seen : Nat := 0
deriving DecidableEq

structure WriteReqState where
  active : Bool := false
  issued : Bool := false
  id : Nat := 0
  addr : Nat := 0
  wdata : Nat := 0
  wstrb : Nat := 0
  total_size : Nat := 0
  beats_total : Nat := 0
  beats_seen : Nat := 0
deriving DecidableEq

inductive ExecStage where
  | kPrepareFetch
  | kWaitFetch
  | kPrepareData
  | kWaitData
  | kExecute
  | kWaitAmoWrite
  | kHalted
deriving DecidableEq

structure MmuHookState where
  pending : Bool := false
  response_valid : Bool := false
  addr : Nat := 0
  data : Nat := 0
deriving DecidableEq

/-! ## Records of the driver interface (`sc_axi4_sim_api.h`) -/

structure sc_axi4_in_t where
  arready : Nat
  awready : Nat
  wready : Nat
  rvalid : Nat
  rid : Nat
  rdata : Nat
  rresp : Nat
  rlast : Nat
  bvalid : Nat
  bid : Nat
  bresp : Nat
deriving DecidableEq

structure sc_axi4_out_t where
  arvalid : Nat := 0
  arid : Nat := 0
  araddr : Nat := 0
  arlen : Nat := 0
  arsize : Nat := 0
  arburst : Nat := 0
  awvalid : Nat := 0
  awid : Nat := 0
  awaddr : Nat := 0
  awlen : Nat := 0
  awsize : Nat := 0
  awburst : Nat := 0
  wvalid : Nat := 0
  wdata : Nat := 0
  wstrb : Nat := 0
  wlast : Nat := 0
  rready : Nat := 0
  bready : Nat := 0
deriving DecidableEq

structure sc_sim_status_t where
  sim_time : Nat := 0
  inst_count : Nat := 0
  halted : Nat := 0
  success : Nat := 0
  wait_axi : Nat := 0
  uart_valid : Nat := 0
  uart_ch : Nat := 0
deriving DecidableEq

/-! ## CPU state (`single_cycle_cpu.h`) -/

structure CPU_state where
  gpr : Nat → Nat := fun _ => 0
  csr : Nat → Nat := fun _ => 0
  pc : Nat := 0
  store_addr : Nat := 0
  store_data : Nat := 0
  store_strb : Nat := 0
  store : Bool := false

/-- The data members of `class SingleCycleCpu`. The `memory` pointer is an alias
of `p_memory` and is not repeated here. -/
structure SingleCycleCpu where
  Instruction : Nat := 0
  state : CPU_state := {}
  privilege : Nat := 0
  asy : Bool := false
  page_fault_inst : Bool := false
  page_fault_load : Bool := false
  page_fault_store : Bool := false
  illegal_exception : Bool := false
  translation_pending : Bool := false
  M_software_interrupt : Bool := false
  M_timer_interrupt : Bool := false
  M_external_interrupt : Bool := false
  S_software_interrupt : Bool := false
  S_timer_interrupt : Bool := false
  S_external_interrupt : Bool := false
  sim_end : Bool := false
  fast_run : Bool := false
  is_br : Bool := false
  br_taken : Bool := false
  is_csr : Bool := false
  is_exception : Bool := false
  ptw_cache_tag : Nat → Nat := fun _ => 0
  ptw_cache_data : Nat → Nat := fun _ => 0
  ptw_cache_valid : Nat → Bool := fun _ => false

inductive CpuMemReadResult where
  | CPU_MEM_READ_OK
  | CPU_MEM_READ_PENDING
  | CPU_MEM_READ_FAULT
deriving DecidableEq

/-- A CPU method as the simulator sees it: it ends with a result, or calls one of
the hook pointers declared in `single_cycle_cpu.h` and goes on with the answer
(`g_cpu_mem_read32_hook`, `g_cpu_mem_read32_now_hook`,
`g_cpu_mem_write32_now_hook`), or reads the global `sim_time`. A `uint32_t *data`
argument is `Option Nat` (`none` is a null pointer); the continuation receives
the result and the pointee after the call. A direct access through the `memory`
alias is the same as a `now` hook with a full strobe. -/
inductive CpuProg (α : Type) where
  | ret : α → CpuProg α
  | mem_read32 : Nat → Option Nat → (CpuMemReadResult → Option Nat → CpuProg α) → CpuProg α
  | mem_read32_now : Nat → Option Nat → (Bool → Option Nat → CpuProg α) → CpuProg α
  | mem_write32_now : Nat → Nat → Nat → (Bool → CpuProg α) → CpuProg α
  | get_sim_time : (Int → CpuProg α) → CpuProg α

/-! ## The interconnect as the state machine uses it -/

/-- Modelled from the spec: request side of a read-master port
(`valid, ready, addr, total_size, id`); the interconnect header is not among
the sources. -/
structure ReadReqPort where
  valid : Bool := false
  ready : Bool := false
  addr : Nat := 0
  total_size : Nat := 0
  id : Nat := 0
deriving DecidableEq

/-- Modelled from the spec: response side of a master port (`valid, ready`). -/
structure RespPort where
  valid : Bool := false
  ready : Bool := false
deriving DecidableEq

/-- Modelled from the spec: one read-master port. -/
structure ReadMasterPort where
  req : ReadReqPort := {}
  resp : RespPort := {}
deriving DecidableEq

/-- Modelled from the spec: request side of the write master; `wdata` is the
ordered sequence of words, one per beat, and `clear()` makes every word 0. -/
structure WriteReqPort where
  valid : Bool := false
  ready : Bool := false
  addr : Nat := 0
  wdata : Nat → Nat := fun _ => 0
  wstrb : Nat := 0
  total_size : Nat := 0
  id : Nat := 0

/-- Modelled from the spec: the write-master port. -/
structure WriteMasterPort where
  req : WriteReqPort := {}
  resp : RespPort := {}

/-- Modelled from the spec: AR channel signals. -/
structure ArChannel where
  arvalid : Bool := false
  arready : Bool := false
  arid : Nat := 0
  araddr : Nat := 0
  arlen : Nat := 0
  arsize : Nat := 0
  arburst : Nat := 0
deriving DecidableEq

/-- Modelled from the spec: AW channel signals. -/
structure AwChannel where
  awvalid : Bool := false
  awready : Bool := false
  awid : Nat := 0
  awaddr : Nat := 0
  awlen : Nat := 0
  awsize : Nat := 0
  awburst : Nat := 0
deriving DecidableEq

/-- Modelled from the spec: W channel signals. -/
structure WChannel where
  wvalid : Bool := false
  wready : Bool := false
  wdata : Nat := 0
  wstrb : Nat := 0
  wlast : Bool := false
deriving DecidableEq

/-- Modelled from the spec: R channel signals. -/
structure RChannel where
  rvalid : Bool := false
  rready : Bool := false
  rid : Nat := 0
  rdata : Nat := 0
  rresp : Nat := 0
  rlast : Bool := false
deriving DecidableEq

/-- Modelled from the spec: B channel signals. -/
structure BChannel where
  bvalid : Bool := false
  bready : Bool := false
  bid : Nat := 0
  bresp : Nat := 0
deriving DecidableEq

/-- Modelled from the spec: the shared AXI4 channel bundle. -/
structure AxiBundle where
  ar : ArChannel := {}
  aw : AwChannel := {}
  w : WChannel := {}
  r : RChannel := {}
  b : BChannel := {}
deriving DecidableEq

/-- Modelled from the spec: the members of the interconnect object the state
machine reads and writes, and `internal` for whatever else it keeps. -/
structure AXI_Interconnect (σ : Type) where
  axi_io : AxiBundle := {}
  read_ports : Nat → ReadMasterPort := fun _ => {}
  write_port : WriteMasterPort := {}
  internal : σ

/-! ## The simulator object -/

/-- Data members of `SingleCycleAxi4Sim`, with the globals `sim_time` and
`p_memory` it works on. -/
structure Sim (σ : Type) where
  sim_time : Int
  p_memory : Option Mem
  cpu_core_ : SingleCycleCpu
  interconnect_ : AXI_Interconnect σ
  stage_ : ExecStage
  image_loaded_ : Bool
  success_ : Bool
  halted_reason_max_inst_ : Bool
  halted_reason_ebreak_ : Bool
  max_inst_ : Nat
  max_cycles_ : Nat
  inst_count_ : Nat
  last_inst_count_ : Nat
  last_progress_time_ : Nat
  stall_reported_ : Bool
  fetch_ok_ : Bool
  fetch_vaddr_ : Nat
  fetch_paddr_ : Nat
  inst_word_ : Nat
  pre_req_ : DecodedMemReq
  fetch_req_ : ReadReqState
  data_req_ : ReadReqState
  mmu_req_ : ReadReqState
  write_req_ : WriteReqState
  mmu_req_ready_ : Bool
  mmu_resp_valid_ : Bool
  mmu_hook_ : MmuHookState
  uart_valid_ : Bool
  uart_ch_ : Nat
  last_error_ : String

/-- What the translated sources take from outside: constants of `config.h`, the
methods of the CPU core and of the interconnect. -/
structure Env (σ : Type) where
  MAX_COMMIT_INST : Nat
  UART_BASE : Nat
  cpu_init : SingleCycleCpu → Nat → SingleCycleCpu
  exec : SingleCycleCpu → CpuProg SingleCycleCpu
  va2pa : SingleCycleCpu → Nat → Nat → Nat → CpuProg (SingleCycleCpu × Nat × Bool)
  interconnect_new : AXI_Interconnect σ
  interconnect_init : AXI_Interconnect σ → AXI_Interconnect σ
  comb_outputs : AXI_Interconnect σ → AXI_Interconnect σ
  comb_inputs : AXI_Interconnect σ → AXI_Interconnect σ
  seq : AXI_Interconnect σ → AXI_Interconnect σ
  debug_print : AXI_Interconnect σ → AXI_Interconnect σ

variable {σ : Type}

/-! ## Hooks called by the CPU core -/

/-- A read of `p_memory[i]` that the source does not guard. With `p_memory`
null the source has no defined result; the model reads 0 there. -/
def mem_word (p_memory : Option Mem) (i : Nat) : Nat :=
  match p_memory with
  | some mem => mem i
  | none => 0

/-- An assignment `p_memory[i] = v` that the source does not guard. -/
def mem_store (p_memory : Option Mem) (i v : Nat) : Option Mem :=
  match p_memory with
  | some mem => some (Function.update mem i v)
  | none => none

def encode_axi_id (master id : Nat) : Nat :=
  ((master <<< 2) ||| (id &&& 0x3)) % 256

/-- `setup_read`: the slot is overwritten, whatever it held. -/
def setup_read (master id addr total_size : Nat) : ReadReqState :=
  let read_req : ReadReqState := {}
  { read_req with
    active := true
    master := master
    id := id
    addr := addr
    total_size := total_size
    beats_total := calc_beats total_size }

/-- `setup_write`: the slot is overwritten, whatever it held. -/
def setup_write (id addr wdata wstrb total_size : Nat) : WriteReqState :=
  let write_req : WriteReqState := {}
  { write_req with
    active := true
    id := id
    addr := addr
    wdata := wdata
    wstrb := wstrb
    total_size := total_size
    beats_total := calc_beats total_size }

def set_error (s : Sim σ) (error : String) : Sim σ :=
  { s with last_error_ := error }

/-- `on_cpu_mem_read(paddr, data)`: result, pointee of `data` afterwards, state. -/
def on_cpu_mem_read (s : Sim σ) (paddr : Nat) (data : Option Nat) :
    CpuMemReadResult × Option Nat × Sim σ :=
  if data = none ∨ s.p_memory.isNone = true then
    (.CPU_MEM_READ_FAULT, data, s)
  else
    let aligned_addr := paddr &&& 0xFFFFFFFC
    let s :=
      if s.mmu_hook_.response_valid = true ∧ s.mmu_hook_.addr ≠ aligned_addr then
        { s with mmu_hook_ := { s.mmu_hook_ with response_valid := false, pending := false } }
      else s
    if s.mmu_hook_.response_valid = true ∧ s.mmu_hook_.addr = aligned_addr then
      (.CPU_MEM_READ_OK, some s.mmu_hook_.data,
        { s with mmu_hook_ := { s.mmu_hook_ with response_valid := false, pending := false } })
    else
      let s :=
        if s.mmu_hook_.pending = true ∧ s.mmu_req_.active = false ∧
            s.mmu_hook_.response_valid = false then
          { s with mmu_hook_ := { s.mmu_hook_ with pending := false } }
        else s
      if s.mmu_hook_.pending = true then
        (.CPU_MEM_READ_PENDING, data, s)
      else
        (.CPU_MEM_READ_PENDING, data,
          { s with
            mmu_hook_ := { pending := true, response_valid := false, addr := aligned_addr, data := 0 }
            mmu_req_ := setup_read MASTER_MMU kMmuReqId aligned_addr 3 })

/-- `cpu_mem_read_hook`, with this simulator the active one (`g_active_sim` is
set by `reset_machine_state`). -/
def cpu_mem_read_hook (s : Sim σ) (paddr : Nat) (data : Option Nat) :
    CpuMemReadResult × Option Nat × Sim σ :=
  on_cpu_mem_read s paddr data

def cpu_mem_read_now_hook (s : Sim σ) (paddr : Nat) (data : Option Nat) : Bool × Option Nat :=
  match s.p_memory, data with
  | some mem, some _ => (true, some (mem ((paddr &&& 0xFFFFFFFC) >>> 2)))
  | _, _ => (false, data)

def cpu_mem_write_now_hook (s : Sim σ) (paddr data wstrb : Nat) : Bool × Sim σ :=
  if s.p_memory.isNone = true then
    (false, s)
  else
    (true, { s with p_memory := apply_wstrb_write s.p_memory paddr data (wstrb % 256) })

/-- Run a CPU method against the simulator: each hook call is answered by the
hook of this file; `uint32_t` arguments are truncated to their width. -/
def run_cpu {α : Type} : CpuProg α → Sim σ → α × Sim σ
  | .ret a, s => (a, s)
  | .mem_read32 paddr data k, s =>
    let r := cpu_mem_read_hook s (paddr % 2 ^ 32) data
    run_cpu (k r.1 r.2.1) r.2.2
  | .mem_read32_now paddr data k, s =>
    let r := cpu_mem_read_now_hook s (paddr % 2 ^ 32) data
    run_cpu (k r.1 r.2) s
  | .mem_write32_now paddr data wstrb k, s =>
    let r := cpu_mem_write_now_hook s (paddr % 2 ^ 32) (data % 2 ^ 32) (wstrb % 2 ^ 32)
    run_cpu (k r.1) r.2
  | .get_sim_time k, s => run_cpu (k s.sim_time) s

/-! ## Address translation and pre-decoding -/

/-- `translate_addr(cpu_core, vaddr, type, paddr)`: result, `paddr` afterwards, state.
The last argument is the value `paddr` holds on entry. -/
def translate_addr (env : Env σ) (s : Sim σ) (vaddr type paddr : Nat) : Bool × Nat × Sim σ :=
  if (s.cpu_core_.state.csr csr_satp &&& 0x80000000) ≠ 0 ∧
      s.cpu_core_.privilege ≠ RISCV_MODE_M then
    let r := run_cpu (env.va2pa s.cpu_core_ paddr vaddr type) s
    (r.1.2.2, r.1.2.1, { r.2 with cpu_core_ := r.1.1 })
  else
    (true, vaddr, s)

/-- `decode_mem_req_pre_exec(cpu_core, inst_word)`. -/
def decode_mem_req_pre_exec (env : Env σ) (s : Sim σ) (inst_word : Nat) :
    DecodedMemReq × Sim σ :=
  let req : DecodedMemReq := {}
  let opcode := inst_word &&& 0x7f
  let rs1 := (inst_word >>> 15) &&& 0x1f
  let rs2 := (inst_word >>> 20) &&& 0x1f
  let funct3 := (inst_word >>> 12) &&& 0x7
  if opcode = 0x03 then
    let imm_i := sext ((inst_word >>> 20) &&& 0xfff) 12
    let vaddr := (s.cpu_core_.state.gpr rs1 + toUInt32 imm_i) % 2 ^ 32
    let t := translate_addr env s vaddr 1 0
    if t.1 = false then
      (req, t.2.2)
    else
      let req := { req with valid := true, is_read := true, paddr := t.2.1 }
      let req :=
        if funct3 = 0 ∨ funct3 = 4 then { req with total_size := 0 }
        else if funct3 = 1 ∨ funct3 = 5 then { req with total_size := 1 }
        else if funct3 = 2 then { req with total_size := 3 }
        else { req with valid := false }
      (req, t.2.2)
  else if opcode = 0x23 then
    let imm := (((inst_word >>> 25) <<< 5) % 2 ^ 32) ||| ((inst_word >>> 7) &&& 0x1f)
    let imm_s := sext imm 12
    let rs2_data := s.cpu_core_.state.gpr rs2
    let vaddr := (s.cpu_core_.state.gpr rs1 + toUInt32 imm_s) % 2 ^ 32
    let t := translate_addr env s vaddr 2 0
    if t.1 = false then
      (req, t.2.2)
    else
      let paddr := t.2.1
      let offset := paddr &&& 0x3
      let req := { req with valid := true, is_read := false, paddr := paddr }
      let req :=
        if funct3 = 0 then
          { req with
            total_size := 0
            wstrb := (1 <<< offset) % 2 ^ 32
            wdata := ((rs2_data &&& 0xff) <<< (offset * 8)) % 2 ^ 32 }
        else if funct3 = 1 then
          { req with
            total_size := 1
            wstrb := ((0x3 <<< offset) % 2 ^ 32) &&& 0xf
            wdata := ((rs2_data &&& 0xffff) <<< (offset * 8)) % 2 ^ 32 }
        else if funct3 = 2 then
          { req with
            total_size := 3
            wstrb := ((0xf <<< offset) % 2 ^ 32) &&& 0xf
            wdata := (rs2_data <<< (offset * 8)) % 2 ^ 32 }
        else { req with valid := false }
      (req, t.2.2)
  else if opcode = 0x2f then
    let vaddr_amo := s.cpu_core_.state.gpr rs1
    let t := translate_addr env s vaddr_amo 1 0
    if t.1 = false then
      (req, t.2.2)
    else
      ({ req with valid := true, is_read := true, paddr := t.2.1, total_size := 3 }, t.2.2)
  else
    (req, s)

/-! ## Per-cycle helpers of `step` -/

def clear_error_if_running (s : Sim σ) : Sim σ :=
  if s.stage_ ≠ ExecStage.kHalted then { s with last_error_ := "" } else s

def clear_uart_event (s : Sim σ) : Sim σ :=
  { s with uart_valid_ := false, uart_ch_ := 0 }

def apply_axi_inputs (s : Sim σ) (axi_in : sc_axi4_in_t) : Sim σ :=
  let ic := s.interconnect_
  let bus := ic.axi_io
  let bus := { bus with
    ar := { bus.ar with arready := decide (axi_in.arready ≠ 0) }
    aw := { bus.aw with awready := decide (axi_in.awready ≠ 0) }
    w := { bus.w with wready := decide (axi_in.wready ≠ 0) }
    r := { bus.r with
      rvalid := decide (axi_in.rvalid ≠ 0)
      rid := axi_in.rid
      rdata := axi_in.rdata
      rresp := axi_in.rresp
      rlast := decide (axi_in.rlast ≠ 0) }
    b := { bus.b with
      bvalid := decide (axi_in.bvalid ≠ 0)
      bid := axi_in.bid
      bresp := axi_in.bresp } }
  { s with interconnect_ := { ic with axi_io := bus } }

/-- A `bool` stored in a `uint8_t` field. -/
def b2n (b : Bool) : Nat := if b = true then 1 else 0

/-- `fill_axi_outputs`: every field of `axi_out` is assigned, at its width. -/
def fill_axi_outputs (s : Sim σ) : sc_axi4_out_t :=
  let bus := s.interconnect_.axi_io
  { arvalid := b2n bus.ar.arvalid
    arid := bus.ar.arid % 256
    araddr := bus.ar.araddr % 2 ^ 32
    arlen := bus.ar.arlen % 256
    arsize := bus.ar.arsize % 256
    arburst := bus.ar.arburst % 256
    awvalid := b2n bus.aw.awvalid
    awid := bus.aw.awid % 256
    awaddr := bus.aw.awaddr % 2 ^ 32
    awlen := bus.aw.awlen % 256
    awsize := bus.aw.awsize % 256
    awburst := bus.aw.awburst % 256
    wvalid := b2n bus.w.wvalid
    wdata := bus.w.wdata % 2 ^ 32
    wstrb := bus.w.wstrb % 256
    wlast := b2n bus.w.wlast
    rready := b2n bus.r.rready
    bready := b2n bus.b.bready }

def clear_master_inputs (s : Sim σ) : Sim σ :=
  let ic := s.interconnect_
  let read_ports := fun i =>
    if i < NUM_READ_MASTERS then
      { req := { ic.read_ports i |>.req with valid := false, addr := 0, total_size := 0, id := 0 }
        resp := { ic.read_ports i |>.resp with ready := false } }
    else ic.read_ports i
  let write_port : WriteMasterPort :=
    { req := { ic.write_port.req with
        valid := false, addr := 0, wdata := fun _ => 0, wstrb := 0, total_size := 0, id := 0 }
      resp := { ic.write_port.resp with ready := false } }
  { s with interconnect_ := { ic with read_ports := read_ports, write_port := write_port } }

def drive_mmu_request (s : Sim σ) : Sim σ :=
  let s := { s with mmu_req_ready_ := false, mmu_resp_valid_ := false }
  if s.mmu_req_.active = false then
    s
  else
    let ic := s.interconnect_
    let port := ic.read_ports MASTER_MMU
    let s := { s with mmu_req_ready_ := port.req.ready, mmu_resp_valid_ := port.resp.valid }
    let port : ReadMasterPort :=
      { req := { port.req with
          valid := true, addr := s.mmu_req_.addr, total_size := s.mmu_req_.total_size,
          id := s.mmu_req_.id }
        resp := { port.resp with ready := true } }
    { s with interconnect_ := { ic with read_ports := Function.update ic.read_ports MASTER_MMU port } }

/-- The read-port part of `drive_current_stage` for the request `rq` on master `m`. -/
def drive_read_port (s : Sim σ) (m : Nat) (rq : ReadReqState) : Bool × Bool × Sim σ :=
  let ic := s.interconnect_
  let port := ic.read_ports m
  let req_ready := port.req.ready
  let resp_valid := port.resp.valid
  let port : ReadMasterPort := { port with resp := { port.resp with ready := true } }
  let port : ReadMasterPort :=
    if rq.issued = false then
      { port with req := { port.req with
          valid := true, addr := rq.addr, total_size := rq.total_size, id := rq.id } }
    else port
  (req_ready, resp_valid,
    { s with interconnect_ := { ic with read_ports := Function.update ic.read_ports m port } })

/-- The write-port part of `drive_current_stage`. -/
def drive_write_port (s : Sim σ) : Bool × Bool × Sim σ :=
  let ic := s.interconnect_
  let port := ic.write_port
  let req_ready := port.req.ready
  let resp_valid := port.resp.valid
  let port : WriteMasterPort := { port with resp := { port.resp with ready := true } }
  let port : WriteMasterPort :=
    if s.write_req_.issued = false then
      { port with req := { port.req with
          valid := true
          addr := s.write_req_.addr
          wdata := Function.update (fun _ => 0) 0 s.write_req_.wdata
          wstrb := s.write_req_.wstrb
          total_size := s.write_req_.total_size
          id := s.write_req_.id } }
    else port
  (req_ready, resp_valid, { s with interconnect_ := { ic with write_port := port } })

/-- `drive_current_stage(req_ready, resp_valid)`: the two outputs, then the state. -/
def drive_current_stage (s : Sim σ) : Bool × Bool × Sim σ :=
  let r : Bool × Bool × Sim σ :=
    match s.stage_ with
    | .kWaitFetch => drive_read_port s MASTER_ICACHE s.fetch_req_
    | .kWaitData =>
      if s.pre_req_.is_read = true then drive_read_port s MASTER_DCACHE_R s.data_req_
      else drive_write_port s
    | .kWaitAmoWrite => drive_write_port s
    | _ => (false, false, s)
  (r.1, r.2.1, drive_mmu_request r.2.2)

def mirror_read_data (s : Sim σ) (axi_in : sc_axi4_in_t) (axi_out : sc_axi4_out_t) : Sim σ :=
  if axi_in.rvalid = 0 ∨ axi_out.rready = 0 ∨ s.p_memory.isNone = true then
    s
  else if s.fetch_req_.active = true ∧ s.fetch_req_.issued = true ∧
      axi_in.rid = encode_axi_id s.fetch_req_.master s.fetch_req_.id ∧
      s.fetch_req_.beats_seen < s.fetch_req_.beats_total then
    let word_addr := ((s.fetch_req_.addr >>> 2) + s.fetch_req_.beats_seen) % 2 ^ 32
    { s with
      p_memory := mem_store s.p_memory word_addr axi_in.rdata
      fetch_req_ := { s.fetch_req_ with beats_seen := (s.fetch_req_.beats_seen + 1) % 256 } }
  else if s.mmu_req_.active = true ∧ s.mmu_req_.issued = true ∧
      axi_in.rid = encode_axi_id s.mmu_req_.master s.mmu_req_.id ∧
      s.mmu_req_.beats_seen < s.mmu_req_.beats_total then
    let word_addr := ((s.mmu_req_.addr >>> 2) + s.mmu_req_.beats_seen) % 2 ^ 32
    { s with
      p_memory := mem_store s.p_memory word_addr axi_in.rdata
      mmu_hook_ := { s.mmu_hook_ with data := axi_in.rdata }
      mmu_req_ := { s.mmu_req_ with beats_seen := (s.mmu_req_.beats_seen + 1) % 256 } }
  else if s.data_req_.active = true ∧ s.data_req_.issued = true ∧
      axi_in.rid = encode_axi_id s.data_req_.master s.data_req_.id ∧
      s.data_req_.beats_seen < s.data_req_.beats_total then
    let word_addr := ((s.data_req_.addr >>> 2) + s.data_req_.beats_seen) % 2 ^ 32
    { s with
      p_memory := mem_store s.p_memory word_addr axi_in.rdata
      data_req_ := { s.data_req_ with beats_seen := (s.data_req_.beats_seen + 1) % 256 } }
  else
    s

/-- One round of the lane loop of `mirror_write_data`. -/
def uart_lane (env : Env σ) (word_base : Nat) (axi_out : sc_axi4_out_t) (s : Sim σ) (lane : Nat) :
    Sim σ :=
  if axi_out.wstrb &&& (1 <<< lane) = 0 then
    s
  else
    let byte_addr := (word_base + lane) % 2 ^ 32
    if byte_addr = env.UART_BASE then
      { s with uart_valid_ := true, uart_ch_ := ((axi_out.wdata >>> (lane * 8)) &&& 0xff) % 256 }
    else s

def mirror_write_data (env : Env σ) (s : Sim σ) (axi_in : sc_axi4_in_t) (axi_out : sc_axi4_out_t) :
    Sim σ :=
  if axi_out.wvalid = 0 ∨ axi_in.wready = 0 ∨ s.write_req_.active = false then
    s
  else
    let current_addr := (s.write_req_.addr + (s.write_req_.beats_seen * 4) % 2 ^ 32) % 2 ^ 32
    let s := { s with p_memory := apply_wstrb_write s.p_memory current_addr axi_out.wdata axi_out.wstrb }
    let word_base := current_addr &&& 0xFFFFFFFC
    let s := [0, 1, 2, 3].foldl (uart_lane env word_base axi_out) s
    if s.write_req_.beats_seen < 255 then
      { s with write_req_ := { s.write_req_ with beats_seen := s.write_req_.beats_seen + 1 } }
    else s

def update_mmu_request_state (s : Sim σ) : Sim σ :=
  if s.mmu_req_.active = false then
    s
  else
    let s :=
      if s.mmu_req_.issued = false ∧ s.mmu_req_ready_ = true then
        { s with mmu_req_ := { s.mmu_req_ with issued := true } }
      else s
    if s.mmu_req_.issued = true ∧ s.mmu_resp_valid_ = true then
      let s := { s with
        mmu_req_ := { s.mmu_req_ with active := false }
        mmu_hook_ := { s.mmu_hook_ with response_valid := true } }
      match s.p_memory with
      | some mem => { s with mmu_hook_ := { s.mmu_hook_ with data := mem (s.mmu_hook_.addr >>> 2) } }
      | none => s
    else s

def prepare_fetch (env : Env σ) (s : Sim σ) : Sim σ :=
  let s := { s with fetch_vaddr_ := s.cpu_core_.state.pc }
  let t := translate_addr env s s.fetch_vaddr_ 0 s.fetch_paddr_
  let s := { t.2.2 with fetch_ok_ := t.1, fetch_paddr_ := t.2.1 }
  if s.cpu_core_.translation_pending = true then
    s
  else if s.fetch_ok_ = false then
    { s with inst_word_ := 0, pre_req_ := {}, stage_ := ExecStage.kExecute }
  else
    { s with
      fetch_req_ := setup_read MASTER_ICACHE kFetchReqId s.fetch_paddr_ 3
      stage_ := ExecStage.kWaitFetch }

def prepare_data_request (env : Env σ) (s : Sim σ) : Sim σ :=
  let d := decode_mem_req_pre_exec env s s.inst_word_
  let s := { d.2 with pre_req_ := d.1 }
  if s.cpu_core_.translation_pending = true then
    s
  else if s.pre_req_.valid = true then
    let s :=
      if s.pre_req_.is_read = true then
        { s with data_req_ :=
            setup_read MASTER_DCACHE_R kDataReqId s.pre_req_.paddr s.pre_req_.total_size }
      else
        { s with write_req_ :=
            (setup_write kDataReqId s.pre_req_.paddr s.pre_req_.wdata (s.pre_req_.wstrb % 256)
              s.pre_req_.total_size) }
    { s with stage_ := ExecStage.kWaitData }
  else
    { s with stage_ := ExecStage.kExecute }

/-- The call `cpu_core_.exec()`: the method runs on the CPU object, its hook calls
on the simulator. -/
def exec_call (env : Env σ) (s : Sim σ) : Sim σ :=
  let r := run_cpu (env.exec s.cpu_core_) s
  { r.2 with cpu_core_ := r.1 }

/-- The `kExecute` case of `update_stage_after_cycle`. -/
def execute_stage (env : Env σ) (s : Sim σ) : Sim σ :=
  let s := exec_call env s
  if s.cpu_core_.translation_pending = true then
    s
  else
    let s : Sim σ := { s with
      inst_count_ := (s.inst_count_ + 1) % 2 ^ 64
      last_progress_time_ := toUInt64 s.sim_time }
    let s :=
      if s.inst_count_ ≠ s.last_inst_count_ then
        { s with last_inst_count_ := s.inst_count_, stall_reported_ := false }
      else s
    if s.inst_word_ = INST_EBREAK then
      { s with halted_reason_ebreak_ := true, stage_ := ExecStage.kHalted, success_ := true }
    else if (s.inst_word_ &&& 0x7f : Nat) = 0x2f ∧ s.cpu_core_.state.store = true then
      let amo_wstrb := (s.cpu_core_.state.store_strb &&& 0xf) % 256
      { s with
        write_req_ :=
          (setup_write kDataReqId s.cpu_core_.state.store_addr s.cpu_core_.state.store_data
            ((if amo_wstrb = 0 then 0xf else amo_wstrb) % 256) 3)
        stage_ := ExecStage.kWaitAmoWrite }
    else
      { s with stage_ := ExecStage.kPrepareFetch }

def update_stage_after_cycle (env : Env σ) (s : Sim σ) (req_ready resp_valid : Bool) : Sim σ :=
  let s := update_mmu_request_state s
  match s.stage_ with
  | .kPrepareFetch => prepare_fetch env s
  | .kWaitFetch =>
    let s :=
      if s.fetch_req_.issued = false ∧ req_ready = true then
        { s with fetch_req_ := { s.fetch_req_ with issued := true } }
      else s
    if s.fetch_req_.issued = true ∧ resp_valid = true then
      { s with
        fetch_req_ := { s.fetch_req_ with active := false }
        inst_word_ := if s.fetch_ok_ = true then mem_word s.p_memory (s.fetch_paddr_ >>> 2) else 0
        stage_ := ExecStage.kPrepareData }
    else s
  | .kPrepareData => prepare_data_request env s
  | .kWaitData =>
    if s.pre_req_.is_read = true then
      let s :=
        if s.data_req_.issued = false ∧ req_ready = true then
          { s with data_req_ := { s.data_req_ with issued := true } }
        else s
      if s.data_req_.issued = true ∧ resp_valid = true then
        { s with data_req_ := { s.data_req_ with active := false }, stage_ := ExecStage.kExecute }
      else s
    else
      let s :=
        if s.write_req_.issued = false ∧ req_ready = true then
          { s with write_req_ := { s.write_req_ with issued := true } }
        else s
      if s.write_req_.issued = true ∧ resp_valid = true then
        { s with write_req_ := { s.write_req_ with active := false }, stage_ := ExecStage.kExecute }
      else s
  | .kExecute => execute_stage env s
  | .kWaitAmoWrite =>
    let s :=
      if s.write_req_.issued = false ∧ req_ready = true then
        { s with write_req_ := { s.write_req_ with issued := true } }
      else s
    if s.write_req_.issued = true ∧ resp_valid = true then
      { s with write_req_ := { s.write_req_ with active := false }, stage_ := ExecStage.kPrepareFetch }
    else s
  | .kHalted => s

def kStallCycles : Nat := 2000000

/-- `check_limits`; the diagnostic text goes to `stderr` and is not part of the state. -/
def check_limits (env : Env σ) (s : Sim σ) : Sim σ :=
  if s.stage_ = ExecStage.kHalted then
    s
  else if s.inst_count_ ≥ s.max_inst_ then
    { s with halted_reason_max_inst_ := true, stage_ := ExecStage.kHalted, success_ := true }
  else
    let s :=
      if toUInt64 s.sim_time ≥ s.max_cycles_ then
        { (set_error s "max_cycles reached") with stage_ := ExecStage.kHalted, success_ := false }
      else s
    if s.stall_reported_ = false ∧
        toUInt64 s.sim_time > (s.last_progress_time_ + kStallCycles) % 2 ^ 64 ∧
        s.stage_ ≠ ExecStage.kHalted then
      { s with stall_reported_ := true, interconnect_ := env.debug_print s.interconnect_ }
    else s

def fill_status (s : Sim σ) : sc_sim_status_t :=
  { sim_time := toUInt64 s.sim_time
    inst_count := s.inst_count_
    halted := if s.stage_ = ExecStage.kHalted then 1 else 0
    success := if s.success_ = true then 1 else 0
    wait_axi :=
      if s.stage_ = ExecStage.kWaitFetch ∨ s.stage_ = ExecStage.kWaitData ∨
          s.stage_ = ExecStage.kWaitAmoWrite ∨ s.mmu_req_.active = true then 1 else 0
    uart_valid := if s.uart_valid_ = true then 1 else 0
    uart_ch := s.uart_ch_ }

/-! ## The driver API -/

def reset_machine_state (env : Env σ) (s : Sim σ) : Sim σ :=
  { s with
    sim_time := 0
    inst_count_ := 0
    success_ := false
    halted_reason_max_inst_ := false
    halted_reason_ebreak_ := false
    stage_ := ExecStage.kPrepareFetch
    fetch_ok_ := false
    fetch_vaddr_ := 0
    fetch_paddr_ := 0
    inst_word_ := 0
    pre_req_ := {}
    fetch_req_ := {}
    data_req_ := {}
    mmu_req_ := {}
    write_req_ := {}
    mmu_req_ready_ := false
    mmu_resp_valid_ := false
    mmu_hook_ := {}
    uart_valid_ := false
    uart_ch_ := 0
    last_inst_count_ := 0
    last_progress_time_ := 0
    stall_reported_ := false
    cpu_core_ := env.cpu_init s.cpu_core_ 0
    interconnect_ := env.interconnect_init s.interconnect_ }

/-- The object as its default member initialisers leave it, before the body of
the constructor runs; `sim_time` and `p_memory` are the globals at that time. -/
def members_default (env : Env σ) (sim_time : Int) (p_memory : Option Mem) : Sim σ :=
  { sim_time := sim_time
    p_memory := p_memory
    cpu_core_ := {}
    interconnect_ := env.interconnect_new
    stage_ := ExecStage.kHalted
    image_loaded_ := false
    success_ := false
    halted_reason_max_inst_ := false
    halted_reason_ebreak_ := false
    max_inst_ := env.MAX_COMMIT_INST % 2 ^ 64
    max_cycles_ := 12000000000
    inst_count_ := 0
    last_inst_count_ := 0
    last_progress_time_ := 0
    stall_reported_ := false
    fetch_ok_ := false
    fetch_vaddr_ := 0
    fetch_paddr_ := 0
    inst_word_ := 0
    pre_req_ := {}
    fetch_req_ := {}
    data_req_ := {}
    mmu_req_ := {}
    write_req_ := {}
    mmu_req_ready_ := false
    mmu_resp_valid_ := false
    mmu_hook_ := {}
    uart_valid_ := false
    uart_ch_ := 0
    last_error_ := "" }

/-- `init_runtime`; `alloc` is what `new (std::nothrow)` returns when it is called. -/
def init_runtime (env : Env σ) (s : Sim σ) (alloc : Option Mem) : Sim σ :=
  let s := if s.p_memory.isNone = true then { s with p_memory := alloc } else s
  if s.p_memory.isNone = true then
    { (set_error s "failed to allocate physical memory") with
      stage_ := ExecStage.kHalted, success_ := false }
  else
    reset_machine_state env
      { s with
        image_loaded_ := false
        max_inst_ := env.MAX_COMMIT_INST % 2 ^ 64
        max_cycles_ := 12000000000 }

/-- The constructor `SingleCycleAxi4Sim()`. -/
def create (env : Env σ) (sim_time : Int) (p_memory alloc : Option Mem) : Sim σ :=
  init_runtime env (members_default env sim_time p_memory) alloc

/-- `set_limits(max_inst, max_cycles)` with `uint64_t` arguments. -/
def set_limits (s : Sim σ) (max_inst max_cycles : Nat) : Sim σ :=
  { s with max_inst_ := max_inst % 2 ^ 64, max_cycles_ := max_cycles % 2 ^ 64 }

/-- One byte stored through the `char *` view of memory (little-endian host). -/
def store_byte (mem : Mem) (byte_addr b : Nat) : Mem :=
  let lane := byte_addr % 4
  Function.update mem (byte_addr / 4)
    ((mem (byte_addr / 4) &&& (0xFFFFFFFF ^^^ (0xFF <<< (8 * lane)))) ||| ((b % 256) <<< (8 * lane)))

/-- The bytes that `image.read` stores from byte address `base` on. -/
def store_bytes (mem : Mem) (base : Nat) : List Nat → Mem
  | [] => mem
  | b :: bs => store_bytes (store_byte mem base b) (base + 1) bs

/-- What the file system answers to `load_image`: whether the file opens, the
bytes `image.read` transfers and whether it reports success. -/
structure ImageFile where
  is_open : Bool
  bytes : List Nat
  read_ok : Bool

/-- `load_image(image_path, image_size_out)`: return value, size written through
`image_size_out` (when the call gets that far), state. `image_path` is `none` for
a null pointer. -/
def load_image (env : Env σ) (s : Sim σ) (image_path : Option String) (file : ImageFile) :
    Int × Option Nat × Sim σ :=
  match image_path with
  | none => (-1, none, set_error s "image path is null")
  | some path =>
    match s.p_memory with
    | none => (-1, none, set_error s "memory not initialized")
    | some mem =>
      if file.is_open = false then
        (-1, none, set_error s ("image not found: " ++ path))
      else
        let mem := store_bytes mem kImageBase file.bytes
        if file.read_ok = false then
          (-1, none, set_error { s with p_memory := some mem } ("failed to read image: " ++ path))
        else
          let mem := Function.update mem (0x0 / 4) 0xf1402573
          let mem := Function.update mem (0x4 / 4) 0x83e005b7
          let mem := Function.update mem (0x8 / 4) 0x800002b7
          let mem := Function.update mem (0xc / 4) 0x00028067
          let mem := Function.update mem (0x10000004 / 4) 0x00006000
          (0, some file.bytes.length,
            reset_machine_state env { s with p_memory := some mem, image_loaded_ := true })

/-- What `step` hands back: the return value, `axi_out`, `status`, and the object. -/
structure StepResult (σ : Type) where
  ret : Int
  axi_out : sc_axi4_out_t
  status : sc_sim_status_t
  sim : Sim σ

/-- The part of `step` from `apply_axi_inputs` to `sim_time++`: the outputs
`req_ready` and `resp_valid` of `drive_current_stage`, `axi_out`, and the state
on which `update_stage_after_cycle` is then called. -/
def bus_phase (env : Env σ) (s : Sim σ) (axi_in : sc_axi4_in_t) :
    Bool × Bool × sc_axi4_out_t × Sim σ :=
  let s := apply_axi_inputs s axi_in
  let s := { s with interconnect_ := env.comb_outputs s.interconnect_ }
  let s := clear_master_inputs s
  let d := drive_current_stage s
  let req_ready := d.1
  let resp_valid := d.2.1
  let s := d.2.2
  let s := { s with interconnect_ := env.comb_inputs s.interconnect_ }
  let axi_out := fill_axi_outputs s
  let s := mirror_read_data s axi_in axi_out
  let s := mirror_write_data env s axi_in axi_out
  let s := { s with interconnect_ := env.seq s.interconnect_ }
  let s := { s with sim_time := s.sim_time + 1 }
  (req_ready, resp_valid, axi_out, s)

/-- `SingleCycleAxi4Sim::step(axi_in, axi_out, status)`. -/
def step (env : Env σ) (s : Sim σ) (axi_in : sc_axi4_in_t) : StepResult σ :=
  let s := clear_uart_event s
  let s := clear_error_if_running s
  let axi_out : sc_axi4_out_t := {}
  if s.image_loaded_ = false then
    let s := set_error s "image not loaded"
    { ret := -1, axi_out := axi_out, status := fill_status s, sim := s }
  else if s.stage_ = ExecStage.kHalted then
    { ret := if s.success_ = true then 1 else -1
      axi_out := fill_axi_outputs s
      status := fill_status s
      sim := s }
  else
    let p := bus_phase env s axi_in
    let s := update_stage_after_cycle env p.2.2.2 p.1 p.2.1
    let s := check_limits env s
    { ret := if s.stage_ = ExecStage.kHalted then (if s.success_ = true then 1 else -1) else 0
      axi_out := p.2.2.1
      status := fill_status s
      sim := s }

/-- The status record that `get_status` fills. -/
def get_status (s : Sim σ) : sc_sim_status_t := fill_status s

/-- The states the driver API can produce: construction, then any sequence of
`load_image`, `set_limits` and `step`. -/
inductive Reachable (env : Env σ) : Sim σ → Prop where
  | create (sim_time : Int) (p_memory alloc : Option Mem) :
      Reachable env (create env sim_time p_memory alloc)
  | load_image (s : Sim σ) (image_path : Option String) (file : ImageFile) :
      Reachable env s → Reachable env (load_image env s image_path file).2.2
  | set_limits (s : Sim σ) (max_inst max_cycles : Nat) :
      Reachable env s → Reachable env (set_limits s max_inst max_cycles)
  | step (s : Sim σ) (axi_in : sc_axi4_in_t) :
      Reachable env s → Reachable env (step env s axi_in).sim

/-! ## Properties used in the statements -/

/-- Each request slot is active exactly in the stage that waits for it. -/
def SlotsMatchStage (s : Sim σ) : Prop :=
  (s.fetch_req_.active = true ↔ s.stage_ = ExecStage.kWaitFetch) ∧
  (s.data_req_.active = true ↔
    (s.stage_ = ExecStage.kWaitData ∧ s.pre_req_.is_read = true)) ∧
  (s.write_req_.active = true ↔
    ((s.stage_ = ExecStage.kWaitData ∧ s.pre_req_.is_read = false) ∨
      s.stage_ = ExecStage.kWaitAmoWrite))

/-- The read request `b` is `a` as far as `master`, `id`, `addr` and `total_size` go. -/
def same_read_request (a b : ReadReqState) : Prop :=
  b.master = a.master ∧ b.id = a.id ∧ b.addr = a.addr ∧ b.total_size = a.total_size

/-- The write request `b` is `a` as far as `id`, `addr`, `total_size`, `wdata`
and `wstrb` go. -/
def same_write_request (a b : WriteReqState) : Prop :=
  b.id = a.id ∧ b.addr = a.addr ∧ b.total_size = a.total_size ∧ b.wdata = a.wdata ∧
    b.wstrb = a.wstrb

/-- The state on which `update_stage_after_cycle` works in a step that gets
past the two early returns. -/
def stage_entry (env : Env σ) (s : Sim σ) (axi_in : sc_axi4_in_t) : Sim σ :=
  (bus_phase env (clear_error_if_running (clear_uart_event s)) axi_in).2.2.2

/-- The state of that step just after `update_stage_after_cycle`, before `check_limits`. -/
def after_stage_update (env : Env σ) (s : Sim σ) (axi_in : sc_axi4_in_t) : Sim σ :=
  let p := bus_phase env (clear_error_if_running (clear_uart_event s)) axi_in
  update_stage_after_cycle env p.2.2.2 p.1 p.2.1

/-- Whether `translation_pending` is clear after the `exec()` call that a step
starting in `kExecute` makes. -/
def retires (env : Env σ) (s : Sim σ) (axi_in : sc_axi4_in_t) : Prop :=
  (exec_call env (update_mmu_request_state (stage_entry env s axi_in))).cpu_core_.translation_pending
    = false

/-- The state after the steps with the given inputs, one after the other. -/
def run (env : Env σ) (s : Sim σ) (inputs : List sc_axi4_in_t) : Sim σ :=
  inputs.foldl (fun t axi_in => (step env t axi_in).sim) s

/-- What the driver API keeps true of the object. -/
def ApiInv (s : Sim σ) : Prop :=
  s.max_inst_ < 2 ^ 64 ∧
  (s.stage_ = ExecStage.kExecute → s.inst_count_ + 1 < 2 ^ 64) ∧
  (s.stage_ ≠ ExecStage.kHalted → SlotsMatchStage s)

/-- What a run from a loaded image keeps true while the limits stay as they are. -/
def RunInv (s : Sim σ) : Prop :=
  s.image_loaded_ = true ∧
  s.inst_count_ ≤ s.max_inst_ ∧
  (s.stage_ = ExecStage.kExecute → s.inst_count_ < s.max_inst_) ∧
  (s.halted_reason_max_inst_ = true →
    s.stage_ = ExecStage.kHalted ∧ s.success_ = true ∧ s.inst_count_ = s.max_inst_)

/-! ## A small concrete environment

The statements are exercised on a CPU whose `exec` retires at once and whose
`va2pa` maps every address to itself, behind an interconnect that passes the
slave's ready and valid signals straight to the ports. -/

def demo_comb_outputs (ic : AXI_Interconnect Unit) : AXI_Interconnect Unit :=
  { ic with
    read_ports := fun i =>
      { req := { (ic.read_ports i).req with ready := ic.axi_io.ar.arready }
        resp := { (ic.read_ports i).resp with valid := ic.axi_io.r.rvalid } }
    write_port :=
      { req := { ic.write_port.req with ready := ic.axi_io.aw.awready && ic.axi_io.w.wready }
        resp := { ic.write_port.resp with valid := ic.axi_io.b.bvalid } } }

def demo_comb_inputs (ic : AXI_Interconnect Unit) : AXI_Interconnect Unit :=
  let bus := ic.axi_io
  { ic with
    axi_io :=
      { bus with
        ar := { bus.ar with
          arvalid := (ic.read_ports 0).req.valid || (ic.read_ports 1).req.valid ||
            (ic.read_ports 2).req.valid }
        aw := { bus.aw with awvalid := ic.write_port.req.valid, awaddr := ic.write_port.req.addr }
        w := { bus.w with
          wvalid := ic.write_port.req.valid
          wdata := ic.write_port.req.wdata 0
          wstrb := ic.write_port.req.wstrb
          wlast := true }
        r := { bus.r with rready := true }
        b := { bus.b with bready := true } } }

def demo_env : Env Unit :=
  { MAX_COMMIT_INST := 1000
    UART_BASE := 0x10000000
    cpu_init := fun _ reset_pc => { state := { pc := reset_pc } }
    exec := fun c => CpuProg.ret { c with translation_pending := false }
    va2pa := fun c _ vaddr _ => CpuProg.ret (c, vaddr, true)
    interconnect_new := { internal := () }
    interconnect_init := fun ic => ic
    comb_outputs := demo_comb_outputs
    comb_inputs := demo_comb_inputs
    seq := fun ic => ic
    debug_print := fun ic => ic }

/-- A slave that accepts and answers everything in the same cycle. -/
def demo_in : sc_axi4_in_t :=
  { arready := 1, awready := 1, wready := 1, rvalid := 1, rid := 0, rdata := 0x00100073,
    rresp := 0, rlast := 1, bvalid := 1, bid := 0, bresp := 0 }

/-- A slave that accepts nothing and answers nothing. -/
def demo_idle : sc_axi4_in_t :=
  { arready := 0, awready := 0, wready := 0, rvalid := 0, rid := 0, rdata := 0,
    rresp := 0, rlast := 0, bvalid := 0, bid := 0, bresp := 0 }

/-- A freshly constructed simulator with zeroed memory. -/
def demo_fresh : Sim Unit := create demo_env 0 none (some (fun _ => 0))

def demo_file : ImageFile := { is_open := true, bytes := [0x73, 0x00, 0x10, 0x00], read_ok := true }

/-- The simulator after `set_limits(max_inst, max_cycles)` and a successful `load_image`. -/
def demo_loaded (max_inst max_cycles : Nat) : Sim Unit :=
  (load_image demo_env (set_limits demo_fresh max_inst max_cycles) (some "image.bin") demo_file).2.2

/-! ## Further properties and scenarios used in the statements -/

/-- The read request `rq` takes the beat with id `rid`: it is active, issued, its
encoded id is `rid` and it has beats left (the test of `mirror_read_data`). -/
def takes_beat (rq : ReadReqState) (rid : Nat) : Prop :=
  rq.active = true ∧ rq.issued = true ∧ rid = encode_axi_id rq.master rq.id ∧
    rq.beats_seen < rq.beats_total

/-- The read request `rq` answers to the id `rid`: active, issued, encoded id `rid`. -/
def answers_to (rq : ReadReqState) (rid : Nat) : Prop :=
  rq.active = true ∧ rq.issued = true ∧ rid = encode_axi_id rq.master rq.id

/-- The fields `addr` (`uint32_t`) and `beats_total` (`uint8_t`) are within their types. -/
def read_req_in_range (rq : ReadReqState) : Prop :=
  rq.addr < 2 ^ 32 ∧ rq.beats_total < 256

/-- The byte address of the current write beat: `write_req_.addr + beats_seen * 4`
in `uint32_t`. -/
def write_beat_addr (w : WriteReqState) : Nat :=
  (w.addr + (w.beats_seen * 4) % 2 ^ 32) % 2 ^ 32

/-- A slave that accepts every address and data beat and answers nothing. -/
def demo_accept : sc_axi4_in_t :=
  { arready := 1, awready := 1, wready := 1, rvalid := 0, rid := 0, rdata := 0,
    rresp := 0, rlast := 0, bvalid := 0, bid := 0, bresp := 0 }

/-- A slave that answers the fetch with the word `sb x2, 0(x1)`. -/
def demo_fetch_sb : sc_axi4_in_t :=
  { arready := 0, awready := 0, wready := 0, rvalid := 1, rid := 0, rdata := 0x00208023,
    rresp := 0, rlast := 1, bvalid := 0, bid := 0, bresp := 0 }

/-- The demo environment with a CPU that comes out of `init` with `x1 = UART_BASE`
and `x2 = 'H'`. -/
def uart_env : Env Unit :=
  { demo_env with
    cpu_init := fun _ reset_pc =>
      { state :=
          { pc := reset_pc
            gpr := fun i => if i = 1 then 0x10000000 else if i = 2 then 0x48 else 0 } } }

/-- The simulator of `uart_env` after `set_limits` and a successful `load_image`,
then four steps: the fetch is armed, accepted, answered with `sb x2, 0(x1)`, and
the store is armed (the stage is `kWaitData`). -/
def uart_store_armed (max_inst max_cycles : Nat) : Sim Unit :=
  run uart_env
    (load_image uart_env (set_limits (create uart_env 0 none (some (fun _ => 0))) max_inst max_cycles)
      (some "image.bin") demo_file).2.2
    [demo_idle, demo_accept, demo_fetch_sb, demo_idle]

/-- The part of `step` from `apply_axi_inputs` to `comb_inputs`, as in `bus_phase`:
`req_ready`, `resp_valid` and the state from which `axi_out` is filled and on which
`mirror_read_data` is called. -/
def bus_drive (env : Env σ) (s : Sim σ) (axi_in : sc_axi4_in_t) : Bool × Bool × Sim σ :=
  let s := apply_axi_inputs s axi_in
  let s := { s with interconnect_ := env.comb_outputs s.interconnect_ }
  let s := clear_master_inputs s
  let d := drive_current_stage s
  let s := d.2.2
  let s := { s with interconnect_ := env.comb_inputs s.interconnect_ }
  (d.1, d.2.1, s)

/-- The W channel handshakes in the step (`wvalid` of `axi_out`, `wready` of
`axi_in`) while the write request `w` is active: the test of `mirror_write_data`. -/
def w_handshake (axi_in : sc_axi4_in_t) (axi_out : sc_axi4_out_t) (w : WriteReqState) : Prop :=
  axi_out.wvalid ≠ 0 ∧ axi_in.wready ≠ 0 ∧ w.active = true

/-- The word of the current write beat holds the byte address `UART_BASE` and the
strobe bit of that byte is set. -/
def uart_lane_enabled (env : Env σ) (axi_out : sc_axi4_out_t) (w : WriteReqState) : Prop :=
  (write_beat_addr w) &&& 0xFFFFFFFC = env.UART_BASE &&& 0xFFFFFFFC ∧
    axi_out.wstrb.testBit (env.UART_BASE &&& 3) = true

/-- Position of `csr_mstatus` in `enum enum_csr` of `CSR.h`. -/
def csr_mstatus : Nat := 7

/-- `MSTATUS_MPRV` of `single_cycle_cpu.h`, one of the "MSTATUS bits needed for
translation". -/
def MSTATUS_MPRV : Nat := 1 <<< 17

/-- `MSTATUS_MPP_SHIFT` of `single_cycle_cpu.h`. -/
def MSTATUS_MPP_SHIFT : Nat := 11

/-- Following the spec's words, not the code: the privilege an access of the given
type is made with is `mstatus.MPP` for loads and stores (`type` 1 and 2) when
`mstatus.MPRV` is set, and the current privilege otherwise and for fetches. -/
def spec_effective_privilege (cpu_core : SingleCycleCpu) (type : Nat) : Nat :=
  if type ≠ 0 ∧ cpu_core.state.csr csr_mstatus &&& MSTATUS_MPRV ≠ 0 then
    (cpu_core.state.csr csr_mstatus >>> MSTATUS_MPP_SHIFT) &&& 0x3
  else cpu_core.privilege

/-- The demo environment with a `va2pa` that begins a page walk: it asks the read
hook for the word at `0x2000` and reports the translation as pending. -/
def walk_env : Env Unit :=
  { demo_env with
    va2pa := fun c paddr _ _ =>
      CpuProg.mem_read32 0x2000 (some 0)
        (fun _ _ => CpuProg.ret ({ c with translation_pending := true }, paddr, false)) }

/-- A loaded simulator whose CPU has `satp.MODE = 1`, `mstatus.MPRV = 1`,
`mstatus.MPP = S` and the given current privilege. -/
def mprv_state (privilege : Nat) : Sim Unit :=
  { demo_loaded 5 100 with
    cpu_core_ :=
      { privilege := privilege
        state :=
          { csr := fun i =>
              if i = csr_satp then 0x80000000
              else if i = csr_mstatus then MSTATUS_MPRV ||| (RISCV_MODE_S <<< MSTATUS_MPP_SHIFT)
              else 0 } } }

/-- A loaded simulator that holds a page-walk response for the word at `0x2000`. -/
def demo_walk_answered : Sim Unit :=
  { demo_loaded 5 100 with
    mmu_hook_ := { pending := true, response_valid := true, addr := 0x2000, data := 0xABCD } }

/-- A slave that answers the fetch with an error response (`rresp = SLVERR`). -/
def demo_fetch_error : sc_axi4_in_t :=
  { arready := 0, awready := 0, wready := 0, rvalid := 1, rid := 0, rdata := 0x00100073,
    rresp := 2, rlast := 1, bvalid := 0, bid := 0, bresp := 0 }

/-! ## CSR numbering (`CSR.h`) -/

def number_mtvec : Nat := 0x305
def number_mepc : Nat := 0x341
def number_mcause : Nat := 0x342
def number_mie : Nat := 0x304
def number_mip : Nat := 0x344
def number_mtval : Nat := 0x343
def number_mscratch : Nat := 0x340
def number_mstatus : Nat := 0x300
def number_mideleg : Nat := 0x303
def number_medeleg : Nat := 0x302
def number_sepc : Nat := 0x141
def number_stvec : Nat := 0x105
def number_scause : Nat := 0x142
def number_sscratch : Nat := 0x140
def number_stval : Nat := 0x143
def number_sstatus : Nat := 0x100
def number_sie : Nat := 0x104
def number_sip : Nat := 0x144
def number_satp : Nat := 0x180
def number_mhartid : Nat := 0xf14
def number_misa : Nat := 0x301
def number_time : Nat := 0xc01
def number_timeh : Nat := 0xc81

def csr_mtvec : Nat := 0
def csr_mepc : Nat := 1
def csr_mcause : Nat := 2
def csr_mie : Nat := 3
def csr_mip : Nat := 4
def csr_mtval : Nat := 5
def csr_mscratch : Nat := 6
def csr_mideleg : Nat := 8
def csr_medeleg : Nat := 9
def csr_sepc : Nat := 10
def csr_stvec : Nat := 11
def csr_scause : Nat := 12
def csr_sscratch : Nat := 13
def csr_stval : Nat := 14
def csr_sstatus : Nat := 15
def csr_sie : Nat := 16
def csr_sip : Nat := 17
def csr_mhartid : Nat := 19
def csr_misa : Nat := 20
def csr_time : Nat := 21
def csr_timeh : Nat := 22

/-- The length of `uint32_t csr[21]` in `CPU_state`. -/
def CSR_ARRAY_LENGTH : Nat := 21

/-- `cvt_number_to_csr(csr_idx)`; `none` is the `default:` case, where `assert(0)`
fails (a build without assertions returns 0 there). -/
def cvt_number_to_csr (csr_idx : Nat) : Option Nat :=
  if csr_idx = number_mtvec then some csr_mtvec
  else if csr_idx = number_mepc then some csr_mepc
  else if csr_idx = number_mcause then some csr_mcause
  else if csr_idx = number_mie then some csr_mie
  else if csr_idx = number_mip then some csr_mip
  else if csr_idx = number_mtval then some csr_mtval
  else if csr_idx = number_mscratch then some csr_mscratch
  else if csr_idx = number_mstatus then some csr_mstatus
  else if csr_idx = number_mideleg then some csr_mideleg
  else if csr_idx = number_medeleg then some csr_medeleg
  else if csr_idx = number_sepc then some csr_sepc
  else if csr_idx = number_stvec then some csr_stvec
  else if csr_idx = number_scause then some csr_scause
  else if csr_idx = number_sscratch then some csr_sscratch
  else if csr_idx = number_stval then some csr_stval
  else if csr_idx = number_sstatus then some csr_sstatus
  else if csr_idx = number_sie then some csr_sie
  else if csr_idx = number_sip then some csr_sip
  else if csr_idx = number_satp then some csr_satp
  else if csr_idx = number_mhartid then some csr_mhartid
  else if csr_idx = number_misa then some csr_misa
  else if csr_idx = number_time then some csr_time
  else if csr_idx = number_timeh then some csr_timeh
  else none

/-- The 23 CSR numbers of `enum enum_number_csr_code`, in the order of the enum. -/
def csr_numbers : List Nat :=
  [number_mtvec, number_mepc, number_mcause, number_mie, number_mip, number_mtval,
   number_mscratch, number_mstatus, number_mideleg, number_medeleg, number_sepc, number_stvec,
   number_scause, number_sscratch, number_stval, number_sstatus, number_sie, number_sip,
   number_satp, number_mhartid, number_misa, number_time, number_timeh]

/-! ## Bytes of memory and the addresses the pre-decoder computes -/

/-- Byte `a` of memory on the little-endian host: lane `a % 4` of the word at
index `a / 4`. -/
def mem_byte (mem : Mem) (a : Nat) : Nat := byte_lane (mem (a / 4)) (a % 4)

/-- The virtual address `decode_mem_req_pre_exec` computes for a load:
`gpr[rs1] + imm_i` in `uint32_t`. -/
def load_vaddr (s : Sim σ) (inst_word : Nat) : Nat :=
  (s.cpu_core_.state.gpr ((inst_word >>> 15) &&& 0x1f) +
    toUInt32 (sext ((inst_word >>> 20) &&& 0xfff) 12)) % 2 ^ 32

/-- The virtual address `decode_mem_req_pre_exec` computes for a store:
`gpr[rs1] + imm_s` in `uint32_t`. -/
def store_vaddr (s : Sim σ) (inst_word : Nat) : Nat :=
  (s.cpu_core_.state.gpr ((inst_word >>> 15) &&& 0x1f) +
    toUInt32 (sext ((((inst_word >>> 25) <<< 5) % 2 ^ 32) ||| ((inst_word >>> 7) &&& 0x1f)) 12))
    % 2 ^ 32

/-- A loaded demo simulator whose CPU holds `x1 = 0x80000101`, `x2 = 0xAABBCCDD`
and `x3 = 0x80000102`, with the given instruction word latched. -/
def demo_regs (inst_word : Nat) : Sim Unit :=
  { demo_loaded 5 100 with
    inst_word_ := inst_word
    cpu_core_ :=
      { state :=
          { gpr := fun i =>
              if i = 1 then 0x80000101 else if i = 2 then 0xAABBCCDD
              else if i = 3 then 0x80000102 else 0 } } }

/-! ## Runs with calls of the read hook, and what they keep true of the slots -/

/-- The states a run can produce when `on_cpu_mem_read` may also be called, with
any arguments, between the calls of the driver API. (The calls made during a step
are those of `exec` and `va2pa`, which the statements leave arbitrary.) -/
inductive ReachableWithReads (env : Env σ) : Sim σ → Prop where
  | create (sim_time : Int) (p_memory alloc : Option Mem) :
      ReachableWithReads env (create env sim_time p_memory alloc)
  | load_image (s : Sim σ) (image_path : Option String) (file : ImageFile) :
      ReachableWithReads env s → ReachableWithReads env (load_image env s image_path file).2.2
  | set_limits (s : Sim σ) (max_inst max_cycles : Nat) :
      ReachableWithReads env s → ReachableWithReads env (set_limits s max_inst max_cycles)
  | step (s : Sim σ) (axi_in : sc_axi4_in_t) :
      ReachableWithReads env s → ReachableWithReads env (step env s axi_in).sim
  | mem_read (s : Sim σ) (paddr : Nat) (data : Option Nat) :
      ReachableWithReads env s → ReachableWithReads env (on_cpu_mem_read s paddr data).2.2

/-- While the MMU request is active the hook state records it as pending and
unanswered at the same address, memory is allocated, and the request is a
one-beat word read. -/
def MmuInv (s : Sim σ) : Prop :=
  s.mmu_req_.active = true →
    s.mmu_hook_.pending = true ∧ s.mmu_hook_.response_valid = false ∧
    s.mmu_req_.addr = s.mmu_hook_.addr ∧ s.p_memory.isSome = true ∧
    s.mmu_req_.total_size = 3 ∧ s.mmu_req_.beats_total = 1

/-- Each active fetch, load and write request is a one-beat request of size 0, 1
or 3, and the stage `kWaitFetch` is only entered with `fetch_ok_` set. -/
def ArmedInv (s : Sim σ) : Prop :=
  (s.fetch_req_.active = true → s.fetch_req_.total_size = 3 ∧ s.fetch_req_.beats_total = 1) ∧
  (s.data_req_.active = true →
    (s.data_req_.total_size = 0 ∨ s.data_req_.total_size = 1 ∨ s.data_req_.total_size = 3) ∧
    s.data_req_.beats_total = 1) ∧
  (s.write_req_.active = true →
    (s.write_req_.total_size = 0 ∨ s.write_req_.total_size = 1 ∨ s.write_req_.total_size = 3) ∧
    s.write_req_.beats_total = 1) ∧
  (s.stage_ = ExecStage.kWaitFetch → s.fetch_ok_ = true)

/-- The demo environment with a CPU whose `exec` retires at once and leaves the
store latch set, as an AMO does: `store_addr = 0x80000100`, `store_data = 0x55`,
`store_strb = 0`. -/
def amo_env : Env Unit :=
  { demo_env with
    exec := fun c =>
      CpuProg.ret
        { c with
          translation_pending := false
          state := { c.state with
            store := true, store_addr := 0x80000100, store_data := 0x55, store_strb := 0 } } }

/-- A slave that answers the fetch with the word `amoadd.w x0, x2, (x1)`. -/
def demo_fetch_amo : sc_axi4_in_t :=
  { arready := 0, awready := 0, wready := 0, rvalid := 1, rid := 0, rdata := 0x0020A02F,
    rresp := 0, rlast := 1, bvalid := 0, bid := 0, bresp := 0 }

/-- A slave that answers the data read (id `encode_axi_id 1 1 = 5`) with the word 7. -/
def demo_data_resp : sc_axi4_in_t :=
  { arready := 0, awready := 0, wready := 0, rvalid := 1, rid := 5, rdata := 7,
    rresp := 0, rlast := 1, bvalid := 0, bid := 0, bresp := 0 }

/-- The simulator of `amo_env` after `set_limits(5, 100)`, a successful
`load_image` and six steps: the fetch is armed, accepted and answered with an AMO
word, its read is armed, accepted and answered (the stage is `kExecute`). -/
def amo_executing : Sim Unit :=
  run amo_env
    (load_image amo_env (set_limits (create amo_env 0 none (some (fun _ => 0))) 5 100)
      (some "image.bin") demo_file).2.2
    [demo_idle, demo_accept, demo_fetch_amo, demo_idle, demo_accept, demo_data_resp]

/-- The call `translate_addr(cpu_core_, fetch_vaddr_, 0, fetch_paddr_)` that the
stage update of a step starting in `kPrepareFetch` makes, with
`fetch_vaddr_ = pc`: result, `fetch_paddr_` afterwards, state. -/
def fetch_translation (env : Env σ) (s : Sim σ) (axi_in : sc_axi4_in_t) : Bool × Nat × Sim σ :=
  let e := update_mmu_request_state (stage_entry env s axi_in)
  translate_addr env { e with fetch_vaddr_ := e.cpu_core_.state.pc } e.cpu_core_.state.pc 0
    e.fetch_paddr_

/-- The `req_ready` that `drive_current_stage` reports in a step that gets past
the two early returns. -/
def seen_req_ready (env : Env σ) (s : Sim σ) (axi_in : sc_axi4_in_t) : Bool :=
  (bus_phase env (clear_error_if_running (clear_uart_event s)) axi_in).1

/-- The `resp_valid` that `drive_current_stage` reports in that step. -/
def seen_resp_valid (env : Env σ) (s : Sim σ) (axi_in : sc_axi4_in_t) : Bool :=
  (bus_phase env (clear_error_if_running (clear_uart_event s)) axi_in).2.1

/-- The response is seen, and the request was issued before or its acceptance is seen. -/
def handshake_done (issued req_ready resp_valid : Bool) : Prop :=
  resp_valid = true ∧ (issued = true ∨ req_ready = true)

/-- The calls of the read hook that a CPU method makes when it is run on the
state `s`: for each call, the state it is made in, `paddr` and `data`. -/
def read_calls {α : Type} : CpuProg α → Sim σ → List (Sim σ × Nat × Option Nat)
  | .ret _, _ => []
  | .mem_read32 paddr data k, s =>
    let r := cpu_mem_read_hook s (paddr % 2 ^ 32) data
    (s, paddr % 2 ^ 32, data) :: read_calls (k r.1 r.2.1) r.2.2
  | .mem_read32_now paddr data k, s =>
    let r := cpu_mem_read_now_hook s (paddr % 2 ^ 32) data
    read_calls (k r.1 r.2) s
  | .mem_write32_now paddr data wstrb k, s =>
    let r := cpu_mem_write_now_hook s (paddr % 2 ^ 32) (data % 2 ^ 32) (wstrb % 2 ^ 32)
    read_calls (k r.1) r.2
  | .get_sim_time k, s => read_calls (k s.sim_time) s

/-- The page walk is outstanding in the state `t`: the hook state is pending and
unanswered at the address of the MMU request, a call of `on_cpu_mem_read` with a
non-null `data` returns `CPU_MEM_READ_PENDING` and changes nothing, and no call
changes the MMU request. -/
def WalkOutstanding (t : Sim σ) : Prop :=
  t.mmu_hook_.pending = true ∧ t.mmu_hook_.response_valid = false ∧
  t.mmu_req_.addr = t.mmu_hook_.addr ∧
  (∀ paddr d : Nat,
    (on_cpu_mem_read t paddr (some d)).1 = CpuMemReadResult.CPU_MEM_READ_PENDING ∧
    (on_cpu_mem_read t paddr (some d)).2.2 = t) ∧
  (∀ (paddr : Nat) (data : Option Nat), (on_cpu_mem_read t paddr data).2.2.mmu_req_ = t.mmu_req_)

/-- Before an image is loaded, a simulator whose memory is allocated stands in
`kPrepareFetch`, where the constructor left it. -/
def UnloadedInv (s : Sim σ) : Prop :=
  s.image_loaded_ = false → s.p_memory.isSome = true → s.stage_ = ExecStage.kPrepareFetch

/-! ## Field and immediate macros of `single_cycle_cpu.h` -/

/-- `BITMASK(bits)`: `(1ull << (bits)) - 1` in `unsigned long long`. -/
def BITMASK (bits : Nat) : Nat := ((1 <<< bits) % 2 ^ 64 + 2 ^ 64 - 1) % 2 ^ 64

/-- `BITS(x, hi, lo)`: `((x) >> (lo)) & BITMASK((hi) - (lo) + 1)`. -/
def BITS (x hi lo : Nat) : Nat := (x >>> lo) &&& BITMASK (hi - lo + 1)

/-- `SEXT(x, len)`: `x` stored in a signed bit-field of `len` bits (`int64_t n : len`)
and read back as `uint64_t`. -/
def SEXT (x len : Nat) : Nat :=
  let n := x % 2 ^ len
  if n < 2 ^ (len - 1) then n else (n + 2 ^ 64 - 2 ^ len) % 2 ^ 64

/-- `immI(i)`: `SEXT(BITS(i, 31, 20), 12)`. -/
def immI (i : Nat) : Nat := SEXT (BITS i 31 20) 12

/-- `immU(i)`: `SEXT(BITS(i, 31, 12), 20) << 12` in `uint64_t`. -/
def immU (i : Nat) : Nat := (SEXT (BITS i 31 12) 20 <<< 12) % 2 ^ 64

/-- `immS(i)`: `(SEXT(BITS(i, 31, 25), 7) << 5) | BITS(i, 11, 7)` in `uint64_t`. -/
def immS (i : Nat) : Nat := ((SEXT (BITS i 31 25) 7 <<< 5) % 2 ^ 64) ||| BITS i 11 7

/-- The state of a step that gets past the two early returns just after
`mirror_write_data`, before `interconnect_.seq()` and `sim_time++`. -/
def after_mirroring (env : Env σ) (s : Sim σ) (axi_in : sc_axi4_in_t) : Sim σ :=
  let d := (bus_drive env (clear_error_if_running (clear_uart_event s)) axi_in).2.2
  mirror_write_data env (mirror_read_data d axi_in (fill_axi_outputs d)) axi_in (fill_axi_outputs d)

/-- The demo environment with a CPU whose `exec` reads the global `sim_time`,
keeps it in `store_data` and retires. -/
def clock_env : Env Unit :=
  { demo_env with
    exec := fun c =>
      CpuProg.get_sim_time (fun t =>
        CpuProg.ret
          { c with
            translation_pending := false
            state := { c.state with store_data := toUInt32 t } }) }

/-- The simulator of `clock_env` after `set_limits(5, 100)`, a successful
`load_image` and three steps: the stage is `kExecute` and `sim_time` is 3. -/
def clock_executing : Sim Unit :=
  run clock_env
    (load_image clock_env (set_limits (create clock_env 0 none (some (fun _ => 0))) 5 100)
      (some "image.bin") demo_file).2.2
    [demo_in, demo_in, demo_in]

/-- The step gets past the two early returns with the MMU request active, and by
the end of the bus phase the request is issued (it was before, or the latched
`mmu_req_ready_` is set) and the latched `mmu_resp_valid_` is set. -/
def mmu_completes (env : Env σ) (s : Sim σ) (axi_in : sc_axi4_in_t) : Prop :=
  s.image_loaded_ = true ∧ s.stage_ ≠ ExecStage.kHalted ∧ s.mmu_req_.active = true ∧
  (s.mmu_req_.issued = true ∨ (stage_entry env s axi_in).mmu_req_ready_ = true) ∧
  (stage_entry env s axi_in).mmu_resp_valid_ = true

/-- From `t` to `u` memory stays allocated or not, and a response that is valid
in `u` is the one `t` held: nothing has set `response_valid` in between. -/
def HookKept (t u : Sim σ) : Prop :=
  u.p_memory.isSome = t.p_memory.isSome ∧
  (u.mmu_hook_.response_valid = true → u.mmu_hook_ = t.mmu_hook_)

/-! ## Response codes in the channel bundle -/

/-- The interconnect with the response codes of its channel bundle replaced. -/
def set_bundle_codes (ic : AXI_Interconnect σ) (rresp bresp : Nat) : AXI_Interconnect σ :=
  { ic with
    axi_io :=
      { ic.axi_io with
        r := { ic.axi_io.r with rresp := rresp }
        b := { ic.axi_io.b with bresp := bresp } } }

/-- The simulator with the response codes of the channel bundle replaced. -/
def set_resp_codes (s : Sim σ) (rresp bresp : Nat) : Sim σ :=
  { s with interconnect_ := set_bundle_codes s.interconnect_ rresp bresp }

/-- The interconnect carries the response codes along without looking at them:
each of its methods gives the same result, up to the codes, whatever they are. -/
def CodesTransparent (env : Env σ) : Prop :=
  ∀ (ic : AXI_Interconnect σ) (rresp bresp : Nat),
    env.comb_outputs (set_bundle_codes ic rresp bresp) =
      set_bundle_codes (env.comb_outputs ic) rresp bresp ∧
    env.comb_inputs (set_bundle_codes ic rresp bresp) =
      set_bundle_codes (env.comb_inputs ic) rresp bresp ∧
    env.seq (set_bundle_codes ic rresp bresp) = set_bundle_codes (env.seq ic) rresp bresp ∧
    env.debug_print (set_bundle_codes ic rresp bresp) =
      set_bundle_codes (env.debug_print ic) rresp bresp

/-! ## Theorems -/

/-! ## Byte strobes -/

theorem and_two_pow_ne_zero (n k : Nat) : (n &&& 2 ^ k ≠ 0) ↔ n.testBit k = true := by
  constructor
  · intro h
    obtain ⟨i, hi⟩ := Nat.ne_zero_implies_bit_true h
    rw [Nat.testBit_and, Nat.testBit_two_pow] at hi
    simp only [Bool.and_eq_true, decide_eq_true_eq] at hi
    rw [hi.2]; exact hi.1
  · intro h h0
    have : (n &&& 2 ^ k).testBit k = true := by
      rw [Nat.testBit_and, Nat.testBit_two_pow_self, h]; rfl
    rw [h0] at this
    simp at this

theorem testBit_lane_const (k i : Nat) :
    ((2 ^ 8 - 1) <<< (8 * k)).testBit i = decide (i / 8 = k) := by
  rw [Nat.testBit_shiftLeft, Nat.testBit_two_pow_sub_one]
  by_cases h : i / 8 = k
  · have h1 : 8 * k ≤ i := by omega
    have h2 : i - 8 * k < 8 := by omega
    simp [h, h1, h2]
  · by_cases h1 : 8 * k ≤ i
    · have h2 : ¬ (i - 8 * k < 8) := by omega
      simp [h, h1, h2]
    · simp [h, h1]

theorem testBit_ite_zero (c : Prop) [Decidable c] (m i : Nat) :
    (if c then m else 0).testBit i = (decide c && m.testBit i) := by
  by_cases h : c <;> simp [h]

theorem wstrb_mask_eq (wstrb : Nat) :
    wstrb_mask wstrb =
      (if wstrb.testBit 0 = true then 0x000000FF else 0) |||
      ((if wstrb.testBit 1 = true then 0x0000FF00 else 0) |||
      ((if wstrb.testBit 2 = true then 0x00FF0000 else 0) |||
      (if wstrb.testBit 3 = true then 0xFF000000 else 0))) := by
  have b0 : (wstrb &&& 0x1 ≠ 0) ↔ wstrb.testBit 0 = true := and_two_pow_ne_zero wstrb 0
  have b1 : (wstrb &&& 0x2 ≠ 0) ↔ wstrb.testBit 1 = true := and_two_pow_ne_zero wstrb 1
  have b2 : (wstrb &&& 0x4 ≠ 0) ↔ wstrb.testBit 2 = true := and_two_pow_ne_zero wstrb 2
  have b3 : (wstrb &&& 0x8 ≠ 0) ↔ wstrb.testBit 3 = true := and_two_pow_ne_zero wstrb 3
  unfold wstrb_mask
  simp only [b0, b1, b2, b3]
  split_ifs <;> rfl

theorem wstrb_mask_testBit (wstrb i : Nat) :
    (wstrb_mask wstrb).testBit i = (decide (i < 32) && wstrb.testBit (i / 8)) := by
  have c0 : Nat.testBit 0x000000FF i = decide (i / 8 = 0) := testBit_lane_const 0 i
  have c1 : Nat.testBit 0x0000FF00 i = decide (i / 8 = 1) := testBit_lane_const 1 i
  have c2 : Nat.testBit 0x00FF0000 i = decide (i / 8 = 2) := testBit_lane_const 2 i
  have c3 : Nat.testBit 0xFF000000 i = decide (i / 8 = 3) := testBit_lane_const 3 i
  rw [wstrb_mask_eq]
  simp only [Nat.testBit_or, testBit_ite_zero, c0, c1, c2, c3]
  have hk : i / 8 = 0 ∨ i / 8 = 1 ∨ i / 8 = 2 ∨ i / 8 = 3 ∨ 4 ≤ i / 8 := by omega
  rcases hk with h | h | h | h | h
  · have hi : i < 32 := by omega
    simp [h, hi]
  · have hi : i < 32 := by omega
    simp [h, hi]
  · have hi : i < 32 := by omega
    simp [h, hi]
  · have hi : i < 32 := by omega
    simp [h, hi]
  · have hi : ¬ i < 32 := by omega
    have n0 : i / 8 ≠ 0 := by omega
    have n1 : i / 8 ≠ 1 := by omega
    have n2 : i / 8 ≠ 2 := by omega
    have n3 : i / 8 ≠ 3 := by omega
    simp [n0, n1, n2, n3, hi]

theorem wstrb_mask_lt (wstrb : Nat) : wstrb_mask wstrb < 2 ^ 32 := by
  apply Nat.lt_pow_two_of_testBit
  intro i hi
  rw [wstrb_mask_testBit]
  have : ¬ i < 32 := by omega
  simp [this]

/-- Bit `j` of byte lane `k` of the word written by `apply_wstrb_write`. -/
theorem merged_word_lane (data old wstrb k : Nat) (hk : k < 4) :
    byte_lane ((data &&& wstrb_mask wstrb) ||| (old &&& (0xFFFFFFFF ^^^ wstrb_mask wstrb))) k =
      if wstrb.testBit k = true then byte_lane data k else byte_lane old k := by
  have hff : ∀ i, Nat.testBit 0xFFFFFFFF i = decide (i < 32) :=
    fun i => Nat.testBit_two_pow_sub_one 32 i
  have h8 : ∀ j, Nat.testBit 0xFF j = decide (j < 8) :=
    fun j => Nat.testBit_two_pow_sub_one 8 j
  apply Nat.eq_of_testBit_eq
  intro j
  unfold byte_lane
  by_cases hj : j < 8
  · have hi : 8 * k + j < 32 := by omega
    have hd : (8 * k + j) / 8 = k := by omega
    by_cases hb : wstrb.testBit k = true
    · simp [Nat.testBit_and, Nat.testBit_or, Nat.testBit_xor, Nat.testBit_shiftRight,
        wstrb_mask_testBit, hff, h8, hj, hi, hd, hb]
    · simp [Nat.testBit_and, Nat.testBit_or, Nat.testBit_xor, Nat.testBit_shiftRight,
        wstrb_mask_testBit, hff, h8, hj, hi, hd, hb]
  · split_ifs <;> simp [Nat.testBit_and, h8, hj]

/-- C1: `apply_wstrb_write` on allocated memory leaves the word at index
`addr >> 2` a 32-bit word whose byte lane `k` (`k = 0..3`) is byte `k` of `data`
when bit `k` of `wstrb` is set and the old byte otherwise, and changes no other
word; with `wstrb = 0b0010` and `data = 0xAABBCCDD` byte 1 becomes `0xCC` and
bytes 0, 2 and 3 keep their old value. -/
theorem apply_wstrb_write_lanes (mem : Mem) (addr data wstrb : Nat) :
    (∃ mem', apply_wstrb_write (some mem) addr data wstrb = some mem' ∧
      mem' (addr >>> 2) < 2 ^ 32 ∧
      (∀ k : Fin 4, byte_lane (mem' (addr >>> 2)) k.val =
        if wstrb.testBit k.val = true then byte_lane data k.val
        else byte_lane (mem (addr >>> 2)) k.val) ∧
      (∀ i, i ≠ addr >>> 2 → mem' i = mem i)) ∧
    (∃ mem', apply_wstrb_write (some mem) addr 0xAABBCCDD 0b0010 = some mem' ∧
      byte_lane (mem' (addr >>> 2)) 1 = 0xCC ∧
      byte_lane (mem' (addr >>> 2)) 0 = byte_lane (mem (addr >>> 2)) 0 ∧
      byte_lane (mem' (addr >>> 2)) 2 = byte_lane (mem (addr >>> 2)) 2 ∧
      byte_lane (mem' (addr >>> 2)) 3 = byte_lane (mem (addr >>> 2)) 3) := by
  refine ⟨⟨_, rfl, ?_, ?_, ?_⟩, ⟨_, rfl, ?_, ?_, ?_, ?_⟩⟩
  · simp only [Function.update_same]
    apply Nat.or_lt_two_pow
    · exact Nat.and_lt_two_pow _ (wstrb_mask_lt wstrb)
    · exact Nat.and_lt_two_pow _ (Nat.xor_lt_two_pow (by decide) (wstrb_mask_lt wstrb))
  · intro k
    simp only [Function.update_same]
    exact merged_word_lane data _ wstrb k.val k.isLt
  · intro i hi
    simp only [Function.update_noteq hi]
  · simp only [Function.update_same]
    rw [merged_word_lane _ _ _ 1 (by decide), if_pos (by decide)]
    decide
  · simp only [Function.update_same]
    rw [merged_word_lane _ _ _ 0 (by decide), if_neg (by decide)]
  · simp only [Function.update_same]
    rw [merged_word_lane _ _ _ 2 (by decide), if_neg (by decide)]
  · simp only [Function.update_same]
    rw [merged_word_lane _ _ _ 3 (by decide), if_neg (by decide)]

/-! ## What each phase of a step can change -/

theorem on_cpu_mem_read_frame (s : Sim σ) (paddr : Nat) (data : Option Nat) :
    ∃ h r, (on_cpu_mem_read s paddr data).2.2 = { s with mmu_hook_ := h, mmu_req_ := r } := by
  unfold on_cpu_mem_read
  simp only []
  split_ifs <;> exact ⟨_, _, rfl⟩

theorem cpu_mem_write_now_hook_frame (s : Sim σ) (paddr data wstrb : Nat) :
    ∃ m, (cpu_mem_write_now_hook s paddr data wstrb).2 = { s with p_memory := m } := by
  unfold cpu_mem_write_now_hook
  split_ifs <;> exact ⟨_, rfl⟩

/-- A CPU method changes the simulator only through the hooks: memory, the MMU
hook state and the MMU request. -/
theorem run_cpu_frame {α : Type} (prog : CpuProg α) (s : Sim σ) :
    ∃ m h r, (run_cpu prog s).2 = { s with p_memory := m, mmu_hook_ := h, mmu_req_ := r } := by
  induction prog generalizing s with
  | ret a => exact ⟨_, _, _, rfl⟩
  | mem_read32 paddr data k ih =>
    obtain ⟨h, r, e⟩ := on_cpu_mem_read_frame s (paddr % 2 ^ 32) data
    obtain ⟨m', h', r', e'⟩ :=
      ih (cpu_mem_read_hook s (paddr % 2 ^ 32) data).1 (cpu_mem_read_hook s (paddr % 2 ^ 32) data).2.1
        (cpu_mem_read_hook s (paddr % 2 ^ 32) data).2.2
    refine ⟨m', h', r', ?_⟩
    simp only [run_cpu]
    rw [e']
    simp only [cpu_mem_read_hook, e]
  | mem_read32_now paddr data k ih =>
    simp only [run_cpu]
    exact ih _ _ s
  | mem_write32_now paddr data wstrb k ih =>
    obtain ⟨m, e⟩ := cpu_mem_write_now_hook_frame s (paddr % 2 ^ 32) (data % 2 ^ 32) (wstrb % 2 ^ 32)
    obtain ⟨m', h', r', e'⟩ :=
      ih (cpu_mem_write_now_hook s (paddr % 2 ^ 32) (data % 2 ^ 32) (wstrb % 2 ^ 32)).1
        (cpu_mem_write_now_hook s (paddr % 2 ^ 32) (data % 2 ^ 32) (wstrb % 2 ^ 32)).2
    refine ⟨m', h', r', ?_⟩
    simp only [run_cpu]
    rw [e', e]
  | get_sim_time k ih =>
    simp only [run_cpu]
    exact ih _ s

theorem exec_call_frame (env : Env σ) (s : Sim σ) :
    ∃ c m h r, exec_call env s =
      { s with cpu_core_ := c, p_memory := m, mmu_hook_ := h, mmu_req_ := r } := by
  obtain ⟨m, h, r, e⟩ := run_cpu_frame (env.exec s.cpu_core_) s
  exact ⟨(run_cpu (env.exec s.cpu_core_) s).1, m, h, r, by simp only [exec_call, e]⟩

theorem translate_addr_frame (env : Env σ) (s : Sim σ) (vaddr type paddr : Nat) :
    ∃ c m h r, (translate_addr env s vaddr type paddr).2.2 =
      { s with cpu_core_ := c, p_memory := m, mmu_hook_ := h, mmu_req_ := r } := by
  unfold translate_addr
  split_ifs
  · obtain ⟨m, h, r, e⟩ := run_cpu_frame (env.va2pa s.cpu_core_ paddr vaddr type) s
    exact ⟨(run_cpu (env.va2pa s.cpu_core_ paddr vaddr type) s).1.1, m, h, r, by simp only [e]⟩
  · exact ⟨_, _, _, _, rfl⟩

theorem decode_mem_req_pre_exec_frame (env : Env σ) (s : Sim σ) (inst_word : Nat) :
    ∃ c m h r, (decode_mem_req_pre_exec env s inst_word).2 =
      { s with cpu_core_ := c, p_memory := m, mmu_hook_ := h, mmu_req_ := r } := by
  unfold decode_mem_req_pre_exec
  simp only []
  split_ifs
  all_goals first
    | exact translate_addr_frame env s _ _ _
    | exact ⟨_, _, _, _, rfl⟩

theorem drive_mmu_request_frame (s : Sim σ) :
    ∃ ic a b, drive_mmu_request s =
      { s with interconnect_ := ic, mmu_req_ready_ := a, mmu_resp_valid_ := b } := by
  unfold drive_mmu_request
  simp only []
  split_ifs <;> exact ⟨_, _, _, rfl⟩

theorem drive_current_stage_frame (s : Sim σ) :
    ∃ ic a b, (drive_current_stage s).2.2 =
      { s with interconnect_ := ic, mmu_req_ready_ := a, mmu_resp_valid_ := b } := by
  have key : ∀ t : Sim σ, (∃ ic, t = { s with interconnect_ := ic }) →
      ∃ ic a b, drive_mmu_request t =
        { s with interconnect_ := ic, mmu_req_ready_ := a, mmu_resp_valid_ := b } := by
    rintro t ⟨ic, rfl⟩
    obtain ⟨ic', a, b, e⟩ := drive_mmu_request_frame { s with interconnect_ := ic }
    exact ⟨ic', a, b, e⟩
  unfold drive_current_stage
  simp only []
  apply key
  simp only [drive_read_port, drive_write_port]
  split
  · split_ifs <;> exact ⟨_, rfl⟩
  · split_ifs <;> exact ⟨_, rfl⟩
  · split_ifs <;> exact ⟨_, rfl⟩
  · exact ⟨_, rfl⟩

theorem mirror_read_data_frame (s : Sim σ) (axi_in : sc_axi4_in_t) (axi_out : sc_axi4_out_t) :
    ∃ m f d r h, mirror_read_data s axi_in axi_out =
      { s with
        p_memory := m
        fetch_req_ := { s.fetch_req_ with beats_seen := f }
        data_req_ := { s.data_req_ with beats_seen := d }
        mmu_req_ := { s.mmu_req_ with beats_seen := r }
        mmu_hook_ := { s.mmu_hook_ with data := h } } := by
  unfold mirror_read_data
  simp only []
  split_ifs <;> exact ⟨_, _, _, _, _, rfl⟩

theorem uart_lane_frame (env : Env σ) (word_base : Nat) (axi_out : sc_axi4_out_t) (s : Sim σ)
    (lane : Nat) :
    ∃ u c, uart_lane env word_base axi_out s lane = { s with uart_valid_ := u, uart_ch_ := c } := by
  unfold uart_lane
  simp only []
  split_ifs <;> exact ⟨_, _, rfl⟩

theorem uart_lanes_frame (env : Env σ) (word_base : Nat) (axi_out : sc_axi4_out_t)
    (lanes : List Nat) (s : Sim σ) :
    ∃ u c, lanes.foldl (uart_lane env word_base axi_out) s =
      { s with uart_valid_ := u, uart_ch_ := c } := by
  induction lanes generalizing s with
  | nil => exact ⟨_, _, rfl⟩
  | cons lane rest ih =>
    obtain ⟨u, c, e⟩ := uart_lane_frame env word_base axi_out s lane
    obtain ⟨u', c', e'⟩ := ih (uart_lane env word_base axi_out s lane)
    refine ⟨u', c', ?_⟩
    rw [List.foldl_cons, e', e]

theorem mirror_write_data_frame (env : Env σ) (s : Sim σ) (axi_in : sc_axi4_in_t)
    (axi_out : sc_axi4_out_t) :
    ∃ m u c b, mirror_write_data env s axi_in axi_out =
      { s with
        p_memory := m
        uart_valid_ := u
        uart_ch_ := c
        write_req_ := { s.write_req_ with beats_seen := b } } := by
  unfold mirror_write_data
  simp only []
  by_cases h1 : axi_out.wvalid = 0 ∨ axi_in.wready = 0 ∨ s.write_req_.active = false
  · rw [if_pos h1]
    exact ⟨_, _, _, _, rfl⟩
  · rw [if_neg h1]
    obtain ⟨u, c, e⟩ := uart_lanes_frame env
      ((s.write_req_.addr + s.write_req_.beats_seen * 4 % 2 ^ 32) % 2 ^ 32 &&& 0xFFFFFFFC) axi_out
      [0, 1, 2, 3]
      { s with p_memory := (apply_wstrb_write s.p_memory
          ((s.write_req_.addr + s.write_req_.beats_seen * 4 % 2 ^ 32) % 2 ^ 32)
          axi_out.wdata axi_out.wstrb) }
    rw [e]
    split_ifs <;> exact ⟨_, _, _, _, rfl⟩

/-- What the bus phase of a step can change: the interconnect, the latched MMU
port signals, memory, the beat counters, the MMU hook datum and the UART event;
`sim_time` goes up by one. -/
theorem bus_phase_frame (env : Env σ) (s : Sim σ) (axi_in : sc_axi4_in_t) :
    ∃ ic a b m f d r w h u c, (bus_phase env s axi_in).2.2.2 =
      { s with
        interconnect_ := ic
        mmu_req_ready_ := a
        mmu_resp_valid_ := b
        p_memory := m
        fetch_req_ := { s.fetch_req_ with beats_seen := f }
        data_req_ := { s.data_req_ with beats_seen := d }
        mmu_req_ := { s.mmu_req_ with beats_seen := r }
        write_req_ := { s.write_req_ with beats_seen := w }
        mmu_hook_ := { s.mmu_hook_ with data := h }
        uart_valid_ := u
        uart_ch_ := c
        sim_time := s.sim_time + 1 } := by
  unfold bus_phase
  simp only []
  generalize hs1 : clear_master_inputs
    { apply_axi_inputs s axi_in with
      interconnect_ := env.comb_outputs (apply_axi_inputs s axi_in).interconnect_ } = s1
  have e1 : ∃ ic, s1 = { s with interconnect_ := ic } := by
    subst hs1
    exact ⟨_, rfl⟩
  obtain ⟨ic1, rfl⟩ := e1
  obtain ⟨ic2, a, b, e2⟩ := drive_current_stage_frame { s with interconnect_ := ic1 }
  rw [e2]
  generalize hax : fill_axi_outputs _ = axi_out
  obtain ⟨m, f, d, r, h, e3⟩ := mirror_read_data_frame
    { s with interconnect_ := env.comb_inputs ic2, mmu_req_ready_ := a, mmu_resp_valid_ := b }
    axi_in axi_out
  simp only [] at e3 ⊢
  rw [e3]
  obtain ⟨m', u, c, w, e4⟩ := mirror_write_data_frame env
    { s with
      interconnect_ := env.comb_inputs ic2, mmu_req_ready_ := a, mmu_resp_valid_ := b
      p_memory := m
      fetch_req_ := { s.fetch_req_ with beats_seen := f }
      data_req_ := { s.data_req_ with beats_seen := d }
      mmu_req_ := { s.mmu_req_ with beats_seen := r }
      mmu_hook_ := { s.mmu_hook_ with data := h } }
    axi_in axi_out
  simp only [] at e4 ⊢
  rw [e4]
  exact ⟨_, _, _, _, _, _, _, _, _, _, _, rfl⟩

theorem update_mmu_request_state_frame (s : Sim σ) :
    ∃ h r, update_mmu_request_state s = { s with mmu_hook_ := h, mmu_req_ := r } := by
  unfold update_mmu_request_state
  simp only []
  split_ifs
  · exact ⟨_, _, rfl⟩
  · split <;> exact ⟨_, _, rfl⟩
  · exact ⟨_, _, rfl⟩
  · split <;> exact ⟨_, _, rfl⟩
  · exact ⟨_, _, rfl⟩

/-- The three outcomes of `prepare_fetch`. -/
theorem prepare_fetch_cases (env : Env σ) (s : Sim σ) :
    ∃ c m h r fo fp,
      prepare_fetch env s =
        { s with cpu_core_ := c, p_memory := m, mmu_hook_ := h, mmu_req_ := r,
                 fetch_vaddr_ := s.cpu_core_.state.pc, fetch_ok_ := fo, fetch_paddr_ := fp } ∨
      prepare_fetch env s =
        { s with cpu_core_ := c, p_memory := m, mmu_hook_ := h, mmu_req_ := r,
                 fetch_vaddr_ := s.cpu_core_.state.pc, fetch_ok_ := fo, fetch_paddr_ := fp,
                 inst_word_ := 0, pre_req_ := {}, stage_ := ExecStage.kExecute } ∨
      prepare_fetch env s =
        { s with cpu_core_ := c, p_memory := m, mmu_hook_ := h, mmu_req_ := r,
                 fetch_vaddr_ := s.cpu_core_.state.pc, fetch_ok_ := fo, fetch_paddr_ := fp,
                 fetch_req_ := setup_read MASTER_ICACHE kFetchReqId fp 3,
                 stage_ := ExecStage.kWaitFetch } := by
  obtain ⟨c, m, h, r, e⟩ := translate_addr_frame env
    { s with fetch_vaddr_ := s.cpu_core_.state.pc } s.cpu_core_.state.pc 0 s.fetch_paddr_
  refine ⟨c, m, h, r,
    (translate_addr env { s with fetch_vaddr_ := s.cpu_core_.state.pc }
      s.cpu_core_.state.pc 0 s.fetch_paddr_).1,
    (translate_addr env { s with fetch_vaddr_ := s.cpu_core_.state.pc }
      s.cpu_core_.state.pc 0 s.fetch_paddr_).2.1, ?_⟩
  unfold prepare_fetch
  simp only [e]
  split_ifs
  · exact Or.inl rfl
  · exact Or.inr (Or.inl rfl)
  · exact Or.inr (Or.inr rfl)

/-- The four outcomes of `prepare_data_request`. -/
theorem prepare_data_request_cases (env : Env σ) (s : Sim σ) :
    ∃ c m h r pr,
      prepare_data_request env s =
        { s with cpu_core_ := c, p_memory := m, mmu_hook_ := h, mmu_req_ := r, pre_req_ := pr } ∨
      (pr.is_read = true ∧ prepare_data_request env s =
        { s with cpu_core_ := c, p_memory := m, mmu_hook_ := h, mmu_req_ := r, pre_req_ := pr,
                 data_req_ := setup_read MASTER_DCACHE_R kDataReqId pr.paddr pr.total_size,
                 stage_ := ExecStage.kWaitData }) ∨
      (pr.is_read = false ∧ prepare_data_request env s =
        { s with cpu_core_ := c, p_memory := m, mmu_hook_ := h, mmu_req_ := r, pre_req_ := pr,
                 write_req_ := setup_write kDataReqId pr.paddr pr.wdata (pr.wstrb % 256) pr.total_size,
                 stage_ := ExecStage.kWaitData }) ∨
      prepare_data_request env s =
        { s with cpu_core_ := c, p_memory := m, mmu_hook_ := h, mmu_req_ := r, pre_req_ := pr,
                 stage_ := ExecStage.kExecute } := by
  obtain ⟨c, m, h, r, e⟩ := decode_mem_req_pre_exec_frame env s s.inst_word_
  refine ⟨c, m, h, r, (decode_mem_req_pre_exec env s s.inst_word_).1, ?_⟩
  unfold prepare_data_request
  simp only [e]
  split_ifs with h1 h2 h3
  · exact Or.inl rfl
  · exact Or.inr (Or.inl ⟨h3, rfl⟩)
  · exact Or.inr (Or.inr (Or.inl ⟨by simpa using h3, rfl⟩))
  · exact Or.inr (Or.inr (Or.inr rfl))

/-- The outcomes of the `kExecute` case: nothing retires while the translation
is pending; otherwise the count goes up and the stage becomes `kHalted` (EBREAK),
`kWaitAmoWrite` (with the write request armed) or `kPrepareFetch`. -/
theorem execute_stage_cases (env : Env σ) (s : Sim σ) :
    ∃ c m h r,
      exec_call env s = { s with cpu_core_ := c, p_memory := m, mmu_hook_ := h, mmu_req_ := r } ∧
      ((c.translation_pending = true ∧ execute_stage env s =
          { s with cpu_core_ := c, p_memory := m, mmu_hook_ := h, mmu_req_ := r }) ∨
       (c.translation_pending = false ∧ ∃ lic sr,
          (s.inst_word_ = INST_EBREAK ∧ execute_stage env s =
            { s with cpu_core_ := c, p_memory := m, mmu_hook_ := h, mmu_req_ := r,
                     inst_count_ := (s.inst_count_ + 1) % 2 ^ 64,
                     last_progress_time_ := toUInt64 s.sim_time,
                     last_inst_count_ := lic, stall_reported_ := sr,
                     halted_reason_ebreak_ := true, stage_ := ExecStage.kHalted,
                     success_ := true }) ∨
          (s.inst_word_ ≠ INST_EBREAK ∧ ∃ w, w.active = true ∧ execute_stage env s =
            { s with cpu_core_ := c, p_memory := m, mmu_hook_ := h, mmu_req_ := r,
                     inst_count_ := (s.inst_count_ + 1) % 2 ^ 64,
                     last_progress_time_ := toUInt64 s.sim_time,
                     last_inst_count_ := lic, stall_reported_ := sr,
                     write_req_ := w, stage_ := ExecStage.kWaitAmoWrite }) ∨
          (s.inst_word_ ≠ INST_EBREAK ∧ execute_stage env s =
            { s with cpu_core_ := c, p_memory := m, mmu_hook_ := h, mmu_req_ := r,
                     inst_count_ := (s.inst_count_ + 1) % 2 ^ 64,
                     last_progress_time_ := toUInt64 s.sim_time,
                     last_inst_count_ := lic, stall_reported_ := sr,
                     stage_ := ExecStage.kPrepareFetch }))) := by
  obtain ⟨c, m, h, r, e⟩ := exec_call_frame env s
  refine ⟨c, m, h, r, e, ?_⟩
  unfold execute_stage
  simp only [e]
  by_cases hp : c.translation_pending = true
  · left
    exact ⟨hp, by rw [if_pos hp]⟩
  · right
    refine ⟨by simpa using hp, ?_⟩
    rw [if_neg hp]
    by_cases hne : (s.inst_count_ + 1) % 2 ^ 64 ≠ s.last_inst_count_
    · refine ⟨(s.inst_count_ + 1) % 2 ^ 64, false, ?_⟩
      rw [if_pos hne]
      by_cases hb : s.inst_word_ = INST_EBREAK
      · left
        exact ⟨hb, by simp only [hb, if_true]⟩
      · right
        by_cases ha : (s.inst_word_ &&& 0x7f : Nat) = 0x2f ∧ c.state.store = true
        · left
          exact ⟨hb, setup_write kDataReqId c.state.store_addr c.state.store_data
            ((if (c.state.store_strb &&& 0xf) % 256 = 0 then 0xf
              else (c.state.store_strb &&& 0xf) % 256) % 256) 3, rfl,
            by simp only [if_neg hb, if_pos ha]⟩
        · right
          exact ⟨hb, by simp only [if_neg hb, if_neg ha]⟩
    · refine ⟨s.last_inst_count_, s.stall_reported_, ?_⟩
      rw [if_neg hne]
      by_cases hb : s.inst_word_ = INST_EBREAK
      · left
        exact ⟨hb, by simp only [hb, if_true]⟩
      · right
        by_cases ha : (s.inst_word_ &&& 0x7f : Nat) = 0x2f ∧ c.state.store = true
        · left
          exact ⟨hb, setup_write kDataReqId c.state.store_addr c.state.store_data
            ((if (c.state.store_strb &&& 0xf) % 256 = 0 then 0xf
              else (c.state.store_strb &&& 0xf) % 256) % 256) 3, rfl,
            by simp only [if_neg hb, if_pos ha]⟩
        · right
          exact ⟨hb, by simp only [if_neg hb, if_neg ha]⟩

set_option linter.unusedTactic false in
set_option linter.unreachableTactic false in
/-- What one call of `update_stage_after_cycle` does to the fields the limits,
the counters and the request slots depend on. -/
theorem update_stage_summary (env : Env σ) (s : Sim σ) (req_ready resp_valid : Bool) :
    ((update_stage_after_cycle env s req_ready resp_valid).sim_time = s.sim_time ∧
      (update_stage_after_cycle env s req_ready resp_valid).image_loaded_ = s.image_loaded_ ∧
      (update_stage_after_cycle env s req_ready resp_valid).max_inst_ = s.max_inst_ ∧
      (update_stage_after_cycle env s req_ready resp_valid).max_cycles_ = s.max_cycles_ ∧
      (update_stage_after_cycle env s req_ready resp_valid).last_error_ = s.last_error_ ∧
      (update_stage_after_cycle env s req_ready resp_valid).halted_reason_max_inst_ =
        s.halted_reason_max_inst_ ∧
      (update_stage_after_cycle env s req_ready resp_valid).uart_valid_ = s.uart_valid_ ∧
      (update_stage_after_cycle env s req_ready resp_valid).uart_ch_ = s.uart_ch_) ∧
    ((update_stage_after_cycle env s req_ready resp_valid).inst_count_ =
      if s.stage_ = ExecStage.kExecute ∧
          (exec_call env (update_mmu_request_state s)).cpu_core_.translation_pending = false
      then (s.inst_count_ + 1) % 2 ^ 64 else s.inst_count_) ∧
    (s.stage_ ≠ ExecStage.kHalted →
      ((update_stage_after_cycle env s req_ready resp_valid).stage_ = ExecStage.kHalted ↔
        (s.stage_ = ExecStage.kExecute ∧
          (exec_call env (update_mmu_request_state s)).cpu_core_.translation_pending = false ∧
          s.inst_word_ = INST_EBREAK)) ∧
      ((update_stage_after_cycle env s req_ready resp_valid).stage_ = ExecStage.kHalted →
        (update_stage_after_cycle env s req_ready resp_valid).success_ = true)) ∧
    (SlotsMatchStage s → s.stage_ ≠ ExecStage.kHalted →
      ((update_stage_after_cycle env s req_ready resp_valid).stage_ ≠ ExecStage.kHalted →
        SlotsMatchStage (update_stage_after_cycle env s req_ready resp_valid)) ∧
      (s.fetch_req_.active = true →
        (update_stage_after_cycle env s req_ready resp_valid).fetch_req_.active = false ∨
        same_read_request s.fetch_req_
          (update_stage_after_cycle env s req_ready resp_valid).fetch_req_) ∧
      (s.data_req_.active = true →
        (update_stage_after_cycle env s req_ready resp_valid).data_req_.active = false ∨
        same_read_request s.data_req_
          (update_stage_after_cycle env s req_ready resp_valid).data_req_) ∧
      (s.write_req_.active = true →
        (update_stage_after_cycle env s req_ready resp_valid).write_req_.active = false ∨
        same_write_request s.write_req_
          (update_stage_after_cycle env s req_ready resp_valid).write_req_)) := by
  obtain ⟨h0, r0, e0⟩ := update_mmu_request_state_frame s
  unfold update_stage_after_cycle
  simp only [e0]
  split
  next hst =>
    rcases prepare_fetch_cases env { s with mmu_hook_ := h0, mmu_req_ := r0 } with
      ⟨c, m, h, r, fo, fp, e | e | e⟩ <;>
    · rw [e]
      simp [SlotsMatchStage, same_read_request, same_write_request, hst, setup_read]
      try (intros; simp_all)
  next hst =>
    split_ifs <;>
    · simp [SlotsMatchStage, same_read_request, same_write_request, hst]
      try (intros; simp_all)
  next hst =>
    rcases prepare_data_request_cases env { s with mmu_hook_ := h0, mmu_req_ := r0 } with
      ⟨c, m, h, r, pr, e | ⟨hr, e⟩ | ⟨hr, e⟩ | e⟩
    · rw [e]
      simp [SlotsMatchStage, same_read_request, same_write_request, hst]
      try (intros; simp_all)
    · rw [e]
      simp [SlotsMatchStage, same_read_request, same_write_request, hst, setup_read, hr]
      try (intros; simp_all)
    · rw [e]
      simp [SlotsMatchStage, same_read_request, same_write_request, hst, setup_write, hr]
      try (intros; simp_all)
    · rw [e]
      simp [SlotsMatchStage, same_read_request, same_write_request, hst]
      try (intros; simp_all)
  next hst =>
    split_ifs <;>
    · simp [SlotsMatchStage, same_read_request, same_write_request, hst]
      try (intros; simp_all)
  next hst =>
    rcases execute_stage_cases env { s with mmu_hook_ := h0, mmu_req_ := r0 } with
      ⟨c, m, h, r, ec, ⟨hp, e⟩ | ⟨hp, lic, sr, ⟨hb, e⟩ | ⟨hb, w, hw, e⟩ | ⟨hb, e⟩⟩⟩
    · rw [e, ec]
      simp [SlotsMatchStage, same_read_request, same_write_request, hst, hp]
      try (intros; simp_all)
    · have hb' : s.inst_word_ = INST_EBREAK := hb
      rw [e, ec]
      simp [SlotsMatchStage, same_read_request, same_write_request, hst, hp, hb']
    · have hb' : s.inst_word_ ≠ INST_EBREAK := hb
      rw [e, ec]
      simp [SlotsMatchStage, same_read_request, same_write_request, hst, hp, hb', hw]
      try (intros; simp_all)
    · have hb' : s.inst_word_ ≠ INST_EBREAK := hb
      rw [e, ec]
      simp [SlotsMatchStage, same_read_request, same_write_request, hst, hp, hb']
      try (intros; simp_all)
  next hst =>
    split_ifs <;>
    · simp [SlotsMatchStage, same_read_request, same_write_request, hst]
      try (intros; simp_all)
  next hst =>
    simp [hst]

/-- What `check_limits` does: nothing to a halted machine; otherwise the
instruction limit is looked at first, then the cycle limit. -/
theorem check_limits_summary (env : Env σ) (s : Sim σ) :
    ((check_limits env s).sim_time = s.sim_time ∧
      (check_limits env s).inst_count_ = s.inst_count_ ∧
      (check_limits env s).image_loaded_ = s.image_loaded_ ∧
      (check_limits env s).max_inst_ = s.max_inst_ ∧
      (check_limits env s).max_cycles_ = s.max_cycles_ ∧
      (check_limits env s).fetch_req_ = s.fetch_req_ ∧
      (check_limits env s).data_req_ = s.data_req_ ∧
      (check_limits env s).write_req_ = s.write_req_ ∧
      (check_limits env s).mmu_req_ = s.mmu_req_ ∧
      (check_limits env s).pre_req_ = s.pre_req_ ∧
      (check_limits env s).uart_valid_ = s.uart_valid_ ∧
      (check_limits env s).uart_ch_ = s.uart_ch_) ∧
    (s.stage_ = ExecStage.kHalted → check_limits env s = s) ∧
    (s.stage_ ≠ ExecStage.kHalted → s.max_inst_ ≤ s.inst_count_ →
      (check_limits env s).stage_ = ExecStage.kHalted ∧
      (check_limits env s).success_ = true ∧
      (check_limits env s).last_error_ = s.last_error_ ∧
      (check_limits env s).halted_reason_max_inst_ = true) ∧
    (s.stage_ ≠ ExecStage.kHalted → s.inst_count_ < s.max_inst_ →
      s.max_cycles_ ≤ toUInt64 s.sim_time →
      (check_limits env s).stage_ = ExecStage.kHalted ∧
      (check_limits env s).success_ = false ∧
      (check_limits env s).last_error_ = "max_cycles reached" ∧
      (check_limits env s).halted_reason_max_inst_ = s.halted_reason_max_inst_) ∧
    (s.stage_ ≠ ExecStage.kHalted → s.inst_count_ < s.max_inst_ →
      toUInt64 s.sim_time < s.max_cycles_ →
      (check_limits env s).stage_ = s.stage_ ∧
      (check_limits env s).success_ = s.success_ ∧
      (check_limits env s).last_error_ = s.last_error_ ∧
      (check_limits env s).halted_reason_max_inst_ = s.halted_reason_max_inst_) := by
  unfold check_limits set_error
  by_cases hh : s.stage_ = ExecStage.kHalted
  · simp [hh]
  · by_cases hi : s.max_inst_ ≤ s.inst_count_
    · have hi' : ¬ s.inst_count_ < s.max_inst_ := by omega
      simp [hh, hi, hi']
    · have hi' : s.inst_count_ < s.max_inst_ := by omega
      by_cases hc : s.max_cycles_ ≤ toUInt64 s.sim_time
      · have hc' : ¬ toUInt64 s.sim_time < s.max_cycles_ := by omega
        simp [hh, hi, hi', hc, hc']
      · have hc' : toUInt64 s.sim_time < s.max_cycles_ := by omega
        simp only [ge_iff_le, if_neg hh, if_neg hi, if_neg hc]
        split_ifs <;> simp [hh, hi, hi', hc, hc']

theorem step_not_loaded (env : Env σ) (s : Sim σ) (axi_in : sc_axi4_in_t)
    (hl : s.image_loaded_ = false) :
    step env s axi_in =
      { ret := -1
        axi_out := {}
        status := fill_status
          (set_error (clear_error_if_running (clear_uart_event s)) "image not loaded")
        sim := set_error (clear_error_if_running (clear_uart_event s)) "image not loaded" } := by
  have h : (clear_error_if_running (clear_uart_event s)).image_loaded_ = false := by
    unfold clear_error_if_running clear_uart_event
    split_ifs <;> exact hl
  unfold step
  simp only [h, if_true]

theorem step_halted (env : Env σ) (s : Sim σ) (axi_in : sc_axi4_in_t)
    (hl : s.image_loaded_ = true) (hh : s.stage_ = ExecStage.kHalted) :
    step env s axi_in =
      { ret := if s.success_ = true then 1 else -1
        axi_out := fill_axi_outputs (clear_uart_event s)
        status := fill_status (clear_uart_event s)
        sim := clear_uart_event s } := by
  have h0 : clear_error_if_running (clear_uart_event s) = clear_uart_event s := by
    unfold clear_error_if_running
    have : (clear_uart_event s).stage_ = ExecStage.kHalted := hh
    simp [this]
  have h1 : (clear_uart_event s).image_loaded_ = true := hl
  have h2 : (clear_uart_event s).stage_ = ExecStage.kHalted := hh
  have h3 : (clear_uart_event s).success_ = s.success_ := rfl
  unfold step
  simp only [h0, h1, h2, h3, if_true, Bool.true_eq_false, if_false]

theorem step_running (env : Env σ) (s : Sim σ) (axi_in : sc_axi4_in_t)
    (hl : s.image_loaded_ = true) (hh : s.stage_ ≠ ExecStage.kHalted) :
    step env s axi_in =
      { ret :=
          if (check_limits env (after_stage_update env s axi_in)).stage_ = ExecStage.kHalted then
            (if (check_limits env (after_stage_update env s axi_in)).success_ = true then 1 else -1)
          else 0
        axi_out := (bus_phase env (clear_error_if_running (clear_uart_event s)) axi_in).2.2.1
        status := fill_status (check_limits env (after_stage_update env s axi_in))
        sim := check_limits env (after_stage_update env s axi_in) } := by
  have h1 : (clear_error_if_running (clear_uart_event s)).image_loaded_ = true := by
    unfold clear_error_if_running clear_uart_event
    split_ifs <;> exact hl
  have h2 : (clear_error_if_running (clear_uart_event s)).stage_ ≠ ExecStage.kHalted := by
    unfold clear_error_if_running clear_uart_event
    split_ifs <;> exact hh
  unfold step after_stage_update
  simp only [h1, h2, Bool.true_eq_false, if_false]

/-- The state on which the stage update of a running step works. -/
theorem stage_entry_frame (env : Env σ) (s : Sim σ) (axi_in : sc_axi4_in_t)
    (hh : s.stage_ ≠ ExecStage.kHalted) :
    ∃ ic a b m f d r w h u c, stage_entry env s axi_in =
      { s with
        interconnect_ := ic
        mmu_req_ready_ := a
        mmu_resp_valid_ := b
        p_memory := m
        fetch_req_ := { s.fetch_req_ with beats_seen := f }
        data_req_ := { s.data_req_ with beats_seen := d }
        mmu_req_ := { s.mmu_req_ with beats_seen := r }
        write_req_ := { s.write_req_ with beats_seen := w }
        mmu_hook_ := { s.mmu_hook_ with data := h }
        uart_valid_ := u
        uart_ch_ := c
        last_error_ := ""
        sim_time := s.sim_time + 1 } := by
  have h0 : clear_error_if_running (clear_uart_event s) =
      { s with uart_valid_ := false, uart_ch_ := 0, last_error_ := "" } := by
    unfold clear_error_if_running clear_uart_event
    rw [if_pos hh]
  obtain ⟨ic, a, b, m, f, d, r, w, h, u, c, e⟩ := bus_phase_frame env
    { s with uart_valid_ := false, uart_ch_ := 0, last_error_ := "" } axi_in
  refine ⟨ic, a, b, m, f, d, r, w, h, u, c, ?_⟩
  unfold stage_entry
  rw [h0, e]

/-- The stage update of a running step, read against the state before the step. -/
theorem after_stage_update_summary (env : Env σ) (s : Sim σ) (axi_in : sc_axi4_in_t)
    (hh : s.stage_ ≠ ExecStage.kHalted) :
    ((after_stage_update env s axi_in).sim_time = s.sim_time + 1 ∧
      (after_stage_update env s axi_in).image_loaded_ = s.image_loaded_ ∧
      (after_stage_update env s axi_in).max_inst_ = s.max_inst_ ∧
      (after_stage_update env s axi_in).max_cycles_ = s.max_cycles_ ∧
      (after_stage_update env s axi_in).last_error_ = "" ∧
      (after_stage_update env s axi_in).halted_reason_max_inst_ = s.halted_reason_max_inst_) ∧
    ((s.stage_ = ExecStage.kExecute ∧ retires env s axi_in →
        (after_stage_update env s axi_in).inst_count_ = (s.inst_count_ + 1) % 2 ^ 64) ∧
      (¬ (s.stage_ = ExecStage.kExecute ∧ retires env s axi_in) →
        (after_stage_update env s axi_in).inst_count_ = s.inst_count_)) ∧
    (((after_stage_update env s axi_in).stage_ = ExecStage.kHalted ↔
        (s.stage_ = ExecStage.kExecute ∧ retires env s axi_in ∧ s.inst_word_ = INST_EBREAK)) ∧
      ((after_stage_update env s axi_in).stage_ = ExecStage.kHalted →
        (after_stage_update env s axi_in).success_ = true)) ∧
    (SlotsMatchStage s →
      ((after_stage_update env s axi_in).stage_ ≠ ExecStage.kHalted →
        SlotsMatchStage (after_stage_update env s axi_in)) ∧
      (s.fetch_req_.active = true →
        (after_stage_update env s axi_in).fetch_req_.active = false ∨
        same_read_request s.fetch_req_ (after_stage_update env s axi_in).fetch_req_) ∧
      (s.data_req_.active = true →
        (after_stage_update env s axi_in).data_req_.active = false ∨
        same_read_request s.data_req_ (after_stage_update env s axi_in).data_req_) ∧
      (s.write_req_.active = true →
        (after_stage_update env s axi_in).write_req_.active = false ∨
        same_write_request s.write_req_ (after_stage_update env s axi_in).write_req_)) := by
  obtain ⟨ic, a, b, m, f, d, r, w, h, u, c, e⟩ := stage_entry_frame env s axi_in hh
  have hu := update_stage_summary env (stage_entry env s axi_in)
    (bus_phase env (clear_error_if_running (clear_uart_event s)) axi_in).1
    (bus_phase env (clear_error_if_running (clear_uart_event s)) axi_in).2.1
  have ha : after_stage_update env s axi_in =
      update_stage_after_cycle env (stage_entry env s axi_in)
        (bus_phase env (clear_error_if_running (clear_uart_event s)) axi_in).1
        (bus_phase env (clear_error_if_running (clear_uart_event s)) axi_in).2.1 := rfl
  rw [← ha] at hu
  have e1 : (stage_entry env s axi_in).stage_ = s.stage_ := by rw [e]
  have e2 : (stage_entry env s axi_in).sim_time = s.sim_time + 1 := by rw [e]
  have e3 : (stage_entry env s axi_in).image_loaded_ = s.image_loaded_ := by rw [e]
  have e4 : (stage_entry env s axi_in).max_inst_ = s.max_inst_ := by rw [e]
  have e5 : (stage_entry env s axi_in).max_cycles_ = s.max_cycles_ := by rw [e]
  have e6 : (stage_entry env s axi_in).last_error_ = "" := by rw [e]
  have e7 : (stage_entry env s axi_in).halted_reason_max_inst_ = s.halted_reason_max_inst_ := by
    rw [e]
  have e8 : (stage_entry env s axi_in).inst_count_ = s.inst_count_ := by rw [e]
  have e9 : (stage_entry env s axi_in).inst_word_ = s.inst_word_ := by rw [e]
  have f1 : (stage_entry env s axi_in).fetch_req_.active = s.fetch_req_.active := by rw [e]
  have f2 : (stage_entry env s axi_in).data_req_.active = s.data_req_.active := by rw [e]
  have f3 : (stage_entry env s axi_in).write_req_.active = s.write_req_.active := by rw [e]
  have f4 : (stage_entry env s axi_in).pre_req_ = s.pre_req_ := by rw [e]
  have g1 : ∀ x, same_read_request (stage_entry env s axi_in).fetch_req_ x ↔
      same_read_request s.fetch_req_ x := by
    intro x; rw [e]; exact Iff.rfl
  have g2 : ∀ x, same_read_request (stage_entry env s axi_in).data_req_ x ↔
      same_read_request s.data_req_ x := by
    intro x; rw [e]; exact Iff.rfl
  have g3 : ∀ x, same_write_request (stage_entry env s axi_in).write_req_ x ↔
      same_write_request s.write_req_ x := by
    intro x; rw [e]; exact Iff.rfl
  have hsm : SlotsMatchStage (stage_entry env s axi_in) ↔ SlotsMatchStage s := by
    unfold SlotsMatchStage
    rw [e1, f1, f2, f3, f4]
  have hret : retires env s axi_in ↔
      (exec_call env (update_mmu_request_state (stage_entry env s axi_in))).cpu_core_.translation_pending
        = false := Iff.rfl
  obtain ⟨⟨p1, p2, p3, p4, p5, p6, _, _⟩, q, hq, hs⟩ := hu
  rw [e1] at hq
  obtain ⟨hq1, hq2⟩ := hq hh
  refine ⟨⟨by rw [p1, e2], by rw [p2, e3], by rw [p3, e4], by rw [p4, e5], by rw [p5, e6],
    by rw [p6, e7]⟩, ⟨?_, ?_⟩, ⟨?_, hq2⟩, ?_⟩
  · intro hc
    rw [q, e1, e8, if_pos ⟨hc.1, hret.mp hc.2⟩]
  · intro hc
    rw [q, e1, e8, if_neg (fun x => hc ⟨x.1, hret.mpr x.2⟩)]
  · rw [hq1, e9, hret]
  · intro hm
    obtain ⟨s1, s2, s3, s4⟩ := hs (hsm.mpr hm) (by rw [e1]; exact hh)
    refine ⟨s1, ?_, ?_, ?_⟩
    · intro hf
      rcases s2 (by rw [f1]; exact hf) with x | x
      · exact Or.inl x
      · exact Or.inr ((g1 _).mp x)
    · intro hf
      rcases s3 (by rw [f2]; exact hf) with x | x
      · exact Or.inl x
      · exact Or.inr ((g2 _).mp x)
    · intro hf
      rcases s4 (by rw [f3]; exact hf) with x | x
      · exact Or.inl x
      · exact Or.inr ((g3 _).mp x)

/-! ## Invariants of the driver API -/

theorem apiInv_reset_machine_state (env : Env σ) (s : Sim σ) (h : s.max_inst_ < 2 ^ 64) :
    ApiInv (reset_machine_state env s) := by
  have h' : s.max_inst_ < 18446744073709551616 := h
  unfold ApiInv reset_machine_state SlotsMatchStage
  simp [h']

theorem apiInv_create (env : Env σ) (sim_time : Int) (p_memory alloc : Option Mem) :
    ApiInv (create env sim_time p_memory alloc) := by
  have hm : env.MAX_COMMIT_INST % 2 ^ 64 < 2 ^ 64 := Nat.mod_lt _ (by decide)
  have hm' : env.MAX_COMMIT_INST % 18446744073709551616 < 18446744073709551616 := hm
  unfold create init_runtime
  simp only []
  split_ifs <;>
    first
      | exact apiInv_reset_machine_state env _ hm
      | (unfold ApiInv members_default; simp [hm', set_error])

theorem apiInv_load_image (env : Env σ) (s : Sim σ) (image_path : Option String)
    (file : ImageFile) (h : ApiInv s) : ApiInv (load_image env s image_path file).2.2 := by
  unfold load_image
  cases image_path with
  | none => exact h
  | some path =>
    cases hm : s.p_memory with
    | none => simp only [hm]; exact h
    | some mem =>
      simp only [hm]
      split_ifs
      · exact h
      · exact h
      · exact apiInv_reset_machine_state env _ h.1

theorem apiInv_set_limits (s : Sim σ) (max_inst max_cycles : Nat) (h : ApiInv s) :
    ApiInv (set_limits s max_inst max_cycles) := by
  have hm : max_inst % 2 ^ 64 < 2 ^ 64 := Nat.mod_lt _ (by decide)
  exact ⟨hm, h.2.1, h.2.2⟩

theorem apiInv_step (env : Env σ) (s : Sim σ) (axi_in : sc_axi4_in_t) (h : ApiInv s) :
    ApiInv (step env s axi_in).sim := by
  by_cases hl : s.image_loaded_ = true
  · by_cases hh : s.stage_ = ExecStage.kHalted
    · rw [step_halted env s axi_in hl hh]
      exact h
    · rw [step_running env s axi_in hl hh]
      simp only []
      obtain ⟨⟨_, _, a3, _, _, _⟩, _, _, a7⟩ := after_stage_update_summary env s axi_in hh
      obtain ⟨⟨_, c2, _, c4, _, c6, c7, c8, _, c10, _, _⟩, c13, c14, c15, c16⟩ :=
        check_limits_summary env (after_stage_update env s axi_in)
      have hmax : (check_limits env (after_stage_update env s axi_in)).max_inst_ < 2 ^ 64 := by
        rw [c4, a3]; exact h.1
      have key : (check_limits env (after_stage_update env s axi_in)).stage_ ≠ ExecStage.kHalted →
          (check_limits env (after_stage_update env s axi_in)).stage_ =
            (after_stage_update env s axi_in).stage_ ∧
          (after_stage_update env s axi_in).inst_count_ < (after_stage_update env s axi_in).max_inst_ := by
        intro hne
        have h1 : (after_stage_update env s axi_in).stage_ ≠ ExecStage.kHalted := by
          intro hx
          rw [c13 hx] at hne
          exact hne hx
        by_cases hi : (after_stage_update env s axi_in).max_inst_ ≤
            (after_stage_update env s axi_in).inst_count_
        · exact absurd (c14 h1 hi).1 hne
        · have hi' : (after_stage_update env s axi_in).inst_count_ <
              (after_stage_update env s axi_in).max_inst_ := by omega
          by_cases hc : (after_stage_update env s axi_in).max_cycles_ ≤
              toUInt64 (after_stage_update env s axi_in).sim_time
          · exact absurd (c15 h1 hi' hc).1 hne
          · exact ⟨(c16 h1 hi' (by omega)).1, hi'⟩
      refine ⟨hmax, ?_, ?_⟩
      · intro he
        have hne : (check_limits env (after_stage_update env s axi_in)).stage_ ≠
            ExecStage.kHalted := by rw [he]; decide
        have := (key hne).2
        rw [c2]
        rw [a3] at this
        have := h.1
        omega
      · intro hne
        obtain ⟨k1, _⟩ := key hne
        have h1 : (after_stage_update env s axi_in).stage_ ≠ ExecStage.kHalted := by
          rw [← k1]; exact hne
        have hs := (a7 (h.2.2 hh)).1 h1
        unfold SlotsMatchStage at hs ⊢
        rw [c6, c7, c8, c10, k1]
        exact hs
  · have hl' : s.image_loaded_ = false := by simpa using hl
    rw [step_not_loaded env s axi_in hl']
    unfold set_error clear_error_if_running clear_uart_event
    split_ifs <;> exact h

/-- Every state the driver API can produce satisfies `ApiInv`. -/
theorem reachable_apiInv (env : Env σ) (s : Sim σ) (h : Reachable env s) : ApiInv s := by
  induction h with
  | create sim_time p_memory alloc => exact apiInv_create env sim_time p_memory alloc
  | load_image s image_path file _ ih => exact apiInv_load_image env s image_path file ih
  | set_limits s max_inst max_cycles _ ih => exact apiInv_set_limits s max_inst max_cycles ih
  | step s axi_in _ ih => exact apiInv_step env s axi_in ih

/-! ## Time, return value and limits -/

/-- C2: a `step` made with an image loaded and the stage not `kHalted` on entry
leaves `sim_time` exactly one higher, whether or not the step itself ends in
`kHalted`; a `step` made with the stage already `kHalted` leaves `sim_time` as it
was. -/
theorem step_sim_time (env : Env σ) (s : Sim σ) (axi_in : sc_axi4_in_t) :
    (s.image_loaded_ = true → s.stage_ ≠ ExecStage.kHalted →
      (step env s axi_in).sim.sim_time = s.sim_time + 1) ∧
    (s.stage_ = ExecStage.kHalted → (step env s axi_in).sim.sim_time = s.sim_time) := by
  constructor
  · intro hl hh
    rw [step_running env s axi_in hl hh]
    simp only []
    rw [(check_limits_summary env _).1.1, (after_stage_update_summary env s axi_in hh).1.1]
  · intro hh
    by_cases hl : s.image_loaded_ = true
    · rw [step_halted env s axi_in hl hh]
      rfl
    · rw [step_not_loaded env s axi_in (by simpa using hl)]
      unfold set_error clear_error_if_running clear_uart_event
      split_ifs <;> rfl

set_option maxRecDepth 100000 in
/-- C2 at a loaded simulator in `kPrepareFetch` with `max_cycles = 1`, whose first
step halts: `sim_time` goes from 0 to 1, and stays 1 in the next step. -/
theorem step_sim_time_witness :
    ((demo_loaded 5 1).image_loaded_ = true → (demo_loaded 5 1).stage_ ≠ ExecStage.kHalted →
      (step demo_env (demo_loaded 5 1) demo_idle).sim.sim_time = (demo_loaded 5 1).sim_time + 1) ∧
    (step demo_env (demo_loaded 5 1) demo_idle).sim.stage_ = ExecStage.kHalted ∧
    (step demo_env (step demo_env (demo_loaded 5 1) demo_idle).sim demo_idle).sim.sim_time = 1 :=
  ⟨(step_sim_time demo_env (demo_loaded 5 1) demo_idle).1, by decide, by decide⟩

/-- C3: in a state with an image loaded whose stage is `kHalted`, `step` returns
`+1` if `success_` is set and `-1` otherwise; only the UART event is cleared, so
the stage, `success_`, `sim_time`, `inst_count_`, the last error and the four
request states stay as they are; a second `step` gives the same state and the
same return value as the first. -/
theorem step_halted_idempotent (env : Env σ) (s : Sim σ) (axi_in axi_in2 : sc_axi4_in_t)
    (hl : s.image_loaded_ = true) (hh : s.stage_ = ExecStage.kHalted) :
    (step env s axi_in).ret = (if s.success_ = true then 1 else -1) ∧
    (step env s axi_in).sim = { s with uart_valid_ := false, uart_ch_ := 0 } ∧
    (step env s axi_in).sim.stage_ = s.stage_ ∧
    (step env s axi_in).sim.success_ = s.success_ ∧
    (step env s axi_in).sim.sim_time = s.sim_time ∧
    (step env s axi_in).sim.inst_count_ = s.inst_count_ ∧
    (step env s axi_in).sim.last_error_ = s.last_error_ ∧
    (step env s axi_in).sim.fetch_req_ = s.fetch_req_ ∧
    (step env s axi_in).sim.data_req_ = s.data_req_ ∧
    (step env s axi_in).sim.mmu_req_ = s.mmu_req_ ∧
    (step env s axi_in).sim.write_req_ = s.write_req_ ∧
    (step env (step env s axi_in).sim axi_in2).sim = (step env s axi_in).sim ∧
    (step env (step env s axi_in).sim axi_in2).ret = (step env s axi_in).ret := by
  have e := step_halted env s axi_in hl hh
  have e2 := step_halted env (clear_uart_event s) axi_in2 hl hh
  rw [e]
  simp only []
  rw [e2]
  simp [clear_uart_event]

set_option maxRecDepth 100000 in
/-- C3 at the state a loaded simulator halts in when `max_inst = 0`. -/
theorem step_halted_idempotent_witness :
    (step demo_env (step demo_env (demo_loaded 0 9) demo_idle).sim demo_in).ret = 1 ∧
    (step demo_env (step demo_env (step demo_env (demo_loaded 0 9) demo_idle).sim demo_in).sim
      demo_idle).ret = 1 :=
  have h := step_halted_idempotent demo_env (step demo_env (demo_loaded 0 9) demo_idle).sim
    demo_in demo_idle (by decide) (by decide)
  ⟨h.1.trans (by decide), h.2.2.2.2.2.2.2.2.2.2.2.2.trans (h.1.trans (by decide))⟩

/-- C4, as stated, fails without an image: on a freshly constructed simulator
`step` returns `-1` while the status reports `halted = 0`, so a negative return
value does not go with `halted = 1`. -/
theorem step_ret_status_unloaded :
    (step demo_env demo_fresh demo_idle).ret = -1 ∧
    (step demo_env demo_fresh demo_idle).status.halted = 0 ∧
    ¬ ((step demo_env demo_fresh demo_idle).ret < 0 ↔
      ((step demo_env demo_fresh demo_idle).status.halted = 1 ∧
        (step demo_env demo_fresh demo_idle).status.success = 0)) := by
  decide

/-- C4 (amended): for every `step` call made with an image loaded, the return
value is 0 exactly when the status reports `halted = 0`, positive exactly when it
reports `halted = 1` with `success = 1`, and negative exactly when it reports
`halted = 1` with `success = 0`. -/
theorem step_ret_status (env : Env σ) (s : Sim σ) (axi_in : sc_axi4_in_t)
    (hl : s.image_loaded_ = true) :
    ((step env s axi_in).ret = 0 ↔ (step env s axi_in).status.halted = 0) ∧
    (0 < (step env s axi_in).ret ↔
      ((step env s axi_in).status.halted = 1 ∧ (step env s axi_in).status.success = 1)) ∧
    ((step env s axi_in).ret < 0 ↔
      ((step env s axi_in).status.halted = 1 ∧ (step env s axi_in).status.success = 0)) := by
  by_cases hh : s.stage_ = ExecStage.kHalted
  · rw [step_halted env s axi_in hl hh]
    have h2 : (clear_uart_event s).stage_ = ExecStage.kHalted := hh
    have h3 : (clear_uart_event s).success_ = s.success_ := rfl
    unfold fill_status
    simp only [h2, h3]
    cases s.success_ <;> simp
  · rw [step_running env s axi_in hl hh]
    unfold fill_status
    simp only []
    by_cases h2 : (check_limits env (after_stage_update env s axi_in)).stage_ = ExecStage.kHalted
    · cases h3 : (check_limits env (after_stage_update env s axi_in)).success_ <;> simp [h2, h3]
    · simp [h2]

set_option maxRecDepth 100000 in
/-- C4 (amended) at a loaded simulator whose first step runs into `max_cycles = 1`. -/
theorem step_ret_status_witness :
    (demo_loaded 5 1).image_loaded_ = true ∧
    (step demo_env (demo_loaded 5 1) demo_idle).ret < 0 ∧
    (step demo_env (demo_loaded 5 1) demo_idle).status.halted = 1 ∧
    (step demo_env (demo_loaded 5 1) demo_idle).status.success = 0 :=
  have h := step_ret_status demo_env (demo_loaded 5 1) demo_idle (by decide)
  ⟨by decide, by decide, (h.2.2.mp (by decide)).1, (h.2.2.mp (by decide)).2⟩

/-- C5: along the driver API, a `step` leaves `inst_count_` as it was or exactly
one higher; it is one higher exactly when the step starts in `kExecute` with an
image loaded and `translation_pending` is clear after `exec()`. -/
theorem step_inst_count (env : Env σ) (s : Sim σ) (axi_in : sc_axi4_in_t)
    (hr : Reachable env s) :
    ((s.image_loaded_ = true ∧ s.stage_ = ExecStage.kExecute ∧ retires env s axi_in) →
      (step env s axi_in).sim.inst_count_ = s.inst_count_ + 1) ∧
    (¬ (s.image_loaded_ = true ∧ s.stage_ = ExecStage.kExecute ∧ retires env s axi_in) →
      (step env s axi_in).sim.inst_count_ = s.inst_count_) := by
  have hinv := reachable_apiInv env s hr
  by_cases hl : s.image_loaded_ = true
  · by_cases hh : s.stage_ = ExecStage.kHalted
    · rw [step_halted env s axi_in hl hh]
      constructor
      · intro hc
        rw [hh] at hc
        exact absurd hc.2.1 (by decide)
      · intro _
        rfl
    · rw [step_running env s axi_in hl hh]
      simp only []
      rw [(check_limits_summary env _).1.2.1]
      obtain ⟨_, ⟨b1, b2⟩, _, _⟩ := after_stage_update_summary env s axi_in hh
      constructor
      · intro hc
        rw [b1 hc.2]
        exact Nat.mod_eq_of_lt (hinv.2.1 hc.2.1)
      · intro hc
        exact b2 (fun x => hc ⟨hl, x⟩)
  · rw [step_not_loaded env s axi_in (by simpa using hl)]
    constructor
    · intro hc
      exact absurd hc.1 hl
    · intro _
      unfold set_error clear_error_if_running clear_uart_event
      split_ifs <;> rfl

set_option maxRecDepth 100000 in
/-- C5 at the fourth step of a loaded simulator, which starts in `kExecute` and
retires the first instruction of the boot stub. -/
theorem step_inst_count_witness :
    (run demo_env (demo_loaded 5 100) [demo_in, demo_in, demo_in]).stage_ = ExecStage.kExecute ∧
    (run demo_env (demo_loaded 5 100) [demo_in, demo_in, demo_in]).inst_count_ = 0 ∧
    (step demo_env (run demo_env (demo_loaded 5 100) [demo_in, demo_in, demo_in])
      demo_in).sim.inst_count_ = 1 :=
  have hr : Reachable demo_env (run demo_env (demo_loaded 5 100) [demo_in, demo_in, demo_in]) :=
    Reachable.step _ _ (Reachable.step _ _ (Reachable.step _ _
      (Reachable.load_image _ _ _ (Reachable.set_limits _ _ _ (Reachable.create 0 none _)))))
  have h := step_inst_count demo_env
    (run demo_env (demo_loaded 5 100) [demo_in, demo_in, demo_in]) demo_in hr
  ⟨by decide, by decide, (h.1 ⟨by decide, by decide, by unfold retires; decide⟩).trans (by decide)⟩

/-- C6: in a step that starts with an image loaded and the stage not `kHalted`,
if `inst_count_ >= max_inst_` holds after the stage update, the step ends in
`kHalted` with `success_` set, returns `+1` and records no error; nothing is
assumed about the cycle limit, so this is also the outcome when
`sim_time >= max_cycles_` holds in the same step. -/
theorem step_max_inst (env : Env σ) (s : Sim σ) (axi_in : sc_axi4_in_t)
    (hl : s.image_loaded_ = true) (hh : s.stage_ ≠ ExecStage.kHalted)
    (hi : s.max_inst_ ≤ (after_stage_update env s axi_in).inst_count_) :
    (step env s axi_in).sim.stage_ = ExecStage.kHalted ∧
    (step env s axi_in).sim.success_ = true ∧
    (step env s axi_in).ret = 1 ∧
    (step env s axi_in).sim.last_error_ = "" ∧
    (step env s axi_in).status.halted = 1 ∧
    (step env s axi_in).status.success = 1 := by
  obtain ⟨⟨_, _, a3, _, a5, _⟩, _, ⟨_, a9⟩, _⟩ := after_stage_update_summary env s axi_in hh
  obtain ⟨_, c13, c14, _, _⟩ := check_limits_summary env (after_stage_update env s axi_in)
  have key : (check_limits env (after_stage_update env s axi_in)).stage_ = ExecStage.kHalted ∧
      (check_limits env (after_stage_update env s axi_in)).success_ = true ∧
      (check_limits env (after_stage_update env s axi_in)).last_error_ = "" := by
    by_cases hx : (after_stage_update env s axi_in).stage_ = ExecStage.kHalted
    · rw [c13 hx]
      exact ⟨hx, a9 hx, a5⟩
    · obtain ⟨k1, k2, k3, _⟩ := c14 hx (by rw [a3]; exact hi)
      exact ⟨k1, k2, by rw [k3, a5]⟩
  rw [step_running env s axi_in hl hh]
  unfold fill_status
  simp [key.1, key.2.1, key.2.2]

set_option maxRecDepth 100000 in
/-- C6 at a loaded simulator with `max_inst = 0` and `max_cycles = 0`: both limits
are reached in the first step, and it halts with success. -/
theorem step_max_inst_witness :
    (demo_loaded 0 0).max_cycles_ ≤ toUInt64 ((demo_loaded 0 0).sim_time + 1) ∧
    (step demo_env (demo_loaded 0 0) demo_idle).sim.stage_ = ExecStage.kHalted ∧
    (step demo_env (demo_loaded 0 0) demo_idle).sim.success_ = true ∧
    (step demo_env (demo_loaded 0 0) demo_idle).ret = 1 ∧
    (step demo_env (demo_loaded 0 0) demo_idle).sim.last_error_ = "" :=
  have h := step_max_inst demo_env (demo_loaded 0 0) demo_idle (by decide) (by decide)
    (by decide)
  ⟨by decide, h.1, h.2.1, h.2.2.1, h.2.2.2.1⟩

/-- Reading a `sim_time` in the range of `uint64_t` as `uint64_t` does not change it. -/
theorem toUInt64_of_nonneg (i : Int) (h0 : 0 ≤ i) (h1 : i < 2 ^ 64) : (toUInt64 i : Int) = i := by
  unfold toUInt64
  rw [Int.emod_eq_of_lt h0 h1]
  exact Int.toNat_of_nonneg h0

/-- C8: in a step that starts with an image loaded and the stage not `kHalted`,
does not retire EBREAK and ends with `inst_count_ < max_inst_`: if `sim_time`
after its increment (read as `uint64_t`, as the code compares it) is at least
`max_cycles_`, the step ends in `kHalted` with `success_` clear, the error
`"max_cycles reached"` and return value `-1`; otherwise it does not halt and
returns 0. -/
theorem step_max_cycles (env : Env σ) (s : Sim σ) (axi_in : sc_axi4_in_t)
    (hl : s.image_loaded_ = true) (hh : s.stage_ ≠ ExecStage.kHalted)
    (hb : ¬ (s.stage_ = ExecStage.kExecute ∧ retires env s axi_in ∧ s.inst_word_ = INST_EBREAK))
    (hi : (after_stage_update env s axi_in).inst_count_ < s.max_inst_) :
    (s.max_cycles_ ≤ toUInt64 (s.sim_time + 1) →
      (step env s axi_in).sim.stage_ = ExecStage.kHalted ∧
      (step env s axi_in).sim.success_ = false ∧
      (step env s axi_in).sim.last_error_ = "max_cycles reached" ∧
      (step env s axi_in).ret = -1) ∧
    (toUInt64 (s.sim_time + 1) < s.max_cycles_ →
      (step env s axi_in).sim.stage_ ≠ ExecStage.kHalted ∧
      (step env s axi_in).ret = 0) := by
  obtain ⟨⟨a1, _, a3, a4, _, _⟩, _, ⟨a8, _⟩, _⟩ := after_stage_update_summary env s axi_in hh
  obtain ⟨_, _, _, c15, c16⟩ := check_limits_summary env (after_stage_update env s axi_in)
  have hx : (after_stage_update env s axi_in).stage_ ≠ ExecStage.kHalted :=
    fun x => hb (a8.mp x)
  rw [step_running env s axi_in hl hh]
  constructor
  · intro hc
    obtain ⟨k1, k2, k3, _⟩ := c15 hx (by rw [a3]; exact hi) (by rw [a1, a4]; exact hc)
    simp [k1, k2, k3]
  · intro hc
    obtain ⟨k1, _⟩ := c16 hx (by rw [a3]; exact hi) (by rw [a1, a4]; exact hc)
    have k1' : (check_limits env (after_stage_update env s axi_in)).stage_ ≠ ExecStage.kHalted := by
      rw [k1]; exact hx
    simp [k1']

set_option maxRecDepth 100000 in
/-- C8 at a loaded simulator with `max_cycles = 1` (the first step halts with the
error) and with `max_cycles = 100` (the first step goes on). -/
theorem step_max_cycles_witness :
    ((step demo_env (demo_loaded 5 1) demo_idle).sim.stage_ = ExecStage.kHalted ∧
      (step demo_env (demo_loaded 5 1) demo_idle).sim.success_ = false ∧
      (step demo_env (demo_loaded 5 1) demo_idle).sim.last_error_ = "max_cycles reached" ∧
      (step demo_env (demo_loaded 5 1) demo_idle).ret = -1) ∧
    ((step demo_env (demo_loaded 5 100) demo_idle).sim.stage_ ≠ ExecStage.kHalted ∧
      (step demo_env (demo_loaded 5 100) demo_idle).ret = 0) :=
  ⟨(step_max_cycles demo_env (demo_loaded 5 1) demo_idle (by decide) (by decide)
      (by intro h; exact absurd h.1 (by decide)) (by decide)).1 (by decide),
    (step_max_cycles demo_env (demo_loaded 5 100) demo_idle (by decide) (by decide)
      (by intro h; exact absurd h.1 (by decide)) (by decide)).2 (by decide)⟩

/-! ## Runs from a loaded image -/

theorem runInv_load_image (env : Env σ) (s : Sim σ) (image_path : Option String)
    (file : ImageFile) (hok : (load_image env s image_path file).1 = 0) :
    RunInv (load_image env s image_path file).2.2 ∧
    (load_image env s image_path file).2.2.max_inst_ = s.max_inst_ := by
  unfold load_image at hok ⊢
  cases image_path with
  | none => simp at hok
  | some path =>
    cases hm : s.p_memory with
    | none => simp [hm] at hok
    | some mem =>
      simp only [hm] at hok ⊢
      split_ifs at hok ⊢
      · simp at hok
      · simp at hok
      · unfold RunInv reset_machine_state
        simp

theorem runInv_step (env : Env σ) (s : Sim σ) (axi_in : sc_axi4_in_t) (h : RunInv s) :
    RunInv (step env s axi_in).sim ∧ (step env s axi_in).sim.max_inst_ = s.max_inst_ := by
  obtain ⟨hl, h1, h2, h3⟩ := h
  by_cases hh : s.stage_ = ExecStage.kHalted
  · rw [step_halted env s axi_in hl hh]
    exact ⟨⟨hl, h1, h2, h3⟩, rfl⟩
  · rw [step_running env s axi_in hl hh]
    simp only []
    obtain ⟨⟨_, a2, a3, _, _, a6⟩, ⟨b1, b2⟩, ⟨_, a9⟩, _⟩ :=
      after_stage_update_summary env s axi_in hh
    obtain ⟨⟨_, c2, c3, c4, _⟩, c13, c14, c15, c16⟩ :=
      check_limits_summary env (after_stage_update env s axi_in)
    have hfalse : s.halted_reason_max_inst_ = false := by
      cases hx : s.halted_reason_max_inst_
      · rfl
      · exact absurd (h3 hx).1 hh
    have hle : (after_stage_update env s axi_in).inst_count_ ≤ s.max_inst_ := by
      by_cases hc : s.stage_ = ExecStage.kExecute ∧ retires env s axi_in
      · rw [b1 hc]
        have := h2 hc.1
        have := Nat.mod_le (s.inst_count_ + 1) (2 ^ 64)
        omega
      · rw [b2 hc]
        exact h1
    refine ⟨⟨by rw [c3, a2]; exact hl, by rw [c2, c4, a3]; exact hle, ?_, ?_⟩, by rw [c4, a3]⟩
    · intro he
      have hx : (after_stage_update env s axi_in).stage_ ≠ ExecStage.kHalted := by
        intro hx
        rw [c13 hx, hx] at he
        exact absurd he (by decide)
      rw [c2, c4]
      by_cases hi : (after_stage_update env s axi_in).max_inst_ ≤
          (after_stage_update env s axi_in).inst_count_
      · rw [(c14 hx hi).1] at he
        exact absurd he (by decide)
      · omega
    · intro hr
      by_cases hx : (after_stage_update env s axi_in).stage_ = ExecStage.kHalted
      · rw [c13 hx, a6, hfalse] at hr
        exact absurd hr (by decide)
      · by_cases hi : (after_stage_update env s axi_in).max_inst_ ≤
            (after_stage_update env s axi_in).inst_count_
        · obtain ⟨k1, k2, _, _⟩ := c14 hx hi
          refine ⟨k1, k2, ?_⟩
          rw [c2, c4]
          rw [a3] at hi ⊢
          omega
        · have hi' : (after_stage_update env s axi_in).inst_count_ <
              (after_stage_update env s axi_in).max_inst_ := by omega
          by_cases hc : (after_stage_update env s axi_in).max_cycles_ ≤
              toUInt64 (after_stage_update env s axi_in).sim_time
          · rw [(c15 hx hi' hc).2.2.2, a6, hfalse] at hr
            exact absurd hr (by decide)
          · rw [(c16 hx hi' (by omega)).2.2.2, a6, hfalse] at hr
            exact absurd hr (by decide)

theorem runInv_run (env : Env σ) (inputs : List sc_axi4_in_t) (s : Sim σ) (h : RunInv s) :
    RunInv (run env s inputs) ∧ (run env s inputs).max_inst_ = s.max_inst_ := by
  induction inputs generalizing s with
  | nil => exact ⟨h, rfl⟩
  | cons axi_in rest ih =>
    obtain ⟨k1, k2⟩ := runInv_step env s axi_in h
    obtain ⟨r1, r2⟩ := ih (step env s axi_in).sim k1
    exact ⟨r1, r2.trans k2⟩

/-- C7: on a run of steps from the state a successful `load_image` leaves, with
the limits as they were at that time, `inst_count_ <= max_inst_` holds after every
step, and when the machine has halted on the instruction limit it has done so with
success and `inst_count_` equal to `max_inst_`. -/
theorem run_inst_count_le_max_inst (env : Env σ) (s : Sim σ) (image_path : Option String)
    (file : ImageFile) (inputs : List sc_axi4_in_t)
    (hok : (load_image env s image_path file).1 = 0) :
    (run env (load_image env s image_path file).2.2 inputs).max_inst_ = s.max_inst_ ∧
    (run env (load_image env s image_path file).2.2 inputs).inst_count_ ≤ s.max_inst_ ∧
    ((run env (load_image env s image_path file).2.2 inputs).halted_reason_max_inst_ = true →
      (run env (load_image env s image_path file).2.2 inputs).stage_ = ExecStage.kHalted ∧
      (run env (load_image env s image_path file).2.2 inputs).success_ = true ∧
      (fill_status (run env (load_image env s image_path file).2.2 inputs)).success = 1 ∧
      (run env (load_image env s image_path file).2.2 inputs).inst_count_ = s.max_inst_) := by
  obtain ⟨l1, l2⟩ := runInv_load_image env s image_path file hok
  obtain ⟨⟨_, r2, _, r4⟩, r5⟩ := runInv_run env inputs _ l1
  have hm : (run env (load_image env s image_path file).2.2 inputs).max_inst_ = s.max_inst_ :=
    r5.trans l2
  refine ⟨hm, by rw [← hm]; exact r2, ?_⟩
  intro hr
  obtain ⟨k1, k2, k3⟩ := r4 hr
  refine ⟨k1, k2, ?_, by rw [← hm]; exact k3⟩
  unfold fill_status
  simp [k2]

set_option maxRecDepth 100000 in
/-- C7 at a run with `max_inst = 1`: the fourth step retires the first instruction
and the machine halts on the instruction limit with `inst_count_ = 1`. -/
theorem run_inst_count_le_max_inst_witness :
    (run demo_env (demo_loaded 1 100) [demo_in, demo_in, demo_in, demo_in]).halted_reason_max_inst_
      = true ∧
    (run demo_env (demo_loaded 1 100) [demo_in, demo_in, demo_in, demo_in]).success_ = true ∧
    (run demo_env (demo_loaded 1 100) [demo_in, demo_in, demo_in, demo_in]).inst_count_ = 1 :=
  have h := run_inst_count_le_max_inst demo_env (set_limits demo_fresh 1 100) (some "image.bin")
    demo_file [demo_in, demo_in, demo_in, demo_in] (by decide)
  ⟨by decide, (h.2.2 (by decide)).2.1, (h.2.2 (by decide)).2.2.2⟩

/-! ## Request slots -/

set_option maxRecDepth 100000 in
/-- C9, as stated, fails in a halted state: a loaded simulator with
`max_cycles = 1` arms the fetch request in its first step and halts on the cycle
limit in the same step; the state is reachable, the fetch slot is active, and the
status reports `wait_axi = 0`. -/
theorem wait_axi_halted_with_active_fetch :
    Reachable demo_env (step demo_env (demo_loaded 5 1) demo_idle).sim ∧
    (step demo_env (demo_loaded 5 1) demo_idle).sim.image_loaded_ = true ∧
    (step demo_env (demo_loaded 5 1) demo_idle).sim.fetch_req_.active = true ∧
    (step demo_env (demo_loaded 5 1) demo_idle).status.wait_axi = 0 ∧
    (fill_status (step demo_env (demo_loaded 5 1) demo_idle).sim).wait_axi = 0 :=
  ⟨Reachable.step _ _ (Reachable.load_image _ _ _
      (Reachable.set_limits _ _ _ (Reachable.create 0 none _))),
    by decide, by decide, by decide, by decide⟩

/-- C9 (amended): in every state the driver API can produce whose stage is not
`kHalted`, the status field `wait_axi` is 1 exactly when at least one of the four
request slots (fetch, data-load, MMU, write) is active; in a `kHalted` state it is
1 exactly when the MMU request is active. -/
theorem wait_axi_iff_slot_active (env : Env σ) (s : Sim σ) (hr : Reachable env s) :
    (s.stage_ ≠ ExecStage.kHalted →
      ((fill_status s).wait_axi = 1 ↔
        (s.fetch_req_.active = true ∨ s.data_req_.active = true ∨ s.mmu_req_.active = true ∨
          s.write_req_.active = true))) ∧
    (s.stage_ = ExecStage.kHalted →
      ((fill_status s).wait_axi = 1 ↔ s.mmu_req_.active = true)) := by
  have hinv := reachable_apiInv env s hr
  constructor
  · intro hh
    obtain ⟨m1, m2, m3⟩ := hinv.2.2 hh
    unfold fill_status
    simp only []
    rw [m1, m2, m3]
    cases hst : s.stage_ <;> cases hrd : s.pre_req_.is_read <;> cases hm : s.mmu_req_.active <;>
      simp
  · intro hh
    unfold fill_status
    simp [hh]

set_option maxRecDepth 100000 in
/-- C9 (amended) at a loaded simulator after its first step, which waits for the
fetch: `wait_axi = 1` and the fetch slot is active. -/
theorem wait_axi_iff_slot_active_witness :
    (step demo_env (demo_loaded 5 100) demo_idle).sim.stage_ = ExecStage.kWaitFetch ∧
    (fill_status (step demo_env (demo_loaded 5 100) demo_idle).sim).wait_axi = 1 ∧
    ((step demo_env (demo_loaded 5 100) demo_idle).sim.fetch_req_.active = true ∨
      (step demo_env (demo_loaded 5 100) demo_idle).sim.data_req_.active = true ∨
      (step demo_env (demo_loaded 5 100) demo_idle).sim.mmu_req_.active = true ∨
      (step demo_env (demo_loaded 5 100) demo_idle).sim.write_req_.active = true) :=
  have hr : Reachable demo_env (step demo_env (demo_loaded 5 100) demo_idle).sim :=
    Reachable.step _ _ (Reachable.load_image _ _ _
      (Reachable.set_limits _ _ _ (Reachable.create 0 none _)))
  have h := (wait_axi_iff_slot_active demo_env _ hr).1 (by decide)
  ⟨by decide, by decide, h.mp (by decide)⟩

/-- C10: along the driver API, a fetch, data-load or write request that is active
before a `step` is afterwards either inactive or still the same request (`master`,
`id`, `addr`, `total_size`, and for the write request `wdata` and `wstrb`); and a
slot is inactive in every stage whose update arms it with `setup_read` or
`setup_write`: the fetch slot in `kPrepareFetch`, the data-load and write slots in
`kPrepareData`, the write slot in `kExecute`. -/
theorem active_request_stable (env : Env σ) (s : Sim σ) (axi_in : sc_axi4_in_t)
    (hr : Reachable env s) :
    (s.fetch_req_.active = true →
      (step env s axi_in).sim.fetch_req_.active = false ∨
      ((step env s axi_in).sim.fetch_req_.active = true ∧
        same_read_request s.fetch_req_ (step env s axi_in).sim.fetch_req_)) ∧
    (s.data_req_.active = true →
      (step env s axi_in).sim.data_req_.active = false ∨
      ((step env s axi_in).sim.data_req_.active = true ∧
        same_read_request s.data_req_ (step env s axi_in).sim.data_req_)) ∧
    (s.write_req_.active = true →
      (step env s axi_in).sim.write_req_.active = false ∨
      ((step env s axi_in).sim.write_req_.active = true ∧
        same_write_request s.write_req_ (step env s axi_in).sim.write_req_)) ∧
    (s.stage_ = ExecStage.kPrepareFetch → s.fetch_req_.active = false) ∧
    (s.stage_ = ExecStage.kPrepareData →
      s.data_req_.active = false ∧ s.write_req_.active = false) ∧
    (s.stage_ = ExecStage.kExecute → s.write_req_.active = false) := by
  have hinv := reachable_apiInv env s hr
  have hbool : ∀ b : Bool, b = false ∨ b = true := fun b => by cases b <;> simp
  have same : (step env s axi_in).sim.fetch_req_ = s.fetch_req_ →
      (step env s axi_in).sim.data_req_ = s.data_req_ →
      (step env s axi_in).sim.write_req_ = s.write_req_ →
      (s.fetch_req_.active = true →
        (step env s axi_in).sim.fetch_req_.active = false ∨
        ((step env s axi_in).sim.fetch_req_.active = true ∧
          same_read_request s.fetch_req_ (step env s axi_in).sim.fetch_req_)) ∧
      (s.data_req_.active = true →
        (step env s axi_in).sim.data_req_.active = false ∨
        ((step env s axi_in).sim.data_req_.active = true ∧
          same_read_request s.data_req_ (step env s axi_in).sim.data_req_)) ∧
      (s.write_req_.active = true →
        (step env s axi_in).sim.write_req_.active = false ∨
        ((step env s axi_in).sim.write_req_.active = true ∧
          same_write_request s.write_req_ (step env s axi_in).sim.write_req_)) := by
    intro e1 e2 e3
    rw [e1, e2, e3]
    exact ⟨fun h => Or.inr ⟨h, rfl, rfl, rfl, rfl⟩, fun h => Or.inr ⟨h, rfl, rfl, rfl, rfl⟩,
      fun h => Or.inr ⟨h, rfl, rfl, rfl, rfl, rfl⟩⟩
  have stages : (s.stage_ = ExecStage.kPrepareFetch → s.fetch_req_.active = false) ∧
      (s.stage_ = ExecStage.kPrepareData →
        s.data_req_.active = false ∧ s.write_req_.active = false) ∧
      (s.stage_ = ExecStage.kExecute → s.write_req_.active = false) := by
    refine ⟨?_, ?_, ?_⟩
    · intro hst
      obtain ⟨m1, _, _⟩ := hinv.2.2 (by rw [hst]; decide)
      cases hx : s.fetch_req_.active
      · rfl
      · rw [m1.mp hx] at hst
        exact absurd hst (by decide)
    · intro hst
      obtain ⟨_, m2, m3⟩ := hinv.2.2 (by rw [hst]; decide)
      constructor
      · cases hx : s.data_req_.active
        · rfl
        · rw [(m2.mp hx).1] at hst
          exact absurd hst (by decide)
      · cases hx : s.write_req_.active
        · rfl
        · rcases m3.mp hx with hy | hy
          · rw [hy.1] at hst
            exact absurd hst (by decide)
          · rw [hy] at hst
            exact absurd hst (by decide)
    · intro hst
      obtain ⟨_, _, m3⟩ := hinv.2.2 (by rw [hst]; decide)
      cases hx : s.write_req_.active
      · rfl
      · rcases m3.mp hx with hy | hy
        · rw [hy.1] at hst
          exact absurd hst (by decide)
        · rw [hy] at hst
          exact absurd hst (by decide)
  by_cases hl : s.image_loaded_ = true
  · by_cases hh : s.stage_ = ExecStage.kHalted
    · obtain ⟨t1, t2, t3⟩ := same (by rw [step_halted env s axi_in hl hh]; rfl)
        (by rw [step_halted env s axi_in hl hh]; rfl)
        (by rw [step_halted env s axi_in hl hh]; rfl)
      exact ⟨t1, t2, t3, stages⟩
    · rw [step_running env s axi_in hl hh]
      simp only []
      obtain ⟨⟨_, _, _, _, _, c6, c7, c8, _⟩, _⟩ :=
        check_limits_summary env (after_stage_update env s axi_in)
      obtain ⟨_, _, _, a7⟩ := after_stage_update_summary env s axi_in hh
      obtain ⟨_, s2, s3, s4⟩ := a7 (hinv.2.2 hh)
      rw [c6, c7, c8]
      refine ⟨?_, ?_, ?_, stages⟩
      · intro hf
        rcases s2 hf with x | x
        · exact Or.inl x
        · rcases hbool (after_stage_update env s axi_in).fetch_req_.active with y | y
          · exact Or.inl y
          · exact Or.inr ⟨y, x⟩
      · intro hf
        rcases s3 hf with x | x
        · exact Or.inl x
        · rcases hbool (after_stage_update env s axi_in).data_req_.active with y | y
          · exact Or.inl y
          · exact Or.inr ⟨y, x⟩
      · intro hf
        rcases s4 hf with x | x
        · exact Or.inl x
        · rcases hbool (after_stage_update env s axi_in).write_req_.active with y | y
          · exact Or.inl y
          · exact Or.inr ⟨y, x⟩
  · have e := step_not_loaded env s axi_in (by simpa using hl)
    obtain ⟨t1, t2, t3⟩ := same
      (by rw [e]; unfold set_error clear_error_if_running clear_uart_event; split_ifs <;> rfl)
      (by rw [e]; unfold set_error clear_error_if_running clear_uart_event; split_ifs <;> rfl)
      (by rw [e]; unfold set_error clear_error_if_running clear_uart_event; split_ifs <;> rfl)
    exact ⟨t1, t2, t3, stages⟩

set_option maxRecDepth 100000 in
/-- C10 at a loaded simulator waiting for its fetch: after a step without any
answer the fetch request is still active, with the same address. -/
theorem active_request_stable_witness :
    (step demo_env (demo_loaded 5 100) demo_idle).sim.fetch_req_.active = true ∧
    (step demo_env (step demo_env (demo_loaded 5 100) demo_idle).sim
      demo_idle).sim.fetch_req_.active = true ∧
    same_read_request (step demo_env (demo_loaded 5 100) demo_idle).sim.fetch_req_
      (step demo_env (step demo_env (demo_loaded 5 100) demo_idle).sim demo_idle).sim.fetch_req_ :=
  have hr : Reachable demo_env (step demo_env (demo_loaded 5 100) demo_idle).sim :=
    Reachable.step _ _ (Reachable.load_image _ _ _
      (Reachable.set_limits _ _ _ (Reachable.create 0 none _)))
  have h := (active_request_stable demo_env _ demo_idle hr).1 (by decide)
  ⟨by decide, by decide, (h.resolve_left (by decide)).2⟩

/-! ## AXI transaction ids -/

/-- The encoded id of an 8-bit master is four times the master (its two top bits
dropped) plus the two low bits of the id, whatever the width of the arguments. -/
theorem encode_axi_id_arith (master id : Nat) :
    encode_axi_id master id = 4 * (master % 64) + id % 4 := by
  have h1 : id &&& 0x3 = id % 4 := Nat.and_pow_two_sub_one_eq_mod id 2
  have h2 : master <<< 2 = 2 ^ 2 * master := by rw [Nat.shiftLeft_eq, Nat.mul_comm]
  have h3 : id % 4 < 2 ^ 2 := Nat.mod_lt _ (by decide)
  unfold encode_axi_id
  rw [h1, h2, ← Nat.mul_add_lt_is_or h3]
  omega

/-- C11, as stated, fails for a master above 3: `encode_axi_id(4, 0)` is 16, while
the two low bits of the master give 0. -/
theorem encode_axi_id_master_not_masked :
    encode_axi_id 4 0 = 16 ∧ (((4 &&& 3) <<< 2) ||| (0 &&& 3) : Nat) = 0 ∧
    encode_axi_id 4 0 ≠ (((4 &&& 3) <<< 2) ||| (0 &&& 3) : Nat) := by
  decide

/-- C11 (amended): for every master and every id (8-bit or wider), `encode_axi_id(master, id)`
is `((master & 0x3F) << 2) | (id & 3)`: the id is cut to its two low bits, the
master only to the eight bits of the result; for a master in 0..3 this is
`((master & 3) << 2) | (id & 3)`, a 4-bit value. -/
theorem encode_axi_id_value (master id : Nat) :
    encode_axi_id master id = (((master &&& 0x3F) <<< 2) ||| (id &&& 3)) ∧
    (master < 4 →
      encode_axi_id master id = (((master &&& 3) <<< 2) ||| (id &&& 3)) ∧
      encode_axi_id master id < 16) := by
  have h1 : id &&& 3 = id % 4 := Nat.and_pow_two_sub_one_eq_mod id 2
  have h3 : id % 4 < 2 ^ 2 := Nat.mod_lt _ (by decide)
  have h4 : master &&& 0x3F = master % 64 := Nat.and_pow_two_sub_one_eq_mod master 6
  have h5 : master &&& 3 = master % 4 := Nat.and_pow_two_sub_one_eq_mod master 2
  have sh : ∀ x : Nat, x <<< 2 = 2 ^ 2 * x := fun x => by rw [Nat.shiftLeft_eq, Nat.mul_comm]
  rw [encode_axi_id_arith master id, h1, h4, h5, sh, sh, ← Nat.mul_add_lt_is_or h3,
    ← Nat.mul_add_lt_is_or h3]
  refine ⟨by omega, fun h => ⟨by omega, by omega⟩⟩

/-- C11 (amended) at the MMU master with id 2: the encoded id is 10. -/
theorem encode_axi_id_value_witness :
    encode_axi_id MASTER_MMU kMmuReqId = (((MASTER_MMU &&& 0x3F) <<< 2) ||| (kMmuReqId &&& 3)) ∧
    encode_axi_id MASTER_MMU kMmuReqId < 16 :=
  ⟨(encode_axi_id_value MASTER_MMU kMmuReqId).1,
    ((encode_axi_id_value MASTER_MMU kMmuReqId).2 (by decide)).2⟩

/-- C12: for master and id in 0..3, `rid = encode_axi_id(master, id)` has
`rid >> 2 = master` and `rid & 3 = id`, so the encoding is injective there; the
encoded ids of the three requests the state machine arms (ICACHE with id 0,
DCACHE_R with id 1, MMU with id 2) are pairwise distinct. -/
theorem encode_axi_id_roundtrip (master id : Nat) (hm : master < 4) (hi : id < 4) :
    encode_axi_id master id >>> 2 = master ∧
    encode_axi_id master id &&& 3 = id ∧
    (∀ master2 id2, master2 < 4 → id2 < 4 →
      encode_axi_id master id = encode_axi_id master2 id2 → master = master2 ∧ id = id2) ∧
    encode_axi_id MASTER_ICACHE kFetchReqId ≠ encode_axi_id MASTER_DCACHE_R kDataReqId ∧
    encode_axi_id MASTER_ICACHE kFetchReqId ≠ encode_axi_id MASTER_MMU kMmuReqId ∧
    encode_axi_id MASTER_DCACHE_R kDataReqId ≠ encode_axi_id MASTER_MMU kMmuReqId := by
  have e : ∀ m i, m < 4 → encode_axi_id m i = 4 * m + i % 4 := by
    intro m i h
    rw [encode_axi_id_arith m i]
    omega
  have a3 : ∀ x : Nat, x &&& 3 = x % 4 := fun x => Nat.and_pow_two_sub_one_eq_mod x 2
  refine ⟨?_, ?_, ?_, by decide, by decide, by decide⟩
  · rw [e master id hm, Nat.shiftRight_eq_div_pow]
    omega
  · rw [e master id hm, a3]
    omega
  · intro master2 id2 hm2 hi2 h
    rw [e master id hm, e master2 id2 hm2] at h
    omega

/-- C12 at the data-load request: master 1, id 1 encode to 5 and decode back. -/
theorem encode_axi_id_roundtrip_witness :
    encode_axi_id MASTER_DCACHE_R kDataReqId >>> 2 = MASTER_DCACHE_R ∧
    encode_axi_id MASTER_DCACHE_R kDataReqId &&& 3 = kDataReqId :=
  ⟨(encode_axi_id_roundtrip MASTER_DCACHE_R kDataReqId (by decide) (by decide)).1,
    (encode_axi_id_roundtrip MASTER_DCACHE_R kDataReqId (by decide) (by decide)).2.1⟩

/-! ## Read-beat capture -/

/-- C13: `mirror_read_data` changes at most one word of physical memory, leaves
the write request alone and changes of a read request nothing but `beats_seen`;
a read request whose `beats_seen` changes is active, issued and has the encoded
id `rid`, and the other two read requests are then unchanged; when no active
issued read request has the encoded id `rid`, the whole state is unchanged
(memory, `mmu_hook_` and all request states among it). -/
theorem mirror_read_data_frame_effect (s : Sim σ) (axi_in : sc_axi4_in_t)
    (axi_out : sc_axi4_out_t) :
    (∀ mem, s.p_memory = some mem →
      ∃ mem' i, (mirror_read_data s axi_in axi_out).p_memory = some mem' ∧
        ∀ j, j ≠ i → mem' j = mem j) ∧
    (s.p_memory = none → (mirror_read_data s axi_in axi_out).p_memory = none) ∧
    (mirror_read_data s axi_in axi_out).write_req_ = s.write_req_ ∧
    (mirror_read_data s axi_in axi_out).fetch_req_ =
      { s.fetch_req_ with beats_seen := (mirror_read_data s axi_in axi_out).fetch_req_.beats_seen } ∧
    (mirror_read_data s axi_in axi_out).mmu_req_ =
      { s.mmu_req_ with beats_seen := (mirror_read_data s axi_in axi_out).mmu_req_.beats_seen } ∧
    (mirror_read_data s axi_in axi_out).data_req_ =
      { s.data_req_ with beats_seen := (mirror_read_data s axi_in axi_out).data_req_.beats_seen } ∧
    ((mirror_read_data s axi_in axi_out).fetch_req_ ≠ s.fetch_req_ →
      answers_to s.fetch_req_ axi_in.rid ∧
      (mirror_read_data s axi_in axi_out).mmu_req_ = s.mmu_req_ ∧
      (mirror_read_data s axi_in axi_out).data_req_ = s.data_req_) ∧
    ((mirror_read_data s axi_in axi_out).mmu_req_ ≠ s.mmu_req_ →
      answers_to s.mmu_req_ axi_in.rid ∧
      (mirror_read_data s axi_in axi_out).fetch_req_ = s.fetch_req_ ∧
      (mirror_read_data s axi_in axi_out).data_req_ = s.data_req_) ∧
    ((mirror_read_data s axi_in axi_out).data_req_ ≠ s.data_req_ →
      answers_to s.data_req_ axi_in.rid ∧
      (mirror_read_data s axi_in axi_out).fetch_req_ = s.fetch_req_ ∧
      (mirror_read_data s axi_in axi_out).mmu_req_ = s.mmu_req_) ∧
    (¬ answers_to s.fetch_req_ axi_in.rid → ¬ answers_to s.mmu_req_ axi_in.rid →
      ¬ answers_to s.data_req_ axi_in.rid → mirror_read_data s axi_in axi_out = s) := by
  unfold mirror_read_data answers_to
  by_cases h0 : axi_in.rvalid = 0 ∨ axi_out.rready = 0 ∨ s.p_memory.isNone = true
  · rw [if_pos h0]
    refine ⟨fun mem hm => ⟨mem, 0, hm, fun _ _ => rfl⟩, fun h => h, rfl, rfl, rfl, rfl,
      fun h => absurd rfl h, fun h => absurd rfl h, fun h => absurd rfl h, fun _ _ _ => rfl⟩
  · rw [if_neg h0]
    have hnone : s.p_memory ≠ none := by
      intro h
      exact h0 (Or.inr (Or.inr (by rw [h]; rfl)))
    by_cases h1 : s.fetch_req_.active = true ∧ s.fetch_req_.issued = true ∧
        axi_in.rid = encode_axi_id s.fetch_req_.master s.fetch_req_.id ∧
        s.fetch_req_.beats_seen < s.fetch_req_.beats_total
    · rw [if_pos h1]
      refine ⟨fun mem hm => ⟨Function.update mem
            ((s.fetch_req_.addr >>> 2 + s.fetch_req_.beats_seen) % 2 ^ 32) axi_in.rdata,
            (s.fetch_req_.addr >>> 2 + s.fetch_req_.beats_seen) % 2 ^ 32, by simp only [hm, mem_store],
          fun j hj => Function.update_noteq hj _ _⟩,
        fun h => absurd h hnone, rfl, rfl, rfl, rfl,
        fun _ => ⟨⟨h1.1, h1.2.1, h1.2.2.1⟩, rfl, rfl⟩, fun h => absurd rfl h,
        fun h => absurd rfl h, fun h => absurd ⟨h1.1, h1.2.1, h1.2.2.1⟩ h⟩
    · rw [if_neg h1]
      by_cases h2 : s.mmu_req_.active = true ∧ s.mmu_req_.issued = true ∧
          axi_in.rid = encode_axi_id s.mmu_req_.master s.mmu_req_.id ∧
          s.mmu_req_.beats_seen < s.mmu_req_.beats_total
      · rw [if_pos h2]
        refine ⟨fun mem hm => ⟨Function.update mem
            ((s.mmu_req_.addr >>> 2 + s.mmu_req_.beats_seen) % 2 ^ 32) axi_in.rdata,
            (s.mmu_req_.addr >>> 2 + s.mmu_req_.beats_seen) % 2 ^ 32, by simp only [hm, mem_store],
            fun j hj => Function.update_noteq hj _ _⟩,
          fun h => absurd h hnone, rfl, rfl, rfl, rfl,
          fun h => absurd rfl h, fun _ => ⟨⟨h2.1, h2.2.1, h2.2.2.1⟩, rfl, rfl⟩,
          fun h => absurd rfl h, fun _ h => absurd ⟨h2.1, h2.2.1, h2.2.2.1⟩ h⟩
      · rw [if_neg h2]
        by_cases h3 : s.data_req_.active = true ∧ s.data_req_.issued = true ∧
            axi_in.rid = encode_axi_id s.data_req_.master s.data_req_.id ∧
            s.data_req_.beats_seen < s.data_req_.beats_total
        · rw [if_pos h3]
          refine ⟨fun mem hm => ⟨Function.update mem
            ((s.data_req_.addr >>> 2 + s.data_req_.beats_seen) % 2 ^ 32) axi_in.rdata,
            (s.data_req_.addr >>> 2 + s.data_req_.beats_seen) % 2 ^ 32, by simp only [hm, mem_store],
              fun j hj => Function.update_noteq hj _ _⟩,
            fun h => absurd h hnone, rfl, rfl, rfl, rfl,
            fun h => absurd rfl h, fun h => absurd rfl h,
            fun _ => ⟨⟨h3.1, h3.2.1, h3.2.2.1⟩, rfl, rfl⟩,
            fun _ _ h => absurd ⟨h3.1, h3.2.1, h3.2.2.1⟩ h⟩
        · rw [if_neg h3]
          refine ⟨fun mem hm => ⟨mem, 0, hm, fun _ _ => rfl⟩, fun h => h, rfl, rfl, rfl, rfl,
            fun h => absurd rfl h, fun h => absurd rfl h, fun h => absurd rfl h,
            fun _ _ _ => rfl⟩

set_option maxRecDepth 100000 in
/-- C14, as stated, fails for a request that is active but not yet issued: after
the first step of a loaded simulator the fetch request is active with encoded id
0; a beat with `rid = 0` and `rvalid`, `rready` set is not stored (word 0 keeps the
first boot word, not `rdata`) and `beats_seen` stays 0, in `mirror_read_data` and
in the step that receives the beat. -/
theorem mirror_read_data_not_issued :
    (step demo_env (demo_loaded 5 100) demo_idle).sim.fetch_req_.active = true ∧
    (step demo_env (demo_loaded 5 100) demo_idle).sim.fetch_req_.issued = false ∧
    demo_in.rid = encode_axi_id (step demo_env (demo_loaded 5 100) demo_idle).sim.fetch_req_.master
      (step demo_env (demo_loaded 5 100) demo_idle).sim.fetch_req_.id ∧
    demo_in.rvalid = 1 ∧
    (step demo_env (step demo_env (demo_loaded 5 100) demo_idle).sim demo_in).axi_out.rready = 1 ∧
    demo_in.rdata = 0x00100073 ∧
    mem_word (mirror_read_data (step demo_env (demo_loaded 5 100) demo_idle).sim demo_in
      (step demo_env (step demo_env (demo_loaded 5 100) demo_idle).sim demo_in).axi_out).p_memory 0
      = 0xf1402573 ∧
    (mirror_read_data (step demo_env (demo_loaded 5 100) demo_idle).sim demo_in
      (step demo_env (step demo_env (demo_loaded 5 100) demo_idle).sim demo_in).axi_out
      ).fetch_req_.beats_seen = 0 ∧
    mem_word (step demo_env (step demo_env (demo_loaded 5 100) demo_idle).sim demo_in).sim.p_memory 0
      = 0xf1402573 ∧
    (step demo_env (step demo_env (demo_loaded 5 100) demo_idle).sim demo_in).sim.fetch_req_.beats_seen
      = 0 := by
  decide

/-- C14 (amended): with memory allocated, on an R-channel handshake (`rvalid` and
`rready` both set) `mirror_read_data` serves the first of the fetch, MMU and
data-load requests that is active, issued, has the encoded id `rid` and has beats
left (`beats_seen < beats_total`): it stores `rdata` at word index
`(addr >> 2) + beats_seen` of that request and increments that request's
`beats_seen` by one; when that request is the MMU one, `mmu_hook_.data` also
becomes `rdata`. A request that is not issued, or has seen all its beats, takes
no beat. -/
theorem mirror_read_data_commit (s : Sim σ) (axi_in : sc_axi4_in_t) (axi_out : sc_axi4_out_t)
    (hv : axi_in.rvalid ≠ 0) (hr : axi_out.rready ≠ 0) (hm : s.p_memory.isSome = true) :
    (takes_beat s.fetch_req_ axi_in.rid → read_req_in_range s.fetch_req_ →
      mirror_read_data s axi_in axi_out =
        { s with
          p_memory := mem_store s.p_memory
            ((s.fetch_req_.addr >>> 2) + s.fetch_req_.beats_seen) axi_in.rdata
          fetch_req_ := { s.fetch_req_ with beats_seen := s.fetch_req_.beats_seen + 1 } }) ∧
    (¬ takes_beat s.fetch_req_ axi_in.rid → takes_beat s.mmu_req_ axi_in.rid →
      read_req_in_range s.mmu_req_ →
      mirror_read_data s axi_in axi_out =
        { s with
          p_memory := mem_store s.p_memory
            ((s.mmu_req_.addr >>> 2) + s.mmu_req_.beats_seen) axi_in.rdata
          mmu_hook_ := { s.mmu_hook_ with data := axi_in.rdata }
          mmu_req_ := { s.mmu_req_ with beats_seen := s.mmu_req_.beats_seen + 1 } }) ∧
    (¬ takes_beat s.fetch_req_ axi_in.rid → ¬ takes_beat s.mmu_req_ axi_in.rid →
      takes_beat s.data_req_ axi_in.rid → read_req_in_range s.data_req_ →
      mirror_read_data s axi_in axi_out =
        { s with
          p_memory := mem_store s.p_memory
            ((s.data_req_.addr >>> 2) + s.data_req_.beats_seen) axi_in.rdata
          data_req_ := { s.data_req_ with beats_seen := s.data_req_.beats_seen + 1 } }) ∧
    (¬ takes_beat s.fetch_req_ axi_in.rid → ¬ takes_beat s.mmu_req_ axi_in.rid →
      ¬ takes_beat s.data_req_ axi_in.rid → mirror_read_data s axi_in axi_out = s) := by
  have h0 : ¬ (axi_in.rvalid = 0 ∨ axi_out.rready = 0 ∨ s.p_memory.isNone = true) := by
    cases hp : s.p_memory with
    | none => rw [hp] at hm; exact absurd hm (by decide)
    | some mem => simp [hv, hr]
  have idx : ∀ rq : ReadReqState, rq.beats_seen < rq.beats_total → read_req_in_range rq →
      (rq.addr >>> 2 + rq.beats_seen) % 2 ^ 32 = rq.addr >>> 2 + rq.beats_seen ∧
      (rq.beats_seen + 1) % 256 = rq.beats_seen + 1 := by
    intro rq hb hrange
    obtain ⟨ha, ht⟩ := hrange
    have : rq.addr >>> 2 = rq.addr / 4 := Nat.shiftRight_eq_div_pow rq.addr 2
    rw [this]
    constructor
    · apply Nat.mod_eq_of_lt
      omega
    · apply Nat.mod_eq_of_lt
      omega
  unfold mirror_read_data takes_beat
  rw [if_neg h0]
  refine ⟨?_, ?_, ?_, ?_⟩
  · intro h1 hrange
    obtain ⟨i1, i2⟩ := idx s.fetch_req_ h1.2.2.2 hrange
    rw [if_pos h1, i1, i2]
  · intro h1 h2 hrange
    obtain ⟨i1, i2⟩ := idx s.mmu_req_ h2.2.2.2 hrange
    rw [if_neg h1, if_pos h2, i1, i2]
  · intro h1 h2 h3 hrange
    obtain ⟨i1, i2⟩ := idx s.data_req_ h3.2.2.2 hrange
    rw [if_neg h1, if_neg h2, if_pos h3, i1, i2]
  · intro h1 h2 h3
    rw [if_neg h1, if_neg h2, if_neg h3]

set_option maxRecDepth 100000 in
/-- C14 (amended) at the issued fetch request of a loaded simulator: the beat with
`rid = 0` is stored at word 0 and `beats_seen` becomes 1. -/
theorem mirror_read_data_commit_witness :
    (run demo_env (demo_loaded 5 100) [demo_idle, demo_accept]).fetch_req_.issued = true ∧
    mem_word (mirror_read_data (run demo_env (demo_loaded 5 100) [demo_idle, demo_accept])
      demo_in { rready := 1 }).p_memory 0 = 0x00100073 ∧
    (mirror_read_data (run demo_env (demo_loaded 5 100) [demo_idle, demo_accept])
      demo_in { rready := 1 }).fetch_req_.beats_seen = 1 :=
  have h := (mirror_read_data_commit (run demo_env (demo_loaded 5 100) [demo_idle, demo_accept])
    demo_in { rready := 1 } (by decide) (by decide) (by decide)).1
    (by unfold takes_beat; decide) (by unfold read_req_in_range; decide)
  ⟨by decide, (congrArg (fun t : Sim Unit => mem_word t.p_memory 0) h).trans (by decide),
    (congrArg (fun t : Sim Unit => t.fetch_req_.beats_seen) h).trans (by decide)⟩

/-! ## Write-beat mirroring and the UART sideband -/

/-- Clearing the two low bits of a 32-bit address (`addr & ~0x3u`). -/
theorem and_not_three (x : Nat) (hx : x < 2 ^ 32) : x &&& 0xFFFFFFFC = 4 * (x / 4) := by
  have hc : ∀ i, Nat.testBit 0xFFFFFFFC i = (decide (2 ≤ i) && decide (i - 2 < 30)) := by
    intro i
    have : (0xFFFFFFFC : Nat) = (2 ^ 30 - 1) <<< 2 := by decide
    rw [this, Nat.testBit_shiftLeft, Nat.testBit_two_pow_sub_one]
  apply Nat.eq_of_testBit_eq
  intro i
  have h4 : (4 : Nat) = 2 ^ 2 := by decide
  rw [Nat.testBit_and, hc, h4, Nat.testBit_mul_pow_two, ← Nat.shiftRight_eq_div_pow,
    Nat.testBit_shiftRight]
  by_cases h2 : 2 ≤ i
  · have e : 2 + (i - 2) = i := by omega
    by_cases h30 : i - 2 < 30
    · simp [h2, h30, e]
    · have hi : 32 ≤ i := by omega
      have hf : x.testBit i = false := by
        apply Nat.testBit_lt_two_pow
        calc x < 2 ^ 32 := hx
          _ ≤ 2 ^ i := Nat.pow_le_pow_right (by decide) hi
      simp [h2, h30, e, hf]
  · simp [h2]

theorem and_three (x : Nat) : x &&& 3 = x % 4 := Nat.and_pow_two_sub_one_eq_mod x 2

/-- One round of the lane loop, for a lane of an aligned 32-bit word base. -/
theorem uart_lane_eq (env : Env σ) (wb : Nat) (axi_out : sc_axi4_out_t) (t : Sim σ) (lane : Nat)
    (hwb : wb + lane < 2 ^ 32) :
    uart_lane env wb axi_out t lane =
      if axi_out.wstrb.testBit lane = true ∧ wb + lane = env.UART_BASE then
        { t with uart_valid_ := true, uart_ch_ := byte_lane axi_out.wdata lane }
      else t := by
  have hs : (axi_out.wstrb &&& (1 <<< lane) = 0) ↔ ¬ axi_out.wstrb.testBit lane = true := by
    have := and_two_pow_ne_zero axi_out.wstrb lane
    rw [Nat.shiftLeft_eq, Nat.one_mul]
    constructor
    · intro h hb
      exact (this.mpr hb) h
    · intro h
      by_contra hne
      exact h (this.mp hne)
  have hb : ((axi_out.wdata >>> (lane * 8)) &&& 0xff) % 256 = byte_lane axi_out.wdata lane := by
    unfold byte_lane
    rw [Nat.mul_comm lane 8]
    apply Nat.mod_eq_of_lt
    exact Nat.and_lt_two_pow _ (by decide : (0xff : Nat) < 2 ^ 8)
  unfold uart_lane
  simp only [hs, hb, Nat.mod_eq_of_lt hwb]
  by_cases h1 : axi_out.wstrb.testBit lane = true
  · by_cases h2 : wb + lane = env.UART_BASE
    · simp [h1, h2]
    · simp [h1, h2]
  · simp [h1]

/-- The lane loop of `mirror_write_data` on a state without a UART event: the
event is raised exactly when the word holds the byte address `UART_BASE` and that
byte's strobe bit is set, and the character is that byte of `wdata`. -/
theorem uart_lanes_eq (env : Env σ) (wb : Nat) (axi_out : sc_axi4_out_t) (t : Sim σ)
    (hwb : wb < 2 ^ 32) (ha : wb % 4 = 0) (hu : env.UART_BASE < 2 ^ 32) :
    [0, 1, 2, 3].foldl (uart_lane env wb axi_out) t =
      if wb = env.UART_BASE &&& 0xFFFFFFFC ∧
          axi_out.wstrb.testBit (env.UART_BASE &&& 3) = true then
        { t with uart_valid_ := true
                 uart_ch_ := byte_lane axi_out.wdata (env.UART_BASE &&& 3) }
      else t := by
  rw [and_not_three _ hu, and_three]
  simp only [List.foldl_cons, List.foldl_nil]
  rw [uart_lane_eq env wb axi_out t 0 (by omega)]
  have k : env.UART_BASE = wb + 0 ∨ env.UART_BASE = wb + 1 ∨ env.UART_BASE = wb + 2 ∨
      env.UART_BASE = wb + 3 ∨
      (wb + 0 ≠ env.UART_BASE ∧ wb + 1 ≠ env.UART_BASE ∧ wb + 2 ≠ env.UART_BASE ∧
        wb + 3 ≠ env.UART_BASE) := by omega
  rcases k with k | k | k | k | k
  · have e1 : wb = 4 * (env.UART_BASE / 4) := by omega
    have e2 : env.UART_BASE % 4 = 0 := by omega
    have n1 : wb + 1 ≠ env.UART_BASE := by omega
    have n2 : wb + 2 ≠ env.UART_BASE := by omega
    have n3 : wb + 3 ≠ env.UART_BASE := by omega
    by_cases hb : axi_out.wstrb.testBit 0 = true
    · rw [if_pos ⟨hb, k.symm⟩, uart_lane_eq env wb axi_out _ 1 (by omega), if_neg (fun h => n1 h.2),
        uart_lane_eq env wb axi_out _ 2 (by omega), if_neg (fun h => n2 h.2),
        uart_lane_eq env wb axi_out _ 3 (by omega), if_neg (fun h => n3 h.2), e2,
        if_pos ⟨e1, hb⟩]
    · rw [if_neg (fun h => hb h.1), uart_lane_eq env wb axi_out _ 1 (by omega),
        if_neg (fun h => n1 h.2),
        uart_lane_eq env wb axi_out _ 2 (by omega), if_neg (fun h => n2 h.2),
        uart_lane_eq env wb axi_out _ 3 (by omega), if_neg (fun h => n3 h.2), e2,
        if_neg (fun h => hb h.2)]
  · have e1 : wb = 4 * (env.UART_BASE / 4) := by omega
    have e2 : env.UART_BASE % 4 = 1 := by omega
    have n0 : wb + 0 ≠ env.UART_BASE := by omega
    have n2 : wb + 2 ≠ env.UART_BASE := by omega
    have n3 : wb + 3 ≠ env.UART_BASE := by omega
    by_cases hb : axi_out.wstrb.testBit 1 = true
    · rw [if_neg (fun h => n0 h.2), uart_lane_eq env wb axi_out _ 1 (by omega),
        if_pos ⟨hb, k.symm⟩,
        uart_lane_eq env wb axi_out _ 2 (by omega), if_neg (fun h => n2 h.2),
        uart_lane_eq env wb axi_out _ 3 (by omega), if_neg (fun h => n3 h.2), e2,
        if_pos ⟨e1, hb⟩]
    · rw [if_neg (fun h => n0 h.2), uart_lane_eq env wb axi_out _ 1 (by omega),
        if_neg (fun h => hb h.1),
        uart_lane_eq env wb axi_out _ 2 (by omega), if_neg (fun h => n2 h.2),
        uart_lane_eq env wb axi_out _ 3 (by omega), if_neg (fun h => n3 h.2), e2,
        if_neg (fun h => hb h.2)]
  · have e1 : wb = 4 * (env.UART_BASE / 4) := by omega
    have e2 : env.UART_BASE % 4 = 2 := by omega
    have n0 : wb + 0 ≠ env.UART_BASE := by omega
    have n1 : wb + 1 ≠ env.UART_BASE := by omega
    have n3 : wb + 3 ≠ env.UART_BASE := by omega
    by_cases hb : axi_out.wstrb.testBit 2 = true
    · rw [if_neg (fun h => n0 h.2), uart_lane_eq env wb axi_out _ 1 (by omega),
        if_neg (fun h => n1 h.2),
        uart_lane_eq env wb axi_out _ 2 (by omega), if_pos ⟨hb, k.symm⟩,
        uart_lane_eq env wb axi_out _ 3 (by omega), if_neg (fun h => n3 h.2), e2,
        if_pos ⟨e1, hb⟩]
    · rw [if_neg (fun h => n0 h.2), uart_lane_eq env wb axi_out _ 1 (by omega),
        if_neg (fun h => n1 h.2),
        uart_lane_eq env wb axi_out _ 2 (by omega), if_neg (fun h => hb h.1),
        uart_lane_eq env wb axi_out _ 3 (by omega), if_neg (fun h => n3 h.2), e2,
        if_neg (fun h => hb h.2)]
  · have e1 : wb = 4 * (env.UART_BASE / 4) := by omega
    have e2 : env.UART_BASE % 4 = 3 := by omega
    have n0 : wb + 0 ≠ env.UART_BASE := by omega
    have n1 : wb + 1 ≠ env.UART_BASE := by omega
    have n2 : wb + 2 ≠ env.UART_BASE := by omega
    by_cases hb : axi_out.wstrb.testBit 3 = true
    · rw [if_neg (fun h => n0 h.2), uart_lane_eq env wb axi_out _ 1 (by omega),
        if_neg (fun h => n1 h.2),
        uart_lane_eq env wb axi_out _ 2 (by omega), if_neg (fun h => n2 h.2),
        uart_lane_eq env wb axi_out _ 3 (by omega), if_pos ⟨hb, k.symm⟩, e2,
        if_pos ⟨e1, hb⟩]
    · rw [if_neg (fun h => n0 h.2), uart_lane_eq env wb axi_out _ 1 (by omega),
        if_neg (fun h => n1 h.2),
        uart_lane_eq env wb axi_out _ 2 (by omega), if_neg (fun h => n2 h.2),
        uart_lane_eq env wb axi_out _ 3 (by omega), if_neg (fun h => hb h.1), e2,
        if_neg (fun h => hb h.2)]
  · obtain ⟨n0, n1, n2, n3⟩ := k
    have e1 : wb ≠ 4 * (env.UART_BASE / 4) := by omega
    rw [if_neg (fun h => n0 h.2), uart_lane_eq env wb axi_out _ 1 (by omega),
      if_neg (fun h => n1 h.2),
      uart_lane_eq env wb axi_out _ 2 (by omega), if_neg (fun h => n2 h.2),
      uart_lane_eq env wb axi_out _ 3 (by omega), if_neg (fun h => n3 h.2),
      if_neg (fun h => e1 h.1)]

theorem bus_drive_frame (env : Env σ) (s : Sim σ) (axi_in : sc_axi4_in_t) :
    ∃ ic a b, (bus_drive env s axi_in).2.2 =
      { s with interconnect_ := ic, mmu_req_ready_ := a, mmu_resp_valid_ := b } := by
  unfold bus_drive
  simp only []
  generalize hs1 : clear_master_inputs
    { apply_axi_inputs s axi_in with
      interconnect_ := env.comb_outputs (apply_axi_inputs s axi_in).interconnect_ } = s1
  have e1 : ∃ ic, s1 = { s with interconnect_ := ic } := by
    subst hs1
    exact ⟨_, rfl⟩
  obtain ⟨ic1, rfl⟩ := e1
  obtain ⟨ic2, a, b, e2⟩ := drive_current_stage_frame { s with interconnect_ := ic1 }
  rw [e2]
  exact ⟨_, _, _, rfl⟩

/-- The bus phase of a step, written with its two mirroring calls. -/
theorem bus_phase_eq (env : Env σ) (s : Sim σ) (axi_in : sc_axi4_in_t) :
    bus_phase env s axi_in =
      ((bus_drive env s axi_in).1, (bus_drive env s axi_in).2.1,
        fill_axi_outputs (bus_drive env s axi_in).2.2,
        { mirror_write_data env
            (mirror_read_data (bus_drive env s axi_in).2.2 axi_in
              (fill_axi_outputs (bus_drive env s axi_in).2.2))
            axi_in (fill_axi_outputs (bus_drive env s axi_in).2.2) with
          interconnect_ := env.seq (mirror_write_data env
            (mirror_read_data (bus_drive env s axi_in).2.2 axi_in
              (fill_axi_outputs (bus_drive env s axi_in).2.2))
            axi_in (fill_axi_outputs (bus_drive env s axi_in).2.2)).interconnect_
          sim_time := (mirror_write_data env
            (mirror_read_data (bus_drive env s axi_in).2.2 axi_in
              (fill_axi_outputs (bus_drive env s axi_in).2.2))
            axi_in (fill_axi_outputs (bus_drive env s axi_in).2.2)).sim_time + 1 }) := rfl

/-- Without a W handshake for an active write request `mirror_write_data` returns
the state as it is. -/
theorem mirror_write_data_no_handshake (env : Env σ) (s : Sim σ) (axi_in : sc_axi4_in_t)
    (axi_out : sc_axi4_out_t) (hw : ¬ w_handshake axi_in axi_out s.write_req_) :
    mirror_write_data env s axi_in axi_out = s := by
  have h1 : axi_out.wvalid = 0 ∨ axi_in.wready = 0 ∨ s.write_req_.active = false := by
    unfold w_handshake at hw
    by_contra hc
    simp only [not_or] at hc
    exact hw ⟨hc.1, hc.2.1, by simpa using hc.2.2⟩
  unfold mirror_write_data
  simp only []
  rw [if_pos h1]

/-- C16: when the W channel handshakes (`wvalid` and `wready`) while the write
request is active, physical memory after `mirror_write_data` is the result of
`apply_wstrb_write` at the beat address `write_req_.addr + 4 * beats_seen` (in
`uint32_t`) with the `wdata` and `wstrb` driven on the bus, and `beats_seen` goes up
by one unless it is 255 already; without such a handshake `mirror_write_data`
changes nothing, so neither memory nor `beats_seen`. -/
theorem mirror_write_data_beat (env : Env σ) (s : Sim σ) (axi_in : sc_axi4_in_t)
    (axi_out : sc_axi4_out_t) :
    (w_handshake axi_in axi_out s.write_req_ →
      (mirror_write_data env s axi_in axi_out).p_memory =
        apply_wstrb_write s.p_memory (write_beat_addr s.write_req_) axi_out.wdata axi_out.wstrb ∧
      (mirror_write_data env s axi_in axi_out).write_req_ =
        { s.write_req_ with
          beats_seen :=
            if s.write_req_.beats_seen < 255 then s.write_req_.beats_seen + 1
            else s.write_req_.beats_seen }) ∧
    (s.write_req_.addr + 4 * s.write_req_.beats_seen < 2 ^ 32 →
      write_beat_addr s.write_req_ = s.write_req_.addr + 4 * s.write_req_.beats_seen) ∧
    (¬ w_handshake axi_in axi_out s.write_req_ → mirror_write_data env s axi_in axi_out = s) := by
  refine ⟨?_, ?_, ?_⟩
  · intro hw
    have h1 : ¬ (axi_out.wvalid = 0 ∨ axi_in.wready = 0 ∨ s.write_req_.active = false) := by
      obtain ⟨a, b, c⟩ := hw
      simp [a, b, c]
    unfold mirror_write_data
    simp only []
    rw [if_neg h1]
    obtain ⟨u, c, e⟩ := uart_lanes_frame env
      ((s.write_req_.addr + s.write_req_.beats_seen * 4 % 2 ^ 32) % 2 ^ 32 &&& 0xFFFFFFFC) axi_out
      [0, 1, 2, 3]
      { s with p_memory := (apply_wstrb_write s.p_memory
          ((s.write_req_.addr + s.write_req_.beats_seen * 4 % 2 ^ 32) % 2 ^ 32)
          axi_out.wdata axi_out.wstrb) }
    rw [e]
    unfold write_beat_addr
    split_ifs with hb
    · simp [hb]
    · simp [hb]
  · intro h
    unfold write_beat_addr
    omega
  · exact mirror_write_data_no_handshake env s axi_in axi_out

/-- The UART event that `mirror_write_data` leaves on a state that had none. -/
theorem mirror_write_data_uart (env : Env σ) (t : Sim σ) (axi_in : sc_axi4_in_t)
    (axi_out : sc_axi4_out_t) (hv : t.uart_valid_ = false) (hc : t.uart_ch_ = 0)
    (hu : env.UART_BASE < 2 ^ 32) :
    (w_handshake axi_in axi_out t.write_req_ ∧ uart_lane_enabled env axi_out t.write_req_ →
      (mirror_write_data env t axi_in axi_out).uart_valid_ = true ∧
      (mirror_write_data env t axi_in axi_out).uart_ch_ =
        byte_lane axi_out.wdata (env.UART_BASE &&& 3)) ∧
    (¬ (w_handshake axi_in axi_out t.write_req_ ∧ uart_lane_enabled env axi_out t.write_req_) →
      (mirror_write_data env t axi_in axi_out).uart_valid_ = false ∧
      (mirror_write_data env t axi_in axi_out).uart_ch_ = 0) := by
  by_cases hw : w_handshake axi_in axi_out t.write_req_
  · have h1 : ¬ (axi_out.wvalid = 0 ∨ axi_in.wready = 0 ∨ t.write_req_.active = false) := by
      obtain ⟨a, b, c⟩ := hw
      simp [a, b, c]
    have hlt : write_beat_addr t.write_req_ < 2 ^ 32 := Nat.mod_lt _ (by decide)
    have hwb := and_not_three (write_beat_addr t.write_req_) hlt
    have key := uart_lanes_eq env (write_beat_addr t.write_req_ &&& 0xFFFFFFFC) axi_out
      { t with p_memory := (apply_wstrb_write t.p_memory (write_beat_addr t.write_req_)
          axi_out.wdata axi_out.wstrb) }
      (by rw [hwb]; omega) (by rw [hwb]; omega) hu
    have hm : mirror_write_data env t axi_in axi_out =
        (let r := [0, 1, 2, 3].foldl
            (uart_lane env (write_beat_addr t.write_req_ &&& 0xFFFFFFFC) axi_out)
            { t with p_memory := (apply_wstrb_write t.p_memory (write_beat_addr t.write_req_)
                axi_out.wdata axi_out.wstrb) }
          if r.write_req_.beats_seen < 255 then
            { r with write_req_ := { r.write_req_ with beats_seen := r.write_req_.beats_seen + 1 } }
          else r) := by
      unfold mirror_write_data write_beat_addr
      simp only []
      rw [if_neg h1]
    rw [hm, key]
    unfold uart_lane_enabled
    constructor
    · intro hh
      simp only [if_pos hh.2]
      split_ifs <;> exact ⟨rfl, rfl⟩
    · intro hh
      have hn : ¬ (write_beat_addr t.write_req_ &&& 0xFFFFFFFC = env.UART_BASE &&& 0xFFFFFFFC ∧
          axi_out.wstrb.testBit (env.UART_BASE &&& 3) = true) := fun x => hh ⟨hw, x⟩
      simp only [if_neg hn]
      split_ifs <;> exact ⟨hv, hc⟩
  · rw [mirror_write_data_no_handshake env t axi_in axi_out hw]
    exact ⟨fun hh => absurd hh.1 hw, fun _ => ⟨hv, hc⟩⟩

set_option maxRecDepth 100000 in
/-- C16 at the store of `'H'` to `UART_BASE`: the beat handshakes, the byte lands
in lane 0 of the word at `UART_BASE` and `beats_seen` becomes 1. -/
theorem mirror_write_data_beat_witness :
    mem_word (mirror_write_data uart_env (uart_store_armed 5 100) demo_accept
      (step uart_env (uart_store_armed 5 100) demo_accept).axi_out).p_memory (0x10000000 / 4)
      = 0x48 ∧
    (mirror_write_data uart_env (uart_store_armed 5 100) demo_accept
      (step uart_env (uart_store_armed 5 100) demo_accept).axi_out).write_req_.beats_seen = 1 ∧
    write_beat_addr (uart_store_armed 5 100).write_req_ = 0x10000000 :=
  have h := mirror_write_data_beat uart_env (uart_store_armed 5 100) demo_accept
    (step uart_env (uart_store_armed 5 100) demo_accept).axi_out
  have hw : w_handshake demo_accept (step uart_env (uart_store_armed 5 100) demo_accept).axi_out
      (uart_store_armed 5 100).write_req_ := by
    unfold w_handshake
    decide
  ⟨(congrArg (fun m => mem_word m (0x10000000 / 4)) (h.1 hw).1).trans (by decide),
    (congrArg (fun w : WriteReqState => w.beats_seen) (h.1 hw).2).trans (by decide),
    (h.2.1 (by decide)).trans (by decide)⟩

set_option maxRecDepth 100000 in
/-- C15, as stated, fails in a step that starts in `kHalted`: the store of `'H'` to
`UART_BASE` is armed, the simulator halts on `max_cycles` with the write request
active and `wvalid` driven; in the next step `wvalid` and `wready` are both set and
the strobe enables the byte at `UART_BASE`, and the status reports `uart_valid = 0`. -/
theorem uart_event_not_raised_when_halted :
    (step uart_env (uart_store_armed 5 5) demo_idle).sim.stage_ = ExecStage.kHalted ∧
    (step uart_env (uart_store_armed 5 5) demo_idle).sim.image_loaded_ = true ∧
    (step uart_env (uart_store_armed 5 5) demo_idle).sim.write_req_.active = true ∧
    (step uart_env (step uart_env (uart_store_armed 5 5) demo_idle).sim demo_accept).axi_out.wvalid
      = 1 ∧
    demo_accept.wready = 1 ∧
    write_beat_addr (step uart_env (uart_store_armed 5 5) demo_idle).sim.write_req_ &&& 0xFFFFFFFC
      = uart_env.UART_BASE &&& 0xFFFFFFFC ∧
    (step uart_env (step uart_env (uart_store_armed 5 5) demo_idle).sim demo_accept
      ).axi_out.wstrb.testBit (uart_env.UART_BASE &&& 3) = true ∧
    (step uart_env (step uart_env (uart_store_armed 5 5) demo_idle).sim demo_accept
      ).status.uart_valid = 0 := by
  decide

/-- C15 (amended): in a step that starts with an image loaded and the stage not
`kHalted`, and in which the W channel handshakes (`wvalid` and `wready`) while the
write request is active, the status reports `uart_valid = 1` exactly when the byte
lane of the written word that lies at byte address `UART_BASE` is enabled in
`wstrb`, and then `uart_ch` is that lane's byte of `wdata`; in every step without
such a handshake, and in every step that starts in `kHalted` or without an image,
the status reports `uart_valid = 0` and `uart_ch = 0`. -/
theorem step_uart_event (env : Env σ) (s : Sim σ) (axi_in : sc_axi4_in_t)
    (hu : env.UART_BASE < 2 ^ 32) :
    (s.image_loaded_ = true → s.stage_ ≠ ExecStage.kHalted →
      w_handshake axi_in (step env s axi_in).axi_out s.write_req_ →
      ((step env s axi_in).status.uart_valid = 1 ↔
        uart_lane_enabled env (step env s axi_in).axi_out s.write_req_) ∧
      (uart_lane_enabled env (step env s axi_in).axi_out s.write_req_ →
        (step env s axi_in).status.uart_ch =
          byte_lane (step env s axi_in).axi_out.wdata (env.UART_BASE &&& 3)) ∧
      (¬ uart_lane_enabled env (step env s axi_in).axi_out s.write_req_ →
        (step env s axi_in).status.uart_valid = 0 ∧ (step env s axi_in).status.uart_ch = 0)) ∧
    (¬ w_handshake axi_in (step env s axi_in).axi_out s.write_req_ →
      (step env s axi_in).status.uart_valid = 0 ∧ (step env s axi_in).status.uart_ch = 0) ∧
    (s.image_loaded_ = false ∨ s.stage_ = ExecStage.kHalted →
      (step env s axi_in).status.uart_valid = 0 ∧ (step env s axi_in).status.uart_ch = 0) := by
  -- steps that return early report no event
  have early : s.image_loaded_ = false ∨ s.stage_ = ExecStage.kHalted →
      (step env s axi_in).status.uart_valid = 0 ∧ (step env s axi_in).status.uart_ch = 0 := by
    intro h
    by_cases hl : s.image_loaded_ = true
    · have hh : s.stage_ = ExecStage.kHalted := by
        rcases h with h | h
        · rw [hl] at h
          exact absurd h (by decide)
        · exact h
      rw [step_halted env s axi_in hl hh]
      unfold fill_status clear_uart_event
      simp
    · rw [step_not_loaded env s axi_in (by simpa using hl)]
      have e : (set_error (clear_error_if_running (clear_uart_event s))
            "image not loaded").uart_valid_ = false ∧
          (set_error (clear_error_if_running (clear_uart_event s))
            "image not loaded").uart_ch_ = 0 := by
        unfold set_error clear_error_if_running clear_uart_event
        split_ifs <;> exact ⟨rfl, rfl⟩
      unfold fill_status
      simp [e.1, e.2]
  -- a running step reports what `mirror_write_data` leaves
  have running : s.image_loaded_ = true → s.stage_ ≠ ExecStage.kHalted →
      ((w_handshake axi_in (step env s axi_in).axi_out s.write_req_ ∧
          uart_lane_enabled env (step env s axi_in).axi_out s.write_req_) →
        (step env s axi_in).status.uart_valid = 1 ∧
        (step env s axi_in).status.uart_ch =
          byte_lane (step env s axi_in).axi_out.wdata (env.UART_BASE &&& 3)) ∧
      (¬ (w_handshake axi_in (step env s axi_in).axi_out s.write_req_ ∧
          uart_lane_enabled env (step env s axi_in).axi_out s.write_req_) →
        (step env s axi_in).status.uart_valid = 0 ∧ (step env s axi_in).status.uart_ch = 0) := by
    intro hl hh
    have h0 : clear_error_if_running (clear_uart_event s) =
        { s with uart_valid_ := false, uart_ch_ := 0, last_error_ := "" } := by
      unfold clear_error_if_running clear_uart_event
      rw [if_pos hh]
    obtain ⟨ic, a, b, ed⟩ := bus_drive_frame env
      { s with uart_valid_ := false, uart_ch_ := 0, last_error_ := "" } axi_in
    obtain ⟨m, f, d, r, h, er⟩ := mirror_read_data_frame
      (bus_drive env { s with uart_valid_ := false, uart_ch_ := 0, last_error_ := "" } axi_in).2.2
      axi_in
      (fill_axi_outputs
        (bus_drive env { s with uart_valid_ := false, uart_ch_ := 0, last_error_ := "" } axi_in).2.2)
    rw [ed] at er
    have key := mirror_write_data_uart env
      (mirror_read_data
        (bus_drive env { s with uart_valid_ := false, uart_ch_ := 0, last_error_ := "" } axi_in).2.2
        axi_in
        (fill_axi_outputs
          (bus_drive env { s with uart_valid_ := false, uart_ch_ := 0, last_error_ := "" }
            axi_in).2.2))
      axi_in
      (fill_axi_outputs
        (bus_drive env { s with uart_valid_ := false, uart_ch_ := 0, last_error_ := "" } axi_in).2.2)
      (by rw [ed, er]) (by rw [ed, er]) hu
    have hwr : (mirror_read_data
        (bus_drive env { s with uart_valid_ := false, uart_ch_ := 0, last_error_ := "" } axi_in).2.2
        axi_in
        (fill_axi_outputs
          (bus_drive env { s with uart_valid_ := false, uart_ch_ := 0, last_error_ := "" }
            axi_in).2.2)).write_req_ = s.write_req_ := by
      rw [ed, er]
    rw [hwr] at key
    have hs := step_running env s axi_in hl hh
    have hout : (step env s axi_in).axi_out = fill_axi_outputs
        (bus_drive env { s with uart_valid_ := false, uart_ch_ := 0, last_error_ := "" }
          axi_in).2.2 := by
      rw [hs, h0, bus_phase_eq]
    have hstat : (step env s axi_in).status =
        fill_status (check_limits env (after_stage_update env s axi_in)) := by
      rw [hs]
    have hent : stage_entry env s axi_in =
        (bus_phase env { s with uart_valid_ := false, uart_ch_ := 0, last_error_ := "" }
          axi_in).2.2.2 := by
      unfold stage_entry
      rw [h0]
    obtain ⟨⟨_, _, _, _, _, _, _, _, _, _, c11, c12⟩, _⟩ :=
      check_limits_summary env (after_stage_update env s axi_in)
    obtain ⟨⟨_, _, _, _, _, _, u7, u8⟩, _⟩ := update_stage_summary env (stage_entry env s axi_in)
      (bus_phase env (clear_error_if_running (clear_uart_event s)) axi_in).1
      (bus_phase env (clear_error_if_running (clear_uart_event s)) axi_in).2.1
    have ha : after_stage_update env s axi_in =
        update_stage_after_cycle env (stage_entry env s axi_in)
          (bus_phase env (clear_error_if_running (clear_uart_event s)) axi_in).1
          (bus_phase env (clear_error_if_running (clear_uart_event s)) axi_in).2.1 := rfl
    rw [← ha] at u7 u8
    have v1 : (check_limits env (after_stage_update env s axi_in)).uart_valid_ =
        (mirror_write_data env
          (mirror_read_data
            (bus_drive env { s with uart_valid_ := false, uart_ch_ := 0, last_error_ := "" }
              axi_in).2.2 axi_in (step env s axi_in).axi_out)
          axi_in (step env s axi_in).axi_out).uart_valid_ := by
      rw [c11, u7, hent, bus_phase_eq, hout]
    have v2 : (check_limits env (after_stage_update env s axi_in)).uart_ch_ =
        (mirror_write_data env
          (mirror_read_data
            (bus_drive env { s with uart_valid_ := false, uart_ch_ := 0, last_error_ := "" }
              axi_in).2.2 axi_in (step env s axi_in).axi_out)
          axi_in (step env s axi_in).axi_out).uart_ch_ := by
      rw [c12, u8, hent, bus_phase_eq, hout]
    rw [← hout] at key
    rw [hstat]
    unfold fill_status
    simp only []
    rw [v1, v2]
    constructor
    · intro hh'
      obtain ⟨k1, k2⟩ := key.1 hh'
      rw [k1, k2]
      simp
    · intro hh'
      obtain ⟨k1, k2⟩ := key.2 hh'
      rw [k1, k2]
      simp
  refine ⟨?_, ?_, early⟩
  · intro hl hh hw
    obtain ⟨r1, r2⟩ := running hl hh
    refine ⟨⟨?_, fun he => (r1 ⟨hw, he⟩).1⟩, fun he => (r1 ⟨hw, he⟩).2, fun he => r2 (fun x => he x.2)⟩
    intro hv
    by_contra he
    have := (r2 (fun x => he x.2)).1
    rw [this] at hv
    exact absurd hv (by decide)
  · intro hw
    by_cases hl : s.image_loaded_ = true
    · by_cases hh : s.stage_ = ExecStage.kHalted
      · exact early (Or.inr hh)
      · exact (running hl hh).2 (fun x => hw x.1)
    · exact early (Or.inl (by simpa using hl))

set_option maxRecDepth 100000 in
/-- C15 (amended) at the store of `'H'` to `UART_BASE`: the step in which the beat
handshakes reports `uart_valid = 1` and `uart_ch = 0x48`, the next step reports
no event. -/
theorem step_uart_event_witness :
    (step uart_env (uart_store_armed 5 100) demo_accept).status.uart_valid = 1 ∧
    (step uart_env (uart_store_armed 5 100) demo_accept).status.uart_ch = 0x48 ∧
    (step uart_env (step uart_env (uart_store_armed 5 100) demo_accept).sim
      demo_accept).status.uart_valid = 0 :=
  have h := step_uart_event uart_env (uart_store_armed 5 100) demo_accept (by decide)
  have hw : w_handshake demo_accept (step uart_env (uart_store_armed 5 100) demo_accept).axi_out
      (uart_store_armed 5 100).write_req_ := by
    unfold w_handshake
    decide
  have he : uart_lane_enabled uart_env (step uart_env (uart_store_armed 5 100) demo_accept).axi_out
      (uart_store_armed 5 100).write_req_ := by
    unfold uart_lane_enabled
    decide
  ⟨((h.1 (by decide) (by decide) hw).1).mpr he,
    ((h.1 (by decide) (by decide) hw).2.1 he).trans (by decide),
    by decide⟩

/-! ## The page-walk read hook -/

/-- C17: with a non-null data pointer and allocated memory, `on_cpu_mem_read`
returns OK exactly when, on entry, `mmu_hook_.response_valid` is set and
`mmu_hook_.addr` is `paddr` with its two low bits cleared; then the word handed
back is `mmu_hook_.data`, and afterwards `pending` and `response_valid` are both
clear and nothing else has changed; a valid response held for another address is
not handed back: it is dropped, the pointee is left alone and the call returns
PENDING. -/
theorem on_cpu_mem_read_ok_iff (s : Sim σ) (paddr d : Nat) (hm : s.p_memory.isSome = true) :
    ((on_cpu_mem_read s paddr (some d)).1 = CpuMemReadResult.CPU_MEM_READ_OK ↔
      (s.mmu_hook_.response_valid = true ∧ s.mmu_hook_.addr = paddr &&& 0xFFFFFFFC)) ∧
    (s.mmu_hook_.response_valid = true ∧ s.mmu_hook_.addr = paddr &&& 0xFFFFFFFC →
      (on_cpu_mem_read s paddr (some d)).2.1 = some s.mmu_hook_.data ∧
      (on_cpu_mem_read s paddr (some d)).2.2 =
        { s with mmu_hook_ := { s.mmu_hook_ with response_valid := false, pending := false } }) ∧
    (s.mmu_hook_.response_valid = true ∧ s.mmu_hook_.addr ≠ paddr &&& 0xFFFFFFFC →
      (on_cpu_mem_read s paddr (some d)).1 = CpuMemReadResult.CPU_MEM_READ_PENDING ∧
      (on_cpu_mem_read s paddr (some d)).2.1 = some d ∧
      (on_cpu_mem_read s paddr (some d)).2.2.mmu_hook_.response_valid = false ∧
      (on_cpu_mem_read s paddr (some d)).2.2.mmu_hook_.data = 0) := by
  have h0 : ¬ ((some d : Option Nat) = none ∨ s.p_memory.isNone = true) := by
    cases hp : s.p_memory with
    | none => rw [hp] at hm; exact absurd hm (by decide)
    | some mem => simp
  unfold on_cpu_mem_read
  rw [if_neg h0]
  simp only []
  by_cases hv : s.mmu_hook_.response_valid = true
  · by_cases ha : s.mmu_hook_.addr = paddr &&& 0xFFFFFFFC
    · simp [hv, ha]
    · simp [hv, ha]
  · have hv' : s.mmu_hook_.response_valid = false := by simpa using hv
    simp only [hv', Bool.false_eq_true, false_and, if_false]
    split_ifs <;> simp

set_option maxRecDepth 100000 in
/-- C17 at a simulator that holds the response for `0x2000`: a read of `0x2002`
gets it, a read of `0x3000` does not. -/
theorem on_cpu_mem_read_ok_iff_witness :
    (on_cpu_mem_read demo_walk_answered 0x2002 (some 7)).1 = CpuMemReadResult.CPU_MEM_READ_OK ∧
    (on_cpu_mem_read demo_walk_answered 0x2002 (some 7)).2.1 = some 0xABCD ∧
    (on_cpu_mem_read demo_walk_answered 0x3000 (some 7)).1 =
      CpuMemReadResult.CPU_MEM_READ_PENDING :=
  have h := on_cpu_mem_read_ok_iff demo_walk_answered 0x2002 7 (by decide)
  have h' := on_cpu_mem_read_ok_iff demo_walk_answered 0x3000 7 (by decide)
  ⟨h.1.mpr (by decide), (h.2.1 (by decide)).1.trans (by decide), (h'.2.2 (by decide)).1⟩

/-- C18: for a word-aligned 32-bit `paddr` (non-null data pointer, allocated
memory), a call of `on_cpu_mem_read` made when no request is pending and no
response is valid returns PENDING, sets `mmu_hook_` to `{pending = true,
response_valid = false, addr = paddr, data = 0}` and arms the MMU read request as
active, not issued, master MMU, id 2, `addr = paddr`, `total_size = 3`,
`beats_total = 1`, `beats_seen = 0`; a call made while a request is pending and in
flight (the MMU request active, no response valid) returns PENDING and changes
nothing. -/
theorem on_cpu_mem_read_pending (s : Sim σ) (paddr d : Nat) (hm : s.p_memory.isSome = true)
    (ha : paddr % 4 = 0) (hlt : paddr < 2 ^ 32) :
    (s.mmu_hook_.pending = false ∧ s.mmu_hook_.response_valid = false →
      on_cpu_mem_read s paddr (some d) =
        (CpuMemReadResult.CPU_MEM_READ_PENDING, some d,
          { s with
            mmu_hook_ := { pending := true, response_valid := false, addr := paddr, data := 0 }
            mmu_req_ :=
              { active := true, issued := false, master := MASTER_MMU, id := 2, addr := paddr,
                total_size := 3, beats_total := 1, beats_seen := 0 } })) ∧
    (s.mmu_hook_.pending = true ∧ s.mmu_req_.active = true ∧
        s.mmu_hook_.response_valid = false →
      on_cpu_mem_read s paddr (some d) = (CpuMemReadResult.CPU_MEM_READ_PENDING, some d, s)) := by
  have h0 : ¬ ((some d : Option Nat) = none ∨ s.p_memory.isNone = true) := by
    cases hp : s.p_memory with
    | none => rw [hp] at hm; exact absurd hm (by decide)
    | some mem => simp
  have hal : paddr &&& 0xFFFFFFFC = paddr := by
    rw [and_not_three paddr hlt]
    omega
  unfold on_cpu_mem_read
  rw [if_neg h0]
  simp only [hal]
  constructor
  · rintro ⟨hp, hv⟩
    simp [hp, hv, setup_read, kMmuReqId, calc_beats]
  · rintro ⟨hp, hact, hv⟩
    simp [hp, hv, hact]

set_option maxRecDepth 100000 in
/-- C18 at a loaded simulator: the first read of `0x2000` arms the MMU request,
a second read while it is in flight changes nothing. -/
theorem on_cpu_mem_read_pending_witness :
    (on_cpu_mem_read (demo_loaded 5 100) 0x2000 (some 7)).1 =
      CpuMemReadResult.CPU_MEM_READ_PENDING ∧
    (on_cpu_mem_read (demo_loaded 5 100) 0x2000 (some 7)).2.2.mmu_req_ =
      { active := true, issued := false, master := 2, id := 2, addr := 0x2000, total_size := 3,
        beats_total := 1, beats_seen := 0 } ∧
    (on_cpu_mem_read (on_cpu_mem_read (demo_loaded 5 100) 0x2000 (some 7)).2.2 0x2000 (some 7)).1 =
      CpuMemReadResult.CPU_MEM_READ_PENDING :=
  have h := on_cpu_mem_read_pending (demo_loaded 5 100) 0x2000 7 (by decide) (by decide)
    (by decide)
  have h' := on_cpu_mem_read_pending (on_cpu_mem_read (demo_loaded 5 100) 0x2000 (some 7)).2.2
    0x2000 7 (by decide) (by decide) (by decide)
  ⟨congrArg (fun r => r.1) (h.1 (by decide)),
    (congrArg (fun r => r.2.2.mmu_req_) (h.1 (by decide))).trans (by decide),
    congrArg (fun r => r.1) (h'.2 (by decide))⟩

/-! ## Address translation gate -/

/-- In machine mode `translate_addr` returns the virtual address and leaves the
state alone, whatever `mstatus` holds. -/
theorem translate_addr_machine_mode (env : Env σ) (s : Sim σ) (vaddr type paddr : Nat)
    (hp : s.cpu_core_.privilege = RISCV_MODE_M) :
    translate_addr env s vaddr type paddr = (true, vaddr, s) := by
  unfold translate_addr
  rw [if_neg (fun h => h.2 hp)]

set_option maxRecDepth 100000 in
/-- C19 at its failing input: with `satp.MODE = 1`, `mstatus.MPRV = 1`,
`mstatus.MPP = S` and current privilege M, the effective privilege of a load is S,
yet `translate_addr` returns `paddr = vaddr` with no call of `va2pa` (no page-walk
read is requested); with current privilege S the same load does call `va2pa`. -/
theorem translate_addr_ignores_mprv :
    (mprv_state RISCV_MODE_M).cpu_core_.state.csr csr_satp &&& 0x80000000 ≠ 0 ∧
    spec_effective_privilege (mprv_state RISCV_MODE_M).cpu_core_ 1 = RISCV_MODE_S ∧
    (translate_addr walk_env (mprv_state RISCV_MODE_M) 0x1000 1 0).1 = true ∧
    (translate_addr walk_env (mprv_state RISCV_MODE_M) 0x1000 1 0).2.1 = 0x1000 ∧
    (translate_addr walk_env (mprv_state RISCV_MODE_M) 0x1000 1 0).2.2.mmu_req_.active = false ∧
    (translate_addr walk_env (mprv_state RISCV_MODE_M) 0x1000 1 0
      ).2.2.cpu_core_.translation_pending = false ∧
    (translate_addr walk_env (mprv_state RISCV_MODE_S) 0x1000 1 0).1 = false ∧
    (translate_addr walk_env (mprv_state RISCV_MODE_S) 0x1000 1 0).2.2.mmu_req_.active = true := by
  decide

/-! ## Response codes -/

set_option maxRecDepth 100000 in
/-- C20, as stated, fails: the fetch request is issued and the slave answers with
`rresp = 2`; the beat's `rdata` is stored at the fetch address, the fetch completes
and the stage moves on to `kPrepareData` with that word as the instruction, as for
the same beat with `rresp = 0`. -/
theorem error_response_committed :
    (run demo_env (demo_loaded 5 100) [demo_idle, demo_accept]).fetch_req_.issued = true ∧
    demo_fetch_error.rresp = 2 ∧
    mem_word (run demo_env (demo_loaded 5 100) [demo_idle, demo_accept]).p_memory 0
      = 0xf1402573 ∧
    mem_word (step demo_env (run demo_env (demo_loaded 5 100) [demo_idle, demo_accept])
      demo_fetch_error).sim.p_memory 0 = demo_fetch_error.rdata ∧
    (step demo_env (run demo_env (demo_loaded 5 100) [demo_idle, demo_accept])
      demo_fetch_error).sim.stage_ = ExecStage.kPrepareData ∧
    (step demo_env (run demo_env (demo_loaded 5 100) [demo_idle, demo_accept])
      demo_fetch_error).sim.inst_word_ = demo_fetch_error.rdata ∧
    (step demo_env (run demo_env (demo_loaded 5 100) [demo_idle, demo_accept])
      { demo_fetch_error with rresp := 0 }).sim.stage_ = ExecStage.kPrepareData ∧
    (step demo_env (run demo_env (demo_loaded 5 100) [demo_idle, demo_accept])
      { demo_fetch_error with rresp := 0 }).sim.inst_word_ = demo_fetch_error.rdata := by
  decide

/-! ## CSR indices -/

/-- C21 at its failing inputs: `cvt_number_to_csr` maps the CSR numbers of `time`
(`0xc01`) and `timeh` (`0xc81`) to 21 and 22, which are not indices of the
21-entry `csr` array; the other 21 numbers of the table map to 0..20 in order. -/
theorem cvt_number_to_csr_out_of_range :
    cvt_number_to_csr number_time = some 21 ∧
    cvt_number_to_csr number_timeh = some 22 ∧
    ¬ (21 < CSR_ARRAY_LENGTH) ∧ ¬ (22 < CSR_ARRAY_LENGTH) ∧
    csr_numbers.length = 23 ∧
    csr_numbers.map cvt_number_to_csr = (List.range 23).map some ∧
    (csr_numbers.take 21).all
      (fun n => match cvt_number_to_csr n with
        | some i => decide (i < CSR_ARRAY_LENGTH)
        | none => false) = true := by
  decide

/-! ## Loading an image -/

/-- C29: after a successful `load_image` (return value 0) memory holds the four
boot words at byte addresses 0x0, 0x4, 0x8, 0xC and `0x00006000` at byte address
`0x10000004`; the machine state is reset (`sim_time` 0, `inst_count_` 0, stage
`kPrepareFetch`, `success_` false, no request slot active, the MMU hook state
cleared, the CPU the result of `init(0)`); the image is marked loaded and the
limits are as they were. -/
theorem load_image_success (env : Env σ) (s : Sim σ) (image_path : Option String)
    (file : ImageFile) (h : (load_image env s image_path file).1 = 0) :
    (mem_word (load_image env s image_path file).2.2.p_memory (0x0 >>> 2) = 0xf1402573 ∧
      mem_word (load_image env s image_path file).2.2.p_memory (0x4 >>> 2) = 0x83e005b7 ∧
      mem_word (load_image env s image_path file).2.2.p_memory (0x8 >>> 2) = 0x800002b7 ∧
      mem_word (load_image env s image_path file).2.2.p_memory (0xC >>> 2) = 0x00028067 ∧
      mem_word (load_image env s image_path file).2.2.p_memory (0x10000004 >>> 2) = 0x00006000 ∧
      (load_image env s image_path file).2.2.p_memory.isSome = true) ∧
    ((load_image env s image_path file).2.2.sim_time = 0 ∧
      (load_image env s image_path file).2.2.inst_count_ = 0 ∧
      (load_image env s image_path file).2.2.stage_ = ExecStage.kPrepareFetch ∧
      (load_image env s image_path file).2.2.success_ = false ∧
      (load_image env s image_path file).2.2.fetch_req_.active = false ∧
      (load_image env s image_path file).2.2.data_req_.active = false ∧
      (load_image env s image_path file).2.2.write_req_.active = false ∧
      (load_image env s image_path file).2.2.mmu_req_.active = false ∧
      (load_image env s image_path file).2.2.mmu_hook_ = {} ∧
      (load_image env s image_path file).2.2.cpu_core_ = env.cpu_init s.cpu_core_ 0) ∧
    ((load_image env s image_path file).2.2.image_loaded_ = true ∧
      (load_image env s image_path file).2.2.max_inst_ = s.max_inst_ ∧
      (load_image env s image_path file).2.2.max_cycles_ = s.max_cycles_) := by
  unfold load_image at h ⊢
  cases image_path with
  | none => simp at h
  | some path =>
    cases hm : s.p_memory with
    | none => simp [hm] at h
    | some mem =>
      simp only [hm] at h ⊢
      split_ifs at h ⊢ with h1 h2
      · simp at h
      · simp at h
      · refine ⟨⟨?_, ?_, ?_, ?_, ?_, rfl⟩, ⟨rfl, rfl, rfl, rfl, rfl, rfl, rfl, rfl, rfl, rfl⟩,
          ⟨rfl, rfl, rfl⟩⟩ <;>
        simp [reset_machine_state, mem_word, Function.update]

set_option maxRecDepth 100000 in
theorem load_image_success_witness :
    (load_image demo_env demo_fresh (some "image.bin") demo_file).1 = 0 ∧
    mem_word (load_image demo_env demo_fresh (some "image.bin") demo_file).2.2.p_memory (0x4 >>> 2)
      = 0x83e005b7 ∧
    (load_image demo_env demo_fresh (some "image.bin") demo_file).2.2.max_cycles_ = 12000000000 :=
  have h := load_image_success demo_env demo_fresh (some "image.bin") demo_file (by decide)
  ⟨by decide, h.1.2.1, h.2.2.2.2⟩

/-! ## Sign extension and byte lanes -/

theorem xor_sign_bit (x k : Nat) (hx : x < 2 ^ (k + 1)) :
    x ^^^ 2 ^ k = if x < 2 ^ k then x + 2 ^ k else x - 2 ^ k := by
  have hp : 2 ^ (k + 1) = 2 * 2 ^ k := by rw [pow_succ]; omega
  split_ifs with h
  · have e : x + 2 ^ k = 2 ^ k ||| x := by
      have := Nat.mul_add_lt_is_or h 1
      rw [Nat.mul_one] at this
      omega
    rw [e]
    apply Nat.eq_of_testBit_eq
    intro i
    rw [Nat.testBit_xor, Nat.testBit_or, Nat.testBit_two_pow]
    by_cases hi : k = i
    · subst hi
      simp [Nat.testBit_lt_two_pow h]
    · simp [hi]
  · obtain ⟨y, hy⟩ : ∃ y, x = 2 ^ k + y := ⟨x - 2 ^ k, by omega⟩
    have hy2 : y < 2 ^ k := by omega
    have e : x - 2 ^ k = y := by omega
    have e2 : 2 ^ k + y = 2 ^ k ||| y := by
      have := Nat.mul_add_lt_is_or hy2 1
      rw [Nat.mul_one] at this
      exact this
    rw [e, hy, e2]
    apply Nat.eq_of_testBit_eq
    intro i
    rw [Nat.testBit_xor, Nat.testBit_or, Nat.testBit_two_pow]
    by_cases hi : k = i
    · subst hi
      simp [Nat.testBit_lt_two_pow hy2]
    · simp [hi]

/-- The value of `sext(x, 12)` for a 12-bit `x`: `x` read as a signed 12-bit number. -/
theorem sext_12 (x : Nat) (hx : x < 4096) :
    sext x 12 = if x < 2048 then (x : Int) else (x : Int) - 4096 := by
  have hs : (1 <<< (12 - 1)) % 2 ^ 32 = 2 ^ 11 := by decide
  have hx2 := xor_sign_bit x 11 (by omega)
  unfold sext toInt32
  simp only [hs, hx2]
  split_ifs with h1 h2 h3 <;> omega

theorem byte_lane_shift (y o j : Nat) (h : o + j < 4) :
    byte_lane ((y <<< (o * 8)) % 2 ^ 32) (o + j) = byte_lane y j := by
  have h8 : ∀ i, Nat.testBit 0xFF i = decide (i < 8) :=
    fun i => Nat.testBit_two_pow_sub_one 8 i
  unfold byte_lane
  apply Nat.eq_of_testBit_eq
  intro i
  by_cases hi : i < 8
  · have h1 : 8 * (o + j) + i < 32 := by omega
    have h2 : o * 8 ≤ 8 * (o + j) + i := by omega
    have h3 : 8 * (o + j) + i - o * 8 = 8 * j + i := by omega
    rw [Nat.testBit_and, Nat.testBit_and, Nat.testBit_shiftRight, Nat.testBit_shiftRight,
      Nat.testBit_mod_two_pow, Nat.testBit_shiftLeft, h3]
    simp [h8, hi, h1, h2]
  · simp [Nat.testBit_and, h8, hi]

theorem byte_lane_and_mask (x n j : Nat) (hj : 8 * j + 8 ≤ n) :
    byte_lane (x &&& (2 ^ n - 1)) j = byte_lane x j := by
  have h8 : ∀ i, Nat.testBit 0xFF i = decide (i < 8) :=
    fun i => Nat.testBit_two_pow_sub_one 8 i
  unfold byte_lane
  apply Nat.eq_of_testBit_eq
  intro i
  by_cases hi : i < 8
  · have h1 : 8 * j + i < n := by omega
    simp [Nat.testBit_and, Nat.testBit_shiftRight, Nat.testBit_two_pow_sub_one, h8, hi, h1]
  · simp [Nat.testBit_and, h8, hi]

/-- The store case of `decode_mem_req_pre_exec`, read against the translation of
`store_vaddr`. -/
theorem decode_store_eq (env : Env σ) (s : Sim σ) (iw : Nat) (hop : iw &&& 0x7f = 0x23) :
    decode_mem_req_pre_exec env s iw =
      (if (translate_addr env s (store_vaddr s iw) 2 0).1 = false then ({} : DecodedMemReq)
       else if (iw >>> 12) &&& 0x7 = 0 then
        { valid := true, is_read := false
          paddr := (translate_addr env s (store_vaddr s iw) 2 0).2.1
          total_size := 0
          wstrb := (1 <<< ((translate_addr env s (store_vaddr s iw) 2 0).2.1 &&& 0x3)) % 2 ^ 32
          wdata := ((s.cpu_core_.state.gpr ((iw >>> 20) &&& 0x1f) &&& 0xff) <<<
            (((translate_addr env s (store_vaddr s iw) 2 0).2.1 &&& 0x3) * 8)) % 2 ^ 32 }
       else if (iw >>> 12) &&& 0x7 = 1 then
        { valid := true, is_read := false
          paddr := (translate_addr env s (store_vaddr s iw) 2 0).2.1
          total_size := 1
          wstrb := ((0x3 <<< ((translate_addr env s (store_vaddr s iw) 2 0).2.1 &&& 0x3)) % 2 ^ 32)
            &&& 0xf
          wdata := ((s.cpu_core_.state.gpr ((iw >>> 20) &&& 0x1f) &&& 0xffff) <<<
            (((translate_addr env s (store_vaddr s iw) 2 0).2.1 &&& 0x3) * 8)) % 2 ^ 32 }
       else if (iw >>> 12) &&& 0x7 = 2 then
        { valid := true, is_read := false
          paddr := (translate_addr env s (store_vaddr s iw) 2 0).2.1
          total_size := 3
          wstrb := ((0xf <<< ((translate_addr env s (store_vaddr s iw) 2 0).2.1 &&& 0x3)) % 2 ^ 32)
            &&& 0xf
          wdata := (s.cpu_core_.state.gpr ((iw >>> 20) &&& 0x1f) <<<
            (((translate_addr env s (store_vaddr s iw) 2 0).2.1 &&& 0x3) * 8)) % 2 ^ 32 }
       else
        { valid := false, is_read := false
          paddr := (translate_addr env s (store_vaddr s iw) 2 0).2.1 },
       (translate_addr env s (store_vaddr s iw) 2 0).2.2) := by
  unfold decode_mem_req_pre_exec store_vaddr
  simp only [hop]
  simp only [if_true, if_false, Nat.reduceEqDiff]
  split_ifs <;> rfl

/-- The load case of `decode_mem_req_pre_exec`, read against the translation of
`load_vaddr`. -/
theorem decode_load_eq (env : Env σ) (s : Sim σ) (iw : Nat) (hop : iw &&& 0x7f = 0x03) :
    decode_mem_req_pre_exec env s iw =
      (if (translate_addr env s (load_vaddr s iw) 1 0).1 = false then ({} : DecodedMemReq)
       else if (iw >>> 12) &&& 0x7 = 0 ∨ (iw >>> 12) &&& 0x7 = 4 then
        { valid := true, is_read := true
          paddr := (translate_addr env s (load_vaddr s iw) 1 0).2.1, total_size := 0 }
       else if (iw >>> 12) &&& 0x7 = 1 ∨ (iw >>> 12) &&& 0x7 = 5 then
        { valid := true, is_read := true
          paddr := (translate_addr env s (load_vaddr s iw) 1 0).2.1, total_size := 1 }
       else if (iw >>> 12) &&& 0x7 = 2 then
        { valid := true, is_read := true
          paddr := (translate_addr env s (load_vaddr s iw) 1 0).2.1, total_size := 3 }
       else
        { valid := false, is_read := true
          paddr := (translate_addr env s (load_vaddr s iw) 1 0).2.1 },
       (translate_addr env s (load_vaddr s iw) 1 0).2.2) := by
  unfold decode_mem_req_pre_exec load_vaddr
  simp only [hop]
  simp only [if_true, if_false, Nat.reduceEqDiff]
  split_ifs <;> rfl

/-- The AMO case of `decode_mem_req_pre_exec`. -/
theorem decode_amo_eq (env : Env σ) (s : Sim σ) (iw : Nat) (hop : iw &&& 0x7f = 0x2f) :
    decode_mem_req_pre_exec env s iw =
      (if (translate_addr env s (s.cpu_core_.state.gpr ((iw >>> 15) &&& 0x1f)) 1 0).1 = false then
        ({} : DecodedMemReq)
       else
        { valid := true, is_read := true
          paddr := (translate_addr env s (s.cpu_core_.state.gpr ((iw >>> 15) &&& 0x1f)) 1 0).2.1
          total_size := 3 },
       (translate_addr env s (s.cpu_core_.state.gpr ((iw >>> 15) &&& 0x1f)) 1 0).2.2) := by
  unfold decode_mem_req_pre_exec
  simp only [hop]
  simp only [if_true, if_false, Nat.reduceEqDiff]
  split_ifs <;> rfl

/-- Every other opcode: no request, and the CPU is not called. -/
theorem decode_other_eq (env : Env σ) (s : Sim σ) (iw : Nat) (h1 : iw &&& 0x7f ≠ 0x03)
    (h2 : iw &&& 0x7f ≠ 0x23) (h3 : iw &&& 0x7f ≠ 0x2f) :
    decode_mem_req_pre_exec env s iw = ({}, s) := by
  unfold decode_mem_req_pre_exec
  simp only []
  rw [if_neg h1, if_neg h2, if_neg h3]

/-- The `total_size` of a pre-decoded request is 0, 1 or 3. -/
theorem decode_total_size (env : Env σ) (s : Sim σ) (iw : Nat) :
    (decode_mem_req_pre_exec env s iw).1.total_size = 0 ∨
    (decode_mem_req_pre_exec env s iw).1.total_size = 1 ∨
    (decode_mem_req_pre_exec env s iw).1.total_size = 3 := by
  by_cases h1 : iw &&& 0x7f = 0x03
  · rw [decode_load_eq env s iw h1]
    simp only []
    split_ifs <;> simp
  · by_cases h2 : iw &&& 0x7f = 0x23
    · rw [decode_store_eq env s iw h2]
      simp only []
      split_ifs <;> simp
    · by_cases h3 : iw &&& 0x7f = 0x2f
      · rw [decode_amo_eq env s iw h3]
        simp only []
        split_ifs <;> simp
      · rw [decode_other_eq env s iw h1 h2 h3]
        simp

/-- What a strobed write does to the bytes of memory when the strobe covers the
`w` lanes from `paddr % 4` on and the data word carries `v` in those lanes. -/
theorem store_lanes (mem : Mem) (paddr data wstrb w v : Nat) (ho : paddr % 4 + w ≤ 4)
    (hs : ∀ k, k < 4 → (wstrb.testBit k = true ↔ (paddr % 4 ≤ k ∧ k < paddr % 4 + w)))
    (hd : ∀ j, j < w → byte_lane data (paddr % 4 + j) = byte_lane v j) :
    ∃ mem', apply_wstrb_write (some mem) paddr data wstrb = some mem' ∧
      (∀ j, j < w → mem_byte mem' (paddr + j) = byte_lane v j) ∧
      (∀ a, (a < paddr ∨ paddr + w ≤ a) → mem_byte mem' a = mem_byte mem a) := by
  have hsh : paddr >>> 2 = paddr / 4 := Nat.shiftRight_eq_div_pow paddr 2
  refine ⟨_, rfl, ?_, ?_⟩
  · intro j hj
    have h1 : (paddr + j) / 4 = paddr / 4 := by omega
    have h2 : (paddr + j) % 4 = paddr % 4 + j := by omega
    unfold mem_byte
    rw [h1, h2, hsh, Function.update_same, merged_word_lane _ _ _ _ (by omega),
      if_pos ((hs _ (by omega)).mpr ⟨by omega, by omega⟩)]
    exact hd j hj
  · intro a ha
    unfold mem_byte
    rw [hsh]
    by_cases hw : a / 4 = paddr / 4
    · have hk : ¬ (paddr % 4 ≤ a % 4 ∧ a % 4 < paddr % 4 + w) := by omega
      rw [hw, Function.update_same, merged_word_lane _ _ _ _ (Nat.mod_lt a (by decide)),
        if_neg (fun h => hk ((hs _ (Nat.mod_lt a (by decide))).mp h))]
    · rw [Function.update_noteq hw]

theorem sb_strobe (o k : Nat) (ho : o < 4) (hk : k < 4) :
    (((1 <<< o) % 2 ^ 32) % 256).testBit k = true ↔ (o ≤ k ∧ k < o + 1) := by
  interval_cases o <;> interval_cases k <;> decide

theorem sh_strobe (o k : Nat) (ho : o = 0 ∨ o = 2) (hk : k < 4) :
    ((((0x3 <<< o) % 2 ^ 32) &&& 0xf) % 256).testBit k = true ↔ (o ≤ k ∧ k < o + 2) := by
  rcases ho with rfl | rfl <;> interval_cases k <;> decide

theorem sw_strobe (k : Nat) (hk : k < 4) :
    ((((0xf <<< 0) % 2 ^ 32) &&& 0xf) % 256).testBit k = true ↔ (0 ≤ k ∧ k < 0 + 4) := by
  interval_cases k <;> decide

theorem byte_lane_mod_word (y j : Nat) (hj : j < 4) : byte_lane (y % 2 ^ 32) j = byte_lane y j := by
  have := byte_lane_shift y 0 j (by omega)
  simpa using this

/-! ## Pre-decoded stores and loads -/

/-- C22: for a store (opcode `0x23`) of width `w` (`funct3` 0, 1, 2 for `w` = 1, 2, 4)
whose translation succeeds with a physical address that is a multiple of `w`,
`decode_mem_req_pre_exec` yields a valid write request at that address with
`total_size = w - 1`, and `apply_wstrb_write` at that address with the request's
`wdata` and `wstrb` leaves byte `j` of `gpr[rs2]` at byte address `paddr + j` for
`j < w` and every other byte of memory as it was. -/
theorem decode_store_bytes (env : Env σ) (s : Sim σ) (iw w : Nat) (mem : Mem)
    (hop : iw &&& 0x7f = 0x23)
    (ht : (translate_addr env s (store_vaddr s iw) 2 0).1 = true)
    (hw : ((iw >>> 12) &&& 0x7 = 0 ∧ w = 1) ∨ ((iw >>> 12) &&& 0x7 = 1 ∧ w = 2) ∨
      ((iw >>> 12) &&& 0x7 = 2 ∧ w = 4))
    (ha : (translate_addr env s (store_vaddr s iw) 2 0).2.1 % w = 0) :
    (decode_mem_req_pre_exec env s iw).1.valid = true ∧
    (decode_mem_req_pre_exec env s iw).1.is_read = false ∧
    (decode_mem_req_pre_exec env s iw).1.paddr =
      (translate_addr env s (store_vaddr s iw) 2 0).2.1 ∧
    (decode_mem_req_pre_exec env s iw).1.total_size = w - 1 ∧
    ∃ mem',
      apply_wstrb_write (some mem) (decode_mem_req_pre_exec env s iw).1.paddr
        (decode_mem_req_pre_exec env s iw).1.wdata
        ((decode_mem_req_pre_exec env s iw).1.wstrb % 256) = some mem' ∧
      (∀ j, j < w →
        mem_byte mem' ((translate_addr env s (store_vaddr s iw) 2 0).2.1 + j) =
          byte_lane (s.cpu_core_.state.gpr ((iw >>> 20) &&& 0x1f)) j) ∧
      (∀ a, (a < (translate_addr env s (store_vaddr s iw) 2 0).2.1 ∨
            (translate_addr env s (store_vaddr s iw) 2 0).2.1 + w ≤ a) →
        mem_byte mem' a = mem_byte mem a) := by
  have ht' : ¬ (translate_addr env s (store_vaddr s iw) 2 0).1 = false := by simp [ht]
  have h3 : ∀ p : Nat, p &&& 0x3 = p % 4 := and_three
  have hlt : ∀ p : Nat, p % 4 < 4 := fun p => Nat.mod_lt _ (by decide)
  rcases hw with ⟨hf, rfl⟩ | ⟨hf, rfl⟩ | ⟨hf, rfl⟩
  · have key : (decode_mem_req_pre_exec env s iw).1 =
        { valid := true, is_read := false
          paddr := (translate_addr env s (store_vaddr s iw) 2 0).2.1
          total_size := 0
          wstrb := (1 <<< ((translate_addr env s (store_vaddr s iw) 2 0).2.1 &&& 0x3)) % 2 ^ 32
          wdata := ((s.cpu_core_.state.gpr ((iw >>> 20) &&& 0x1f) &&& 0xff) <<<
            (((translate_addr env s (store_vaddr s iw) 2 0).2.1 &&& 0x3) * 8)) % 2 ^ 32 } := by
      rw [decode_store_eq env s iw hop, if_neg ht', if_pos hf]
    rw [key]
    refine ⟨rfl, rfl, rfl, rfl, ?_⟩
    generalize (translate_addr env s (store_vaddr s iw) 2 0).2.1 = paddr at ha ⊢
    generalize s.cpu_core_.state.gpr ((iw >>> 20) &&& 0x1f) = v
    simp only [h3]
    apply store_lanes mem paddr _ _ 1 v (by have := hlt paddr; omega)
    · intro k hk
      exact sb_strobe _ k (hlt paddr) hk
    · intro j hj
      have hj0 : j = 0 := by omega
      subst hj0
      rw [byte_lane_shift (v &&& 0xff) (paddr % 4) 0 (by have := hlt paddr; omega)]
      exact byte_lane_and_mask v 8 0 (by omega)
  · have hf0 : ¬ ((iw >>> 12) &&& 0x7 = 0) := by rw [hf]; decide
    have key : (decode_mem_req_pre_exec env s iw).1 =
        { valid := true, is_read := false
          paddr := (translate_addr env s (store_vaddr s iw) 2 0).2.1
          total_size := 1
          wstrb := ((0x3 <<< ((translate_addr env s (store_vaddr s iw) 2 0).2.1 &&& 0x3)) % 2 ^ 32)
            &&& 0xf
          wdata := ((s.cpu_core_.state.gpr ((iw >>> 20) &&& 0x1f) &&& 0xffff) <<<
            (((translate_addr env s (store_vaddr s iw) 2 0).2.1 &&& 0x3) * 8)) % 2 ^ 32 } := by
      rw [decode_store_eq env s iw hop, if_neg ht', if_neg hf0, if_pos hf]
    rw [key]
    refine ⟨rfl, rfl, rfl, rfl, ?_⟩
    generalize (translate_addr env s (store_vaddr s iw) 2 0).2.1 = paddr at ha ⊢
    generalize s.cpu_core_.state.gpr ((iw >>> 20) &&& 0x1f) = v
    simp only [h3]
    apply store_lanes mem paddr _ _ 2 v (by omega)
    · intro k hk
      exact sh_strobe _ k (by omega) hk
    · intro j hj
      rw [byte_lane_shift (v &&& 0xffff) (paddr % 4) j (by omega)]
      exact byte_lane_and_mask v 16 j (by omega)
  · have hf0 : ¬ ((iw >>> 12) &&& 0x7 = 0) := by rw [hf]; decide
    have hf1 : ¬ ((iw >>> 12) &&& 0x7 = 1) := by rw [hf]; decide
    have key : (decode_mem_req_pre_exec env s iw).1 =
        { valid := true, is_read := false
          paddr := (translate_addr env s (store_vaddr s iw) 2 0).2.1
          total_size := 3
          wstrb := ((0xf <<< ((translate_addr env s (store_vaddr s iw) 2 0).2.1 &&& 0x3)) % 2 ^ 32)
            &&& 0xf
          wdata := (s.cpu_core_.state.gpr ((iw >>> 20) &&& 0x1f) <<<
            (((translate_addr env s (store_vaddr s iw) 2 0).2.1 &&& 0x3) * 8)) % 2 ^ 32 } := by
      rw [decode_store_eq env s iw hop, if_neg ht', if_neg hf0, if_neg hf1, if_pos hf]
    rw [key]
    refine ⟨rfl, rfl, rfl, rfl, ?_⟩
    generalize (translate_addr env s (store_vaddr s iw) 2 0).2.1 = paddr at ha ⊢
    generalize s.cpu_core_.state.gpr ((iw >>> 20) &&& 0x1f) = v
    have ho : paddr % 4 = 0 := ha
    simp only [h3, ho]
    apply store_lanes mem paddr _ _ 4 v (by omega)
    · intro k hk
      rw [ho]
      exact sw_strobe k hk
    · intro j hj
      rw [ho]
      exact byte_lane_shift v 0 j (by omega)

set_option maxRecDepth 100000 in
theorem decode_store_bytes_witness :
    (0x00219023 : Nat) &&& 0x7f = 0x23 ∧
    (translate_addr demo_env (demo_regs 0x00219023) (store_vaddr (demo_regs 0x00219023) 0x00219023)
      2 0).1 = true ∧
    (translate_addr demo_env (demo_regs 0x00219023) (store_vaddr (demo_regs 0x00219023) 0x00219023)
      2 0).2.1 = 0x80000102 ∧
    (decode_mem_req_pre_exec demo_env (demo_regs 0x00219023) 0x00219023).1 =
      { valid := true, is_read := false, paddr := 0x80000102, total_size := 1,
        wdata := 0xCCDD0000, wstrb := 0xC } ∧
    (∃ mem', apply_wstrb_write (some (fun _ => 0x11223344)) 0x80000102 0xCCDD0000 0xC = some mem' ∧
      mem_byte mem' 0x80000102 = 0xDD ∧ mem_byte mem' 0x80000103 = 0xCC ∧
      mem_byte mem' 0x80000101 = 0x33 ∧ mem_byte mem' 0x80000100 = 0x44) :=
  have h := decode_store_bytes demo_env (demo_regs 0x00219023) 0x00219023 2 (fun _ => 0x11223344)
    (by decide) (by decide) (Or.inr (Or.inl (by decide))) (by decide)
  ⟨by decide, by decide, by decide, by decide, by
    obtain ⟨mem', e, h1, h2⟩ := h.2.2.2.2
    have e' : apply_wstrb_write (some (fun _ => 0x11223344)) 0x80000102 0xCCDD0000 0xC =
        some mem' := e
    have q0 := h1 0 (by decide)
    have q1 := h1 1 (by decide)
    have q2 := h2 0x80000101 (Or.inl (by decide))
    have q3 := h2 0x80000100 (Or.inl (by decide))
    exact ⟨mem', e', q0, q1, q2, q3⟩⟩

/-- C23: for a latched instruction word with opcode `0x03` whose translation
succeeds, the address translated is `gpr[rs1]` plus bits 31:20 read as a signed
12-bit number, modulo `2^32`; the pre-decoded request is a read at the translated
address with `total_size` 0 for `funct3` 0 or 4, 1 for `funct3` 1 or 5 and 3 for
`funct3` 2, and is not valid for `funct3` 3, 6 or 7; with `translation_pending`
clear, `prepare_data_request` arms that read and goes to `kWaitData` in the
first case and goes to `kExecute` with no slot touched in the second. -/
theorem decode_load_request (env : Env σ) (s : Sim σ) (hop : s.inst_word_ &&& 0x7f = 0x03)
    (ht : (translate_addr env s (load_vaddr s s.inst_word_) 1 0).1 = true) :
    load_vaddr s s.inst_word_ =
      toUInt32 ((s.cpu_core_.state.gpr ((s.inst_word_ >>> 15) &&& 0x1f) : Int) +
        (if (s.inst_word_ >>> 20) &&& 0xfff < 2048 then (((s.inst_word_ >>> 20) &&& 0xfff : Nat) : Int)
         else (((s.inst_word_ >>> 20) &&& 0xfff : Nat) : Int) - 4096)) ∧
    ((s.inst_word_ >>> 12) &&& 0x7 = 0 ∨ (s.inst_word_ >>> 12) &&& 0x7 = 4 →
      (decode_mem_req_pre_exec env s s.inst_word_).1 =
        { valid := true, is_read := true
          paddr := (translate_addr env s (load_vaddr s s.inst_word_) 1 0).2.1, total_size := 0 }) ∧
    ((s.inst_word_ >>> 12) &&& 0x7 = 1 ∨ (s.inst_word_ >>> 12) &&& 0x7 = 5 →
      (decode_mem_req_pre_exec env s s.inst_word_).1 =
        { valid := true, is_read := true
          paddr := (translate_addr env s (load_vaddr s s.inst_word_) 1 0).2.1, total_size := 1 }) ∧
    ((s.inst_word_ >>> 12) &&& 0x7 = 2 →
      (decode_mem_req_pre_exec env s s.inst_word_).1 =
        { valid := true, is_read := true
          paddr := (translate_addr env s (load_vaddr s s.inst_word_) 1 0).2.1, total_size := 3 }) ∧
    ((s.inst_word_ >>> 12) &&& 0x7 = 3 ∨ (s.inst_word_ >>> 12) &&& 0x7 = 6 ∨
        (s.inst_word_ >>> 12) &&& 0x7 = 7 →
      (decode_mem_req_pre_exec env s s.inst_word_).1.valid = false) ∧
    ((translate_addr env s (load_vaddr s s.inst_word_) 1 0).2.2.cpu_core_.translation_pending = false →
      ((s.inst_word_ >>> 12) &&& 0x7 = 0 ∨ (s.inst_word_ >>> 12) &&& 0x7 = 1 ∨
          (s.inst_word_ >>> 12) &&& 0x7 = 2 ∨ (s.inst_word_ >>> 12) &&& 0x7 = 4 ∨
          (s.inst_word_ >>> 12) &&& 0x7 = 5 →
        (prepare_data_request env s).stage_ = ExecStage.kWaitData ∧
        (prepare_data_request env s).data_req_ =
          setup_read MASTER_DCACHE_R kDataReqId
            (translate_addr env s (load_vaddr s s.inst_word_) 1 0).2.1
            (decode_mem_req_pre_exec env s s.inst_word_).1.total_size ∧
        (prepare_data_request env s).write_req_ = s.write_req_) ∧
      ((s.inst_word_ >>> 12) &&& 0x7 = 3 ∨ (s.inst_word_ >>> 12) &&& 0x7 = 6 ∨
          (s.inst_word_ >>> 12) &&& 0x7 = 7 →
        (prepare_data_request env s).stage_ = ExecStage.kExecute ∧
        (prepare_data_request env s).data_req_ = s.data_req_ ∧
        (prepare_data_request env s).write_req_ = s.write_req_)) := by
  have ht' : ¬ (translate_addr env s (load_vaddr s s.inst_word_) 1 0).1 = false := by simp [ht]
  have hd := decode_load_eq env s s.inst_word_ hop
  rw [if_neg ht'] at hd
  obtain ⟨c, m, h, r, e⟩ := translate_addr_frame env s (load_vaddr s s.inst_word_) 1 0
  have hx : (s.inst_word_ >>> 20) &&& 0xfff < 4096 := by
    have : (s.inst_word_ >>> 20) &&& 0xfff = (s.inst_word_ >>> 20) % 2 ^ 12 :=
      Nat.and_pow_two_sub_one_eq_mod _ 12
    omega
  refine ⟨?_, ?_, ?_, ?_, ?_, ?_⟩
  · unfold load_vaddr toUInt32
    rw [sext_12 _ hx]
    generalize s.cpu_core_.state.gpr ((s.inst_word_ >>> 15) &&& 0x1f) = g
    generalize (s.inst_word_ >>> 20) &&& 0xfff = x at hx ⊢
    split_ifs <;> omega
  · intro hf
    rw [hd, if_pos hf]
  · intro hf
    have h0 : ¬ ((s.inst_word_ >>> 12) &&& 0x7 = 0 ∨ (s.inst_word_ >>> 12) &&& 0x7 = 4) := by
      rcases hf with hf | hf <;> rw [hf] <;> decide
    rw [hd, if_neg h0, if_pos hf]
  · intro hf
    have h0 : ¬ ((s.inst_word_ >>> 12) &&& 0x7 = 0 ∨ (s.inst_word_ >>> 12) &&& 0x7 = 4) := by
      rw [hf]; decide
    have h1 : ¬ ((s.inst_word_ >>> 12) &&& 0x7 = 1 ∨ (s.inst_word_ >>> 12) &&& 0x7 = 5) := by
      rw [hf]; decide
    rw [hd, if_neg h0, if_neg h1, if_pos hf]
  · intro hf
    have h0 : ¬ ((s.inst_word_ >>> 12) &&& 0x7 = 0 ∨ (s.inst_word_ >>> 12) &&& 0x7 = 4) := by
      rcases hf with hf | hf | hf <;> rw [hf] <;> decide
    have h1 : ¬ ((s.inst_word_ >>> 12) &&& 0x7 = 1 ∨ (s.inst_word_ >>> 12) &&& 0x7 = 5) := by
      rcases hf with hf | hf | hf <;> rw [hf] <;> decide
    have h2 : ¬ ((s.inst_word_ >>> 12) &&& 0x7 = 2) := by
      rcases hf with hf | hf | hf <;> rw [hf] <;> decide
    rw [hd, if_neg h0, if_neg h1, if_neg h2]
  · intro hp
    have hp' : ¬ (translate_addr env s (load_vaddr s s.inst_word_) 1 0).2.2.cpu_core_.translation_pending
        = true := by simp [hp]
    have e1 : (translate_addr env s (load_vaddr s s.inst_word_) 1 0).2.2.data_req_ = s.data_req_ := by
      rw [e]
    have e2 : (translate_addr env s (load_vaddr s s.inst_word_) 1 0).2.2.write_req_ = s.write_req_ := by
      rw [e]
    constructor
    · intro hf
      unfold prepare_data_request
      rw [hd]
      simp only [if_neg hp']
      split_ifs <;> first | exact ⟨rfl, rfl, e2⟩ | (exfalso; omega) | simp_all
    · intro hf
      have h0 : ¬ ((s.inst_word_ >>> 12) &&& 0x7 = 0 ∨ (s.inst_word_ >>> 12) &&& 0x7 = 4) := by
        rcases hf with hf | hf | hf <;> rw [hf] <;> decide
      have h1 : ¬ ((s.inst_word_ >>> 12) &&& 0x7 = 1 ∨ (s.inst_word_ >>> 12) &&& 0x7 = 5) := by
        rcases hf with hf | hf | hf <;> rw [hf] <;> decide
      have h2 : ¬ ((s.inst_word_ >>> 12) &&& 0x7 = 2) := by
        rcases hf with hf | hf | hf <;> rw [hf] <;> decide
      unfold prepare_data_request
      rw [hd]
      simp only [if_neg hp', if_neg h0, if_neg h1, if_neg h2]
      exact ⟨rfl, e1, e2⟩

set_option maxRecDepth 100000 in
theorem decode_load_request_witness :
    (demo_regs 0xFFF0A283).inst_word_ &&& 0x7f = 0x03 ∧
    load_vaddr (demo_regs 0xFFF0A283) 0xFFF0A283 = 0x80000100 ∧
    (decode_mem_req_pre_exec demo_env (demo_regs 0xFFF0A283) 0xFFF0A283).1 =
      { valid := true, is_read := true, paddr := 0x80000100, total_size := 3 } ∧
    (prepare_data_request demo_env (demo_regs 0xFFF0A283)).stage_ = ExecStage.kWaitData :=
  have h := decode_load_request demo_env (demo_regs 0xFFF0A283) (by decide) (by decide)
  ⟨by decide, by decide, h.2.2.2.1 (by decide),
    ((h.2.2.2.2.2 (by decide)).1 (Or.inr (Or.inr (Or.inl (by decide))))).1⟩

/-! ## The MMU request and the hook state -/

theorem mmuInv_on_cpu_mem_read (s : Sim σ) (paddr : Nat) (data : Option Nat) (h : MmuInv s) :
    MmuInv (on_cpu_mem_read s paddr data).2.2 := by
  unfold MmuInv at h ⊢
  unfold on_cpu_mem_read
  simp only []
  split_ifs <;> simp_all [setup_read, calc_beats, Option.isSome_iff_ne_none]

theorem apply_wstrb_write_isSome (m : Option Mem) (addr data wstrb : Nat) :
    (apply_wstrb_write m addr data wstrb).isSome = m.isSome := by
  cases m <;> rfl

theorem mem_store_isSome (m : Option Mem) (i v : Nat) : (mem_store m i v).isSome = m.isSome := by
  cases m <;> rfl

theorem mmuInv_cpu_mem_write_now_hook (s : Sim σ) (paddr data wstrb : Nat) (h : MmuInv s) :
    MmuInv (cpu_mem_write_now_hook s paddr data wstrb).2 := by
  unfold MmuInv at h ⊢
  unfold cpu_mem_write_now_hook
  split_ifs
  · exact h
  · simpa [apply_wstrb_write_isSome] using h

/-- A CPU method keeps `MmuInv`: it reaches the MMU request only through the read hook. -/
theorem mmuInv_run_cpu {α : Type} (prog : CpuProg α) (s : Sim σ) (h : MmuInv s) :
    MmuInv (run_cpu prog s).2 := by
  induction prog generalizing s with
  | ret a => exact h
  | mem_read32 paddr data k ih =>
    simp only [run_cpu]
    exact ih _ _ _ (mmuInv_on_cpu_mem_read s (paddr % 2 ^ 32) data h)
  | mem_read32_now paddr data k ih =>
    simp only [run_cpu]
    exact ih _ _ s h
  | mem_write32_now paddr data wstrb k ih =>
    simp only [run_cpu]
    exact ih _ _ (mmuInv_cpu_mem_write_now_hook s _ _ _ h)
  | get_sim_time k ih =>
    simp only [run_cpu]
    exact ih _ s h

theorem mmuInv_exec_call (env : Env σ) (s : Sim σ) (h : MmuInv s) : MmuInv (exec_call env s) :=
  mmuInv_run_cpu (env.exec s.cpu_core_) s h

theorem mmuInv_translate_addr (env : Env σ) (s : Sim σ) (vaddr type paddr : Nat) (h : MmuInv s) :
    MmuInv (translate_addr env s vaddr type paddr).2.2 := by
  unfold translate_addr
  split_ifs
  · exact mmuInv_run_cpu (env.va2pa s.cpu_core_ paddr vaddr type) s h
  · exact h

theorem mmuInv_decode_mem_req_pre_exec (env : Env σ) (s : Sim σ) (inst_word : Nat)
    (h : MmuInv s) : MmuInv (decode_mem_req_pre_exec env s inst_word).2 := by
  unfold decode_mem_req_pre_exec
  simp only []
  split_ifs
  all_goals first
    | exact mmuInv_translate_addr env s _ _ _ h
    | exact h

theorem mmuInv_update_mmu_request_state (s : Sim σ) (h : MmuInv s) :
    MmuInv (update_mmu_request_state s) := by
  unfold MmuInv at h ⊢
  unfold update_mmu_request_state
  simp only []
  split_ifs
  · exact h
  · split <;> simp
  · simpa using h
  · split <;> simp
  · exact h

theorem mmuInv_prepare_fetch (env : Env σ) (s : Sim σ) (h : MmuInv s) :
    MmuInv (prepare_fetch env s) := by
  have ht := mmuInv_translate_addr env { s with fetch_vaddr_ := s.cpu_core_.state.pc }
    s.cpu_core_.state.pc 0 s.fetch_paddr_ h
  unfold prepare_fetch
  simp only []
  split_ifs <;> exact ht

theorem mmuInv_prepare_data_request (env : Env σ) (s : Sim σ) (h : MmuInv s) :
    MmuInv (prepare_data_request env s) := by
  have ht := mmuInv_decode_mem_req_pre_exec env s s.inst_word_ h
  unfold prepare_data_request
  simp only []
  split_ifs <;> exact ht

theorem mmuInv_execute_stage (env : Env σ) (s : Sim σ) (h : MmuInv s) :
    MmuInv (execute_stage env s) := by
  have ht := mmuInv_exec_call env s h
  unfold execute_stage
  simp only []
  split_ifs <;> exact ht

theorem mmuInv_update_stage_after_cycle (env : Env σ) (s : Sim σ) (req_ready resp_valid : Bool)
    (h : MmuInv s) : MmuInv (update_stage_after_cycle env s req_ready resp_valid) := by
  have h1 := mmuInv_update_mmu_request_state s h
  unfold update_stage_after_cycle
  simp only []
  split
  · exact mmuInv_prepare_fetch env _ h1
  · split_ifs <;> exact h1
  · exact mmuInv_prepare_data_request env _ h1
  · split_ifs <;> exact h1
  · exact mmuInv_execute_stage env _ h1
  · split_ifs <;> exact h1
  · exact h1

theorem mmuInv_mirror_read_data (s : Sim σ) (axi_in : sc_axi4_in_t) (axi_out : sc_axi4_out_t)
    (h : MmuInv s) : MmuInv (mirror_read_data s axi_in axi_out) := by
  unfold MmuInv at h ⊢
  unfold mirror_read_data
  simp only []
  split_ifs <;> simpa [mem_store_isSome] using h

theorem mmuInv_mirror_write_data (env : Env σ) (s : Sim σ) (axi_in : sc_axi4_in_t)
    (axi_out : sc_axi4_out_t) (h : MmuInv s) : MmuInv (mirror_write_data env s axi_in axi_out) := by
  unfold mirror_write_data
  simp only []
  by_cases h1 : axi_out.wvalid = 0 ∨ axi_in.wready = 0 ∨ s.write_req_.active = false
  · rw [if_pos h1]
    exact h
  · rw [if_neg h1]
    obtain ⟨u, c, e⟩ := uart_lanes_frame env
      ((s.write_req_.addr + s.write_req_.beats_seen * 4 % 2 ^ 32) % 2 ^ 32 &&& 0xFFFFFFFC) axi_out
      [0, 1, 2, 3]
      { s with p_memory := (apply_wstrb_write s.p_memory
          ((s.write_req_.addr + s.write_req_.beats_seen * 4 % 2 ^ 32) % 2 ^ 32)
          axi_out.wdata axi_out.wstrb) }
    rw [e]
    unfold MmuInv at h ⊢
    split_ifs <;> simpa [apply_wstrb_write_isSome] using h

theorem mmuInv_bus_phase (env : Env σ) (s : Sim σ) (axi_in : sc_axi4_in_t) (h : MmuInv s) :
    MmuInv (bus_phase env s axi_in).2.2.2 := by
  obtain ⟨ic, a, b, e⟩ := bus_drive_frame env s axi_in
  have h0 : MmuInv (bus_drive env s axi_in).2.2 := by
    rw [e]
    exact h
  have h1 := mmuInv_mirror_write_data env _ axi_in (fill_axi_outputs (bus_drive env s axi_in).2.2)
    (mmuInv_mirror_read_data _ axi_in (fill_axi_outputs (bus_drive env s axi_in).2.2) h0)
  rw [bus_phase_eq]
  exact h1

theorem mmuInv_check_limits (env : Env σ) (s : Sim σ) (h : MmuInv s) :
    MmuInv (check_limits env s) := by
  unfold check_limits set_error
  simp only []
  split_ifs <;> exact h

theorem mmuInv_step (env : Env σ) (s : Sim σ) (axi_in : sc_axi4_in_t) (h : MmuInv s) :
    MmuInv (step env s axi_in).sim := by
  have h0 : MmuInv (clear_error_if_running (clear_uart_event s)) := by
    unfold clear_error_if_running clear_uart_event
    split_ifs <;> exact h
  by_cases hl : s.image_loaded_ = true
  · by_cases hh : s.stage_ = ExecStage.kHalted
    · rw [step_halted env s axi_in hl hh]
      exact h
    · rw [step_running env s axi_in hl hh]
      exact mmuInv_check_limits env _
        (mmuInv_update_stage_after_cycle env _ _ _ (mmuInv_bus_phase env _ axi_in h0))
  · have hl' : s.image_loaded_ = false := by simpa using hl
    rw [step_not_loaded env s axi_in hl']
    exact h0

theorem mmuInv_reset_machine_state (env : Env σ) (s : Sim σ) :
    MmuInv (reset_machine_state env s) := by
  unfold MmuInv reset_machine_state
  simp

theorem mmuInv_create (env : Env σ) (sim_time : Int) (p_memory alloc : Option Mem) :
    MmuInv (create env sim_time p_memory alloc) := by
  unfold create init_runtime
  simp only []
  split_ifs <;> exact mmuInv_reset_machine_state env _

theorem mmuInv_load_image (env : Env σ) (s : Sim σ) (image_path : Option String)
    (file : ImageFile) (h : MmuInv s) : MmuInv (load_image env s image_path file).2.2 := by
  unfold load_image
  cases image_path with
  | none => exact h
  | some path =>
    cases hm : s.p_memory with
    | none => simp only [hm]; exact h
    | some mem =>
      simp only [hm]
      split_ifs
      · exact h
      · intro ha
        obtain ⟨a1, a2, a3, _, a5, a6⟩ := h ha
        exact ⟨a1, a2, a3, rfl, a5, a6⟩
      · exact mmuInv_reset_machine_state env _

/-- Every state of a run, with or without extra calls of the read hook, satisfies
`MmuInv`. -/
theorem reachableWithReads_mmuInv (env : Env σ) (s : Sim σ) (h : ReachableWithReads env s) :
    MmuInv s := by
  induction h with
  | create sim_time p_memory alloc => exact mmuInv_create env sim_time p_memory alloc
  | load_image s image_path file _ ih => exact mmuInv_load_image env s image_path file ih
  | set_limits s max_inst max_cycles _ ih => exact ih
  | step s axi_in _ ih => exact mmuInv_step env s axi_in ih
  | mem_read s paddr data _ ih => exact mmuInv_on_cpu_mem_read s paddr data ih

theorem reachable_withReads (env : Env σ) (s : Sim σ) (h : Reachable env s) :
    ReachableWithReads env s := by
  induction h with
  | create sim_time p_memory alloc => exact ReachableWithReads.create sim_time p_memory alloc
  | load_image s image_path file _ ih => exact ReachableWithReads.load_image s image_path file ih
  | set_limits s max_inst max_cycles _ ih => exact ReachableWithReads.set_limits s _ _ ih
  | step s axi_in _ ih => exact ReachableWithReads.step s axi_in ih

/-! ## Sizes of the armed requests -/

theorem calc_beats_of_size (t : Nat) (h : t = 0 ∨ t = 1 ∨ t = 3) : calc_beats t = 1 := by
  rcases h with rfl | rfl | rfl <;> decide

theorem armedInv_update_stage_after_cycle (env : Env σ) (s : Sim σ) (req_ready resp_valid : Bool)
    (h : ArmedInv s) : ArmedInv (update_stage_after_cycle env s req_ready resp_valid) := by
  obtain ⟨h0, r0, e0⟩ := update_mmu_request_state_frame s
  unfold ArmedInv at h ⊢
  unfold update_stage_after_cycle
  simp only [e0]
  split
  next hst =>
    obtain ⟨c, m, hk, r, e⟩ := translate_addr_frame env
      { s with mmu_hook_ := h0, mmu_req_ := r0, fetch_vaddr_ := s.cpu_core_.state.pc }
      s.cpu_core_.state.pc 0 s.fetch_paddr_
    unfold prepare_fetch
    simp only [e]
    split_ifs <;> simp_all [setup_read, calc_beats]
  next hst =>
    split_ifs <;> simp_all
  next hst =>
    obtain ⟨c, m, hk, r, e⟩ := decode_mem_req_pre_exec_frame env
      { s with mmu_hook_ := h0, mmu_req_ := r0 } s.inst_word_
    have hts := decode_total_size env { s with mmu_hook_ := h0, mmu_req_ := r0 } s.inst_word_
    have hcb := calc_beats_of_size _ hts
    unfold prepare_data_request
    simp only [e]
    split_ifs <;> simp_all [setup_read, setup_write]
  next hst =>
    split_ifs <;> simp_all
  next hst =>
    obtain ⟨c, m, hk, r, e⟩ := exec_call_frame env { s with mmu_hook_ := h0, mmu_req_ := r0 }
    unfold execute_stage
    simp only [e]
    split_ifs <;> simp_all [setup_write, calc_beats]
  next hst =>
    split_ifs <;> simp_all
  next hst =>
    simp_all

theorem armedInv_check_limits (env : Env σ) (s : Sim σ) (h : ArmedInv s) :
    ArmedInv (check_limits env s) := by
  unfold ArmedInv at h ⊢
  unfold check_limits set_error
  simp only []
  split_ifs <;> simp_all

theorem armedInv_step (env : Env σ) (s : Sim σ) (axi_in : sc_axi4_in_t) (h : ArmedInv s) :
    ArmedInv (step env s axi_in).sim := by
  have h0 : ArmedInv (clear_error_if_running (clear_uart_event s)) := by
    unfold clear_error_if_running clear_uart_event
    split_ifs <;> exact h
  by_cases hl : s.image_loaded_ = true
  · by_cases hh : s.stage_ = ExecStage.kHalted
    · rw [step_halted env s axi_in hl hh]
      exact h
    · rw [step_running env s axi_in hl hh]
      obtain ⟨ic, a, b, m, f, d, r, w, hk, u, c, e⟩ :=
        bus_phase_frame env (clear_error_if_running (clear_uart_event s)) axi_in
      have h1 : ArmedInv (bus_phase env (clear_error_if_running (clear_uart_event s)) axi_in).2.2.2 := by
        rw [e]
        exact h0
      exact armedInv_check_limits env _ (armedInv_update_stage_after_cycle env _ _ _ h1)
  · have hl' : s.image_loaded_ = false := by simpa using hl
    rw [step_not_loaded env s axi_in hl']
    exact h0

theorem armedInv_reset_machine_state (env : Env σ) (s : Sim σ) :
    ArmedInv (reset_machine_state env s) := by
  unfold ArmedInv reset_machine_state
  simp

theorem armedInv_create (env : Env σ) (sim_time : Int) (p_memory alloc : Option Mem) :
    ArmedInv (create env sim_time p_memory alloc) := by
  unfold create init_runtime
  simp only []
  split_ifs <;>
    first
      | exact armedInv_reset_machine_state env _
      | (unfold ArmedInv members_default; simp [set_error])

theorem armedInv_load_image (env : Env σ) (s : Sim σ) (image_path : Option String)
    (file : ImageFile) (h : ArmedInv s) : ArmedInv (load_image env s image_path file).2.2 := by
  unfold load_image
  cases image_path with
  | none => exact h
  | some path =>
    cases hm : s.p_memory with
    | none => simp only [hm]; exact h
    | some mem =>
      simp only [hm]
      split_ifs
      · exact h
      · exact h
      · exact armedInv_reset_machine_state env _

/-- Every state of a run, with or without extra calls of the read hook, satisfies
`ArmedInv`. -/
theorem reachableWithReads_armedInv (env : Env σ) (s : Sim σ) (h : ReachableWithReads env s) :
    ArmedInv s := by
  induction h with
  | create sim_time p_memory alloc => exact armedInv_create env sim_time p_memory alloc
  | load_image s image_path file _ ih => exact armedInv_load_image env s image_path file ih
  | set_limits s max_inst max_cycles _ ih => exact ih
  | step s axi_in _ ih => exact armedInv_step env s axi_in ih
  | mem_read s paddr data _ ih =>
    obtain ⟨hk, r, e⟩ := on_cpu_mem_read_frame s paddr data
    rw [e]
    exact ih

/-! ## The stage update, case by case -/

/-- What `check_limits` can change; the stage stays or becomes `kHalted`. -/
theorem check_limits_frame (env : Env σ) (s : Sim σ) :
    ∃ a b c d e f, check_limits env s =
      { s with halted_reason_max_inst_ := a, stage_ := b, success_ := c, last_error_ := d,
               stall_reported_ := e, interconnect_ := f } ∧
      (b = s.stage_ ∨ b = ExecStage.kHalted) := by
  unfold check_limits set_error
  simp only []
  split_ifs
  · exact ⟨_, _, _, _, _, _, rfl, Or.inl rfl⟩
  · exact ⟨_, _, _, _, _, _, rfl, Or.inr rfl⟩
  · exact ⟨_, _, _, _, _, _, rfl, Or.inr rfl⟩
  · exact ⟨_, _, _, _, _, _, rfl, Or.inr rfl⟩
  · exact ⟨_, _, _, _, _, _, rfl, Or.inl rfl⟩
  · exact ⟨_, _, _, _, _, _, rfl, Or.inl rfl⟩

/-- A write request that is not active comes out of the bus phase as it went in. -/
theorem stage_entry_write_req (env : Env σ) (s : Sim σ) (axi_in : sc_axi4_in_t)
    (hw : s.write_req_.active = false) : (stage_entry env s axi_in).write_req_ = s.write_req_ := by
  have h0 : (clear_error_if_running (clear_uart_event s)).write_req_ = s.write_req_ := by
    unfold clear_error_if_running clear_uart_event
    split_ifs <;> rfl
  unfold stage_entry
  generalize clear_error_if_running (clear_uart_event s) = s0 at h0 ⊢
  obtain ⟨ic, a, b, e⟩ := bus_drive_frame env s0 axi_in
  obtain ⟨m, f, d, r, h, e2⟩ := mirror_read_data_frame (bus_drive env s0 axi_in).2.2 axi_in
    (fill_axi_outputs (bus_drive env s0 axi_in).2.2)
  have h1 : (mirror_read_data (bus_drive env s0 axi_in).2.2 axi_in
      (fill_axi_outputs (bus_drive env s0 axi_in).2.2)).write_req_ = s.write_req_ := by
    rw [e2, e]
    exact h0
  have h2 : ¬ w_handshake axi_in (fill_axi_outputs (bus_drive env s0 axi_in).2.2)
      (mirror_read_data (bus_drive env s0 axi_in).2.2 axi_in
        (fill_axi_outputs (bus_drive env s0 axi_in).2.2)).write_req_ := by
    rw [h1]
    unfold w_handshake
    simp [hw]
  rw [bus_phase_eq]
  simp only []
  rw [mirror_write_data_no_handshake env _ axi_in _ h2]
  exact h1

/-- C25: a step that starts in `kExecute` with an image loaded and retires an
instruction whose word is `INST_EBREAK` ends in `kHalted` with `success_` set and
`inst_count_` one higher, and returns `+1`; no condition is put on `max_inst_`
or `max_cycles_`. -/
theorem step_ebreak (env : Env σ) (s : Sim σ) (axi_in : sc_axi4_in_t) (hr : Reachable env s)
    (hl : s.image_loaded_ = true) (hst : s.stage_ = ExecStage.kExecute)
    (hret : retires env s axi_in) (hb : s.inst_word_ = INST_EBREAK) :
    (step env s axi_in).sim.stage_ = ExecStage.kHalted ∧
    (step env s axi_in).sim.success_ = true ∧
    (step env s axi_in).sim.inst_count_ = s.inst_count_ + 1 ∧
    (step env s axi_in).ret = 1 ∧
    (step env s axi_in).status.halted = 1 ∧
    (step env s axi_in).status.success = 1 ∧
    (step env s axi_in).status.inst_count = s.inst_count_ + 1 := by
  have hinv := reachable_apiInv env s hr
  have hh : s.stage_ ≠ ExecStage.kHalted := by rw [hst]; decide
  obtain ⟨_, ⟨b1, _⟩, ⟨c1, c2⟩, _⟩ := after_stage_update_summary env s axi_in hh
  have hhalt : (after_stage_update env s axi_in).stage_ = ExecStage.kHalted :=
    c1.mpr ⟨hst, hret, hb⟩
  have hsucc := c2 hhalt
  have hcnt : (after_stage_update env s axi_in).inst_count_ = s.inst_count_ + 1 := by
    rw [b1 ⟨hst, hret⟩]
    exact Nat.mod_eq_of_lt (hinv.2.1 hst)
  have hcl := (check_limits_summary env (after_stage_update env s axi_in)).2.1 hhalt
  rw [step_running env s axi_in hl hh, hcl]
  unfold fill_status
  simp [hhalt, hsucc, hcnt]

set_option maxRecDepth 100000 in
/-- C25 at a loaded simulator whose first fetch was answered with `INST_EBREAK`,
with `max_inst = 1` and `max_cycles = 5`, both of which the retiring step reaches. -/
theorem step_ebreak_witness :
    (run demo_env (demo_loaded 1 5) [demo_idle, demo_accept, demo_in, demo_idle]).stage_ =
      ExecStage.kExecute ∧
    (run demo_env (demo_loaded 1 5) [demo_idle, demo_accept, demo_in, demo_idle]).inst_word_ =
      INST_EBREAK ∧
    (step demo_env (run demo_env (demo_loaded 1 5) [demo_idle, demo_accept, demo_in, demo_idle])
      demo_idle).ret = 1 ∧
    (step demo_env (run demo_env (demo_loaded 1 5) [demo_idle, demo_accept, demo_in, demo_idle])
      demo_idle).sim.inst_count_ = 1 :=
  have hr : Reachable demo_env
      (run demo_env (demo_loaded 1 5) [demo_idle, demo_accept, demo_in, demo_idle]) :=
    Reachable.step _ _ (Reachable.step _ _ (Reachable.step _ _ (Reachable.step _ _
      (Reachable.load_image _ _ _ (Reachable.set_limits _ _ _ (Reachable.create 0 none _))))))
  have h := step_ebreak demo_env
    (run demo_env (demo_loaded 1 5) [demo_idle, demo_accept, demo_in, demo_idle]) demo_idle hr
    (by decide) (by decide) (by unfold retires; decide) (by decide)
  ⟨by decide, by decide, h.2.2.2.1, h.2.2.1.trans (by decide)⟩

/-- The `kExecute` case when the instruction retires and is not `INST_EBREAK`. -/
theorem execute_stage_retire (env : Env σ) (t : Sim σ)
    (hp : (exec_call env t).cpu_core_.translation_pending = false)
    (hne : t.inst_word_ ≠ INST_EBREAK) :
    ((t.inst_word_ &&& 0x7f = 0x2f ∧ (exec_call env t).cpu_core_.state.store = true) →
      (execute_stage env t).stage_ = ExecStage.kWaitAmoWrite ∧
      (execute_stage env t).write_req_ =
        setup_write kDataReqId (exec_call env t).cpu_core_.state.store_addr
          (exec_call env t).cpu_core_.state.store_data
          ((if ((exec_call env t).cpu_core_.state.store_strb &&& 0xf) % 256 = 0 then 0xf
            else ((exec_call env t).cpu_core_.state.store_strb &&& 0xf) % 256) % 256) 3) ∧
    (¬ (t.inst_word_ &&& 0x7f = 0x2f ∧ (exec_call env t).cpu_core_.state.store = true) →
      (execute_stage env t).stage_ = ExecStage.kPrepareFetch ∧
      (execute_stage env t).write_req_ = t.write_req_) := by
  obtain ⟨cc, cm, ch, cr, ec⟩ := exec_call_frame env t
  have hiw : (exec_call env t).inst_word_ = t.inst_word_ := by rw [ec]
  have hwr : (exec_call env t).write_req_ = t.write_req_ := by rw [ec]
  have hp' : ¬ (exec_call env t).cpu_core_.translation_pending = true := by simp [hp]
  have hne' : ¬ (exec_call env t).inst_word_ = INST_EBREAK := by rw [hiw]; exact hne
  unfold execute_stage
  simp only []
  rw [if_neg hp']
  generalize exec_call env t = x at hiw hwr hne' ⊢
  constructor
  · intro hamo
    have hamo' : (x.inst_word_ &&& 0x7f : Nat) = 0x2f ∧ x.cpu_core_.state.store = true := by
      rw [hiw]; exact hamo
    by_cases hc : (x.inst_count_ + 1) % 2 ^ 64 ≠ x.last_inst_count_
    · rw [if_pos hc, if_neg hne', if_pos hamo']
      exact ⟨rfl, rfl⟩
    · rw [if_neg hc, if_neg hne', if_pos hamo']
      exact ⟨rfl, rfl⟩
  · intro hamo
    have hamo' : ¬ ((x.inst_word_ &&& 0x7f : Nat) = 0x2f ∧ x.cpu_core_.state.store = true) := by
      rw [hiw]; exact hamo
    by_cases hc : (x.inst_count_ + 1) % 2 ^ 64 ≠ x.last_inst_count_
    · rw [if_pos hc, if_neg hne', if_neg hamo']
      exact ⟨rfl, hwr⟩
    · rw [if_neg hc, if_neg hne', if_neg hamo']
      exact ⟨rfl, hwr⟩

/-- The stage update of a step that starts in `kExecute` with an image loaded,
retires its instruction and whose instruction word is not `INST_EBREAK`: it arms the
write request and sets the stage to `kWaitAmoWrite` when the opcode is `0x2F` and the
CPU's store latch is set after `exec()`; otherwise it sets the stage to
`kPrepareFetch` and the write request is the one the step started with. -/
theorem execute_stage_update (env : Env σ) (s : Sim σ) (axi_in : sc_axi4_in_t)
    (hr : Reachable env s) (hl : s.image_loaded_ = true) (hst : s.stage_ = ExecStage.kExecute)
    (hret : retires env s axi_in) (hne : s.inst_word_ ≠ INST_EBREAK) :
    (((s.inst_word_ &&& 0x7f = 0x2f ∧
        (exec_call env (update_mmu_request_state (stage_entry env s axi_in))).cpu_core_.state.store
          = true) →
      (after_stage_update env s axi_in).stage_ = ExecStage.kWaitAmoWrite ∧
      (after_stage_update env s axi_in).write_req_ =
        { active := true, issued := false, id := 1
          addr := (exec_call env
            (update_mmu_request_state (stage_entry env s axi_in))).cpu_core_.state.store_addr
          wdata := (exec_call env
            (update_mmu_request_state (stage_entry env s axi_in))).cpu_core_.state.store_data
          wstrb :=
            if (exec_call env
              (update_mmu_request_state (stage_entry env s axi_in))).cpu_core_.state.store_strb
                &&& 0xf = 0 then 0xf
            else (exec_call env
              (update_mmu_request_state (stage_entry env s axi_in))).cpu_core_.state.store_strb
                &&& 0xf
          total_size := 3, beats_total := 1, beats_seen := 0 }) ∧
     (¬ (s.inst_word_ &&& 0x7f = 0x2f ∧
        (exec_call env (update_mmu_request_state (stage_entry env s axi_in))).cpu_core_.state.store
          = true) →
      (after_stage_update env s axi_in).stage_ = ExecStage.kPrepareFetch ∧
      (after_stage_update env s axi_in).write_req_ = s.write_req_)) ∧
    (step env s axi_in).sim.write_req_ = (after_stage_update env s axi_in).write_req_ ∧
    ((step env s axi_in).sim.stage_ = (after_stage_update env s axi_in).stage_ ∨
      (step env s axi_in).sim.stage_ = ExecStage.kHalted) := by
  have hinv := reachable_apiInv env s hr
  have hh : s.stage_ ≠ ExecStage.kHalted := by rw [hst]; decide
  have hsm := hinv.2.2 hh
  have hwa : s.write_req_.active = false := by
    have := hsm.2.2
    rw [hst] at this
    cases hx : s.write_req_.active
    · rfl
    · rcases this.mp hx with ⟨h1, _⟩ | h1
      · exact absurd h1 (by decide)
      · exact absurd h1 (by decide)
  have hw := stage_entry_write_req env s axi_in hwa
  obtain ⟨ic, a, b, m, f, d, r, w, h, u, c, e⟩ := stage_entry_frame env s axi_in hh
  have e1 : (stage_entry env s axi_in).stage_ = s.stage_ := by rw [e]
  have e2 : (stage_entry env s axi_in).inst_word_ = s.inst_word_ := by rw [e]
  obtain ⟨h0, r0, e0⟩ := update_mmu_request_state_frame (stage_entry env s axi_in)
  have hret' : (exec_call env (update_mmu_request_state (stage_entry env s axi_in))).cpu_core_.translation_pending
      = false := hret
  have hs0 : (update_mmu_request_state (stage_entry env s axi_in)).stage_ = ExecStage.kExecute := by
    rw [e0]
    exact e1.trans hst
  have ha : after_stage_update env s axi_in =
      execute_stage env (update_mmu_request_state (stage_entry env s axi_in)) := by
    show update_stage_after_cycle env (stage_entry env s axi_in) _ _ = _
    unfold update_stage_after_cycle
    simp only [hs0]
  have hiw : (update_mmu_request_state (stage_entry env s axi_in)).inst_word_ = s.inst_word_ := by
    rw [e0]
    exact e2
  have hwr : (update_mmu_request_state (stage_entry env s axi_in)).write_req_ = s.write_req_ := by
    rw [e0]
    exact hw
  have hstrb : ∀ x : Nat, ((if (x &&& 0xf) % 256 = 0 then 0xf else (x &&& 0xf) % 256) % 256) =
      (if x &&& 0xf = 0 then 0xf else x &&& 0xf) := by
    intro x
    have hx : x &&& 0xf ≤ 0xf := Nat.and_le_right
    have hm : (x &&& 0xf) % 256 = x &&& 0xf := Nat.mod_eq_of_lt (by omega)
    rw [hm]
    split_ifs
    · rfl
    · exact hm
  obtain ⟨k1, k2, k3, k4, k5, k6, ek, hk⟩ := check_limits_frame env (after_stage_update env s axi_in)
  obtain ⟨x1, x2⟩ := execute_stage_retire env (update_mmu_request_state (stage_entry env s axi_in))
    hret' (by rw [hiw]; exact hne)
  rw [hiw] at x1 x2
  refine ⟨⟨?_, ?_⟩, ?_, ?_⟩
  · intro hamo
    obtain ⟨y1, y2⟩ := x1 hamo
    rw [ha]
    refine ⟨y1, ?_⟩
    rw [y2]
    unfold setup_write
    simp only [hstrb]
    rfl
  · intro hamo
    obtain ⟨y1, y2⟩ := x2 hamo
    rw [ha]
    exact ⟨y1, y2.trans hwr⟩
  · rw [step_running env s axi_in hl hh]
    simp only []
    rw [ek]
  · rw [step_running env s axi_in hl hh]
    simp only []
    rw [ek]
    exact hk

/-- C26: in a step that starts in `kPrepareFetch` with an image loaded, the stage
update translates `pc` (the `pc` the step started with) as a fetch and has one of
three outcomes. With `translation_pending` set after the translation the stage
stays `kPrepareFetch` and the fetch request stays inactive. Otherwise, when the
translation failed, `inst_word_` is 0, `pre_req_` is cleared, the stage is
`kExecute` and the fetch request stays inactive; when it succeeded, the fetch
request is armed (active, not issued, master `MASTER_ICACHE`, id 0, the
translated address, size 3, one beat) and the stage is `kWaitFetch`. The step
ends with that fetch request, and in that stage unless `check_limits` halts the
machine in the same step. -/
theorem prepare_fetch_outcomes (env : Env σ) (s : Sim σ) (axi_in : sc_axi4_in_t)
    (hr : Reachable env s) (hl : s.image_loaded_ = true)
    (hst : s.stage_ = ExecStage.kPrepareFetch) :
    ((update_mmu_request_state (stage_entry env s axi_in)).cpu_core_.state.pc = s.cpu_core_.state.pc ∧
      (after_stage_update env s axi_in).fetch_vaddr_ = s.cpu_core_.state.pc ∧
      (after_stage_update env s axi_in).fetch_ok_ = (fetch_translation env s axi_in).1 ∧
      (after_stage_update env s axi_in).fetch_paddr_ = (fetch_translation env s axi_in).2.1) ∧
    ((fetch_translation env s axi_in).2.2.cpu_core_.translation_pending = true →
      (after_stage_update env s axi_in).stage_ = ExecStage.kPrepareFetch ∧
      (after_stage_update env s axi_in).fetch_req_.active = false ∧
      (after_stage_update env s axi_in).inst_word_ = s.inst_word_ ∧
      (after_stage_update env s axi_in).pre_req_ = s.pre_req_) ∧
    ((fetch_translation env s axi_in).2.2.cpu_core_.translation_pending = false →
      (fetch_translation env s axi_in).1 = false →
      (after_stage_update env s axi_in).stage_ = ExecStage.kExecute ∧
      (after_stage_update env s axi_in).fetch_req_.active = false ∧
      (after_stage_update env s axi_in).inst_word_ = 0 ∧
      (after_stage_update env s axi_in).pre_req_ = {}) ∧
    ((fetch_translation env s axi_in).2.2.cpu_core_.translation_pending = false →
      (fetch_translation env s axi_in).1 = true →
      (after_stage_update env s axi_in).stage_ = ExecStage.kWaitFetch ∧
      (after_stage_update env s axi_in).fetch_req_ =
        { active := true, issued := false, master := MASTER_ICACHE, id := 0
          addr := (fetch_translation env s axi_in).2.1
          total_size := 3, beats_total := 1, beats_seen := 0 }) ∧
    (step env s axi_in).sim.fetch_req_ = (after_stage_update env s axi_in).fetch_req_ ∧
    ((step env s axi_in).sim.stage_ = (after_stage_update env s axi_in).stage_ ∨
      (step env s axi_in).sim.stage_ = ExecStage.kHalted) := by
  have hinv := reachable_apiInv env s hr
  have hh : s.stage_ ≠ ExecStage.kHalted := by rw [hst]; decide
  have hsm := hinv.2.2 hh
  have hfa : s.fetch_req_.active = false := by
    have := hsm.1
    rw [hst] at this
    cases hx : s.fetch_req_.active
    · rfl
    · exact absurd (this.mp hx) (by decide)
  obtain ⟨ic, a, b, m, f, d, r, w, h, u, c, e⟩ := stage_entry_frame env s axi_in hh
  obtain ⟨h0, r0, e0⟩ := update_mmu_request_state_frame (stage_entry env s axi_in)
  have e1 : (update_mmu_request_state (stage_entry env s axi_in)).stage_ = ExecStage.kPrepareFetch := by
    rw [e0, e]
    exact hst
  have e2 : (update_mmu_request_state (stage_entry env s axi_in)).cpu_core_ = s.cpu_core_ := by
    rw [e0, e]
  have e3 : (update_mmu_request_state (stage_entry env s axi_in)).fetch_req_.active = false := by
    rw [e0, e]
    exact hfa
  have e4 : (update_mmu_request_state (stage_entry env s axi_in)).inst_word_ = s.inst_word_ := by
    rw [e0, e]
  have e5 : (update_mmu_request_state (stage_entry env s axi_in)).pre_req_ = s.pre_req_ := by
    rw [e0, e]
  have ha : after_stage_update env s axi_in =
      prepare_fetch env (update_mmu_request_state (stage_entry env s axi_in)) := by
    show update_stage_after_cycle env (stage_entry env s axi_in) _ _ = _
    unfold update_stage_after_cycle
    simp only [e1]
  have hft : fetch_translation env s axi_in =
      translate_addr env
        { update_mmu_request_state (stage_entry env s axi_in) with
          fetch_vaddr_ := (update_mmu_request_state (stage_entry env s axi_in)).cpu_core_.state.pc }
        (update_mmu_request_state (stage_entry env s axi_in)).cpu_core_.state.pc 0
        (update_mmu_request_state (stage_entry env s axi_in)).fetch_paddr_ := rfl
  obtain ⟨k1, k2, k3, k4, k5, k6, ek, hk⟩ := check_limits_frame env (after_stage_update env s axi_in)
  have hs1 : (step env s axi_in).sim.fetch_req_ = (after_stage_update env s axi_in).fetch_req_ := by
    rw [step_running env s axi_in hl hh]
    simp only []
    rw [ek]
  have hs2 : (step env s axi_in).sim.stage_ = (after_stage_update env s axi_in).stage_ ∨
      (step env s axi_in).sim.stage_ = ExecStage.kHalted := by
    rw [step_running env s axi_in hl hh]
    simp only []
    rw [ek]
    exact hk
  refine ⟨?_, ?_, ?_, ?_, hs1, hs2⟩ <;> clear hs1 hs2 ek hk
  all_goals
    rw [ha, hft]
    generalize update_mmu_request_state (stage_entry env s axi_in) = E at e1 e2 e3 e4 e5
    obtain ⟨c', m', h', r', et⟩ := translate_addr_frame env
      { E with fetch_vaddr_ := E.cpu_core_.state.pc } E.cpu_core_.state.pc 0 E.fetch_paddr_
    have t1 : (translate_addr env { E with fetch_vaddr_ := E.cpu_core_.state.pc }
        E.cpu_core_.state.pc 0 E.fetch_paddr_).2.2.fetch_req_ = E.fetch_req_ := by rw [et]
    have t2 : (translate_addr env { E with fetch_vaddr_ := E.cpu_core_.state.pc }
        E.cpu_core_.state.pc 0 E.fetch_paddr_).2.2.stage_ = E.stage_ := by rw [et]
    have t3 : (translate_addr env { E with fetch_vaddr_ := E.cpu_core_.state.pc }
        E.cpu_core_.state.pc 0 E.fetch_paddr_).2.2.inst_word_ = E.inst_word_ := by rw [et]
    have t4 : (translate_addr env { E with fetch_vaddr_ := E.cpu_core_.state.pc }
        E.cpu_core_.state.pc 0 E.fetch_paddr_).2.2.pre_req_ = E.pre_req_ := by rw [et]
    have t5 : (translate_addr env { E with fetch_vaddr_ := E.cpu_core_.state.pc }
        E.cpu_core_.state.pc 0 E.fetch_paddr_).2.2.fetch_vaddr_ = E.cpu_core_.state.pc := by rw [et]
    unfold prepare_fetch
    simp only []
    generalize translate_addr env { E with fetch_vaddr_ := E.cpu_core_.state.pc }
        E.cpu_core_.state.pc 0 E.fetch_paddr_ = tr at t1 t2 t3 t4 t5
  · refine ⟨by rw [e2], ?_, ?_, ?_⟩
    · split_ifs <;> exact t5.trans (by rw [e2])
    · split_ifs <;> rfl
    · split_ifs <;> rfl
  · intro hp
    rw [if_pos hp]
    exact ⟨t2.trans e1, by rw [← e3]; exact congrArg _ t1, t3.trans e4, t4.trans e5⟩
  · intro hp hf
    have hp' : ¬ tr.2.2.cpu_core_.translation_pending = true := by simp [hp]
    rw [if_neg hp', if_pos hf]
    exact ⟨rfl, by rw [← e3]; exact congrArg _ t1, rfl, rfl⟩
  · intro hp hf
    have hp' : ¬ tr.2.2.cpu_core_.translation_pending = true := by simp [hp]
    have hf' : ¬ tr.1 = false := by simp [hf]
    rw [if_neg hp', if_neg hf']
    exact ⟨rfl, rfl⟩

set_option maxRecDepth 100000 in
/-- C26 at the first step of a loaded simulator: `pc = 0` translates to itself and
the fetch is armed. -/
theorem prepare_fetch_outcomes_witness :
    (demo_loaded 5 100).stage_ = ExecStage.kPrepareFetch ∧
    (fetch_translation demo_env (demo_loaded 5 100) demo_idle).1 = true ∧
    (after_stage_update demo_env (demo_loaded 5 100) demo_idle).stage_ = ExecStage.kWaitFetch ∧
    (step demo_env (demo_loaded 5 100) demo_idle).sim.fetch_req_ =
      { active := true, issued := false, master := MASTER_ICACHE, id := 0, addr := 0,
        total_size := 3, beats_total := 1, beats_seen := 0 } :=
  have hr : Reachable demo_env (demo_loaded 5 100) :=
    Reachable.load_image _ _ _ (Reachable.set_limits _ _ _ (Reachable.create 0 none _))
  have h := prepare_fetch_outcomes demo_env (demo_loaded 5 100) demo_idle hr (by decide) (by decide)
  ⟨by decide, by decide, (h.2.2.2.1 (by decide) (by decide)).1,
    h.2.2.2.2.1.trans ((h.2.2.2.1 (by decide) (by decide)).2.trans (by decide))⟩

/-! ## The wait stages -/

theorem wait_fetch_update (env : Env σ) (t : Sim σ) (rr rv : Bool)
    (hst : t.stage_ = ExecStage.kWaitFetch) :
    (handshake_done t.fetch_req_.issued rr rv →
      (update_stage_after_cycle env t rr rv).fetch_req_.active = false ∧
      (update_stage_after_cycle env t rr rv).stage_ = ExecStage.kPrepareData ∧
      (update_stage_after_cycle env t rr rv).inst_word_ =
        if t.fetch_ok_ = true then mem_word t.p_memory (t.fetch_paddr_ >>> 2) else 0) ∧
    (¬ handshake_done t.fetch_req_.issued rr rv →
      (update_stage_after_cycle env t rr rv).fetch_req_.active = t.fetch_req_.active ∧
      (update_stage_after_cycle env t rr rv).stage_ = ExecStage.kWaitFetch ∧
      (update_stage_after_cycle env t rr rv).inst_word_ = t.inst_word_) ∧
    (t.fetch_req_.issued = true → (update_stage_after_cycle env t rr rv).fetch_req_.issued = true) ∧
    (update_stage_after_cycle env t rr rv).p_memory = t.p_memory ∧
    (update_stage_after_cycle env t rr rv).fetch_paddr_ = t.fetch_paddr_ := by
  obtain ⟨h0, r0, e0⟩ := update_mmu_request_state_frame t
  unfold update_stage_after_cycle handshake_done
  simp only [e0, hst]
  cases hi : t.fetch_req_.issued <;> cases rr <;> cases rv <;> simp [hi]

theorem wait_data_read_update (env : Env σ) (t : Sim σ) (rr rv : Bool)
    (hst : t.stage_ = ExecStage.kWaitData) (hrd : t.pre_req_.is_read = true) :
    (handshake_done t.data_req_.issued rr rv →
      (update_stage_after_cycle env t rr rv).data_req_.active = false ∧
      (update_stage_after_cycle env t rr rv).stage_ = ExecStage.kExecute) ∧
    (¬ handshake_done t.data_req_.issued rr rv →
      (update_stage_after_cycle env t rr rv).data_req_.active = t.data_req_.active ∧
      (update_stage_after_cycle env t rr rv).stage_ = ExecStage.kWaitData) ∧
    (t.data_req_.issued = true → (update_stage_after_cycle env t rr rv).data_req_.issued = true) ∧
    (update_stage_after_cycle env t rr rv).pre_req_ = t.pre_req_ := by
  obtain ⟨h0, r0, e0⟩ := update_mmu_request_state_frame t
  unfold update_stage_after_cycle handshake_done
  simp only [e0, hst, hrd]
  cases hi : t.data_req_.issued <;> cases rr <;> cases rv <;> simp [hi]

theorem wait_data_write_update (env : Env σ) (t : Sim σ) (rr rv : Bool)
    (hst : t.stage_ = ExecStage.kWaitData) (hrd : t.pre_req_.is_read = false) :
    (handshake_done t.write_req_.issued rr rv →
      (update_stage_after_cycle env t rr rv).write_req_.active = false ∧
      (update_stage_after_cycle env t rr rv).stage_ = ExecStage.kExecute) ∧
    (¬ handshake_done t.write_req_.issued rr rv →
      (update_stage_after_cycle env t rr rv).write_req_.active = t.write_req_.active ∧
      (update_stage_after_cycle env t rr rv).stage_ = ExecStage.kWaitData) ∧
    (t.write_req_.issued = true → (update_stage_after_cycle env t rr rv).write_req_.issued = true) ∧
    (update_stage_after_cycle env t rr rv).pre_req_ = t.pre_req_ := by
  obtain ⟨h0, r0, e0⟩ := update_mmu_request_state_frame t
  unfold update_stage_after_cycle handshake_done
  simp only [e0, hst, hrd]
  cases hi : t.write_req_.issued <;> cases rr <;> cases rv <;> simp [hi]

theorem wait_amo_write_update (env : Env σ) (t : Sim σ) (rr rv : Bool)
    (hst : t.stage_ = ExecStage.kWaitAmoWrite) :
    (handshake_done t.write_req_.issued rr rv →
      (update_stage_after_cycle env t rr rv).write_req_.active = false ∧
      (update_stage_after_cycle env t rr rv).stage_ = ExecStage.kPrepareFetch) ∧
    (¬ handshake_done t.write_req_.issued rr rv →
      (update_stage_after_cycle env t rr rv).write_req_.active = t.write_req_.active ∧
      (update_stage_after_cycle env t rr rv).stage_ = ExecStage.kWaitAmoWrite) ∧
    (t.write_req_.issued = true → (update_stage_after_cycle env t rr rv).write_req_.issued = true) := by
  obtain ⟨h0, r0, e0⟩ := update_mmu_request_state_frame t
  unfold update_stage_after_cycle handshake_done
  simp only [e0, hst]
  cases hi : t.write_req_.issued <;> cases rr <;> cases rv <;> simp [hi]

/-- The stage update of a step that starts in a wait stage with an image loaded:
the awaited request is active on entry, and the stage update completes it exactly
when `resp_valid` is seen in this step and the request was issued before the step or
`req_ready` is seen in this step; otherwise the stage and the request stay. -/
theorem wait_stage_update (env : Env σ) (s : Sim σ) (axi_in : sc_axi4_in_t)
    (hr : Reachable env s) (hl : s.image_loaded_ = true) :
    (s.stage_ = ExecStage.kWaitFetch →
      s.fetch_req_.active = true ∧
      (handshake_done s.fetch_req_.issued (seen_req_ready env s axi_in)
          (seen_resp_valid env s axi_in) →
        (after_stage_update env s axi_in).fetch_req_.active = false ∧
        (after_stage_update env s axi_in).stage_ = ExecStage.kPrepareData ∧
        (after_stage_update env s axi_in).inst_word_ =
          mem_word (after_stage_update env s axi_in).p_memory
            ((after_stage_update env s axi_in).fetch_paddr_ >>> 2) ∧
        (after_stage_update env s axi_in).fetch_paddr_ = s.fetch_paddr_) ∧
      (¬ handshake_done s.fetch_req_.issued (seen_req_ready env s axi_in)
          (seen_resp_valid env s axi_in) →
        (after_stage_update env s axi_in).fetch_req_.active = true ∧
        (after_stage_update env s axi_in).stage_ = ExecStage.kWaitFetch) ∧
      (s.fetch_req_.issued = true → (after_stage_update env s axi_in).fetch_req_.issued = true)) ∧
    (s.stage_ = ExecStage.kWaitData → s.pre_req_.is_read = true →
      s.data_req_.active = true ∧
      (handshake_done s.data_req_.issued (seen_req_ready env s axi_in)
          (seen_resp_valid env s axi_in) →
        (after_stage_update env s axi_in).data_req_.active = false ∧
        (after_stage_update env s axi_in).stage_ = ExecStage.kExecute) ∧
      (¬ handshake_done s.data_req_.issued (seen_req_ready env s axi_in)
          (seen_resp_valid env s axi_in) →
        (after_stage_update env s axi_in).data_req_.active = true ∧
        (after_stage_update env s axi_in).stage_ = ExecStage.kWaitData) ∧
      (s.data_req_.issued = true → (after_stage_update env s axi_in).data_req_.issued = true)) ∧
    (s.stage_ = ExecStage.kWaitData → s.pre_req_.is_read = false →
      s.write_req_.active = true ∧
      (handshake_done s.write_req_.issued (seen_req_ready env s axi_in)
          (seen_resp_valid env s axi_in) →
        (after_stage_update env s axi_in).write_req_.active = false ∧
        (after_stage_update env s axi_in).stage_ = ExecStage.kExecute) ∧
      (¬ handshake_done s.write_req_.issued (seen_req_ready env s axi_in)
          (seen_resp_valid env s axi_in) →
        (after_stage_update env s axi_in).write_req_.active = true ∧
        (after_stage_update env s axi_in).stage_ = ExecStage.kWaitData) ∧
      (s.write_req_.issued = true → (after_stage_update env s axi_in).write_req_.issued = true)) ∧
    (s.stage_ = ExecStage.kWaitAmoWrite →
      s.write_req_.active = true ∧
      (handshake_done s.write_req_.issued (seen_req_ready env s axi_in)
          (seen_resp_valid env s axi_in) →
        (after_stage_update env s axi_in).write_req_.active = false ∧
        (after_stage_update env s axi_in).stage_ = ExecStage.kPrepareFetch) ∧
      (¬ handshake_done s.write_req_.issued (seen_req_ready env s axi_in)
          (seen_resp_valid env s axi_in) →
        (after_stage_update env s axi_in).write_req_.active = true ∧
        (after_stage_update env s axi_in).stage_ = ExecStage.kWaitAmoWrite) ∧
      (s.write_req_.issued = true → (after_stage_update env s axi_in).write_req_.issued = true)) ∧
    (s.stage_ ≠ ExecStage.kHalted →
      (step env s axi_in).sim.fetch_req_ = (after_stage_update env s axi_in).fetch_req_ ∧
      (step env s axi_in).sim.data_req_ = (after_stage_update env s axi_in).data_req_ ∧
      (step env s axi_in).sim.write_req_ = (after_stage_update env s axi_in).write_req_ ∧
      (step env s axi_in).sim.inst_word_ = (after_stage_update env s axi_in).inst_word_ ∧
      ((step env s axi_in).sim.stage_ = (after_stage_update env s axi_in).stage_ ∨
        (step env s axi_in).sim.stage_ = ExecStage.kHalted)) := by
  have hinv := reachable_apiInv env s hr
  have harm := reachableWithReads_armedInv env s (reachable_withReads env s hr)
  have ha : after_stage_update env s axi_in =
      update_stage_after_cycle env (stage_entry env s axi_in) (seen_req_ready env s axi_in)
        (seen_resp_valid env s axi_in) := rfl
  have hfr : ∀ hh : s.stage_ ≠ ExecStage.kHalted,
      (stage_entry env s axi_in).stage_ = s.stage_ ∧
      (stage_entry env s axi_in).pre_req_ = s.pre_req_ ∧
      (stage_entry env s axi_in).fetch_ok_ = s.fetch_ok_ ∧
      (stage_entry env s axi_in).fetch_paddr_ = s.fetch_paddr_ ∧
      (stage_entry env s axi_in).fetch_req_.active = s.fetch_req_.active ∧
      (stage_entry env s axi_in).fetch_req_.issued = s.fetch_req_.issued ∧
      (stage_entry env s axi_in).data_req_.active = s.data_req_.active ∧
      (stage_entry env s axi_in).data_req_.issued = s.data_req_.issued ∧
      (stage_entry env s axi_in).write_req_.active = s.write_req_.active ∧
      (stage_entry env s axi_in).write_req_.issued = s.write_req_.issued := by
    intro hh
    obtain ⟨ic, a, b, m, f, d, r, w, h, u, c, e⟩ := stage_entry_frame env s axi_in hh
    rw [e]
    exact ⟨rfl, rfl, rfl, rfl, rfl, rfl, rfl, rfl, rfl, rfl⟩
  refine ⟨?_, ?_, ?_, ?_, ?_⟩
  · intro hst
    have hh : s.stage_ ≠ ExecStage.kHalted := by rw [hst]; decide
    obtain ⟨f1, f2, f3, f4, f5, f6, f7, f8, f9, f10⟩ := hfr hh
    have hact : s.fetch_req_.active = true := (hinv.2.2 hh).1.mpr hst
    have hok : s.fetch_ok_ = true := harm.2.2.2 hst
    obtain ⟨w1, w2, w3, w4, w5⟩ := wait_fetch_update env (stage_entry env s axi_in)
      (seen_req_ready env s axi_in) (seen_resp_valid env s axi_in) (f1.trans hst)
    rw [← ha, f6] at w1 w2 w3
    rw [← ha] at w4 w5
    refine ⟨hact, ?_, ?_, w3⟩
    · intro hd
      obtain ⟨x1, x2, x3⟩ := w1 hd
      refine ⟨x1, x2, ?_, w5.trans f4⟩
      rw [x3, f3, hok, if_pos rfl, w4, w5]
    · intro hd
      obtain ⟨x1, x2, _⟩ := w2 hd
      exact ⟨x1.trans (f5.trans hact), x2⟩
  · intro hst hrd
    have hh : s.stage_ ≠ ExecStage.kHalted := by rw [hst]; decide
    obtain ⟨f1, f2, f3, f4, f5, f6, f7, f8, f9, f10⟩ := hfr hh
    have hact : s.data_req_.active = true := (hinv.2.2 hh).2.1.mpr ⟨hst, hrd⟩
    obtain ⟨w1, w2, w3, _⟩ := wait_data_read_update env (stage_entry env s axi_in)
      (seen_req_ready env s axi_in) (seen_resp_valid env s axi_in) (f1.trans hst)
      (by rw [f2]; exact hrd)
    rw [← ha, f8] at w1 w2 w3
    refine ⟨hact, w1, ?_, w3⟩
    intro hd
    obtain ⟨x1, x2⟩ := w2 hd
    exact ⟨x1.trans (f7.trans hact), x2⟩
  · intro hst hrd
    have hh : s.stage_ ≠ ExecStage.kHalted := by rw [hst]; decide
    obtain ⟨f1, f2, f3, f4, f5, f6, f7, f8, f9, f10⟩ := hfr hh
    have hact : s.write_req_.active = true := (hinv.2.2 hh).2.2.mpr (Or.inl ⟨hst, hrd⟩)
    obtain ⟨w1, w2, w3, _⟩ := wait_data_write_update env (stage_entry env s axi_in)
      (seen_req_ready env s axi_in) (seen_resp_valid env s axi_in) (f1.trans hst)
      (by rw [f2]; exact hrd)
    rw [← ha, f10] at w1 w2 w3
    refine ⟨hact, w1, ?_, w3⟩
    intro hd
    obtain ⟨x1, x2⟩ := w2 hd
    exact ⟨x1.trans (f9.trans hact), x2⟩
  · intro hst
    have hh : s.stage_ ≠ ExecStage.kHalted := by rw [hst]; decide
    obtain ⟨f1, f2, f3, f4, f5, f6, f7, f8, f9, f10⟩ := hfr hh
    have hact : s.write_req_.active = true := (hinv.2.2 hh).2.2.mpr (Or.inr hst)
    obtain ⟨w1, w2, w3⟩ := wait_amo_write_update env (stage_entry env s axi_in)
      (seen_req_ready env s axi_in) (seen_resp_valid env s axi_in) (f1.trans hst)
    rw [← ha, f10] at w1 w2 w3
    refine ⟨hact, w1, ?_, w3⟩
    intro hd
    obtain ⟨x1, x2⟩ := w2 hd
    exact ⟨x1.trans (f9.trans hact), x2⟩
  · intro hh
    obtain ⟨k1, k2, k3, k4, k5, k6, ek, hk⟩ := check_limits_frame env (after_stage_update env s axi_in)
    rw [step_running env s axi_in hl hh]
    simp only []
    rw [ek]
    exact ⟨rfl, rfl, rfl, rfl, hk⟩

/-! ## Requests are single-beat, and the page walk is not re-armed -/

theorem mmuInv_read_calls {α : Type} (prog : CpuProg α) (s : Sim σ) (h : MmuInv s) :
    ∀ c, c ∈ read_calls prog s → MmuInv c.1 := by
  induction prog generalizing s with
  | ret a =>
    intro c hc
    simp [read_calls] at hc
  | mem_read32 paddr data k ih =>
    intro c hc
    simp only [read_calls, List.mem_cons] at hc
    rcases hc with rfl | hc
    · exact h
    · exact ih _ _ _ (mmuInv_on_cpu_mem_read s (paddr % 2 ^ 32) data h) c hc
  | mem_read32_now paddr data k ih =>
    intro c hc
    simp only [read_calls] at hc
    exact ih _ _ s h c hc
  | mem_write32_now paddr data wstrb k ih =>
    intro c hc
    simp only [read_calls] at hc
    exact ih _ _ (mmuInv_cpu_mem_write_now_hook s _ _ _ h) c hc
  | get_sim_time k ih =>
    intro c hc
    simp only [read_calls] at hc
    exact ih _ s h c hc

theorem walkOutstanding_of_mmuInv (t : Sim σ) (h : MmuInv t) (ha : t.mmu_req_.active = true) :
    WalkOutstanding t := by
  obtain ⟨h1, h2, h3, h4, _, _⟩ := h ha
  have hm : ¬ t.p_memory.isNone = true := by
    cases hp : t.p_memory
    · rw [hp] at h4
      simp at h4
    · simp
  refine ⟨h1, h2, h3, ?_, ?_⟩
  · intro paddr d
    unfold on_cpu_mem_read
    simp [hm, h1, h2, ha]
  · intro paddr data
    unfold on_cpu_mem_read
    simp only []
    split_ifs <;> simp_all

/-- C28: in every state of a run (with or without extra calls of the read hook)
each active request has `total_size` 0, 1 or 3 (3 for the fetch and for the
page-walk read) and `beats_total = calc_beats(total_size) = 1`; `calc_beats` is
`ceil((total_size + 1) / 4)` and is 1 at these sizes; `setup_read` and
`setup_write` store `calc_beats(total_size)`, and the sizes the pre-decoder
yields are 0, 1 or 3. -/
theorem armed_requests_single_beat (env : Env σ) (s : Sim σ) (h : ReachableWithReads env s) :
    (s.fetch_req_.active = true →
      s.fetch_req_.total_size = 3 ∧
      s.fetch_req_.beats_total = calc_beats s.fetch_req_.total_size ∧
      s.fetch_req_.beats_total = 1) ∧
    (s.data_req_.active = true →
      (s.data_req_.total_size = 0 ∨ s.data_req_.total_size = 1 ∨ s.data_req_.total_size = 3) ∧
      s.data_req_.beats_total = calc_beats s.data_req_.total_size ∧
      s.data_req_.beats_total = 1) ∧
    (s.write_req_.active = true →
      (s.write_req_.total_size = 0 ∨ s.write_req_.total_size = 1 ∨ s.write_req_.total_size = 3) ∧
      s.write_req_.beats_total = calc_beats s.write_req_.total_size ∧
      s.write_req_.beats_total = 1) ∧
    (s.mmu_req_.active = true →
      s.mmu_req_.total_size = 3 ∧
      s.mmu_req_.beats_total = calc_beats s.mmu_req_.total_size ∧
      s.mmu_req_.beats_total = 1) ∧
    (∀ t : Nat, t = 0 ∨ t = 1 ∨ t = 3 → calc_beats t = (t + 1 + 3) / 4 ∧ calc_beats t = 1) ∧
    (∀ master id addr t : Nat,
      (setup_read master id addr t).total_size = t ∧
      (setup_read master id addr t).beats_total = calc_beats t) ∧
    (∀ id addr wdata wstrb t : Nat,
      (setup_write id addr wdata wstrb t).total_size = t ∧
      (setup_write id addr wdata wstrb t).beats_total = calc_beats t) ∧
    (∀ (t : Sim σ) (iw : Nat),
      (decode_mem_req_pre_exec env t iw).1.total_size = 0 ∨
      (decode_mem_req_pre_exec env t iw).1.total_size = 1 ∨
      (decode_mem_req_pre_exec env t iw).1.total_size = 3) := by
  have ha := reachableWithReads_armedInv env s h
  have hm := reachableWithReads_mmuInv env s h
  refine ⟨?_, ?_, ?_, ?_, ?_, ?_, ?_, ?_⟩
  · intro hx
    obtain ⟨a1, a2⟩ := ha.1 hx
    exact ⟨a1, by rw [a2, a1]; decide, a2⟩
  · intro hx
    obtain ⟨a1, a2⟩ := ha.2.1 hx
    exact ⟨a1, by rw [a2, calc_beats_of_size _ a1], a2⟩
  · intro hx
    obtain ⟨a1, a2⟩ := ha.2.2.1 hx
    exact ⟨a1, by rw [a2, calc_beats_of_size _ a1], a2⟩
  · intro hx
    obtain ⟨_, _, _, _, a1, a2⟩ := hm hx
    exact ⟨a1, by rw [a2, a1]; decide, a2⟩
  · intro t ht
    rcases ht with rfl | rfl | rfl <;> decide
  · intro master id addr t
    exact ⟨rfl, rfl⟩
  · intro id addr wdata wstrb t
    exact ⟨rfl, rfl⟩
  · intro t iw
    exact decode_total_size env t iw

set_option maxRecDepth 100000 in
/-- C28 at the state after the first step of a loaded simulator, which arms the fetch. -/
theorem armed_requests_single_beat_witness :
    (step demo_env (demo_loaded 5 100) demo_idle).sim.fetch_req_.active = true ∧
    (step demo_env (demo_loaded 5 100) demo_idle).sim.fetch_req_.total_size = 3 ∧
    (step demo_env (demo_loaded 5 100) demo_idle).sim.fetch_req_.beats_total = 1 :=
  have hr : ReachableWithReads demo_env (step demo_env (demo_loaded 5 100) demo_idle).sim :=
    ReachableWithReads.step _ _ (ReachableWithReads.load_image _ _ _
      (ReachableWithReads.set_limits _ _ _ (ReachableWithReads.create 0 none _)))
  have h := armed_requests_single_beat demo_env (step demo_env (demo_loaded 5 100) demo_idle).sim hr
  ⟨by decide, (h.1 (by decide)).1, (h.1 (by decide)).2.2⟩

/-- C30: in every state of a run in which `on_cpu_mem_read` may also be called
with any arguments between the calls of the driver API, and in every state in
which a CPU method run by the stage update of a step calls the read hook, an
active MMU request means that the hook state is pending, has no valid response
and holds the address of the request; a call of `on_cpu_mem_read` made there
(with a non-null `data`) returns `CPU_MEM_READ_PENDING` and changes nothing, and
no call changes the MMU request, so it is not armed again while it is active. -/
theorem mmu_request_not_rearmed (env : Env σ) (s : Sim σ) (h : ReachableWithReads env s) :
    (s.mmu_req_.active = true → WalkOutstanding s) ∧
    (∀ (axi_in : sc_axi4_in_t) (fetch_vaddr : Nat) (α : Type) (prog : CpuProg α)
        (c : Sim σ × Nat × Option Nat),
      c ∈ read_calls prog
        { update_mmu_request_state (stage_entry env s axi_in) with fetch_vaddr_ := fetch_vaddr } →
      c.1.mmu_req_.active = true → WalkOutstanding c.1) := by
  have hm := reachableWithReads_mmuInv env s h
  refine ⟨walkOutstanding_of_mmuInv s hm, ?_⟩
  intro axi_in fetch_vaddr α prog c hc ha
  have h0 : MmuInv (clear_error_if_running (clear_uart_event s)) := by
    unfold clear_error_if_running clear_uart_event
    split_ifs <;> exact hm
  have h1 : MmuInv (update_mmu_request_state (stage_entry env s axi_in)) :=
    mmuInv_update_mmu_request_state _ (mmuInv_bus_phase env _ axi_in h0)
  have h2 : MmuInv
      { update_mmu_request_state (stage_entry env s axi_in) with fetch_vaddr_ := fetch_vaddr } := h1
  exact walkOutstanding_of_mmuInv c.1 (mmuInv_read_calls prog _ h2 c hc) ha

set_option maxRecDepth 100000 in
/-- C30 at a loaded simulator on which the read hook was called for the word at
`0x2000`: the request is active, and a second call, for `0x3000`, is answered
`CPU_MEM_READ_PENDING` and leaves the request at `0x2000`. -/
theorem mmu_request_not_rearmed_witness :
    (on_cpu_mem_read (demo_loaded 5 100) 0x2000 (some 0)).2.2.mmu_req_.active = true ∧
    (on_cpu_mem_read (on_cpu_mem_read (demo_loaded 5 100) 0x2000 (some 0)).2.2 0x3000 (some 0)).1 =
      CpuMemReadResult.CPU_MEM_READ_PENDING ∧
    (on_cpu_mem_read (on_cpu_mem_read (demo_loaded 5 100) 0x2000 (some 0)).2.2 0x3000
      (some 0)).2.2.mmu_req_.addr = 0x2000 :=
  have hr : ReachableWithReads demo_env (on_cpu_mem_read (demo_loaded 5 100) 0x2000 (some 0)).2.2 :=
    ReachableWithReads.mem_read _ _ _ (ReachableWithReads.load_image _ _ _
      (ReachableWithReads.set_limits _ _ _ (ReachableWithReads.create 0 none _)))
  have h := (mmu_request_not_rearmed demo_env
    (on_cpu_mem_read (demo_loaded 5 100) 0x2000 (some 0)).2.2 hr).1 (by decide)
  ⟨by decide, (h.2.2.2.1 0x3000 0).1, (congrArg (fun r => r.addr) (h.2.2.2.2 0x3000 (some 0))).trans
    (by decide)⟩

/-! ## Slots and stages along the driver API; steps before an image is loaded -/

/-- C35: in every state the driver API can produce whose stage is not `kHalted`
(in particular after any number of `step` calls from a loaded image), the fetch
request is active exactly in `kWaitFetch`, the data-read request exactly in
`kWaitData` with a read pre-request, and the write request exactly in `kWaitData`
with a write pre-request or in `kWaitAmoWrite`; so no two of the three are
active together. -/
theorem slots_match_stage (env : Env σ) (s : Sim σ) (hr : Reachable env s)
    (hh : s.stage_ ≠ ExecStage.kHalted) :
    (s.fetch_req_.active = true ↔ s.stage_ = ExecStage.kWaitFetch) ∧
    (s.data_req_.active = true ↔
      (s.stage_ = ExecStage.kWaitData ∧ s.pre_req_.is_read = true)) ∧
    (s.write_req_.active = true ↔
      ((s.stage_ = ExecStage.kWaitData ∧ s.pre_req_.is_read = false) ∨
        s.stage_ = ExecStage.kWaitAmoWrite)) ∧
    ¬ (s.fetch_req_.active = true ∧ s.data_req_.active = true) ∧
    ¬ (s.fetch_req_.active = true ∧ s.write_req_.active = true) ∧
    ¬ (s.data_req_.active = true ∧ s.write_req_.active = true) := by
  obtain ⟨h1, h2, h3⟩ := (reachable_apiInv env s hr).2.2 hh
  refine ⟨h1, h2, h3, ?_, ?_, ?_⟩
  · rintro ⟨a, b⟩
    have x := h1.mp a
    have y := (h2.mp b).1
    rw [x] at y
    exact absurd y (by decide)
  · rintro ⟨a, b⟩
    have x := h1.mp a
    rcases h3.mp b with ⟨y, _⟩ | y <;>
    · rw [x] at y
      exact absurd y (by decide)
  · rintro ⟨a, b⟩
    obtain ⟨x, xr⟩ := h2.mp a
    rcases h3.mp b with ⟨_, yr⟩ | y
    · rw [xr] at yr
      exact absurd yr (by decide)
    · rw [x] at y
      exact absurd y (by decide)

set_option maxRecDepth 100000 in
/-- C35 at a loaded simulator after two steps: the fetch is armed and accepted. -/
theorem slots_match_stage_witness :
    (run demo_env (demo_loaded 5 100) [demo_idle, demo_accept]).stage_ = ExecStage.kWaitFetch ∧
    (run demo_env (demo_loaded 5 100) [demo_idle, demo_accept]).fetch_req_.active = true ∧
    ¬ ((run demo_env (demo_loaded 5 100) [demo_idle, demo_accept]).fetch_req_.active = true ∧
      (run demo_env (demo_loaded 5 100) [demo_idle, demo_accept]).write_req_.active = true) :=
  have hr : Reachable demo_env (run demo_env (demo_loaded 5 100) [demo_idle, demo_accept]) :=
    Reachable.step _ _ (Reachable.step _ _
      (Reachable.load_image _ _ _ (Reachable.set_limits _ _ _ (Reachable.create 0 none _))))
  have h := slots_match_stage demo_env (run demo_env (demo_loaded 5 100) [demo_idle, demo_accept])
    hr (by decide)
  ⟨by decide, h.1.mpr (by decide), h.2.2.2.2.1⟩

theorem unloadedInv_create (env : Env σ) (sim_time : Int) (p_memory alloc : Option Mem) :
    UnloadedInv (create env sim_time p_memory alloc) := by
  unfold UnloadedInv create init_runtime
  simp only []
  split_ifs with h1 h2 <;>
    first
      | (intro _ _; rfl)
      | (intro _ hm
         rw [Option.isNone_iff_eq_none] at h2
         simp [set_error, h2] at hm)

theorem unloadedInv_load_image (env : Env σ) (s : Sim σ) (image_path : Option String)
    (file : ImageFile) (h : UnloadedInv s) : UnloadedInv (load_image env s image_path file).2.2 := by
  unfold load_image
  cases image_path with
  | none => exact h
  | some path =>
    cases hm : s.p_memory with
    | none => simp only [hm]; exact h
    | some mem =>
      simp only [hm]
      split_ifs
      · exact h
      · intro hl _
        exact h hl (by rw [hm]; rfl)
      · intro hl
        simp [reset_machine_state] at hl

theorem unloadedInv_step (env : Env σ) (s : Sim σ) (axi_in : sc_axi4_in_t) (h : UnloadedInv s) :
    UnloadedInv (step env s axi_in).sim := by
  by_cases hl : s.image_loaded_ = true
  · by_cases hh : s.stage_ = ExecStage.kHalted
    · rw [step_halted env s axi_in hl hh]
      exact h
    · rw [step_running env s axi_in hl hh]
      intro hx
      rw [(check_limits_summary env _).1.2.2.1,
        (after_stage_update_summary env s axi_in hh).1.2.1, hl] at hx
      exact absurd hx (by decide)
  · have hl' : s.image_loaded_ = false := by simpa using hl
    rw [step_not_loaded env s axi_in hl']
    unfold set_error clear_error_if_running clear_uart_event
    split_ifs <;> exact h

theorem reachable_unloadedInv (env : Env σ) (s : Sim σ) (h : Reachable env s) :
    UnloadedInv s := by
  induction h with
  | create sim_time p_memory alloc => exact unloadedInv_create env sim_time p_memory alloc
  | load_image s image_path file _ ih => exact unloadedInv_load_image env s image_path file ih
  | set_limits s max_inst max_cycles _ ih => exact ih
  | step s axi_in _ ih => exact unloadedInv_step env s axi_in ih

/-- C36: a `step` made before an image is loaded, on a simulator whose memory is
allocated, returns `-1`, leaves `last_error_` at "image not loaded", hands back an
all-zero `axi_out`, and leaves `sim_time`, `inst_count_`, the stage (which is
`kPrepareFetch`) and the four request slots as they were; the status reports
`halted = 0`. -/
theorem step_before_load (env : Env σ) (s : Sim σ) (axi_in : sc_axi4_in_t)
    (hr : Reachable env s) (hl : s.image_loaded_ = false) (hm : s.p_memory.isSome = true) :
    (step env s axi_in).ret = -1 ∧
    (step env s axi_in).sim.last_error_ = "image not loaded" ∧
    (step env s axi_in).axi_out =
      { arvalid := 0, arid := 0, araddr := 0, arlen := 0, arsize := 0, arburst := 0,
        awvalid := 0, awid := 0, awaddr := 0, awlen := 0, awsize := 0, awburst := 0,
        wvalid := 0, wdata := 0, wstrb := 0, wlast := 0, rready := 0, bready := 0 } ∧
    (step env s axi_in).sim.sim_time = s.sim_time ∧
    (step env s axi_in).sim.inst_count_ = s.inst_count_ ∧
    (step env s axi_in).sim.stage_ = s.stage_ ∧
    s.stage_ = ExecStage.kPrepareFetch ∧
    (step env s axi_in).sim.fetch_req_ = s.fetch_req_ ∧
    (step env s axi_in).sim.data_req_ = s.data_req_ ∧
    (step env s axi_in).sim.write_req_ = s.write_req_ ∧
    (step env s axi_in).sim.mmu_req_ = s.mmu_req_ ∧
    (step env s axi_in).sim.image_loaded_ = false ∧
    (step env s axi_in).status.halted = 0 ∧
    (step env s axi_in).status.sim_time = toUInt64 s.sim_time ∧
    (step env s axi_in).status.inst_count = s.inst_count_ := by
  have hst := reachable_unloadedInv env s hr hl hm
  rw [step_not_loaded env s axi_in hl]
  unfold fill_status set_error clear_error_if_running clear_uart_event
  simp [hst, hl]

set_option maxRecDepth 100000 in
/-- C36 at a freshly constructed simulator. -/
theorem step_before_load_witness :
    demo_fresh.image_loaded_ = false ∧ demo_fresh.p_memory.isSome = true ∧
    (step demo_env demo_fresh demo_in).ret = -1 ∧
    (step demo_env demo_fresh demo_in).status.halted = 0 ∧
    (step demo_env demo_fresh demo_in).sim.sim_time = 0 :=
  have h := step_before_load demo_env demo_fresh demo_in (Reachable.create 0 none _) (by decide)
    (by decide)
  ⟨by decide, by decide, h.1, h.2.2.2.2.2.2.2.2.2.2.2.2.1, h.2.2.2.1.trans (by decide)⟩

/-! ## The boot stub and the immediates of the pre-decoder -/

/-- The words a successful `load_image` leaves at byte addresses 0x0, 0x4, 0x8, 0xC. -/
theorem load_image_boot_words (env : Env σ) (s : Sim σ) (image_path : Option String)
    (file : ImageFile) (h : (load_image env s image_path file).1 = 0) :
    mem_word (load_image env s image_path file).2.2.p_memory (0x0 >>> 2) = 0xf1402573 ∧
    mem_word (load_image env s image_path file).2.2.p_memory (0x4 >>> 2) = 0x83e005b7 ∧
    mem_word (load_image env s image_path file).2.2.p_memory (0x8 >>> 2) = 0x800002b7 ∧
    mem_word (load_image env s image_path file).2.2.p_memory (0xC >>> 2) = 0x00028067 := by
  unfold load_image at h ⊢
  cases image_path with
  | none => simp at h
  | some path =>
    cases hm : s.p_memory with
    | none => simp [hm] at h
    | some mem =>
      simp only [hm] at h ⊢
      split_ifs at h ⊢ with h1 h2
      · simp at h
      · simp at h
      · refine ⟨?_, ?_, ?_, ?_⟩ <;>
        simp [reset_machine_state, mem_word, Function.update]

set_option maxRecDepth 100000 in
/-- C33: the four words a successful `load_image` leaves at byte addresses 0x0,
0x4, 0x8 and 0xC decode, with `BITS`, `immI`, `immU` and `cvt_number_to_csr`, as
`csrrs a0, mhartid, x0` (opcode `0x73`, `funct3` 2, `rd` 10, `rs1` 0, CSR number
`0xF14`, which maps to `csr_mhartid`), `lui a1, 0x83e00` and `lui t0, 0x80000`
(opcode `0x37`, `rd` 11 and 5, upper immediate `0x83e00000` and `0x80000000`: the
low 32 bits of `immU`, whose 64-bit value is sign-extended), and `jalr x0, 0(t0)` (opcode `0x67`, `rd` 0, `rs1` 5,
`funct3` 0, `immI` 0). -/
theorem boot_stub_decodes (env : Env σ) (s : Sim σ) (image_path : Option String)
    (file : ImageFile) (h : (load_image env s image_path file).1 = 0) :
    (BITS (mem_word (load_image env s image_path file).2.2.p_memory (0x0 >>> 2)) 6 0 = 0x73 ∧
      BITS (mem_word (load_image env s image_path file).2.2.p_memory (0x0 >>> 2)) 14 12 = 2 ∧
      BITS (mem_word (load_image env s image_path file).2.2.p_memory (0x0 >>> 2)) 11 7 = 10 ∧
      BITS (mem_word (load_image env s image_path file).2.2.p_memory (0x0 >>> 2)) 19 15 = 0 ∧
      BITS (mem_word (load_image env s image_path file).2.2.p_memory (0x0 >>> 2)) 31 20 = 0xF14 ∧
      cvt_number_to_csr
        (BITS (mem_word (load_image env s image_path file).2.2.p_memory (0x0 >>> 2)) 31 20) =
          some csr_mhartid) ∧
    (BITS (mem_word (load_image env s image_path file).2.2.p_memory (0x4 >>> 2)) 6 0 = 0x37 ∧
      BITS (mem_word (load_image env s image_path file).2.2.p_memory (0x4 >>> 2)) 11 7 = 11 ∧
      immU (mem_word (load_image env s image_path file).2.2.p_memory (0x4 >>> 2)) =
        0xFFFFFFFF83e00000 ∧
      immU (mem_word (load_image env s image_path file).2.2.p_memory (0x4 >>> 2)) % 2 ^ 32 =
        0x83e00000) ∧
    (BITS (mem_word (load_image env s image_path file).2.2.p_memory (0x8 >>> 2)) 6 0 = 0x37 ∧
      BITS (mem_word (load_image env s image_path file).2.2.p_memory (0x8 >>> 2)) 11 7 = 5 ∧
      immU (mem_word (load_image env s image_path file).2.2.p_memory (0x8 >>> 2)) =
        0xFFFFFFFF80000000 ∧
      immU (mem_word (load_image env s image_path file).2.2.p_memory (0x8 >>> 2)) % 2 ^ 32 =
        0x80000000) ∧
    (BITS (mem_word (load_image env s image_path file).2.2.p_memory (0xC >>> 2)) 6 0 = 0x67 ∧
      BITS (mem_word (load_image env s image_path file).2.2.p_memory (0xC >>> 2)) 11 7 = 0 ∧
      BITS (mem_word (load_image env s image_path file).2.2.p_memory (0xC >>> 2)) 19 15 = 5 ∧
      BITS (mem_word (load_image env s image_path file).2.2.p_memory (0xC >>> 2)) 14 12 = 0 ∧
      immI (mem_word (load_image env s image_path file).2.2.p_memory (0xC >>> 2)) = 0) := by
  obtain ⟨w0, w1, w2, w3⟩ := load_image_boot_words env s image_path file h
  rw [w0, w1, w2, w3]
  decide

set_option maxRecDepth 100000 in
/-- C33 at the demo image. -/
theorem boot_stub_decodes_witness :
    (load_image demo_env demo_fresh (some "image.bin") demo_file).1 = 0 ∧
    cvt_number_to_csr
      (BITS (mem_word (load_image demo_env demo_fresh (some "image.bin") demo_file).2.2.p_memory
        (0x0 >>> 2)) 31 20) = some csr_mhartid ∧
    immU (mem_word (load_image demo_env demo_fresh (some "image.bin") demo_file).2.2.p_memory
      (0x4 >>> 2)) % 2 ^ 32 = 0x83e00000 :=
  have h := boot_stub_decodes demo_env demo_fresh (some "image.bin") demo_file (by decide)
  ⟨by decide, h.1.2.2.2.2.2, h.2.1.2.2.2⟩

theorem bitmask_values : BITMASK 12 = 0xfff ∧ BITMASK 7 = 0x7f ∧ BITMASK 5 = 0x1f := by decide

theorem and_mask_eq_mod (x n : Nat) : x &&& (2 ^ n - 1) = x % 2 ^ n :=
  Nat.and_pow_two_sub_one_eq_mod x n

/-- C34: for every 32-bit instruction word, the immediate the pre-decoder adds to
`gpr[rs1]` for a load, `sext` of bits 31:20 at 12 bits, is `immI` of the word
truncated to 32 bits, and the one it adds for a store, `sext` of bits 31:25
joined with bits 11:7, is `immS` truncated to 32 bits; so the address the
pre-decoder translates is `gpr[rs1] + immI(i)` for a load and
`gpr[rs1] + immS(i)` for a store, in `uint32_t`. -/
theorem predecoder_immediates (iw : Nat) (hiw : iw < 2 ^ 32) :
    toUInt32 (sext ((iw >>> 20) &&& 0xfff) 12) = immI iw % 2 ^ 32 ∧
    toUInt32 (sext ((((iw >>> 25) <<< 5) % 2 ^ 32) ||| ((iw >>> 7) &&& 0x1f)) 12) =
      immS iw % 2 ^ 32 ∧
    (∀ s : Sim σ,
      load_vaddr s iw = (s.cpu_core_.state.gpr (BITS iw 19 15) + immI iw) % 2 ^ 32 ∧
      store_vaddr s iw = (s.cpu_core_.state.gpr (BITS iw 19 15) + immS iw) % 2 ^ 32) := by
  obtain ⟨m12, m7, m5⟩ := bitmask_values
  have hx : (iw >>> 20) &&& 0xfff < 4096 := by
    have := and_mask_eq_mod (iw >>> 20) 12
    have h2 : (iw >>> 20) &&& 0xfff = (iw >>> 20) % 2 ^ 12 := this
    omega
  have hb : iw >>> 25 < 128 := by
    rw [Nat.shiftRight_eq_div_pow]
    omega
  have hb7 : (iw >>> 25) &&& 0x7f = iw >>> 25 := by
    have h2 : (iw >>> 25) &&& 0x7f = (iw >>> 25) % 2 ^ 7 := and_mask_eq_mod (iw >>> 25) 7
    omega
  have hlo : (iw >>> 7) &&& 0x1f < 32 := by
    have h2 : (iw >>> 7) &&& 0x1f = (iw >>> 7) % 2 ^ 5 := and_mask_eq_mod (iw >>> 7) 5
    omega
  have hor : ∀ a l : Nat, l < 32 → 32 * a ||| l = 32 * a + l := by
    intro a l hl
    have := Nat.mul_add_lt_is_or (show l < 2 ^ 5 from hl) a
    exact this.symm
  have e1 : toUInt32 (sext ((iw >>> 20) &&& 0xfff) 12) = immI iw % 2 ^ 32 := by
    unfold immI BITS SEXT toUInt32
    rw [sext_12 _ hx, show (31 - 20 + 1) = 12 from rfl, m12]
    generalize (iw >>> 20) &&& 0xfff = x at hx
    simp only []
    split_ifs <;> omega
  have e2 : toUInt32 (sext ((((iw >>> 25) <<< 5) % 2 ^ 32) ||| ((iw >>> 7) &&& 0x1f)) 12) =
      immS iw % 2 ^ 32 := by
    have himm : (((iw >>> 25) <<< 5) % 2 ^ 32) ||| ((iw >>> 7) &&& 0x1f) =
        32 * (iw >>> 25) + ((iw >>> 7) &&& 0x1f) := by
      rw [Nat.shiftLeft_eq, Nat.mod_eq_of_lt (by omega), Nat.mul_comm, hor _ _ hlo]
    have hlt : 32 * (iw >>> 25) + ((iw >>> 7) &&& 0x1f) < 4096 := by omega
    unfold immS BITS SEXT toUInt32
    rw [himm, sext_12 _ hlt, show (31 - 25 + 1) = 7 from rfl, show (11 - 7 + 1) = 5 from rfl,
      m7, m5, hb7]
    generalize (iw >>> 7) &&& 0x1f = l at hlo hlt
    generalize iw >>> 25 = b at hb hlt
    simp only []
    by_cases hs : b < 64
    · have h1 : b % 2 ^ 7 = b := Nat.mod_eq_of_lt (by omega)
      have h2 : b % 2 ^ 7 < 2 ^ (7 - 1) := by omega
      have h3 : (b <<< 5) % 2 ^ 64 = 32 * b := by
        rw [Nat.shiftLeft_eq]
        omega
      rw [if_pos h2, h1, h3, hor _ _ hlo]
      split_ifs <;> omega
    · have h1 : b % 2 ^ 7 = b := Nat.mod_eq_of_lt (by omega)
      have h2 : ¬ b % 2 ^ 7 < 2 ^ (7 - 1) := by omega
      have a1 : (b + 2 ^ 64 - 2 ^ 7) % 2 ^ 64 = b + 2 ^ 64 - 128 := Nat.mod_eq_of_lt (by omega)
      have a3 : ((b + 2 ^ 64 - 128) <<< 5) % 2 ^ 64 = 32 * (b + 2 ^ 59 - 128) := by
        rw [Nat.shiftLeft_eq]
        omega
      rw [if_neg h2, h1, a1, a3, hor _ _ hlo]
      split_ifs <;> omega
  refine ⟨e1, e2, ?_⟩
  intro s
  have hrs : BITS iw 19 15 = (iw >>> 15) &&& 0x1f := by
    unfold BITS
    rw [show (19 - 15 + 1) = 5 from rfl, m5]
  rw [hrs]
  unfold load_vaddr store_vaddr
  rw [e1, e2]
  constructor <;> omega

set_option maxRecDepth 100000 in
/-- C34 at `lw x5, -1(x1)`, whose immediate is `-1`. -/
theorem predecoder_immediates_witness :
    (0xFFF0A283 : Nat) < 2 ^ 32 ∧
    immI 0xFFF0A283 % 2 ^ 32 = 0xFFFFFFFF ∧
    load_vaddr (demo_regs 0xFFF0A283) 0xFFF0A283 = 0x80000100 ∧
    (demo_regs 0xFFF0A283).cpu_core_.state.gpr (BITS 0xFFF0A283 19 15) + immI 0xFFF0A283 =
      0x80000101 + 0xFFFFFFFFFFFFFFFF :=
  have h := @predecoder_immediates Unit 0xFFF0A283 (by decide)
  ⟨by decide, h.1.symm.trans (by decide), ((h.2.2 (demo_regs 0xFFF0A283)).1).trans (by decide),
    by decide⟩

/-! ## The order of the phases of a step -/

set_option maxRecDepth 100000 in
/-- C32, as stated, fails: a step that starts in `kExecute` with `sim_time = 3`
runs `exec()` and records the progress timestamp with `sim_time = 4`, the value
after `sim_time++`, not the value on entry. -/
theorem stage_update_sees_advanced_time :
    clock_executing.image_loaded_ = true ∧
    clock_executing.stage_ = ExecStage.kExecute ∧
    clock_executing.sim_time = 3 ∧
    (step clock_env clock_executing demo_idle).sim.cpu_core_.state.store_data = 4 ∧
    (step clock_env clock_executing demo_idle).sim.last_progress_time_ = 4 ∧
    ¬ ((step clock_env clock_executing demo_idle).sim.last_progress_time_ =
      toUInt64 clock_executing.sim_time) := by
  decide

theorem run_cpu_sim_time {α : Type} (prog : CpuProg α) (s : Sim σ) :
    (run_cpu prog s).2.sim_time = s.sim_time := by
  obtain ⟨m, h, r, e⟩ := run_cpu_frame prog s
  rw [e]

/-- C32 (amended): in a step that gets past the two early returns, the stage
update works on the state that read-beat and write-beat mirroring leave, after
`interconnect_.seq()` and with `sim_time` already one higher than on entry
(`sim_time++` comes before `update_stage_after_cycle`); `check_limits` follows. So
a CPU method run by the stage update reads `sim_time` as the entry value plus
one, and the progress timestamp of a retiring step is that value. -/
theorem step_phase_order (env : Env σ) (s : Sim σ) (axi_in : sc_axi4_in_t)
    (hl : s.image_loaded_ = true) (hh : s.stage_ ≠ ExecStage.kHalted) :
    (after_mirroring env s axi_in).sim_time = s.sim_time ∧
    stage_entry env s axi_in =
      { after_mirroring env s axi_in with
        interconnect_ := env.seq (after_mirroring env s axi_in).interconnect_
        sim_time := s.sim_time + 1 } ∧
    (step env s axi_in).sim =
      check_limits env
        (update_stage_after_cycle env (stage_entry env s axi_in) (seen_req_ready env s axi_in)
          (seen_resp_valid env s axi_in)) ∧
    (update_mmu_request_state (stage_entry env s axi_in)).sim_time = s.sim_time + 1 ∧
    (∀ (α : Type) (k : Int → CpuProg α),
      run_cpu (CpuProg.get_sim_time k) (update_mmu_request_state (stage_entry env s axi_in)) =
        run_cpu (k (s.sim_time + 1)) (update_mmu_request_state (stage_entry env s axi_in))) ∧
    (after_stage_update env s axi_in).sim_time = s.sim_time + 1 ∧
    (step env s axi_in).sim.sim_time = s.sim_time + 1 ∧
    (s.stage_ = ExecStage.kExecute → retires env s axi_in →
      (step env s axi_in).sim.last_progress_time_ = toUInt64 (s.sim_time + 1)) := by
  have h0 : (clear_error_if_running (clear_uart_event s)).sim_time = s.sim_time := by
    unfold clear_error_if_running clear_uart_event
    split_ifs <;> rfl
  have hm : (after_mirroring env s axi_in).sim_time = s.sim_time := by
    unfold after_mirroring
    simp only []
    obtain ⟨ic, a, b, e⟩ := bus_drive_frame env (clear_error_if_running (clear_uart_event s)) axi_in
    obtain ⟨m, f, d, r, h, e2⟩ := mirror_read_data_frame
      (bus_drive env (clear_error_if_running (clear_uart_event s)) axi_in).2.2 axi_in
      (fill_axi_outputs (bus_drive env (clear_error_if_running (clear_uart_event s)) axi_in).2.2)
    obtain ⟨m', u, c, w, e3⟩ := mirror_write_data_frame env
      (mirror_read_data (bus_drive env (clear_error_if_running (clear_uart_event s)) axi_in).2.2
        axi_in
        (fill_axi_outputs (bus_drive env (clear_error_if_running (clear_uart_event s)) axi_in).2.2))
      axi_in
      (fill_axi_outputs (bus_drive env (clear_error_if_running (clear_uart_event s)) axi_in).2.2)
    rw [e3, e2, e]
    exact h0
  have hse : stage_entry env s axi_in =
      { after_mirroring env s axi_in with
        interconnect_ := env.seq (after_mirroring env s axi_in).interconnect_
        sim_time := s.sim_time + 1 } := by
    have : stage_entry env s axi_in =
        { after_mirroring env s axi_in with
          interconnect_ := env.seq (after_mirroring env s axi_in).interconnect_
          sim_time := (after_mirroring env s axi_in).sim_time + 1 } := rfl
    rw [this, hm]
  have hst : (stage_entry env s axi_in).sim_time = s.sim_time + 1 := by rw [hse]
  obtain ⟨h1, r1, e1⟩ := update_mmu_request_state_frame (stage_entry env s axi_in)
  have hu : (update_mmu_request_state (stage_entry env s axi_in)).sim_time = s.sim_time + 1 := by
    rw [e1]
    exact hst
  obtain ⟨⟨a1, _⟩, _⟩ := after_stage_update_summary env s axi_in hh
  obtain ⟨k1, k2, k3, k4, k5, k6, ek, _⟩ := check_limits_frame env (after_stage_update env s axi_in)
  refine ⟨hm, hse, ?_, hu, ?_, a1, ?_, ?_⟩
  · rw [step_running env s axi_in hl hh]
    rfl
  · intro α k
    simp only [run_cpu, hu]
  · rw [step_running env s axi_in hl hh]
    simp only []
    rw [ek]
    exact a1
  · intro hx hret
    have hs0 : (update_mmu_request_state (stage_entry env s axi_in)).stage_ = ExecStage.kExecute := by
      have : (stage_entry env s axi_in).stage_ = s.stage_ := by
        obtain ⟨ic, a, b, m, f, d, r, w, h, u, c, e⟩ := stage_entry_frame env s axi_in hh
        rw [e]
      rw [e1]
      exact this.trans hx
    have ha : after_stage_update env s axi_in =
        execute_stage env (update_mmu_request_state (stage_entry env s axi_in)) := by
      show update_stage_after_cycle env (stage_entry env s axi_in) _ _ = _
      unfold update_stage_after_cycle
      simp only [hs0]
    have hret' : (exec_call env
        (update_mmu_request_state (stage_entry env s axi_in))).cpu_core_.translation_pending = false :=
      hret
    rw [step_running env s axi_in hl hh]
    simp only []
    rw [ek]
    show (after_stage_update env s axi_in).last_progress_time_ = _
    rw [ha]
    obtain ⟨c, m, h, r, ec, hc⟩ := execute_stage_cases env
      (update_mmu_request_state (stage_entry env s axi_in))
    rw [ec] at hret'
    rcases hc with ⟨hp, _⟩ | ⟨_, lic, sr, ⟨_, e⟩ | ⟨_, w, _, e⟩ | ⟨_, e⟩⟩
    · rw [hp] at hret'
      exact absurd hret' (by decide)
    · rw [e]
      exact congrArg toUInt64 hu
    · rw [e]
      exact congrArg toUInt64 hu
    · rw [e]
      exact congrArg toUInt64 hu

set_option maxRecDepth 100000 in
/-- C32 (amended) at the step of `clock_env` that retires the first instruction. -/
theorem step_phase_order_witness :
    clock_executing.image_loaded_ = true ∧
    clock_executing.stage_ ≠ ExecStage.kHalted ∧
    clock_executing.sim_time = 3 ∧
    (step clock_env clock_executing demo_idle).sim.last_progress_time_ = 4 :=
  have h := step_phase_order clock_env clock_executing demo_idle (by decide) (by decide)
  ⟨by decide, by decide, by decide,
    (h.2.2.2.2.2.2.2 (by decide) (by unfold retires; decide)).trans (by decide)⟩

/-! ## Delivery of the page-walk response -/

theorem hookKept_refl (t : Sim σ) : HookKept t t := ⟨rfl, fun _ => rfl⟩

theorem hookKept_trans (t u v : Sim σ) (h1 : HookKept t u) (h2 : HookKept u v) : HookKept t v := by
  refine ⟨h2.1.trans h1.1, ?_⟩
  intro hv
  have e := h2.2 hv
  rw [e]
  exact h1.2 (by rw [← e]; exact hv)

theorem hookKept_on_cpu_mem_read (t : Sim σ) (paddr : Nat) (data : Option Nat) :
    HookKept t (on_cpu_mem_read t paddr data).2.2 := by
  unfold HookKept on_cpu_mem_read
  simp only []
  split_ifs <;> simp_all

theorem hookKept_cpu_mem_write_now_hook (t : Sim σ) (paddr data wstrb : Nat) :
    HookKept t (cpu_mem_write_now_hook t paddr data wstrb).2 := by
  unfold HookKept cpu_mem_write_now_hook
  split_ifs
  · exact ⟨rfl, fun _ => rfl⟩
  · exact ⟨apply_wstrb_write_isSome _ _ _ _, fun _ => rfl⟩

theorem hookKept_run_cpu {α : Type} (prog : CpuProg α) (t : Sim σ) :
    HookKept t (run_cpu prog t).2 := by
  induction prog generalizing t with
  | ret a => exact hookKept_refl t
  | mem_read32 paddr data k ih =>
    simp only [run_cpu]
    exact hookKept_trans _ _ _ (hookKept_on_cpu_mem_read t (paddr % 2 ^ 32) data) (ih _ _ _)
  | mem_read32_now paddr data k ih =>
    simp only [run_cpu]
    exact ih _ _ t
  | mem_write32_now paddr data wstrb k ih =>
    simp only [run_cpu]
    exact hookKept_trans _ _ _ (hookKept_cpu_mem_write_now_hook t _ _ _) (ih _ _)
  | get_sim_time k ih =>
    simp only [run_cpu]
    exact ih _ t

theorem hookKept_exec_call (env : Env σ) (t : Sim σ) : HookKept t (exec_call env t) :=
  hookKept_run_cpu (env.exec t.cpu_core_) t

theorem hookKept_translate_addr (env : Env σ) (t : Sim σ) (vaddr type paddr : Nat) :
    HookKept t (translate_addr env t vaddr type paddr).2.2 := by
  unfold translate_addr
  split_ifs
  · exact hookKept_run_cpu (env.va2pa t.cpu_core_ paddr vaddr type) t
  · exact hookKept_refl t

theorem hookKept_decode_mem_req_pre_exec (env : Env σ) (t : Sim σ) (inst_word : Nat) :
    HookKept t (decode_mem_req_pre_exec env t inst_word).2 := by
  unfold decode_mem_req_pre_exec
  simp only []
  split_ifs
  all_goals first
    | exact hookKept_translate_addr env t _ _ _
    | exact hookKept_refl t

/-- The part of the stage update after `update_mmu_request_state` sets no
`response_valid`. -/
theorem hookKept_update_stage_after_cycle (env : Env σ) (t : Sim σ) (req_ready resp_valid : Bool) :
    HookKept (update_mmu_request_state t) (update_stage_after_cycle env t req_ready resp_valid) := by
  unfold update_stage_after_cycle
  simp only []
  generalize update_mmu_request_state t = U
  split
  · have h := hookKept_translate_addr env { U with fetch_vaddr_ := U.cpu_core_.state.pc }
      U.cpu_core_.state.pc 0 U.fetch_paddr_
    unfold prepare_fetch
    simp only []
    split_ifs <;> exact h
  · split_ifs <;> exact hookKept_refl U
  · have h := hookKept_decode_mem_req_pre_exec env U U.inst_word_
    unfold prepare_data_request
    simp only []
    split_ifs <;> exact h
  · split_ifs <;> exact hookKept_refl U
  · have h := hookKept_exec_call env U
    unfold execute_stage
    simp only []
    split_ifs <;> exact h
  · split_ifs <;> exact hookKept_refl U
  · exact hookKept_refl U

/-- What `update_mmu_request_state` does when the request completes, and that it
leaves the hook state alone otherwise. -/
theorem update_mmu_request_state_cases (t : Sim σ) :
    (t.mmu_req_.active = true →
      (t.mmu_req_.issued = true ∨ t.mmu_req_ready_ = true) → t.mmu_resp_valid_ = true →
      (update_mmu_request_state t).mmu_req_.active = false ∧
      (update_mmu_request_state t).mmu_hook_.response_valid = true ∧
      (update_mmu_request_state t).mmu_hook_.addr = t.mmu_hook_.addr ∧
      (update_mmu_request_state t).p_memory = t.p_memory ∧
      (t.p_memory.isSome = true →
        (update_mmu_request_state t).mmu_hook_.data =
          mem_word t.p_memory (t.mmu_hook_.addr >>> 2))) ∧
    (¬ (t.mmu_req_.active = true ∧
        (t.mmu_req_.issued = true ∨ t.mmu_req_ready_ = true) ∧ t.mmu_resp_valid_ = true) →
      (update_mmu_request_state t).mmu_hook_ = t.mmu_hook_) := by
  unfold update_mmu_request_state
  simp only []
  cases hm : t.p_memory <;> cases ha : t.mmu_req_.active <;> cases hi : t.mmu_req_.issued <;>
    cases hr : t.mmu_req_ready_ <;> cases hv : t.mmu_resp_valid_ <;>
    simp [mem_word, hm, ha, hi, hr, hv]

/-- A call of the read hook for the address of a valid response returns it. -/
theorem on_cpu_mem_read_delivers (t : Sim σ) (paddr d : Nat) (hm : t.p_memory.isSome = true)
    (hv : t.mmu_hook_.response_valid = true) (ha : paddr &&& 0xFFFFFFFC = t.mmu_hook_.addr) :
    (on_cpu_mem_read t paddr (some d)).1 = CpuMemReadResult.CPU_MEM_READ_OK ∧
    (on_cpu_mem_read t paddr (some d)).2.1 = some t.mmu_hook_.data := by
  have hn : ¬ t.p_memory.isNone = true := by
    cases hp : t.p_memory
    · rw [hp] at hm
      simp at hm
    · simp
  unfold on_cpu_mem_read
  simp [hn, hv, ha.symm]

/-- C31: in a step that gets past the two early returns with the MMU request
active and, by the end of its bus phase, issued and answered
(`mmu_resp_valid_`), `update_mmu_request_state` makes the request inactive, sets
`mmu_hook_.response_valid` and sets `mmu_hook_.data` to the word of memory at
index `mmu_hook_.addr >> 2`; a call of `on_cpu_mem_read` for that address made
next, in the rest of the step or, while the response is still valid, after the
step, returns `CPU_MEM_READ_OK` with that word. In every other step a
`response_valid` that was clear on entry is clear at the end. -/
theorem mmu_response_delivered (env : Env σ) (s : Sim σ) (axi_in : sc_axi4_in_t)
    (hr : ReachableWithReads env s) :
    (mmu_completes env s axi_in →
      ((update_mmu_request_state (stage_entry env s axi_in)).mmu_req_.active = false ∧
        (update_mmu_request_state (stage_entry env s axi_in)).mmu_hook_.response_valid = true ∧
        (update_mmu_request_state (stage_entry env s axi_in)).mmu_hook_.addr = s.mmu_hook_.addr ∧
        s.mmu_hook_.addr = s.mmu_req_.addr ∧
        (update_mmu_request_state (stage_entry env s axi_in)).mmu_hook_.data =
          mem_word (update_mmu_request_state (stage_entry env s axi_in)).p_memory
            (s.mmu_hook_.addr >>> 2)) ∧
      (∀ paddr d : Nat, paddr &&& 0xFFFFFFFC = s.mmu_hook_.addr →
        (on_cpu_mem_read (update_mmu_request_state (stage_entry env s axi_in)) paddr (some d)).1 =
          CpuMemReadResult.CPU_MEM_READ_OK ∧
        (on_cpu_mem_read (update_mmu_request_state (stage_entry env s axi_in)) paddr
          (some d)).2.1 =
          some (mem_word (update_mmu_request_state (stage_entry env s axi_in)).p_memory
            (s.mmu_hook_.addr >>> 2))) ∧
      ((step env s axi_in).sim.mmu_hook_.response_valid = true →
        (step env s axi_in).sim.mmu_hook_ =
          (update_mmu_request_state (stage_entry env s axi_in)).mmu_hook_ ∧
        ∀ paddr d : Nat, paddr &&& 0xFFFFFFFC = s.mmu_hook_.addr →
          (on_cpu_mem_read (step env s axi_in).sim paddr (some d)).1 =
            CpuMemReadResult.CPU_MEM_READ_OK ∧
          (on_cpu_mem_read (step env s axi_in).sim paddr (some d)).2.1 =
            some (mem_word (update_mmu_request_state (stage_entry env s axi_in)).p_memory
              (s.mmu_hook_.addr >>> 2)))) ∧
    (¬ mmu_completes env s axi_in → s.mmu_hook_.response_valid = false →
      (step env s axi_in).sim.mmu_hook_.response_valid = false) := by
  have hinv := reachableWithReads_mmuInv env s hr
  have ha : after_stage_update env s axi_in =
      update_stage_after_cycle env (stage_entry env s axi_in) (seen_req_ready env s axi_in)
        (seen_resp_valid env s axi_in) := rfl
  have hk := hookKept_update_stage_after_cycle env (stage_entry env s axi_in)
    (seen_req_ready env s axi_in) (seen_resp_valid env s axi_in)
  rw [← ha] at hk
  obtain ⟨k1, k2, k3, k4, k5, k6, ek, _⟩ := check_limits_frame env (after_stage_update env s axi_in)
  obtain ⟨c1, c2⟩ := update_mmu_request_state_cases (stage_entry env s axi_in)
  constructor
  · rintro ⟨hl, hh, hact, hiss, hv⟩
    obtain ⟨ic, a, b, m, f, d, r, w, h, u, c, e⟩ := stage_entry_frame env s axi_in hh
    have e1 : (stage_entry env s axi_in).mmu_req_.active = s.mmu_req_.active := by rw [e]
    have e2 : (stage_entry env s axi_in).mmu_req_.issued = s.mmu_req_.issued := by rw [e]
    have e3 : (stage_entry env s axi_in).mmu_hook_.addr = s.mmu_hook_.addr := by rw [e]
    have h0 : MmuInv (clear_error_if_running (clear_uart_event s)) := by
      unfold clear_error_if_running clear_uart_event
      split_ifs <;> exact hinv
    have hE : MmuInv (stage_entry env s axi_in) := mmuInv_bus_phase env _ axi_in h0
    obtain ⟨_, _, _, hmem, _, _⟩ := hE (e1.trans hact)
    obtain ⟨_, _, haddr, _, _, _⟩ := hinv hact
    obtain ⟨u1, u2, u3, u4, u5⟩ := c1 (e1.trans hact) (by rw [e2]; exact hiss) hv
    have u5' := u5 hmem
    rw [e3, ← u4] at u5'
    have hUm : (update_mmu_request_state (stage_entry env s axi_in)).p_memory.isSome = true := by
      rw [u4]; exact hmem
    have hdel : ∀ (t : Sim σ), t.p_memory.isSome = true →
        t.mmu_hook_ = (update_mmu_request_state (stage_entry env s axi_in)).mmu_hook_ →
        ∀ paddr d : Nat, paddr &&& 0xFFFFFFFC = s.mmu_hook_.addr →
          (on_cpu_mem_read t paddr (some d)).1 = CpuMemReadResult.CPU_MEM_READ_OK ∧
          (on_cpu_mem_read t paddr (some d)).2.1 =
            some (mem_word (update_mmu_request_state (stage_entry env s axi_in)).p_memory
              (s.mmu_hook_.addr >>> 2)) := by
      intro t htm hth paddr d hp
      have x := on_cpu_mem_read_delivers t paddr d htm (by rw [hth]; exact u2)
        (by rw [hth, u3.trans e3]; exact hp)
      rw [hth, u5'] at x
      exact x
    refine ⟨⟨u1, u2, u3.trans e3, haddr.symm, u5'⟩, hdel _ hUm rfl, ?_⟩
    intro hend
    have hsim : (step env s axi_in).sim = check_limits env (after_stage_update env s axi_in) := by
      rw [step_running env s axi_in hl hh]
    have hh1 : (step env s axi_in).sim.mmu_hook_ = (after_stage_update env s axi_in).mmu_hook_ := by
      rw [hsim, ek]
    have hh2 : (step env s axi_in).sim.p_memory = (after_stage_update env s axi_in).p_memory := by
      rw [hsim, ek]
    have hkept := hk.2 (by rw [← hh1]; exact hend)
    refine ⟨hh1.trans hkept, hdel _ ?_ (hh1.trans hkept)⟩
    rw [hh2, hk.1]
    exact hUm
  · intro hnc hrv
    by_cases hl : s.image_loaded_ = true
    · by_cases hh : s.stage_ = ExecStage.kHalted
      · rw [step_halted env s axi_in hl hh]
        exact hrv
      · obtain ⟨ic, a, b, m, f, d, r, w, h, u, c, e⟩ := stage_entry_frame env s axi_in hh
        have e1 : (stage_entry env s axi_in).mmu_req_.active = s.mmu_req_.active := by rw [e]
        have e2 : (stage_entry env s axi_in).mmu_req_.issued = s.mmu_req_.issued := by rw [e]
        have e4 : (stage_entry env s axi_in).mmu_hook_.response_valid =
            s.mmu_hook_.response_valid := by rw [e]
        have hU := c2 (by
          rintro ⟨x1, x2, x3⟩
          exact hnc ⟨hl, hh, e1 ▸ x1, e2 ▸ x2, x3⟩)
        have hUv : (update_mmu_request_state (stage_entry env s axi_in)).mmu_hook_.response_valid
            = false := by
          rw [hU, e4]
          exact hrv
        rw [step_running env s axi_in hl hh]
        simp only []
        rw [ek]
        show (after_stage_update env s axi_in).mmu_hook_.response_valid = false
        cases hx : (after_stage_update env s axi_in).mmu_hook_.response_valid
        · rfl
        · have := hk.2 hx
          rw [this, hUv] at hx
          exact absurd hx (by decide)
    · have hl' : s.image_loaded_ = false := by simpa using hl
      rw [step_not_loaded env s axi_in hl']
      unfold set_error clear_error_if_running clear_uart_event
      split_ifs <;> exact hrv

set_option maxRecDepth 100000 in
/-- C31 at a loaded simulator on which the read hook was called for the word at
`0x2000`, in a step whose slave accepts and answers at once: the response is
valid at the end of the step and the next call for `0x2000` returns it. -/
theorem mmu_response_delivered_witness :
    mmu_completes demo_env (on_cpu_mem_read (demo_loaded 5 100) 0x2000 (some 0)).2.2 demo_in ∧
    (step demo_env (on_cpu_mem_read (demo_loaded 5 100) 0x2000 (some 0)).2.2
      demo_in).sim.mmu_hook_.response_valid = true ∧
    (on_cpu_mem_read
      (step demo_env (on_cpu_mem_read (demo_loaded 5 100) 0x2000 (some 0)).2.2 demo_in).sim
      0x2000 (some 7)).1 = CpuMemReadResult.CPU_MEM_READ_OK :=
  have hr : ReachableWithReads demo_env (on_cpu_mem_read (demo_loaded 5 100) 0x2000 (some 0)).2.2 :=
    ReachableWithReads.mem_read _ _ _ (ReachableWithReads.load_image _ _ _
      (ReachableWithReads.set_limits _ _ _ (ReachableWithReads.create 0 none _)))
  have hc : mmu_completes demo_env (on_cpu_mem_read (demo_loaded 5 100) 0x2000 (some 0)).2.2
      demo_in := by
    unfold mmu_completes
    decide
  have h := (mmu_response_delivered demo_env
    (on_cpu_mem_read (demo_loaded 5 100) 0x2000 (some 0)).2.2 demo_in hr).1 hc
  ⟨hc, by decide, ((h.2.2 (by decide)).2 0x2000 7 (by decide)).1⟩

/-! ## What reads the interconnect -/

theorem on_cpu_mem_read_interconnect (s : Sim σ) (ic : AXI_Interconnect σ) (paddr : Nat)
    (data : Option Nat) :
    on_cpu_mem_read { s with interconnect_ := ic } paddr data =
      ((on_cpu_mem_read s paddr data).1, (on_cpu_mem_read s paddr data).2.1,
        { (on_cpu_mem_read s paddr data).2.2 with interconnect_ := ic }) := by
  unfold on_cpu_mem_read
  simp only []
  split_ifs <;> rfl

theorem cpu_mem_write_now_hook_interconnect (s : Sim σ) (ic : AXI_Interconnect σ)
    (paddr data wstrb : Nat) :
    cpu_mem_write_now_hook { s with interconnect_ := ic } paddr data wstrb =
      ((cpu_mem_write_now_hook s paddr data wstrb).1,
        { (cpu_mem_write_now_hook s paddr data wstrb).2 with interconnect_ := ic }) := by
  unfold cpu_mem_write_now_hook
  simp only []
  split_ifs <;> rfl

/-- A CPU method does not see the interconnect. -/
theorem run_cpu_interconnect {α : Type} (prog : CpuProg α) (s : Sim σ)
    (ic : AXI_Interconnect σ) :
    run_cpu prog { s with interconnect_ := ic } =
      ((run_cpu prog s).1, { (run_cpu prog s).2 with interconnect_ := ic }) := by
  induction prog generalizing s with
  | ret a => rfl
  | mem_read32 paddr data k ih =>
    simp only [run_cpu, cpu_mem_read_hook, on_cpu_mem_read_interconnect]
    exact ih _ _ _
  | mem_read32_now paddr data k ih =>
    simp only [run_cpu]
    exact ih _ _ s
  | mem_write32_now paddr data wstrb k ih =>
    simp only [run_cpu, cpu_mem_write_now_hook_interconnect]
    exact ih _ _
  | get_sim_time k ih =>
    simp only [run_cpu]
    exact ih _ s

theorem exec_call_interconnect (env : Env σ) (s : Sim σ) (ic : AXI_Interconnect σ) :
    exec_call env { s with interconnect_ := ic } = { exec_call env s with interconnect_ := ic } := by
  unfold exec_call
  simp only [run_cpu_interconnect]

theorem translate_addr_interconnect (env : Env σ) (s : Sim σ) (ic : AXI_Interconnect σ)
    (vaddr type paddr : Nat) :
    translate_addr env { s with interconnect_ := ic } vaddr type paddr =
      ((translate_addr env s vaddr type paddr).1, (translate_addr env s vaddr type paddr).2.1,
        { (translate_addr env s vaddr type paddr).2.2 with interconnect_ := ic }) := by
  unfold translate_addr
  simp only [run_cpu_interconnect]
  split_ifs <;> rfl

theorem decode_mem_req_pre_exec_interconnect (env : Env σ) (s : Sim σ)
    (ic : AXI_Interconnect σ) (inst_word : Nat) :
    decode_mem_req_pre_exec env { s with interconnect_ := ic } inst_word =
      ((decode_mem_req_pre_exec env s inst_word).1,
        { (decode_mem_req_pre_exec env s inst_word).2 with interconnect_ := ic }) := by
  unfold decode_mem_req_pre_exec
  simp only [translate_addr_interconnect]
  split_ifs <;> rfl

theorem update_mmu_request_state_interconnect (s : Sim σ) (ic : AXI_Interconnect σ) :
    update_mmu_request_state { s with interconnect_ := ic } =
      { update_mmu_request_state s with interconnect_ := ic } := by
  cases s
  rename_i pm _ _ _ _ _ _ _ _ _ _ _ _ _ _ _ _ _ _ _ _ _ _ _ _ _ _ _ _
  unfold update_mmu_request_state
  cases pm <;> simp only [] <;> split_ifs <;> rfl

theorem prepare_fetch_interconnect (env : Env σ) (s : Sim σ) (ic : AXI_Interconnect σ) :
    prepare_fetch env { s with interconnect_ := ic } =
      { prepare_fetch env s with interconnect_ := ic } := by
  have h := translate_addr_interconnect env { s with fetch_vaddr_ := s.cpu_core_.state.pc } ic
    s.cpu_core_.state.pc 0 s.fetch_paddr_
  unfold prepare_fetch
  simp only [] at h ⊢
  rw [h]
  simp only []
  split_ifs <;> rfl

theorem prepare_data_request_interconnect (env : Env σ) (s : Sim σ) (ic : AXI_Interconnect σ) :
    prepare_data_request env { s with interconnect_ := ic } =
      { prepare_data_request env s with interconnect_ := ic } := by
  unfold prepare_data_request
  simp only [decode_mem_req_pre_exec_interconnect]
  split_ifs <;> rfl

theorem execute_stage_interconnect (env : Env σ) (s : Sim σ) (ic : AXI_Interconnect σ) :
    execute_stage env { s with interconnect_ := ic } =
      { execute_stage env s with interconnect_ := ic } := by
  unfold execute_stage
  simp only [exec_call_interconnect]
  split_ifs <;> rfl

/-- The stage update does not read the interconnect: it sees the bus through
`req_ready`, `resp_valid` and the two latched MMU port signals only. -/
theorem update_stage_after_cycle_interconnect (env : Env σ) (s : Sim σ)
    (ic : AXI_Interconnect σ) (req_ready resp_valid : Bool) :
    update_stage_after_cycle env { s with interconnect_ := ic } req_ready resp_valid =
      { update_stage_after_cycle env s req_ready resp_valid with interconnect_ := ic } := by
  unfold update_stage_after_cycle
  simp only [update_mmu_request_state_interconnect]
  split
  · exact prepare_fetch_interconnect env _ ic
  · split_ifs <;> rfl
  · exact prepare_data_request_interconnect env _ ic
  · split_ifs <;> rfl
  · exact execute_stage_interconnect env _ ic
  · split_ifs <;> rfl
  · rfl

theorem set_resp_codes_eq (s : Sim σ) (rresp bresp : Nat) :
    set_resp_codes s rresp bresp =
      { s with interconnect_ := set_bundle_codes s.interconnect_ rresp bresp } := rfl

theorem apply_axi_inputs_codes (s : Sim σ) (axi_in : sc_axi4_in_t) (rresp bresp : Nat) :
    apply_axi_inputs s { axi_in with rresp := rresp, bresp := bresp } =
      set_resp_codes (apply_axi_inputs s axi_in) rresp bresp := rfl

theorem clear_master_inputs_codes (s : Sim σ) (rresp bresp : Nat) :
    clear_master_inputs (set_resp_codes s rresp bresp) =
      set_resp_codes (clear_master_inputs s) rresp bresp := rfl

theorem fill_axi_outputs_codes (s : Sim σ) (rresp bresp : Nat) :
    fill_axi_outputs (set_resp_codes s rresp bresp) = fill_axi_outputs s := rfl

theorem drive_mmu_request_codes (s : Sim σ) (rresp bresp : Nat) :
    drive_mmu_request (set_resp_codes s rresp bresp) =
      set_resp_codes (drive_mmu_request s) rresp bresp := by
  unfold drive_mmu_request set_resp_codes set_bundle_codes
  simp only []
  split_ifs <;> rfl

/-- `drive_current_stage` reads the ports, not the response codes. -/
theorem drive_current_stage_codes (s : Sim σ) (rresp bresp : Nat) :
    drive_current_stage (set_resp_codes s rresp bresp) =
      ((drive_current_stage s).1, (drive_current_stage s).2.1,
        set_resp_codes (drive_current_stage s).2.2 rresp bresp) := by
  have h1 : ∀ (t : Sim σ) (m : Nat) (rq : ReadReqState),
      drive_read_port (set_resp_codes t rresp bresp) m rq =
        ((drive_read_port t m rq).1, (drive_read_port t m rq).2.1,
          set_resp_codes (drive_read_port t m rq).2.2 rresp bresp) := by
    intro t m rq
    unfold drive_read_port set_resp_codes set_bundle_codes
    simp only []
  have h2 : ∀ t : Sim σ,
      drive_write_port (set_resp_codes t rresp bresp) =
        ((drive_write_port t).1, (drive_write_port t).2.1,
          set_resp_codes (drive_write_port t).2.2 rresp bresp) := by
    intro t
    unfold drive_write_port set_resp_codes set_bundle_codes
    simp only []
  have e1 : (set_resp_codes s rresp bresp).stage_ = s.stage_ := rfl
  have e2 : (set_resp_codes s rresp bresp).pre_req_ = s.pre_req_ := rfl
  have e3 : (set_resp_codes s rresp bresp).fetch_req_ = s.fetch_req_ := rfl
  have e4 : (set_resp_codes s rresp bresp).data_req_ = s.data_req_ := rfl
  unfold drive_current_stage
  simp only [e1, e2, e3, e4]
  cases s.stage_ <;> simp only [h1, h2, drive_mmu_request_codes]
  all_goals first
    | rfl
    | (split_ifs <;> simp only [h1, h2, drive_mmu_request_codes])

theorem mirror_read_data_interconnect (s : Sim σ) (ic : AXI_Interconnect σ)
    (axi_in : sc_axi4_in_t) (axi_out : sc_axi4_out_t) :
    mirror_read_data { s with interconnect_ := ic } axi_in axi_out =
      { mirror_read_data s axi_in axi_out with interconnect_ := ic } := by
  unfold mirror_read_data
  simp only []
  split_ifs <;> rfl

theorem mirror_write_data_interconnect (env : Env σ) (s : Sim σ) (ic : AXI_Interconnect σ)
    (axi_in : sc_axi4_in_t) (axi_out : sc_axi4_out_t) :
    mirror_write_data env { s with interconnect_ := ic } axi_in axi_out =
      { mirror_write_data env s axi_in axi_out with interconnect_ := ic } := by
  have hl : ∀ (wb lane : Nat) (t : Sim σ),
      uart_lane env wb axi_out { t with interconnect_ := ic } lane =
        { uart_lane env wb axi_out t lane with interconnect_ := ic } := by
    intro wb lane t
    unfold uart_lane
    simp only []
    split_ifs <;> rfl
  have hf : ∀ (wb : Nat) (lanes : List Nat) (t : Sim σ),
      lanes.foldl (uart_lane env wb axi_out) { t with interconnect_ := ic } =
        { lanes.foldl (uart_lane env wb axi_out) t with interconnect_ := ic } := by
    intro wb lanes
    induction lanes with
    | nil => intro t; rfl
    | cons lane rest ih =>
      intro t
      rw [List.foldl_cons, List.foldl_cons, hl, ih]
  unfold mirror_write_data
  simp only []
  by_cases h1 : axi_out.wvalid = 0 ∨ axi_in.wready = 0 ∨ s.write_req_.active = false
  · rw [if_pos h1, if_pos h1]
  · rw [if_neg h1, if_neg h1]
    have := hf ((s.write_req_.addr + s.write_req_.beats_seen * 4 % 2 ^ 32) % 2 ^ 32 &&& 0xFFFFFFFC)
      [0, 1, 2, 3]
      { s with p_memory := (apply_wstrb_write s.p_memory
          ((s.write_req_.addr + s.write_req_.beats_seen * 4 % 2 ^ 32) % 2 ^ 32)
          axi_out.wdata axi_out.wstrb) }
    simp only [] at this
    rw [this]
    simp only []
    split_ifs <;> rfl

theorem mirror_read_data_interconnect_same (s : Sim σ) (axi_in : sc_axi4_in_t)
    (axi_out : sc_axi4_out_t) :
    (mirror_read_data s axi_in axi_out).interconnect_ = s.interconnect_ := by
  obtain ⟨m, f, d, r, h, e⟩ := mirror_read_data_frame s axi_in axi_out
  rw [e]

theorem mirror_write_data_interconnect_same (env : Env σ) (s : Sim σ) (axi_in : sc_axi4_in_t)
    (axi_out : sc_axi4_out_t) :
    (mirror_write_data env s axi_in axi_out).interconnect_ = s.interconnect_ := by
  obtain ⟨m, u, c, b, e⟩ := mirror_write_data_frame env s axi_in axi_out
  rw [e]

theorem mirror_read_data_codes (s : Sim σ) (axi_in : sc_axi4_in_t) (axi_out : sc_axi4_out_t)
    (rresp bresp : Nat) :
    mirror_read_data (set_resp_codes s rresp bresp) { axi_in with rresp := rresp, bresp := bresp }
        axi_out =
      set_resp_codes (mirror_read_data s axi_in axi_out) rresp bresp := by
  have h : mirror_read_data (set_resp_codes s rresp bresp)
      { axi_in with rresp := rresp, bresp := bresp } axi_out =
      mirror_read_data (set_resp_codes s rresp bresp) axi_in axi_out := rfl
  rw [h, set_resp_codes_eq, mirror_read_data_interconnect, set_resp_codes_eq,
    mirror_read_data_interconnect_same]

theorem mirror_write_data_codes (env : Env σ) (s : Sim σ) (axi_in : sc_axi4_in_t)
    (axi_out : sc_axi4_out_t) (rresp bresp : Nat) :
    mirror_write_data env (set_resp_codes s rresp bresp)
        { axi_in with rresp := rresp, bresp := bresp } axi_out =
      set_resp_codes (mirror_write_data env s axi_in axi_out) rresp bresp := by
  have h : mirror_write_data env (set_resp_codes s rresp bresp)
      { axi_in with rresp := rresp, bresp := bresp } axi_out =
      mirror_write_data env (set_resp_codes s rresp bresp) axi_in axi_out := rfl
  rw [h, set_resp_codes_eq, mirror_write_data_interconnect, set_resp_codes_eq,
    mirror_write_data_interconnect_same]

theorem interconnect_method_codes (f : AXI_Interconnect σ → AXI_Interconnect σ)
    (hf : ∀ (ic : AXI_Interconnect σ) (x y : Nat),
      f (set_bundle_codes ic x y) = set_bundle_codes (f ic) x y)
    (t : Sim σ) (rresp bresp : Nat) :
    { set_resp_codes t rresp bresp with
      interconnect_ := f (set_resp_codes t rresp bresp).interconnect_ } =
      set_resp_codes { t with interconnect_ := f t.interconnect_ } rresp bresp := by
  have : (set_resp_codes t rresp bresp).interconnect_ = set_bundle_codes t.interconnect_ rresp bresp :=
    rfl
  rw [this, hf]
  rfl

theorem bus_drive_codes (env : Env σ) (hT : CodesTransparent env) (s : Sim σ)
    (axi_in : sc_axi4_in_t) (rresp bresp : Nat) :
    bus_drive env s { axi_in with rresp := rresp, bresp := bresp } =
      ((bus_drive env s axi_in).1, (bus_drive env s axi_in).2.1,
        set_resp_codes (bus_drive env s axi_in).2.2 rresp bresp) := by
  have hco := interconnect_method_codes env.comb_outputs (fun ic x y => (hT ic x y).1)
  have hci := interconnect_method_codes env.comb_inputs (fun ic x y => (hT ic x y).2.1)
  unfold bus_drive
  simp only []
  rw [apply_axi_inputs_codes, hco, clear_master_inputs_codes, drive_current_stage_codes]
  simp only []
  rw [hci]

/-- With an interconnect that carries the codes along, the bus phase of a step
gives the same `req_ready`, `resp_valid` and `axi_out` and, up to the codes kept in
the channel bundle, the same state, whatever `rresp` and `bresp` are. -/
theorem bus_phase_codes (env : Env σ) (hT : CodesTransparent env) (s : Sim σ)
    (axi_in : sc_axi4_in_t) (rresp bresp : Nat) :
    bus_phase env s { axi_in with rresp := rresp, bresp := bresp } =
      ((bus_phase env s axi_in).1, (bus_phase env s axi_in).2.1, (bus_phase env s axi_in).2.2.1,
        set_resp_codes (bus_phase env s axi_in).2.2.2 rresp bresp) := by
  have hbd := bus_drive_codes env hT s axi_in rresp bresp
  have e0 : (bus_drive env s { axi_in with rresp := rresp, bresp := bresp }).1 =
      (bus_drive env s axi_in).1 := by rw [hbd]
  have e1 : (bus_drive env s { axi_in with rresp := rresp, bresp := bresp }).2.1 =
      (bus_drive env s axi_in).2.1 := by rw [hbd]
  have e2 : (bus_drive env s { axi_in with rresp := rresp, bresp := bresp }).2.2 =
      set_resp_codes (bus_drive env s axi_in).2.2 rresp bresp := by rw [hbd]
  rw [bus_phase_eq, bus_phase_eq, e0, e1, e2, fill_axi_outputs_codes, mirror_read_data_codes,
    mirror_write_data_codes]
  generalize mirror_write_data env
    (mirror_read_data (bus_drive env s axi_in).2.2 axi_in
      (fill_axi_outputs (bus_drive env s axi_in).2.2))
    axi_in (fill_axi_outputs (bus_drive env s axi_in).2.2) = M
  have h1 : (set_resp_codes M rresp bresp).interconnect_ =
      set_bundle_codes M.interconnect_ rresp bresp := rfl
  rw [h1, (hT M.interconnect_ rresp bresp).2.2.1]
  rfl

theorem check_limits_codes (env : Env σ) (hT : CodesTransparent env) (s : Sim σ)
    (rresp bresp : Nat) :
    check_limits env (set_resp_codes s rresp bresp) =
      set_resp_codes (check_limits env s) rresp bresp := by
  have hd : env.debug_print (set_bundle_codes s.interconnect_ rresp bresp) =
      set_bundle_codes (env.debug_print s.interconnect_) rresp bresp := (hT _ _ _).2.2.2
  unfold check_limits set_error set_resp_codes
  simp only []
  split_ifs
  all_goals first
    | rfl
    | (rw [hd])

theorem update_stage_after_cycle_interconnect_same (env : Env σ) (s : Sim σ)
    (req_ready resp_valid : Bool) :
    (update_stage_after_cycle env s req_ready resp_valid).interconnect_ = s.interconnect_ := by
  have h := update_stage_after_cycle_interconnect env s s.interconnect_ req_ready resp_valid
  have e : ({ s with interconnect_ := s.interconnect_ } : Sim σ) = s := rfl
  rw [e] at h
  rw [h]

theorem after_stage_update_codes (env : Env σ) (hT : CodesTransparent env) (s : Sim σ)
    (axi_in : sc_axi4_in_t) (rresp bresp : Nat) :
    after_stage_update env s { axi_in with rresp := rresp, bresp := bresp } =
      set_resp_codes (after_stage_update env s axi_in) rresp bresp := by
  unfold after_stage_update
  simp only []
  rw [bus_phase_codes env hT]
  simp only []
  rw [set_resp_codes_eq, update_stage_after_cycle_interconnect, set_resp_codes_eq,
    update_stage_after_cycle_interconnect_same]

/-- With an interconnect that carries the codes along, a step gives the same
return value, `axi_out` and status and, up to the codes kept in the channel
bundle, the same state, whatever `rresp` and `bresp` are. -/
theorem step_codes (env : Env σ) (hT : CodesTransparent env) (s : Sim σ)
    (axi_in : sc_axi4_in_t) (rresp bresp : Nat) :
    (step env s { axi_in with rresp := rresp, bresp := bresp }).ret = (step env s axi_in).ret ∧
    (step env s { axi_in with rresp := rresp, bresp := bresp }).axi_out =
      (step env s axi_in).axi_out ∧
    (step env s { axi_in with rresp := rresp, bresp := bresp }).status =
      (step env s axi_in).status ∧
    ((step env s { axi_in with rresp := rresp, bresp := bresp }).sim = (step env s axi_in).sim ∨
      (step env s { axi_in with rresp := rresp, bresp := bresp }).sim =
        set_resp_codes (step env s axi_in).sim rresp bresp) := by
  by_cases hl : s.image_loaded_ = true
  · by_cases hh : s.stage_ = ExecStage.kHalted
    · rw [step_halted env s _ hl hh, step_halted env s axi_in hl hh]
      exact ⟨rfl, rfl, rfl, Or.inl rfl⟩
    · rw [step_running env s _ hl hh, step_running env s axi_in hl hh,
        after_stage_update_codes env hT, check_limits_codes env hT,
        bus_phase_codes env hT]
      exact ⟨rfl, rfl, rfl, Or.inr rfl⟩
  · have hl' : s.image_loaded_ = false := by simpa using hl
    rw [step_not_loaded env s _ hl', step_not_loaded env s axi_in hl']
    exact ⟨rfl, rfl, rfl, Or.inl rfl⟩

/-- How a step that gets past the two early returns ends: `check_limits` halts
it when a limit is reached on the state the stage update leaves, and leaves the
stage alone otherwise. -/
theorem step_stage_of_limits (env : Env σ) (s : Sim σ) (axi_in : sc_axi4_in_t)
    (hl : s.image_loaded_ = true) (hh : s.stage_ ≠ ExecStage.kHalted)
    (hna : (after_stage_update env s axi_in).stage_ ≠ ExecStage.kHalted) :
    (((after_stage_update env s axi_in).max_inst_ ≤ (after_stage_update env s axi_in).inst_count_ ∨
        (after_stage_update env s axi_in).max_cycles_ ≤
          toUInt64 (after_stage_update env s axi_in).sim_time) →
      (step env s axi_in).sim.stage_ = ExecStage.kHalted) ∧
    (¬ ((after_stage_update env s axi_in).max_inst_ ≤ (after_stage_update env s axi_in).inst_count_ ∨
        (after_stage_update env s axi_in).max_cycles_ ≤
          toUInt64 (after_stage_update env s axi_in).sim_time) →
      (step env s axi_in).sim.stage_ = (after_stage_update env s axi_in).stage_) := by
  obtain ⟨_, _, c14, c15, c16⟩ := check_limits_summary env (after_stage_update env s axi_in)
  rw [step_running env s axi_in hl hh]
  simp only []
  constructor
  · intro hlim
    by_cases hi : (after_stage_update env s axi_in).max_inst_ ≤
        (after_stage_update env s axi_in).inst_count_
    · exact (c14 hna hi).1
    · rcases hlim with h | h
      · exact absurd h hi
      · exact (c15 hna (by omega) h).1
  · intro hlim
    have h1 : (after_stage_update env s axi_in).inst_count_ <
        (after_stage_update env s axi_in).max_inst_ := by
      by_contra hc
      exact hlim (Or.inl (by omega))
    have h2 : toUInt64 (after_stage_update env s axi_in).sim_time <
        (after_stage_update env s axi_in).max_cycles_ := by
      by_contra hc
      exact hlim (Or.inr (by omega))
    exact (c16 hna h1 h2).1

/-- The errors a step that gets past the two early returns can leave, and the
ways it can end in `kHalted`. -/
theorem step_no_fault (env : Env σ) (s : Sim σ) (axi_in : sc_axi4_in_t)
    (hl : s.image_loaded_ = true) (hh : s.stage_ ≠ ExecStage.kHalted) :
    ((step env s axi_in).sim.last_error_ = "" ∨
      (step env s axi_in).sim.last_error_ = "max_cycles reached") ∧
    ((step env s axi_in).sim.stage_ = ExecStage.kHalted →
      (s.stage_ = ExecStage.kExecute ∧ retires env s axi_in ∧ s.inst_word_ = INST_EBREAK) ∨
      (step env s axi_in).sim.max_inst_ ≤ (step env s axi_in).sim.inst_count_ ∨
      (step env s axi_in).sim.max_cycles_ ≤ toUInt64 (step env s axi_in).sim.sim_time) := by
  obtain ⟨⟨_, _, _, _, a5, _⟩, _, ⟨a7, _⟩, _⟩ := after_stage_update_summary env s axi_in hh
  obtain ⟨⟨c1, c2, _, c4, c5, _⟩, c13, c14, c15, c16⟩ :=
    check_limits_summary env (after_stage_update env s axi_in)
  rw [step_running env s axi_in hl hh]
  simp only []
  rw [c1, c2, c4, c5]
  by_cases hna : (after_stage_update env s axi_in).stage_ = ExecStage.kHalted
  · rw [c13 hna]
    exact ⟨Or.inl a5, fun _ => Or.inl (a7.mp hna)⟩
  · by_cases hi : (after_stage_update env s axi_in).max_inst_ ≤
        (after_stage_update env s axi_in).inst_count_
    · exact ⟨Or.inl ((c14 hna hi).2.2.1.trans a5), fun _ => Or.inr (Or.inl hi)⟩
    · by_cases hc : (after_stage_update env s axi_in).max_cycles_ ≤
          toUInt64 (after_stage_update env s axi_in).sim_time
      · exact ⟨Or.inr (c15 hna (by omega) hc).2.2.1, fun _ => Or.inr (Or.inr hc)⟩
      · refine ⟨Or.inl ((c16 hna (by omega) (by omega)).2.2.1.trans a5), ?_⟩
        intro hx
        rw [(c16 hna (by omega) (by omega)).1] at hx
        exact absurd hx hna

/-! ## Response codes: the whole step -/

/-- C20 (amended): the state machine itself raises no bus fault. `rresp` and
`bresp` are only copied into the channel bundle of the interconnect by
`apply_axi_inputs`; `mirror_read_data`, `mirror_write_data`, `drive_current_stage`
and `fill_axi_outputs` give the same result for every `rresp` and `bresp`, so a beat
with a nonzero `rresp` that a request takes is committed to physical memory like one
with `rresp = 0`; `update_stage_after_cycle` does not read the interconnect, it sees
the bus only through `req_ready` and `resp_valid` of the port; with an interconnect
whose methods do not depend on the two codes, a step returns the same value, the
same `axi_out` and status and, the codes kept in the bundle apart, the same state for
every `rresp` and `bresp`; and a step that gets past the two early returns records no
error but "max_cycles reached" and ends in `kHalted` only by retiring `ebreak` or by a
limit of `check_limits`. -/
theorem response_codes_not_inspected (env : Env σ) (s : Sim σ) (axi_in : sc_axi4_in_t)
    (axi_out : sc_axi4_out_t) (rresp bresp : Nat) :
    (mirror_read_data s { axi_in with rresp := rresp, bresp := bresp } axi_out =
        mirror_read_data s axi_in axi_out ∧
      mirror_write_data env s { axi_in with rresp := rresp, bresp := bresp } axi_out =
        mirror_write_data env s axi_in axi_out ∧
      apply_axi_inputs s { axi_in with rresp := rresp, bresp := bresp } =
        { apply_axi_inputs s axi_in with
          interconnect_ :=
            { (apply_axi_inputs s axi_in).interconnect_ with
              axi_io :=
                { (apply_axi_inputs s axi_in).interconnect_.axi_io with
                  r := { (apply_axi_inputs s axi_in).interconnect_.axi_io.r with rresp := rresp }
                  b := { (apply_axi_inputs s axi_in).interconnect_.axi_io.b with bresp := bresp } } } }) ∧
    (mirror_read_data (set_resp_codes s rresp bresp) axi_in axi_out =
        set_resp_codes (mirror_read_data s axi_in axi_out) rresp bresp ∧
      mirror_write_data env (set_resp_codes s rresp bresp) axi_in axi_out =
        set_resp_codes (mirror_write_data env s axi_in axi_out) rresp bresp ∧
      drive_current_stage (set_resp_codes s rresp bresp) =
        ((drive_current_stage s).1, (drive_current_stage s).2.1,
          set_resp_codes (drive_current_stage s).2.2 rresp bresp) ∧
      fill_axi_outputs (set_resp_codes s rresp bresp) = fill_axi_outputs s) ∧
    (∀ (ic : AXI_Interconnect σ) (req_ready resp_valid : Bool),
      update_stage_after_cycle env { s with interconnect_ := ic } req_ready resp_valid =
        { update_stage_after_cycle env s req_ready resp_valid with interconnect_ := ic }) ∧
    (CodesTransparent env →
      (step env s { axi_in with rresp := rresp, bresp := bresp }).ret = (step env s axi_in).ret ∧
      (step env s { axi_in with rresp := rresp, bresp := bresp }).axi_out =
        (step env s axi_in).axi_out ∧
      (step env s { axi_in with rresp := rresp, bresp := bresp }).status =
        (step env s axi_in).status ∧
      ((step env s { axi_in with rresp := rresp, bresp := bresp }).sim = (step env s axi_in).sim ∨
        (step env s { axi_in with rresp := rresp, bresp := bresp }).sim =
          set_resp_codes (step env s axi_in).sim rresp bresp)) ∧
    (s.image_loaded_ = true → s.stage_ ≠ ExecStage.kHalted →
      ((step env s axi_in).sim.last_error_ = "" ∨
        (step env s axi_in).sim.last_error_ = "max_cycles reached") ∧
      ((step env s axi_in).sim.stage_ = ExecStage.kHalted →
        (s.stage_ = ExecStage.kExecute ∧ retires env s axi_in ∧ s.inst_word_ = INST_EBREAK) ∨
        (step env s axi_in).sim.max_inst_ ≤ (step env s axi_in).sim.inst_count_ ∨
        (step env s axi_in).sim.max_cycles_ ≤ toUInt64 (step env s axi_in).sim.sim_time)) :=
  ⟨⟨rfl, rfl, rfl⟩,
    ⟨mirror_read_data_codes s axi_in axi_out rresp bresp,
      mirror_write_data_codes env s axi_in axi_out rresp bresp,
      drive_current_stage_codes s rresp bresp, rfl⟩,
    fun ic req_ready resp_valid =>
      update_stage_after_cycle_interconnect env s ic req_ready resp_valid,
    fun hT => step_codes env hT s axi_in rresp bresp,
    fun hl hh => step_no_fault env s axi_in hl hh⟩

set_option maxRecDepth 100000 in
/-- C20 (amended) at the error response to the issued fetch: the demo interconnect
does not depend on the codes, the fetch is waiting, and the step with `rresp = 2`
returns what the step with `rresp = 0` returns and records no error. -/
theorem response_codes_not_inspected_witness :
    CodesTransparent demo_env ∧
    (run demo_env (demo_loaded 5 100) [demo_idle, demo_accept]).image_loaded_ = true ∧
    (run demo_env (demo_loaded 5 100) [demo_idle, demo_accept]).stage_ ≠ ExecStage.kHalted ∧
    ({ demo_fetch_error with rresp := 0 } : sc_axi4_in_t).rresp = 0 ∧
    (step demo_env (run demo_env (demo_loaded 5 100) [demo_idle, demo_accept])
      { demo_fetch_error with rresp := 2, bresp := 0 }).ret =
      (step demo_env (run demo_env (demo_loaded 5 100) [demo_idle, demo_accept])
        { demo_fetch_error with rresp := 0 }).ret ∧
    ((step demo_env (run demo_env (demo_loaded 5 100) [demo_idle, demo_accept])
        { demo_fetch_error with rresp := 0 }).sim.last_error_ = "" ∨
      (step demo_env (run demo_env (demo_loaded 5 100) [demo_idle, demo_accept])
        { demo_fetch_error with rresp := 0 }).sim.last_error_ = "max_cycles reached") :=
  ⟨fun _ _ _ => ⟨rfl, rfl, rfl, rfl⟩, by decide, by decide, rfl,
    ((response_codes_not_inspected demo_env
      (run demo_env (demo_loaded 5 100) [demo_idle, demo_accept])
      { demo_fetch_error with rresp := 0 } { rready := 1 } 2 0).2.2.2.1
        (fun _ _ _ => ⟨rfl, rfl, rfl, rfl⟩)).1,
    ((response_codes_not_inspected demo_env
      (run demo_env (demo_loaded 5 100) [demo_idle, demo_accept])
      { demo_fetch_error with rresp := 0 } { rready := 1 } 2 0).2.2.2.2
        (by decide) (by decide)).1⟩

/-! ## How a step ends: the stage update, then the limits -/

/-- What `check_limits` leaves of the request slots, the instruction word and
memory when a step gets past the two early returns. -/
theorem step_keeps_stage_update (env : Env σ) (s : Sim σ) (axi_in : sc_axi4_in_t)
    (hl : s.image_loaded_ = true) (hh : s.stage_ ≠ ExecStage.kHalted) :
    (step env s axi_in).sim.fetch_req_ = (after_stage_update env s axi_in).fetch_req_ ∧
    (step env s axi_in).sim.data_req_ = (after_stage_update env s axi_in).data_req_ ∧
    (step env s axi_in).sim.write_req_ = (after_stage_update env s axi_in).write_req_ ∧
    (step env s axi_in).sim.inst_word_ = (after_stage_update env s axi_in).inst_word_ ∧
    (step env s axi_in).sim.p_memory = (after_stage_update env s axi_in).p_memory ∧
    (step env s axi_in).sim.fetch_paddr_ = (after_stage_update env s axi_in).fetch_paddr_ := by
  obtain ⟨k1, k2, k3, k4, k5, k6, ek, _⟩ := check_limits_frame env (after_stage_update env s axi_in)
  rw [step_running env s axi_in hl hh]
  simp only []
  rw [ek]
  exact ⟨rfl, rfl, rfl, rfl, rfl, rfl⟩

/-- A step that starts in a stage other than `kExecute` and `kHalted` retires
nothing: it ends in `kHalted` when `max_inst_ <= inst_count_` or
`max_cycles_ <= sim_time + 1` on its entry state, and in the stage the stage update
set otherwise. -/
theorem step_stage_not_executing (env : Env σ) (s : Sim σ) (axi_in : sc_axi4_in_t)
    (hl : s.image_loaded_ = true) (hh : s.stage_ ≠ ExecStage.kHalted)
    (he : s.stage_ ≠ ExecStage.kExecute) :
    ((s.max_inst_ ≤ s.inst_count_ ∨ s.max_cycles_ ≤ toUInt64 (s.sim_time + 1)) →
      (step env s axi_in).sim.stage_ = ExecStage.kHalted) ∧
    (¬ (s.max_inst_ ≤ s.inst_count_ ∨ s.max_cycles_ ≤ toUInt64 (s.sim_time + 1)) →
      (step env s axi_in).sim.stage_ = (after_stage_update env s axi_in).stage_) := by
  obtain ⟨⟨a1, _, a3, a4, _, _⟩, ⟨_, a6⟩, ⟨a7, _⟩, _⟩ := after_stage_update_summary env s axi_in hh
  have hna : (after_stage_update env s axi_in).stage_ ≠ ExecStage.kHalted :=
    fun h => he (a7.mp h).1
  have hic := a6 (fun h => he h.1)
  have h := step_stage_of_limits env s axi_in hl hh hna
  rw [a1, a3, a4, hic] at h
  exact h

/-- A step that starts in `kExecute` and retires an instruction other than
`ebreak` counts it: it ends in `kHalted` when `max_inst_ <= inst_count_ + 1` or
`max_cycles_ <= sim_time + 1` on its entry state, and in the stage the stage update
set otherwise. -/
theorem step_stage_retiring (env : Env σ) (s : Sim σ) (axi_in : sc_axi4_in_t)
    (hinv : ApiInv s) (hl : s.image_loaded_ = true) (hst : s.stage_ = ExecStage.kExecute)
    (hret : retires env s axi_in) (hne : s.inst_word_ ≠ INST_EBREAK) :
    ((s.max_inst_ ≤ s.inst_count_ + 1 ∨ s.max_cycles_ ≤ toUInt64 (s.sim_time + 1)) →
      (step env s axi_in).sim.stage_ = ExecStage.kHalted) ∧
    (¬ (s.max_inst_ ≤ s.inst_count_ + 1 ∨ s.max_cycles_ ≤ toUInt64 (s.sim_time + 1)) →
      (step env s axi_in).sim.stage_ = (after_stage_update env s axi_in).stage_) := by
  have hh : s.stage_ ≠ ExecStage.kHalted := by rw [hst]; decide
  obtain ⟨⟨a1, _, a3, a4, _, _⟩, ⟨a5, _⟩, ⟨a7, _⟩, _⟩ := after_stage_update_summary env s axi_in hh
  have hna : (after_stage_update env s axi_in).stage_ ≠ ExecStage.kHalted :=
    fun h => hne (a7.mp h).2.2
  have hic : (after_stage_update env s axi_in).inst_count_ = s.inst_count_ + 1 := by
    rw [a5 ⟨hst, hret⟩]
    exact Nat.mod_eq_of_lt (hinv.2.1 hst)
  have h := step_stage_of_limits env s axi_in hl hh hna
  rw [a1, a3, a4, hic] at h
  exact h
/-! ## Execute and the wait stages, to the end of the step -/

set_option maxRecDepth 1000000 in
/-- C24, as stated, fails: with `max_inst = 1` a step that starts in `kExecute`
with an image loaded, retires the AMO word `0x0020A02F` (not `INST_EBREAK`, opcode
`0x2F`) and finds the store latch set after `exec()` arms the write request, but
ends in `kHalted` and returns 1, not in `kWaitAmoWrite`: `check_limits` runs after
the stage update and finds `inst_count_ = 1 >= max_inst_`. -/
theorem amo_step_halts_on_max_inst :
    (set_limits amo_executing 1 100).image_loaded_ = true ∧
    (set_limits amo_executing 1 100).stage_ = ExecStage.kExecute ∧
    retires amo_env (set_limits amo_executing 1 100) demo_idle ∧
    (set_limits amo_executing 1 100).inst_word_ = 0x0020A02F ∧
    (set_limits amo_executing 1 100).inst_word_ ≠ INST_EBREAK ∧
    (set_limits amo_executing 1 100).inst_word_ &&& 0x7f = 0x2f ∧
    (exec_call amo_env (update_mmu_request_state
      (stage_entry amo_env (set_limits amo_executing 1 100) demo_idle))).cpu_core_.state.store
        = true ∧
    (set_limits amo_executing 1 100).inst_count_ = 0 ∧
    (set_limits amo_executing 1 100).max_inst_ = 1 ∧
    (after_stage_update amo_env (set_limits amo_executing 1 100) demo_idle).stage_ =
      ExecStage.kWaitAmoWrite ∧
    (step amo_env (set_limits amo_executing 1 100) demo_idle).sim.write_req_.active = true ∧
    (step amo_env (set_limits amo_executing 1 100) demo_idle).sim.inst_count_ = 1 ∧
    (step amo_env (set_limits amo_executing 1 100) demo_idle).sim.stage_ = ExecStage.kHalted ∧
    (step amo_env (set_limits amo_executing 1 100) demo_idle).ret = 1 := by
  unfold retires
  decide

/-- C24 (amended): in a step that starts in `kExecute` with an image loaded,
retires its instruction and whose instruction word is not `INST_EBREAK`, when the
opcode is `0x2F` and the CPU's store latch is set after `exec()` the write request
is armed (active, not issued, id 1, `store_addr`, `store_data`, size 3, one beat,
strobe `store_strb & 0xF` or `0xF` when that is 0) and the stage update sets the
stage to `kWaitAmoWrite`; otherwise the stage update sets the stage to
`kPrepareFetch` and the write request is the one the step started with. The step
ends with that write request. It ends in that stage when `check_limits`, which runs
after the stage update, finds no limit reached, that is when
`inst_count_ + 1 < max_inst_` and `sim_time + 1 < max_cycles_` on the entry state;
when `max_inst_ <= inst_count_ + 1` or `max_cycles_ <= sim_time + 1` it ends in
`kHalted`. -/
theorem execute_outcomes (env : Env σ) (s : Sim σ) (axi_in : sc_axi4_in_t)
    (hr : Reachable env s) (hl : s.image_loaded_ = true) (hst : s.stage_ = ExecStage.kExecute)
    (hret : retires env s axi_in) (hne : s.inst_word_ ≠ INST_EBREAK) :
    ((s.inst_word_ &&& 0x7f = 0x2f ∧
        (exec_call env (update_mmu_request_state (stage_entry env s axi_in))).cpu_core_.state.store
          = true) →
      (step env s axi_in).sim.write_req_ =
        { active := true, issued := false, id := 1
          addr := (exec_call env
            (update_mmu_request_state (stage_entry env s axi_in))).cpu_core_.state.store_addr
          wdata := (exec_call env
            (update_mmu_request_state (stage_entry env s axi_in))).cpu_core_.state.store_data
          wstrb :=
            if (exec_call env
              (update_mmu_request_state (stage_entry env s axi_in))).cpu_core_.state.store_strb
                &&& 0xf = 0 then 0xf
            else (exec_call env
              (update_mmu_request_state (stage_entry env s axi_in))).cpu_core_.state.store_strb
                &&& 0xf
          total_size := 3, beats_total := 1, beats_seen := 0 } ∧
      (after_stage_update env s axi_in).stage_ = ExecStage.kWaitAmoWrite ∧
      (¬ (s.max_inst_ ≤ s.inst_count_ + 1 ∨ s.max_cycles_ ≤ toUInt64 (s.sim_time + 1)) →
        (step env s axi_in).sim.stage_ = ExecStage.kWaitAmoWrite)) ∧
    (¬ (s.inst_word_ &&& 0x7f = 0x2f ∧
        (exec_call env (update_mmu_request_state (stage_entry env s axi_in))).cpu_core_.state.store
          = true) →
      (step env s axi_in).sim.write_req_ = s.write_req_ ∧
      (after_stage_update env s axi_in).stage_ = ExecStage.kPrepareFetch ∧
      (¬ (s.max_inst_ ≤ s.inst_count_ + 1 ∨ s.max_cycles_ ≤ toUInt64 (s.sim_time + 1)) →
        (step env s axi_in).sim.stage_ = ExecStage.kPrepareFetch)) ∧
    ((s.max_inst_ ≤ s.inst_count_ + 1 ∨ s.max_cycles_ ≤ toUInt64 (s.sim_time + 1)) →
      (step env s axi_in).sim.stage_ = ExecStage.kHalted) ∧
    (step env s axi_in).sim.write_req_ = (after_stage_update env s axi_in).write_req_ := by
  have hh : s.stage_ ≠ ExecStage.kHalted := by rw [hst]; decide
  obtain ⟨⟨x1, x2⟩, _, _⟩ := execute_stage_update env s axi_in hr hl hst hret hne
  obtain ⟨_, _, kw, _⟩ := step_keeps_stage_update env s axi_in hl hh
  obtain ⟨l1, l2⟩ := step_stage_retiring env s axi_in (reachable_apiInv env s hr) hl hst hret hne
  refine ⟨?_, ?_, l1, kw⟩
  · intro hamo
    obtain ⟨y1, y2⟩ := x1 hamo
    exact ⟨kw.trans y2, y1, fun hn => (l2 hn).trans y1⟩
  · intro hamo
    obtain ⟨y1, y2⟩ := x2 hamo
    exact ⟨kw.trans y2, y1, fun hn => (l2 hn).trans y1⟩

set_option maxRecDepth 1000000 in
/-- C24 (amended) at a step that retires an AMO word with the store latch set and
limits 5 and 100: the write request is armed and the step ends in `kWaitAmoWrite`. -/
theorem execute_outcomes_witness :
    Reachable amo_env amo_executing ∧
    amo_executing.image_loaded_ = true ∧
    amo_executing.stage_ = ExecStage.kExecute ∧
    retires amo_env amo_executing demo_idle ∧
    amo_executing.inst_word_ = 0x0020A02F ∧
    (step amo_env amo_executing demo_idle).sim.write_req_ =
      { active := true, issued := false, id := 1, addr := 0x80000100, wdata := 0x55, wstrb := 0xf,
        total_size := 3, beats_total := 1, beats_seen := 0 } ∧
    (step amo_env amo_executing demo_idle).sim.stage_ = ExecStage.kWaitAmoWrite :=
  have hr : Reachable amo_env amo_executing :=
    Reachable.step _ _ (Reachable.step _ _ (Reachable.step _ _ (Reachable.step _ _
      (Reachable.step _ _ (Reachable.step _ _
        (Reachable.load_image _ _ _ (Reachable.set_limits _ _ _ (Reachable.create 0 none _))))))))
  have h := execute_outcomes amo_env amo_executing demo_idle hr (by decide) (by decide)
    (by unfold retires; decide) (by decide)
  ⟨hr, by decide, by decide, by unfold retires; decide, by decide,
    (h.1 (by decide)).1.trans (by decide), (h.1 (by decide)).2.2 (by decide)⟩

set_option maxRecDepth 100000 in
/-- C27, as stated, fails: with `max_cycles = 2` the step that starts in
`kWaitFetch` after one step, with an image loaded and a slave that accepts and
answers nothing, sees neither `req_ready` nor `resp_valid`; the request stays
active, but the stage is not unchanged: the step ends in `kHalted` and returns -1,
`check_limits` finding `sim_time = 2 >= max_cycles_`. With `max_cycles = 3` the step
that completes the issued fetch ends in `kHalted` too, not in `kPrepareData`. -/
theorem wait_step_halts_on_max_cycles :
    (run demo_env (demo_loaded 5 2) [demo_idle]).image_loaded_ = true ∧
    (run demo_env (demo_loaded 5 2) [demo_idle]).stage_ = ExecStage.kWaitFetch ∧
    seen_req_ready demo_env (run demo_env (demo_loaded 5 2) [demo_idle]) demo_idle = false ∧
    seen_resp_valid demo_env (run demo_env (demo_loaded 5 2) [demo_idle]) demo_idle = false ∧
    (after_stage_update demo_env (run demo_env (demo_loaded 5 2) [demo_idle]) demo_idle).stage_ =
      ExecStage.kWaitFetch ∧
    (step demo_env (run demo_env (demo_loaded 5 2) [demo_idle]) demo_idle).sim.fetch_req_.active
      = true ∧
    (step demo_env (run demo_env (demo_loaded 5 2) [demo_idle]) demo_idle).sim.sim_time = 2 ∧
    (step demo_env (run demo_env (demo_loaded 5 2) [demo_idle]) demo_idle).sim.stage_ =
      ExecStage.kHalted ∧
    (step demo_env (run demo_env (demo_loaded 5 2) [demo_idle]) demo_idle).ret = -1 ∧
    (run demo_env (demo_loaded 5 3) [demo_idle, demo_accept]).stage_ = ExecStage.kWaitFetch ∧
    (run demo_env (demo_loaded 5 3) [demo_idle, demo_accept]).fetch_req_.issued = true ∧
    seen_resp_valid demo_env (run demo_env (demo_loaded 5 3) [demo_idle, demo_accept]) demo_in
      = true ∧
    (step demo_env (run demo_env (demo_loaded 5 3) [demo_idle, demo_accept])
      demo_in).sim.fetch_req_.active = false ∧
    (step demo_env (run demo_env (demo_loaded 5 3) [demo_idle, demo_accept])
      demo_in).sim.stage_ = ExecStage.kHalted := by
  decide

/-- C27 (amended): in a step that starts in a wait stage with an image loaded, the
awaited request is active on entry, and it completes (the request becomes inactive
and the stage update sets the stage to `kPrepareData` after `kWaitFetch`, `kExecute`
after `kWaitData`, `kPrepareFetch` after `kWaitAmoWrite`) exactly when `resp_valid`
is seen in this step and the request was issued before the step or `req_ready` is
seen in this step; otherwise the stage update leaves the stage and the request
stays active. An `issued` that was set stays set. On leaving `kWaitFetch`,
`inst_word_` is the word of memory at index `fetch_paddr_ >> 2`. The step ends in
the stage the stage update set when `check_limits`, which runs after the stage
update, finds no limit reached, that is when `inst_count_ < max_inst_` and
`sim_time + 1 < max_cycles_` on the entry state; when `max_inst_ <= inst_count_` or
`max_cycles_ <= sim_time + 1` it ends in `kHalted`, with the request as stated. -/
theorem wait_stage_outcomes (env : Env σ) (s : Sim σ) (axi_in : sc_axi4_in_t)
    (hr : Reachable env s) (hl : s.image_loaded_ = true) :
    (s.stage_ = ExecStage.kWaitFetch →
      s.fetch_req_.active = true ∧
      (handshake_done s.fetch_req_.issued (seen_req_ready env s axi_in)
          (seen_resp_valid env s axi_in) →
        (step env s axi_in).sim.fetch_req_.active = false ∧
        (after_stage_update env s axi_in).stage_ = ExecStage.kPrepareData ∧
        (¬ (s.max_inst_ ≤ s.inst_count_ ∨ s.max_cycles_ ≤ toUInt64 (s.sim_time + 1)) →
          (step env s axi_in).sim.stage_ = ExecStage.kPrepareData) ∧
        (step env s axi_in).sim.inst_word_ =
          mem_word (step env s axi_in).sim.p_memory
            ((step env s axi_in).sim.fetch_paddr_ >>> 2) ∧
        (step env s axi_in).sim.fetch_paddr_ = s.fetch_paddr_) ∧
      (¬ handshake_done s.fetch_req_.issued (seen_req_ready env s axi_in)
          (seen_resp_valid env s axi_in) →
        (step env s axi_in).sim.fetch_req_.active = true ∧
        (after_stage_update env s axi_in).stage_ = ExecStage.kWaitFetch ∧
        (¬ (s.max_inst_ ≤ s.inst_count_ ∨ s.max_cycles_ ≤ toUInt64 (s.sim_time + 1)) →
          (step env s axi_in).sim.stage_ = ExecStage.kWaitFetch)) ∧
      (s.fetch_req_.issued = true → (step env s axi_in).sim.fetch_req_.issued = true) ∧
      ((s.max_inst_ ≤ s.inst_count_ ∨ s.max_cycles_ ≤ toUInt64 (s.sim_time + 1)) →
        (step env s axi_in).sim.stage_ = ExecStage.kHalted)) ∧
    (s.stage_ = ExecStage.kWaitData → s.pre_req_.is_read = true →
      s.data_req_.active = true ∧
      (handshake_done s.data_req_.issued (seen_req_ready env s axi_in)
          (seen_resp_valid env s axi_in) →
        (step env s axi_in).sim.data_req_.active = false ∧
        (after_stage_update env s axi_in).stage_ = ExecStage.kExecute ∧
        (¬ (s.max_inst_ ≤ s.inst_count_ ∨ s.max_cycles_ ≤ toUInt64 (s.sim_time + 1)) →
          (step env s axi_in).sim.stage_ = ExecStage.kExecute)) ∧
      (¬ handshake_done s.data_req_.issued (seen_req_ready env s axi_in)
          (seen_resp_valid env s axi_in) →
        (step env s axi_in).sim.data_req_.active = true ∧
        (after_stage_update env s axi_in).stage_ = ExecStage.kWaitData ∧
        (¬ (s.max_inst_ ≤ s.inst_count_ ∨ s.max_cycles_ ≤ toUInt64 (s.sim_time + 1)) →
          (step env s axi_in).sim.stage_ = ExecStage.kWaitData)) ∧
      (s.data_req_.issued = true → (step env s axi_in).sim.data_req_.issued = true) ∧
      ((s.max_inst_ ≤ s.inst_count_ ∨ s.max_cycles_ ≤ toUInt64 (s.sim_time + 1)) →
        (step env s axi_in).sim.stage_ = ExecStage.kHalted)) ∧
    (s.stage_ = ExecStage.kWaitData → s.pre_req_.is_read = false →
      s.write_req_.active = true ∧
      (handshake_done s.write_req_.issued (seen_req_ready env s axi_in)
          (seen_resp_valid env s axi_in) →
        (step env s axi_in).sim.write_req_.active = false ∧
        (after_stage_update env s axi_in).stage_ = ExecStage.kExecute ∧
        (¬ (s.max_inst_ ≤ s.inst_count_ ∨ s.max_cycles_ ≤ toUInt64 (s.sim_time + 1)) →
          (step env s axi_in).sim.stage_ = ExecStage.kExecute)) ∧
      (¬ handshake_done s.write_req_.issued (seen_req_ready env s axi_in)
          (seen_resp_valid env s axi_in) →
        (step env s axi_in).sim.write_req_.active = true ∧
        (after_stage_update env s axi_in).stage_ = ExecStage.kWaitData ∧
        (¬ (s.max_inst_ ≤ s.inst_count_ ∨ s.max_cycles_ ≤ toUInt64 (s.sim_time + 1)) →
          (step env s axi_in).sim.stage_ = ExecStage.kWaitData)) ∧
      (s.write_req_.issued = true → (step env s axi_in).sim.write_req_.issued = true) ∧
      ((s.max_inst_ ≤ s.inst_count_ ∨ s.max_cycles_ ≤ toUInt64 (s.sim_time + 1)) →
        (step env s axi_in).sim.stage_ = ExecStage.kHalted)) ∧
    (s.stage_ = ExecStage.kWaitAmoWrite →
      s.write_req_.active = true ∧
      (handshake_done s.write_req_.issued (seen_req_ready env s axi_in)
          (seen_resp_valid env s axi_in) →
        (step env s axi_in).sim.write_req_.active = false ∧
        (after_stage_update env s axi_in).stage_ = ExecStage.kPrepareFetch ∧
        (¬ (s.max_inst_ ≤ s.inst_count_ ∨ s.max_cycles_ ≤ toUInt64 (s.sim_time + 1)) →
          (step env s axi_in).sim.stage_ = ExecStage.kPrepareFetch)) ∧
      (¬ handshake_done s.write_req_.issued (seen_req_ready env s axi_in)
          (seen_resp_valid env s axi_in) →
        (step env s axi_in).sim.write_req_.active = true ∧
        (after_stage_update env s axi_in).stage_ = ExecStage.kWaitAmoWrite ∧
        (¬ (s.max_inst_ ≤ s.inst_count_ ∨ s.max_cycles_ ≤ toUInt64 (s.sim_time + 1)) →
          (step env s axi_in).sim.stage_ = ExecStage.kWaitAmoWrite)) ∧
      (s.write_req_.issued = true → (step env s axi_in).sim.write_req_.issued = true) ∧
      ((s.max_inst_ ≤ s.inst_count_ ∨ s.max_cycles_ ≤ toUInt64 (s.sim_time + 1)) →
        (step env s axi_in).sim.stage_ = ExecStage.kHalted)) := by
  obtain ⟨u1, u2, u3, u4, _⟩ := wait_stage_update env s axi_in hr hl
  refine ⟨?_, ?_, ?_, ?_⟩
  · intro hst
    have hh : s.stage_ ≠ ExecStage.kHalted := by rw [hst]; decide
    have he : s.stage_ ≠ ExecStage.kExecute := by rw [hst]; decide
    obtain ⟨kf, kd, kw, ki, kp, ka⟩ := step_keeps_stage_update env s axi_in hl hh
    obtain ⟨l1, l2⟩ := step_stage_not_executing env s axi_in hl hh he
    obtain ⟨v1, v2, v3, v4⟩ := u1 hst
    rw [kf, ki, kp, ka]
    refine ⟨v1, ?_, ?_, v4, l1⟩
    · intro hd
      obtain ⟨y1, y2, y3, y4⟩ := v2 hd
      exact ⟨y1, y2, fun hn => (l2 hn).trans y2, y3, y4⟩
    · intro hd
      obtain ⟨y1, y2⟩ := v3 hd
      exact ⟨y1, y2, fun hn => (l2 hn).trans y2⟩
  · intro hst hrd
    have hh : s.stage_ ≠ ExecStage.kHalted := by rw [hst]; decide
    have he : s.stage_ ≠ ExecStage.kExecute := by rw [hst]; decide
    obtain ⟨kf, kd, kw, ki, kp, ka⟩ := step_keeps_stage_update env s axi_in hl hh
    obtain ⟨l1, l2⟩ := step_stage_not_executing env s axi_in hl hh he
    obtain ⟨v1, v2, v3, v4⟩ := u2 hst hrd
    rw [kd]
    refine ⟨v1, ?_, ?_, v4, l1⟩
    · intro hd
      obtain ⟨y1, y2⟩ := v2 hd
      exact ⟨y1, y2, fun hn => (l2 hn).trans y2⟩
    · intro hd
      obtain ⟨y1, y2⟩ := v3 hd
      exact ⟨y1, y2, fun hn => (l2 hn).trans y2⟩
  · intro hst hrd
    have hh : s.stage_ ≠ ExecStage.kHalted := by rw [hst]; decide
    have he : s.stage_ ≠ ExecStage.kExecute := by rw [hst]; decide
    obtain ⟨kf, kd, kw, ki, kp, ka⟩ := step_keeps_stage_update env s axi_in hl hh
    obtain ⟨l1, l2⟩ := step_stage_not_executing env s axi_in hl hh he
    obtain ⟨v1, v2, v3, v4⟩ := u3 hst hrd
    rw [kw]
    refine ⟨v1, ?_, ?_, v4, l1⟩
    · intro hd
      obtain ⟨y1, y2⟩ := v2 hd
      exact ⟨y1, y2, fun hn => (l2 hn).trans y2⟩
    · intro hd
      obtain ⟨y1, y2⟩ := v3 hd
      exact ⟨y1, y2, fun hn => (l2 hn).trans y2⟩
  · intro hst
    have hh : s.stage_ ≠ ExecStage.kHalted := by rw [hst]; decide
    have he : s.stage_ ≠ ExecStage.kExecute := by rw [hst]; decide
    obtain ⟨kf, kd, kw, ki, kp, ka⟩ := step_keeps_stage_update env s axi_in hl hh
    obtain ⟨l1, l2⟩ := step_stage_not_executing env s axi_in hl hh he
    obtain ⟨v1, v2, v3, v4⟩ := u4 hst
    rw [kw]
    refine ⟨v1, ?_, ?_, v4, l1⟩
    · intro hd
      obtain ⟨y1, y2⟩ := v2 hd
      exact ⟨y1, y2, fun hn => (l2 hn).trans y2⟩
    · intro hd
      obtain ⟨y1, y2⟩ := v3 hd
      exact ⟨y1, y2, fun hn => (l2 hn).trans y2⟩

set_option maxRecDepth 100000 in
/-- C27 (amended) at a fetch that was armed and accepted and is answered in this
step, with limits 5 and 100: the request completes, the step ends in
`kPrepareData` and the instruction word is the word of the beat. -/
theorem wait_stage_outcomes_witness :
    Reachable demo_env (run demo_env (demo_loaded 5 100) [demo_idle, demo_accept]) ∧
    (run demo_env (demo_loaded 5 100) [demo_idle, demo_accept]).image_loaded_ = true ∧
    (run demo_env (demo_loaded 5 100) [demo_idle, demo_accept]).stage_ = ExecStage.kWaitFetch ∧
    (run demo_env (demo_loaded 5 100) [demo_idle, demo_accept]).fetch_req_.issued = true ∧
    seen_resp_valid demo_env (run demo_env (demo_loaded 5 100) [demo_idle, demo_accept]) demo_in = true ∧
    (step demo_env (run demo_env (demo_loaded 5 100) [demo_idle, demo_accept]) demo_in).sim.fetch_req_.active = false ∧
    (step demo_env (run demo_env (demo_loaded 5 100) [demo_idle, demo_accept]) demo_in).sim.stage_ = ExecStage.kPrepareData ∧
    (step demo_env (run demo_env (demo_loaded 5 100) [demo_idle, demo_accept]) demo_in).sim.inst_word_ = 0x00100073 :=
  have hr : Reachable demo_env (run demo_env (demo_loaded 5 100) [demo_idle, demo_accept]) :=
    Reachable.step _ _ (Reachable.step _ _
      (Reachable.load_image _ _ _ (Reachable.set_limits _ _ _ (Reachable.create 0 none _))))
  have h := wait_stage_outcomes demo_env (run demo_env (demo_loaded 5 100) [demo_idle, demo_accept]) demo_in hr (by decide)
  have hd : handshake_done (run demo_env (demo_loaded 5 100) [demo_idle, demo_accept]).fetch_req_.issued
      (seen_req_ready demo_env (run demo_env (demo_loaded 5 100) [demo_idle, demo_accept]) demo_in) (seen_resp_valid demo_env (run demo_env (demo_loaded 5 100) [demo_idle, demo_accept]) demo_in) :=
    ⟨by decide, Or.inl (by decide)⟩
  ⟨hr, by decide, by decide, by decide, by decide, ((h.1 (by decide)).2.1 hd).1,
    ((h.1 (by decide)).2.1 hd).2.2.1 (by decide),
    (((h.1 (by decide)).2.1 hd).2.2.2.1).trans (by decide)⟩

end ScAxi4Sim
